import Mathlib

/-!
# Aeron dissector: position arithmetic and the sequence / window analysis engine

A shallow embedding of `plugins/aeron/packet-aeron.c`.

* Unsigned 32-bit and 64-bit quantities are natural numbers; every place where the
  C arithmetic can wrap carries an explicit `% 2 ^ 32` or `% 2 ^ 64`.
* A `wmem_tree_t` keyed by a 32-bit integer is a key/value list with exact lookup and
  insert-or-replace.
* Pointers into the session arena are paths of keys: a stream is named by its stream
  id inside its transport, a term by (stream id, term id), a fragment by
  (stream id, term id, term offset) and a frame record by its frame number inside
  the tree that holds it.  Functions that mutate through a pointer take the owning
  transport and the path and return the updated transport.
-/

namespace Aeron

/-! ## The `wmem_tree_t` substrate -/

/-- Finite map with 32-bit keys, the stand-in for `wmem_tree_t`. -/
abbrev wmem_tree_t (α : Type) := List (Nat × α)

/-- Exact-match lookup, `wmem_tree_lookup32`; `none` stands for `NULL`. -/
def wmem_tree_lookup32 {α : Type} : wmem_tree_t α → Nat → Option α
  | [], _ => none
  | (k', v) :: rest, k => if k' = k then some v else wmem_tree_lookup32 rest k

/-- Insertion `wmem_tree_insert32`: an existing key has its value replaced. -/
def wmem_tree_insert32 {α : Type} : wmem_tree_t α → Nat → α → wmem_tree_t α
  | [], k, v => [(k, v)]
  | (k', v') :: rest, k, v =>
    if k' = k then (k, v) :: rest else (k', v') :: wmem_tree_insert32 rest k v

/-- Write through a pointer to the element stored under key `k`: the element is
changed in place, and nothing happens when the key is absent. -/
def wmem_tree_update {α : Type} (t : wmem_tree_t α) (k : Nat) (f : α → α) : wmem_tree_t α :=
  match wmem_tree_lookup32 t k with
  | none => t
  | some v => wmem_tree_insert32 t k (f v)

/-! ## Position arithmetic (lines 83-157) -/

/-- Position `aeron_pos_t`: a term id and an offset inside that term. -/
structure aeron_pos_t where
  term_id : Nat
  term_offset : Nat
deriving DecidableEq

/-- Function `aeron_pos_roundup`: `(offset+7) & 0xfffffff8` on the 32-bit pattern of
its argument. -/
def aeron_pos_roundup (offset : Nat) : Nat :=
  ((offset + 7) % 2 ^ 32) &&& 0xfffffff8

/-- Function `aeron_pos_compare`: -1, 0 or 1. -/
def aeron_pos_compare (pos1 pos2 : aeron_pos_t) : Int :=
  if pos1.term_id = pos2.term_id then
    if pos1.term_offset = pos2.term_offset then 0
    else if pos1.term_offset < pos2.term_offset then -1 else 1
  else if pos1.term_id < pos2.term_id then -1 else 1

/-- Function `aeron_pos_delta`.  The product `term_id * term_size` is formed in 32
bits before it is widened; the sum, the difference and the mask are 64-bit. -/
def aeron_pos_delta (pos1 pos2 : aeron_pos_t) (term_size : Nat) : Nat :=
  let rc := aeron_pos_compare pos1 pos2
  let p1 := if rc ≥ 0 then pos1 else pos2
  let p2 := if rc ≥ 0 then pos2 else pos1
  let p1_val := ((p1.term_id * term_size) % 2 ^ 32 + p1.term_offset) % 2 ^ 64
  let p2_val := ((p2.term_id * term_size) % 2 ^ 32 + p2.term_offset) % 2 ^ 64
  let delta := (p1_val + 2 ^ 64 - p2_val) % 2 ^ 64
  (delta &&& 0x00000000ffffffff) % 2 ^ 32

/-- The two 64-bit values `p1_val` and `p2_val` that `aeron_pos_delta` forms before it
subtracts (lines 127-139): the first belongs to the position `aeron_pos_compare` ranks
larger or equal. -/
def aeron_pos_delta_vals (pos1 pos2 : aeron_pos_t) (term_size : Nat) : Nat × Nat :=
  let rc := aeron_pos_compare pos1 pos2
  let p1 := if rc ≥ 0 then pos1 else pos2
  let p2 := if rc ≥ 0 then pos2 else pos1
  let p1_val := ((p1.term_id * term_size) % 2 ^ 32 + p1.term_offset) % 2 ^ 64
  let p2_val := ((p2.term_id * term_size) % 2 ^ 32 + p2.term_offset) % 2 ^ 64
  (p1_val, p2_val)

/-- Function `aeron_pos_add_length`; the updated position is returned. -/
def aeron_pos_add_length (pos : aeron_pos_t) (length term_length : Nat) : aeron_pos_t :=
  let next_offset := aeron_pos_roundup ((pos.term_offset + length) % 2 ^ 32)
  if next_offset ≥ term_length then
    { term_id := (pos.term_id + 1) % 2 ^ 32, term_offset := 0 }
  else
    { term_id := pos.term_id, term_offset := next_offset }

/-- The exact byte-axis value `term_id * term_length + term_offset` of a position. -/
def byte_axis (pos : aeron_pos_t) (term_length : Nat) : Nat :=
  pos.term_id * term_length + pos.term_offset

/-! ## Session state (lines 159-253) -/

/-- Frame occurrence record `aeron_frame_t`. -/
structure aeron_frame_t where
  frame : Nat
  previous_frame : Nat
  next_frame : Nat
  retransmission : Bool
deriving DecidableEq

/-- Fragment `aeron_fragment_t`.  The pointers `first_frame` and `last_frame` are the
frame numbers under which the records they point to are stored in `frame`; the
parent pointer is the path the fragment is reached by. -/
structure aeron_fragment_t where
  frame : wmem_tree_t aeron_frame_t
  first_frame : Option Nat
  last_frame : Option Nat
  offset : Nat
  length : Nat
  data_length : Nat
  frame_count : Nat
  is_data_frame : Bool
  is_begin_msg : Bool
  is_end_msg : Bool
deriving DecidableEq

/-- Term `aeron_term_t` (the reassembly members are compiled out). -/
structure aeron_term_t where
  fragment : wmem_tree_t aeron_fragment_t
  frame : wmem_tree_t aeron_frame_t
  last_frame : Option Nat
  term_id : Nat
deriving DecidableEq

/-- Window-analysis snapshot `aeron_stream_frame_analysis_t`. -/
structure aeron_stream_frame_analysis_t where
  flags : Nat
  frame : Nat
  high : aeron_pos_t
  completed : aeron_pos_t
  receiver_window : Nat
  outstanding_bytes : Nat
deriving DecidableEq

def AERON_STREAM_FRAME_ANALYSIS_FLAG_WINDOW_FULL : Nat := 0x00000001
def AERON_STREAM_FRAME_ANALYSIS_FLAG_IDLE_RX : Nat := 0x00000002
def AERON_STREAM_FRAME_ANALYSIS_FLAG_PACING_RX : Nat := 0x00000004
def AERON_STREAM_FRAME_ANALYSIS_FLAG_OOO : Nat := 0x00000008
def AERON_STREAM_FRAME_ANALYSIS_FLAG_OOO_GAP : Nat := 0x00000010
def AERON_STREAM_FRAME_ANALYSIS_FLAG_KEEPALIVE : Nat := 0x00000020
def AERON_STREAM_FRAME_ANALYSIS_FLAG_WINDOW_RESIZE : Nat := 0x00000040
def AERON_STREAM_FRAME_ANALYSIS_FLAG_OOO_SM : Nat := 0x00000080
def AERON_STREAM_FRAME_ANALYSIS_FLAG_KEEPALIVE_SM : Nat := 0x00000100

/-- Stream `aeron_stream_t`. -/
structure aeron_stream_t where
  term : wmem_tree_t aeron_term_t
  frame : wmem_tree_t aeron_frame_t
  analysis : wmem_tree_t aeron_stream_frame_analysis_t
  last_frame : Option Nat
  stream_id : Nat
  term_length : Nat
  mtu : Nat
  fragment_stride : Nat
  flags : Nat
  high : aeron_pos_t
  completed : aeron_pos_t
  receiver_window : Nat
deriving DecidableEq

def AERON_STREAM_FLAGS_HIGH_VALID : Nat := 0x1
def AERON_STREAM_FLAGS_COMPLETED_VALID : Nat := 0x2
def AERON_STREAM_FLAGS_RECEIVER_WINDOW_VALID : Nat := 0x4

/-- Network address `address`: an address family and the address bytes. -/
structure address where
  type : Nat
  data : List Nat
deriving DecidableEq

/-- Transport `aeron_transport_t`. -/
structure aeron_transport_t where
  channel : Nat
  stream : wmem_tree_t aeron_stream_t
  frame : wmem_tree_t aeron_frame_t
  last_frame : Option Nat
  address1 : address
  address2 : address
  session_id : Nat
  port1 : Nat
  port2 : Nat
deriving DecidableEq

/-! ## Writes through stream, term and fragment pointers -/

/-- Mutation of the stream that the pointer (transport, stream id) designates. -/
def stream_write (transport : aeron_transport_t) (stream_id : Nat)
    (f : aeron_stream_t → aeron_stream_t) : aeron_transport_t :=
  { transport with stream := wmem_tree_update transport.stream stream_id f }

/-- Mutation of the term that the pointer (transport, stream id, term id) designates. -/
def term_write (transport : aeron_transport_t) (stream_id term_id : Nat)
    (f : aeron_term_t → aeron_term_t) : aeron_transport_t :=
  stream_write transport stream_id
    (fun stream => { stream with term := wmem_tree_update stream.term term_id f })

/-- Mutation of the fragment that the pointer (transport, stream id, term id, offset)
designates. -/
def fragment_write (transport : aeron_transport_t) (stream_id term_id offset : Nat)
    (f : aeron_fragment_t → aeron_fragment_t) : aeron_transport_t :=
  term_write transport stream_id term_id
    (fun term => { term with fragment := wmem_tree_update term.fragment offset f })

/-! ## Get-or-create operations (lines 368-488) -/

/-- Function `aeron_transport_stream_find`. -/
def aeron_transport_stream_find (transport : aeron_transport_t) (stream_id : Nat) :
    Option aeron_stream_t :=
  wmem_tree_lookup32 transport.stream stream_id

/-- The stream object `aeron_transport_stream_add` allocates and initialises (lines
383-398): empty trees, no last frame, zero scalars. -/
def aeron_stream_new (stream_id : Nat) : aeron_stream_t :=
  { term := [], frame := [], analysis := [], last_frame := none,
    stream_id := stream_id, term_length := 0, mtu := 0, fragment_stride := 0,
    flags := 0, high := { term_id := 0, term_offset := 0 },
    completed := { term_id := 0, term_offset := 0 }, receiver_window := 0 }

/-- Function `aeron_transport_stream_add`; the returned pointer is the stream id. -/
def aeron_transport_stream_add (transport : aeron_transport_t) (stream_id : Nat) :
    aeron_transport_t :=
  match aeron_transport_stream_find transport stream_id with
  | some _ => transport
  | none =>
    { transport with
      stream := wmem_tree_insert32 transport.stream stream_id (aeron_stream_new stream_id) }

/-- Function `aeron_stream_frame_analysis_find`. -/
def aeron_stream_frame_analysis_find (stream : aeron_stream_t) (frame : Nat) :
    Option aeron_stream_frame_analysis_t :=
  wmem_tree_lookup32 stream.analysis frame

/-- The snapshot `aeron_stream_frame_analysis_add` allocates and zeroes (lines
418-426). -/
def aeron_stream_frame_analysis_new (frame : Nat) : aeron_stream_frame_analysis_t :=
  { flags := 0, frame := frame, high := { term_id := 0, term_offset := 0 },
    completed := { term_id := 0, term_offset := 0 }, receiver_window := 0,
    outstanding_bytes := 0 }

/-- Function `aeron_stream_frame_analysis_add` on the stream itself; the returned
pointer is the frame number. -/
def aeron_stream_frame_analysis_add (stream : aeron_stream_t) (frame : Nat) : aeron_stream_t :=
  match aeron_stream_frame_analysis_find stream frame with
  | some _ => stream
  | none =>
    { stream with
      analysis := wmem_tree_insert32 stream.analysis frame (aeron_stream_frame_analysis_new frame) }

/-- Function `aeron_stream_term_find` through the stream pointer. -/
def aeron_stream_term_find (transport : aeron_transport_t) (stream_id term_id : Nat) :
    Option aeron_term_t :=
  match aeron_transport_stream_find transport stream_id with
  | none => none
  | some stream => wmem_tree_lookup32 stream.term term_id

/-- Function `aeron_stream_term_add`; the returned pointer is the term id. -/
def aeron_stream_term_add (transport : aeron_transport_t) (stream_id term_id : Nat) :
    aeron_transport_t :=
  match aeron_stream_term_find transport stream_id term_id with
  | some _ => transport
  | none =>
    let term : aeron_term_t :=
      { fragment := [], frame := [], last_frame := none, term_id := term_id }
    stream_write transport stream_id
      (fun stream => { stream with term := wmem_tree_insert32 stream.term term_id term })

/-- Function `aeron_term_fragment_find` through the term pointer. -/
def aeron_term_fragment_find (transport : aeron_transport_t) (stream_id term_id offset : Nat) :
    Option aeron_fragment_t :=
  match aeron_stream_term_find transport stream_id term_id with
  | none => none
  | some term => wmem_tree_lookup32 term.fragment offset

/-- Function `aeron_term_fragment_add`; the returned pointer is the offset. -/
def aeron_term_fragment_add (transport : aeron_transport_t) (stream_id term_id offset : Nat)
    (length data_length : Nat) : aeron_transport_t :=
  match aeron_term_fragment_find transport stream_id term_id offset with
  | some _ => transport
  | none =>
    let fragment : aeron_fragment_t :=
      { frame := [], first_frame := none, last_frame := none, offset := offset,
        length := length, data_length := data_length, frame_count := 0,
        is_data_frame := false, is_begin_msg := false, is_end_msg := false }
    term_write transport stream_id term_id
      (fun term => { term with fragment := wmem_tree_insert32 term.fragment offset fragment })

/-! ## Frame occurrence chains (lines 490-612) -/

/-- The body shared by `aeron_transport_frame_add`, `aeron_stream_frame_add` and
`aeron_term_frame_add`: a new record for `frame` is linked behind the last record
(whose `next_frame` is set), stored under its frame number, and becomes the last
record.  The result is the new tree and the new `last_frame`. -/
def frame_chain_add (frames : wmem_tree_t aeron_frame_t) (last_frame : Option Nat) (frame : Nat) :
    wmem_tree_t aeron_frame_t × Option Nat :=
  match last_frame with
  | some last =>
    let entry : aeron_frame_t :=
      { frame := frame, previous_frame := last, next_frame := 0, retransmission := false }
    let frames := wmem_tree_update frames last (fun e => { e with next_frame := frame })
    (wmem_tree_insert32 frames frame entry, some frame)
  | none =>
    let entry : aeron_frame_t :=
      { frame := frame, previous_frame := 0, next_frame := 0, retransmission := false }
    (wmem_tree_insert32 frames frame entry, some frame)

/-- Function `aeron_transport_frame_add`. -/
def aeron_transport_frame_add (transport : aeron_transport_t) (frame : Nat) : aeron_transport_t :=
  let r := frame_chain_add transport.frame transport.last_frame frame
  { transport with frame := r.1, last_frame := r.2 }

/-- Function `aeron_transport_frame_find`. -/
def aeron_transport_frame_find (transport : aeron_transport_t) (frame : Nat) :
    Option aeron_frame_t :=
  wmem_tree_lookup32 transport.frame frame

/-- Function `aeron_stream_frame_add`: the stream chain, then the transport chain. -/
def aeron_stream_frame_add (transport : aeron_transport_t) (stream_id frame : Nat) :
    aeron_transport_t :=
  let transport := stream_write transport stream_id (fun stream =>
    let r := frame_chain_add stream.frame stream.last_frame frame
    { stream with frame := r.1, last_frame := r.2 })
  aeron_transport_frame_add transport frame

/-- Function `aeron_stream_frame_find`. -/
def aeron_stream_frame_find (stream : aeron_stream_t) (frame : Nat) : Option aeron_frame_t :=
  wmem_tree_lookup32 stream.frame frame

/-- Function `aeron_term_frame_add`: the term chain, then the stream chain. -/
def aeron_term_frame_add (transport : aeron_transport_t) (stream_id term_id frame : Nat) :
    aeron_transport_t :=
  let transport := term_write transport stream_id term_id (fun term =>
    let r := frame_chain_add term.frame term.last_frame frame
    { term with frame := r.1, last_frame := r.2 })
  aeron_stream_frame_add transport stream_id frame

/-- Function `aeron_term_frame_find`. -/
def aeron_term_frame_find (term : aeron_term_t) (frame : Nat) : Option aeron_frame_t :=
  wmem_tree_lookup32 term.frame frame

/-- Function `aeron_fragment_frame_find`. -/
def aeron_fragment_frame_find (fragment : aeron_fragment_t) (frame : Nat) : Option aeron_frame_t :=
  wmem_tree_lookup32 fragment.frame frame

/-- Function `aeron_fragment_frame_add`.  A record is created only when the fragment
has none for this frame number; the previous record is not given a `next_frame`. -/
def aeron_fragment_frame_add (transport : aeron_transport_t)
    (stream_id term_id offset frame : Nat) : aeron_transport_t :=
  match aeron_term_fragment_find transport stream_id term_id offset with
  | none => transport
  | some fragment =>
    match aeron_fragment_frame_find fragment frame with
    | some _ => transport
    | none =>
      let transport := fragment_write transport stream_id term_id offset (fun fragment =>
        let entry : aeron_frame_t :=
          match fragment.last_frame with
          | none =>
            { frame := frame, previous_frame := 0, next_frame := 0, retransmission := false }
          | some last =>
            { frame := frame, previous_frame := last, next_frame := 0, retransmission := true }
        { fragment with
          first_frame := (match fragment.first_frame with
            | none => some frame
            | some first => some first),
          last_frame := some frame,
          frame := wmem_tree_insert32 fragment.frame frame entry })
      let transport := aeron_term_frame_add transport stream_id term_id frame
      fragment_write transport stream_id term_id offset (fun fragment =>
        { fragment with frame_count := (fragment.frame_count + 1) % 2 ^ 32 })

/-! ## Frame kinds and flag bits (lines 873-887) -/

def HDR_TYPE_PAD : Nat := 0x0000
def HDR_TYPE_DATA : Nat := 0x0001
def HDR_TYPE_NAK : Nat := 0x0002
def HDR_TYPE_SM : Nat := 0x0003
def HDR_TYPE_ERR : Nat := 0x0004
def HDR_TYPE_SETUP : Nat := 0x0005
def HDR_TYPE_EXT : Nat := 0xFFFF

def DATA_FLAGS_BEGIN : Nat := 0x80
def DATA_FLAGS_END : Nat := 0x40

/-! ## Sequence and window analysis set-up (lines 1188-1461) -/

/-- Sequence information `aeron_sequence_info_t`; a `NULL` pointer member is `none`. -/
structure aeron_sequence_info_t where
  stream_id : Option Nat
  term_id : Option Nat
  offset : Option Nat
  len : Nat
  data_len : Nat
  receiver_window : Nat
  type : Nat
  flags : Nat
deriving DecidableEq

/-- The part of `packet_info` the engine reads: `PINFO_FD_VISITED(pinfo)` and
`pinfo->fd->num`. -/
structure packet_info where
  visited : Bool
  num : Nat
deriving DecidableEq

/-- The first `switch (info->type)` of `aeron_sequence_setup` (lines 1255-1308): the
update of the stream's cached high or completed position.  `pdpv` and `prpv` are the
validity flags read before the switch. -/
def aeron_sequence_setup_positions (stream : aeron_stream_t) (info : aeron_sequence_info_t)
    (term_id offset : Nat) (pdpv prpv : Bool) : aeron_stream_t :=
  if info.type = HDR_TYPE_DATA ∨ info.type = HDR_TYPE_PAD then
    let dp : aeron_pos_t :=
      { term_id := term_id, term_offset := aeron_pos_roundup ((offset + info.len) % 2 ^ 32) }
    if pdpv then
      if dp.term_id > stream.high.term_id then
        { stream with high := { term_id := dp.term_id, term_offset := dp.term_offset } }
      else if dp.term_offset > stream.high.term_offset then
        { stream with high := { term_id := stream.high.term_id, term_offset := dp.term_offset } }
      else stream
    else
      { stream with
        flags := stream.flags ||| AERON_STREAM_FLAGS_HIGH_VALID,
        high := { term_id := dp.term_id, term_offset := dp.term_offset } }
  else if info.type = HDR_TYPE_SM then
    let rp : aeron_pos_t := { term_id := term_id, term_offset := offset }
    let stream : aeron_stream_t :=
      if prpv then
        if rp.term_id > stream.completed.term_id then
          { stream with completed := { term_id := rp.term_id, term_offset := rp.term_offset } }
        else if rp.term_offset > stream.completed.term_offset then
          { stream with
            completed := { term_id := stream.completed.term_id, term_offset := rp.term_offset } }
        else stream
      else
        { stream with
          flags := stream.flags ||| AERON_STREAM_FLAGS_COMPLETED_VALID,
          completed := { term_id := rp.term_id, term_offset := rp.term_offset } }
    { stream with
      receiver_window := info.receiver_window,
      flags := stream.flags ||| AERON_STREAM_FLAGS_RECEIVER_WINDOW_VALID }
  else stream

/-- The test of lines 1309-1315 that decides whether `sfa` is non-`NULL`. -/
def aeron_sequence_setup_has_sfa (aeron_window_analysis : Bool) (stream : aeron_stream_t) : Bool :=
  aeron_window_analysis &&
    (stream.flags &&& (AERON_STREAM_FLAGS_HIGH_VALID ||| AERON_STREAM_FLAGS_COMPLETED_VALID)
      == (AERON_STREAM_FLAGS_HIGH_VALID ||| AERON_STREAM_FLAGS_COMPLETED_VALID))

/-- The fragment block of `aeron_sequence_setup` for Data frames (lines 1316-1337). -/
def aeron_sequence_setup_fragment (transport : aeron_transport_t) (info : aeron_sequence_info_t)
    (stream_id term_id offset frame : Nat) : aeron_transport_t :=
  let transport :=
    match aeron_term_fragment_find transport stream_id term_id offset with
    | some _ => transport
    | none => aeron_term_fragment_add transport stream_id term_id offset info.len info.data_len
  let transport := fragment_write transport stream_id term_id offset (fun fragment =>
    { fragment with
      is_data_frame := true,
      is_begin_msg := (info.flags &&& DATA_FLAGS_BEGIN) != 0,
      is_end_msg := (info.flags &&& DATA_FLAGS_END) != 0 })
  aeron_fragment_frame_add transport stream_id term_id offset frame

/-- The second `switch (info->type)` (lines 1340-1358): the snapshot is filled from
the stream, and the window-full bit is set. -/
def aeron_sequence_setup_fill (stream : aeron_stream_t) (info : aeron_sequence_info_t)
    (sfa : aeron_stream_frame_analysis_t) : aeron_stream_frame_analysis_t :=
  if info.type = HDR_TYPE_DATA ∨ info.type = HDR_TYPE_SM ∨ info.type = HDR_TYPE_PAD then
    let sfa : aeron_stream_frame_analysis_t :=
      { sfa with
        high := { term_id := stream.high.term_id, term_offset := stream.high.term_offset },
        completed :=
          { term_id := stream.completed.term_id, term_offset := stream.completed.term_offset },
        receiver_window := stream.receiver_window }
    let sfa : aeron_stream_frame_analysis_t :=
      { sfa with
        outstanding_bytes := aeron_pos_delta sfa.high sfa.completed stream.term_length }
    if sfa.outstanding_bytes ≥ sfa.receiver_window ∧
        (stream.flags &&& AERON_STREAM_FLAGS_RECEIVER_WINDOW_VALID) ≠ 0 then
      { sfa with flags := sfa.flags ||| AERON_STREAM_FRAME_ANALYSIS_FLAG_WINDOW_FULL }
    else sfa
  else sfa

/-- The third `switch (info->type)` (lines 1359-1441): the classification of the frame
against the positions the stream had before it.  `pdp`, `pdpv`, `prp`, `prpv` and
`cur_receiver_window` are the values read at lines 1239-1253. -/
def aeron_sequence_setup_classify (term_length : Nat) (info : aeron_sequence_info_t)
    (term_id offset : Nat) (pdp : aeron_pos_t) (pdpv : Bool) (prp : aeron_pos_t) (prpv : Bool)
    (cur_receiver_window : Nat) (sfa : aeron_stream_frame_analysis_t) :
    aeron_stream_frame_analysis_t :=
  if info.type = HDR_TYPE_DATA ∨ info.type = HDR_TYPE_PAD then
    let dp : aeron_pos_t :=
      { term_id := term_id, term_offset := aeron_pos_roundup ((offset + info.len) % 2 ^ 32) }
    if pdpv then
      let rc := aeron_pos_compare dp pdp
      if rc = 0 then
        if info.len = 0 then
          { sfa with flags := sfa.flags ||| AERON_STREAM_FRAME_ANALYSIS_FLAG_KEEPALIVE }
        else if prpv then
          if aeron_pos_compare dp prp = 0 then
            { sfa with flags := sfa.flags ||| AERON_STREAM_FRAME_ANALYSIS_FLAG_IDLE_RX }
          else
            { sfa with flags := sfa.flags ||| AERON_STREAM_FRAME_ANALYSIS_FLAG_PACING_RX }
        else
          { sfa with flags := sfa.flags ||| AERON_STREAM_FRAME_ANALYSIS_FLAG_IDLE_RX }
      else
        let expected_dp : aeron_pos_t :=
          aeron_pos_add_length { term_id := pdp.term_id, term_offset := pdp.term_offset }
            info.len term_length
        let erc := aeron_pos_compare expected_dp dp
        if erc < 0 then
          { sfa with flags := sfa.flags ||| AERON_STREAM_FRAME_ANALYSIS_FLAG_OOO }
        else if erc > 0 then
          { sfa with flags := sfa.flags ||| AERON_STREAM_FRAME_ANALYSIS_FLAG_OOO_GAP }
        else sfa
    else sfa
  else if info.type = HDR_TYPE_SM then
    let rp : aeron_pos_t := { term_id := term_id, term_offset := offset }
    if prpv then
      let rc := aeron_pos_compare rp prp
      let sfa : aeron_stream_frame_analysis_t :=
        if rc = 0 then
          if pdpv then
            if aeron_pos_compare pdp rp = 0 then
              { sfa with flags := sfa.flags ||| AERON_STREAM_FRAME_ANALYSIS_FLAG_KEEPALIVE_SM }
            else sfa
          else sfa
        else if rc < 0 then
          { sfa with flags := sfa.flags ||| AERON_STREAM_FRAME_ANALYSIS_FLAG_OOO_SM }
        else sfa
      if cur_receiver_window ≠ sfa.receiver_window then
        { sfa with flags := sfa.flags ||| AERON_STREAM_FRAME_ANALYSIS_FLAG_WINDOW_RESIZE }
      else sfa
    else sfa
  else sfa

/-- The block `if (sfa != NULL)` (lines 1338-1442) as a write to the snapshot that
`sfa` points to, the one stored under the frame number in the stream's analysis tree. -/
def aeron_sequence_setup_snapshot (stream : aeron_stream_t) (pinfo : packet_info)
    (info : aeron_sequence_info_t) (term_id offset : Nat) (pdp : aeron_pos_t) (pdpv : Bool)
    (prp : aeron_pos_t) (prpv : Bool) (cur_receiver_window : Nat) : aeron_stream_t :=
  { stream with
    analysis := wmem_tree_update stream.analysis pinfo.num (fun sfa =>
      aeron_sequence_setup_classify stream.term_length info term_id offset
        pdp pdpv prp prpv cur_receiver_window
        (aeron_sequence_setup_fill stream info sfa)) }

/-- The block of `aeron_sequence_setup` entered when `info->offset` is not `NULL`
(lines 1228-1442), for the stream and term reached at lines 1212-1225.  `stream0` is
the stream as it is on entry. -/
def aeron_sequence_setup_offset (aeron_window_analysis : Bool) (pinfo : packet_info)
    (transport : aeron_transport_t) (info : aeron_sequence_info_t)
    (stream_id term_id offset : Nat) (stream0 : aeron_stream_t) : aeron_transport_t :=
  let pdp := stream0.high
  let pdpv := (stream0.flags &&& AERON_STREAM_FLAGS_HIGH_VALID) != 0
  let prp := stream0.completed
  let prpv := (stream0.flags &&& AERON_STREAM_FLAGS_COMPLETED_VALID) != 0
  let cur_receiver_window := stream0.receiver_window
  let transport := stream_write transport stream_id (fun stream =>
    aeron_sequence_setup_positions stream info term_id offset pdpv prpv)
  let transport := stream_write transport stream_id (fun stream =>
    if aeron_sequence_setup_has_sfa aeron_window_analysis stream then
      aeron_stream_frame_analysis_add stream pinfo.num
    else stream)
  let has_sfa :=
    match aeron_transport_stream_find transport stream_id with
    | some stream => aeron_sequence_setup_has_sfa aeron_window_analysis stream
    | none => false
  let transport :=
    if info.type = HDR_TYPE_DATA then
      aeron_sequence_setup_fragment transport info stream_id term_id offset pinfo.num
    else transport
  if has_sfa then
    stream_write transport stream_id (fun stream =>
      aeron_sequence_setup_snapshot stream pinfo info term_id offset
        pdp pdpv prp prpv cur_receiver_window)
  else transport

/-- Function `aeron_sequence_setup`.  The transport pointer is the one
`aeron_transport_add` returned, which is never `NULL`; the two booleans are the
preferences `aeron_sequence_analysis` and `aeron_window_analysis`. -/
def aeron_sequence_setup (aeron_sequence_analysis aeron_window_analysis : Bool)
    (pinfo : packet_info) (transport : aeron_transport_t) (info : aeron_sequence_info_t) :
    aeron_transport_t :=
  if aeron_sequence_analysis || aeron_window_analysis then
    if pinfo.visited = false then
      match info.stream_id with
      | some stream_id =>
        let transport :=
          match aeron_transport_stream_find transport stream_id with
          | some _ => transport
          | none => aeron_transport_stream_add transport stream_id
        match info.term_id with
        | some term_id =>
          let transport :=
            match aeron_stream_term_find transport stream_id term_id with
            | some _ => transport
            | none => aeron_stream_term_add transport stream_id term_id
          match info.offset with
          | some offset =>
            match aeron_transport_stream_find transport stream_id with
            | some stream0 =>
              aeron_sequence_setup_offset aeron_window_analysis pinfo transport info
                stream_id term_id offset stream0
            | none => transport
          | none => aeron_term_frame_add transport stream_id term_id pinfo.num
        | none => aeron_stream_frame_add transport stream_id pinfo.num
      | none => aeron_transport_frame_add transport pinfo.num
    else transport
  else transport

/-! ## What the frame dissectors do to the session state (lines 1664-2182) -/

/-- Function `aeron_next_offset_report`, its effect on the state: a stream whose term
length is still 0 takes `length` as its term length (lines 1669-1676).  The rest of
the function only reads the state for display. -/
def aeron_next_offset_report (transport : aeron_transport_t)
    (stream_id term_id term_offset length : Nat) : aeron_transport_t :=
  stream_write transport stream_id (fun stream =>
    if stream.term_length = 0 then { stream with term_length := length } else stream)

/-- Function `aeron_set_stream_mtu_term_length`. -/
def aeron_set_stream_mtu_term_length (pinfo : packet_info) (transport : aeron_transport_t)
    (stream_id mtu term_length : Nat) : aeron_transport_t :=
  if pinfo.visited = false then
    stream_write transport stream_id (fun stream =>
      { stream with
        term_length := term_length,
        mtu := mtu,
        fragment_stride := (mtu + 2 ^ 32 - 24) % 2 ^ 32 })
  else transport

/-- The header fields of one frame that reach the session state, by frame kind. -/
inductive aeron_frame_fields where
  | pad (frame_len term_offset stream_id term_id : Nat)
  | data (flags frame_len term_offset stream_id term_id : Nat)
  | nak (frame_len stream_id term_id : Nat)
  | sm (frame_len stream_id term_id comp_offset rcv_window : Nat)
  | err (len : Nat)
  | setup (frame_len stream_id active_term_id term_length mtu : Nat)
deriving DecidableEq

/-- The `aeron_sequence_info_t` that `dissect_aeron_pad` fills (lines 1781-1789). -/
def aeron_pad_sinfo (frame_len term_offset stream_id term_id : Nat) : aeron_sequence_info_t :=
  { stream_id := some stream_id, term_id := some term_id, offset := some term_offset,
    len := frame_len, data_len := (frame_len + 2 ^ 32 - 24) % 2 ^ 32, receiver_window := 0,
    type := HDR_TYPE_PAD, flags := 0 }

/-- The `aeron_sequence_info_t` that `dissect_aeron_data` fills (lines 1838-1862). -/
def aeron_data_sinfo (flags frame_len term_offset stream_id term_id : Nat) :
    aeron_sequence_info_t :=
  { stream_id := some stream_id, term_id := some term_id, offset := some term_offset,
    len := frame_len,
    data_len := if frame_len = 0 then 0 else (frame_len + 2 ^ 32 - 24) % 2 ^ 32,
    receiver_window := 0, type := HDR_TYPE_DATA, flags := flags }

/-- The `aeron_sequence_info_t` that `dissect_aeron_nak` fills (lines 1950-1957). -/
def aeron_nak_sinfo (stream_id term_id : Nat) : aeron_sequence_info_t :=
  { stream_id := some stream_id, term_id := some term_id, offset := none,
    len := 0, data_len := 0, receiver_window := 0, type := HDR_TYPE_NAK, flags := 0 }

/-- The `aeron_sequence_info_t` that `dissect_aeron_sm` fills (lines 2036-2043). -/
def aeron_sm_sinfo (stream_id term_id comp_offset rcv_window : Nat) : aeron_sequence_info_t :=
  { stream_id := some stream_id, term_id := some term_id, offset := some comp_offset,
    len := 0, data_len := 0, receiver_window := rcv_window, type := HDR_TYPE_SM, flags := 0 }

/-- The `aeron_sequence_info_t` that `dissect_aeron_setup` fills (lines 2149-2156). -/
def aeron_setup_sinfo (stream_id active_term_id : Nat) : aeron_sequence_info_t :=
  { stream_id := some stream_id, term_id := some active_term_id, offset := none,
    len := 0, data_len := 0, receiver_window := 0, type := HDR_TYPE_SETUP, flags := 0 }

/-- The state changes one frame makes through its dissector, on the transport that
`aeron_transport_add` resolved for it: `aeron_sequence_setup`, then for Pad and Data
`aeron_next_offset_report` with the rounded frame length, and for Setup
`aeron_set_stream_mtu_term_length`.  An Error frame touches no state. -/
def aeron_frame_apply (aeron_sequence_analysis aeron_window_analysis : Bool)
    (pinfo : packet_info) (transport : aeron_transport_t) :
    aeron_frame_fields → aeron_transport_t
  | .pad frame_len term_offset stream_id term_id =>
    let transport := aeron_sequence_setup aeron_sequence_analysis aeron_window_analysis pinfo
      transport (aeron_pad_sinfo frame_len term_offset stream_id term_id)
    aeron_next_offset_report transport stream_id term_id term_offset
      (aeron_pos_roundup frame_len)
  | .data flags frame_len term_offset stream_id term_id =>
    let transport := aeron_sequence_setup aeron_sequence_analysis aeron_window_analysis pinfo
      transport (aeron_data_sinfo flags frame_len term_offset stream_id term_id)
    aeron_next_offset_report transport stream_id term_id term_offset
      (if frame_len = 0 then 0 else aeron_pos_roundup frame_len)
  | .nak _ stream_id term_id =>
    aeron_sequence_setup aeron_sequence_analysis aeron_window_analysis pinfo
      transport (aeron_nak_sinfo stream_id term_id)
  | .sm _ stream_id term_id comp_offset rcv_window =>
    aeron_sequence_setup aeron_sequence_analysis aeron_window_analysis pinfo
      transport (aeron_sm_sinfo stream_id term_id comp_offset rcv_window)
  | .err _ => transport
  | .setup _ stream_id active_term_id term_length mtu =>
    let transport := aeron_sequence_setup aeron_sequence_analysis aeron_window_analysis pinfo
      transport (aeron_setup_sinfo stream_id active_term_id)
    aeron_set_stream_mtu_term_length pinfo transport stream_id mtu term_length

/-- The frames of one transport, analysed in order: each comes with the
`packet_info` of the packet that carries it. -/
def aeron_frames_apply (aeron_sequence_analysis aeron_window_analysis : Bool)
    (transport : aeron_transport_t) :
    List (packet_info × aeron_frame_fields) → aeron_transport_t
  | [] => transport
  | (pinfo, fields) :: rest =>
    aeron_frames_apply aeron_sequence_analysis aeron_window_analysis
      (aeron_frame_apply aeron_sequence_analysis aeron_window_analysis pinfo transport fields)
      rest

/-- The transport object `aeron_transport_add` allocates (lines 354-363). -/
def aeron_transport_new (channel : Nat) (addr1 addr2 : address) (session_id port1 port2 : Nat) :
    aeron_transport_t :=
  { channel := channel, stream := [], frame := [], last_frame := none,
    address1 := addr1, address2 := addr2, session_id := session_id,
    port1 := port1, port2 := port2 }

/-! ## Packet buffers (the `tvbuff_t` accessors the dissector calls)

A buffer is the list of its bytes; captured and reported length coincide.  An accessor
that would read outside the buffer throws, which is `none` here.  Of the calls that
build the display tree, the three whose extent comes from the wire are kept for their
bounds check: the payload of a Data frame, the feedback of a Status frame, and the
offending header and error string of an Error frame.  The items at fixed positions of
a header lie, for a frame at a non-negative offset, in bytes that the accessor calls
of the same decoder read, and are left out. -/

/-- Buffer `tvbuff_t`. -/
abbrev tvbuff_t := List Nat

/-- The value an `int` variable holds after an arithmetic result is stored in it: the
signed 32-bit value of the same bit pattern. -/
def to_gint (x : Int) : Int :=
  (x + 2 ^ 31) % 2 ^ 32 - 2 ^ 31

/-- Where `length` bytes at `offset` start: a negative offset counts from the end of the
buffer; `none` when the bytes do not lie inside it. -/
def tvb_ensure_bytes (tvb : tvbuff_t) (offset : Int) (length : Nat) : Option Nat :=
  if 0 ≤ offset then
    if offset.toNat + length ≤ tvb.length then some offset.toNat else none
  else if (-offset).toNat ≤ tvb.length ∧ tvb.length - (-offset).toNat + length ≤ tvb.length then
    some (tvb.length - (-offset).toNat)
  else none

/-- The byte at position `i`, as a `guint8`. -/
def tvb_byte (tvb : tvbuff_t) (i : Nat) : Nat :=
  tvb.getD i 0 % 256

/-- Accessor `tvb_get_guint8`. -/
def tvb_get_guint8 (tvb : tvbuff_t) (offset : Int) : Option Nat :=
  match tvb_ensure_bytes tvb offset 1 with
  | none => none
  | some i => some (tvb_byte tvb i)

/-- Accessor `tvb_get_letohs`: 16 bits, little-endian. -/
def tvb_get_letohs (tvb : tvbuff_t) (offset : Int) : Option Nat :=
  match tvb_ensure_bytes tvb offset 2 with
  | none => none
  | some i => some (tvb_byte tvb i + tvb_byte tvb (i + 1) * 2 ^ 8)

/-- Accessor `tvb_get_letohl`: 32 bits, little-endian. -/
def tvb_get_letohl (tvb : tvbuff_t) (offset : Int) : Option Nat :=
  match tvb_ensure_bytes tvb offset 4 with
  | none => none
  | some i =>
    some (tvb_byte tvb i + tvb_byte tvb (i + 1) * 2 ^ 8 + tvb_byte tvb (i + 2) * 2 ^ 16 +
      tvb_byte tvb (i + 3) * 2 ^ 24)

/-- The bounds check `proto_tree_add_item` makes before it adds an item of `length`
bytes at `start` for a byte-array or string field: `true` when the item is added,
`false` when the call throws.  A length of -1 stands for the rest of the buffer, of
which at least one byte must exist; every other negative length throws; otherwise the
bytes of the item must lie inside the buffer. -/
def proto_tree_add_item (tvb : tvbuff_t) (start length : Int) : Bool :=
  if length = -1 then (tvb_ensure_bytes tvb start 1).isSome
  else if length < 0 then false
  else (tvb_ensure_bytes tvb start length.toNat).isSome

/-- How a call ends: with a return value, or with an exception thrown by an accessor or
by the bounds check of an item. -/
inductive dissect_result (α : Type) where
  | returned (value : α)
  | exception
deriving DecidableEq

/-! ## Conversations (lines 62-69, 254-366, 939-1067) -/

def AT_IPv4 : Nat := 2
def AT_IPv6 : Nat := 3
def PT_UDP : Nat := 3

def HDR_LENGTH_MIN : Nat := 12
def L_AERON_PAD : Nat := 24
def O_AERON_DATA_DATA : Nat := 24
def O_AERON_SM_FEEDBACK : Nat := 28

/-- The members of `packet_info` that `aeron_setup_conversation_info` reads. -/
structure packet_endpoints where
  src : address
  dst : address
  srcport : Nat
  destport : Nat
  ptype : Nat
deriving DecidableEq

/-- Conversation information `aeron_conversation_info_t`. -/
structure aeron_conversation_info_t where
  addr1 : address
  addr2 : address
  ptype : Nat
  port1 : Nat
  port2 : Nat
deriving DecidableEq

/-- Function `aeron_is_address_multicast`.  An address of these families has at least
one byte; for an empty one the byte read is 0. -/
def aeron_is_address_multicast (addr : address) : Bool :=
  if addr.type = AT_IPv4 then (addr.data.getD 0 0 &&& 0xf0) == 0xe0
  else if addr.type = AT_IPv6 then addr.data.getD 0 0 == 0xff
  else false

/-- The content of the two address objects that the `default` case of the inner switch
(lines 1001, 1055) allocates and does not fill in. -/
def address_not_set : address :=
  { type := 0, data := [] }

/-- The body that the `AT_IPv4` and the `AT_IPv6` case of `aeron_setup_conversation_info`
share; `family` is the constant passed to `SET_ADDRESS`. -/
def aeron_setup_conversation_info_family (pinfo : packet_endpoints) (type family : Nat) :
    aeron_conversation_info_t :=
  let addr_len := pinfo.dst.data.length
  let dst_addr := pinfo.dst.data
  if aeron_is_address_multicast pinfo.dst then
    if (dst_addr.getD (addr_len - 1) 0 &&& 0x1) ≠ 0 then
      { addr1 := { type := family,
                   data := dst_addr.set (addr_len - 1)
                     ((dst_addr.getD (addr_len - 1) 0 + 1) % 256) },
        addr2 := { type := family, data := dst_addr },
        ptype := pinfo.ptype, port1 := pinfo.destport, port2 := pinfo.destport }
    else
      { addr1 := { type := family, data := dst_addr },
        addr2 := { type := family,
                   data := dst_addr.set (addr_len - 1)
                     ((dst_addr.getD (addr_len - 1) 0 + 255) % 256) },
        ptype := pinfo.ptype, port1 := pinfo.destport, port2 := pinfo.destport }
  else if type = HDR_TYPE_PAD ∨ type = HDR_TYPE_DATA ∨ type = HDR_TYPE_SETUP then
    { addr1 := pinfo.src, addr2 := pinfo.dst, ptype := pinfo.ptype,
      port1 := pinfo.srcport, port2 := pinfo.destport }
  else if type = HDR_TYPE_NAK ∨ type = HDR_TYPE_SM then
    { addr1 := pinfo.dst, addr2 := pinfo.src, ptype := pinfo.ptype,
      port1 := pinfo.destport, port2 := pinfo.srcport }
  else
    { addr1 := address_not_set, addr2 := address_not_set, ptype := pinfo.ptype,
      port1 := 0, port2 := 0 }

/-- Function `aeron_setup_conversation_info`; `none` is the `NULL` of line 1064. -/
def aeron_setup_conversation_info (pinfo : packet_endpoints) (type : Nat) :
    Option aeron_conversation_info_t :=
  if pinfo.dst.type = AT_IPv4 then
    some (aeron_setup_conversation_info_family pinfo type AT_IPv4)
  else if pinfo.dst.type = AT_IPv6 then
    some (aeron_setup_conversation_info_family pinfo type AT_IPv6)
  else none

/-- A conversation of the capture that carries Aeron data: its two endpoints, the
frame it was last seen in, and the session tree stored as its protocol data. -/
structure conversation_t where
  addr1 : address
  addr2 : address
  ptype : Nat
  port1 : Nat
  port2 : Nat
  last_frame : Nat
  session_tree : wmem_tree_t aeron_transport_t
deriving DecidableEq

/-- Everything the dissector keeps between packets: the conversations and the counter
`aeron_channel`. -/
structure dissector_state where
  conversations : List conversation_t
  aeron_channel : Nat
deriving DecidableEq

/-- The state after `aeron_init`, before any packet. -/
def dissector_state_init : dissector_state :=
  { conversations := [], aeron_channel := 0 }

/-- Whether `find_conversation` with these endpoints finds the conversation: the
endpoints match in the order given or in the opposite one. -/
def conversation_matches (cinfo : aeron_conversation_info_t) (conv : conversation_t) : Bool :=
  conv.ptype == cinfo.ptype &&
    ((conv.addr1 == cinfo.addr1 && conv.port1 == cinfo.port1 &&
        conv.addr2 == cinfo.addr2 && conv.port2 == cinfo.port2) ||
      (conv.addr1 == cinfo.addr2 && conv.port1 == cinfo.port2 &&
        conv.addr2 == cinfo.addr1 && conv.port2 == cinfo.port1))

/-- Lookup `find_conversation`. -/
def find_conversation (state : dissector_state) (cinfo : aeron_conversation_info_t) :
    Option conversation_t :=
  state.conversations.find? (conversation_matches cinfo)

/-- Write through the conversation pointer that `find_conversation` returns. -/
def conversation_write (cinfo : aeron_conversation_info_t) (f : conversation_t → conversation_t) :
    List conversation_t → List conversation_t
  | [] => []
  | conv :: rest =>
    if conversation_matches cinfo conv then f conv :: rest
    else conv :: conversation_write cinfo f rest

/-- The transport that the pointer `aeron_transport_add` returned designates. -/
def aeron_transport_find (state : dissector_state) (cinfo : aeron_conversation_info_t)
    (session_id : Nat) : Option aeron_transport_t :=
  match find_conversation state cinfo with
  | none => none
  | some conv => wmem_tree_lookup32 conv.session_tree session_id

/-- Mutation of the transport that the pointer `aeron_transport_add` returned
designates. -/
def transport_write (state : dissector_state) (cinfo : aeron_conversation_info_t)
    (session_id : Nat) (f : aeron_transport_t → aeron_transport_t) : dissector_state :=
  { state with
    conversations := conversation_write cinfo
      (fun conv => { conv with session_tree := wmem_tree_update conv.session_tree session_id f })
      state.conversations }

/-- Function `aeron_transport_add`; the returned pointer is (cinfo, session id). -/
def aeron_transport_add (state : dissector_state) (cinfo : aeron_conversation_info_t)
    (session_id frame : Nat) : dissector_state :=
  let state : dissector_state :=
    match find_conversation state cinfo with
    | some _ => state
    | none =>
      { state with
        conversations := state.conversations ++
          [{ addr1 := cinfo.addr1, addr2 := cinfo.addr2, ptype := cinfo.ptype,
             port1 := cinfo.port1, port2 := cinfo.port2, last_frame := frame,
             session_tree := [] }] }
  let state : dissector_state :=
    { state with
      conversations := conversation_write cinfo
        (fun conv => if frame > conv.last_frame then { conv with last_frame := frame } else conv)
        state.conversations }
  match aeron_transport_find state cinfo session_id with
  | some _ => state
  | none =>
    { conversations := conversation_write cinfo
        (fun conv =>
          { conv with
            session_tree := wmem_tree_insert32 conv.session_tree session_id
              (aeron_transport_new state.aeron_channel cinfo.addr1 cinfo.addr2 session_id
                cinfo.port1 cinfo.port2) })
        state.conversations,
      aeron_channel := (state.aeron_channel + 1) % 2 ^ 64 }

/-! ## The frame dissectors and the packet entry points (lines 1767-2311) -/

/-- Function `dissect_aeron_pad`: the header fields are read in the order of the
source, the transport is looked up or created after the session id is read, and the
consumed length is `L_AERON_PAD`. -/
def dissect_aeron_pad (aeron_sequence_analysis aeron_window_analysis : Bool) (tvb : tvbuff_t)
    (offset : Int) (pinfo : packet_info) (cinfo : aeron_conversation_info_t)
    (state : dissector_state) : dissector_state × dissect_result Int :=
  match tvb_get_letohl tvb (offset + 4), tvb_get_letohl tvb (offset + 8),
      tvb_get_letohl tvb (offset + 12) with
  | some frame_len, some term_offset, some session_id =>
    let state := aeron_transport_add state cinfo session_id pinfo.num
    match tvb_get_letohl tvb (offset + 16), tvb_get_letohl tvb (offset + 20) with
    | some stream_id, some term_id =>
      (transport_write state cinfo session_id (fun transport =>
          aeron_frame_apply aeron_sequence_analysis aeron_window_analysis pinfo transport
            (.pad frame_len term_offset stream_id term_id)),
        .returned (L_AERON_PAD : Int))
    | _, _ => (state, .exception)
  | _, _, _ => (state, .exception)

/-- Function `dissect_aeron_data`.  The consumed length is `O_AERON_DATA_DATA` for a
frame length of 0 and the rounded frame length, stored in an `int`, otherwise.  After
the state has been updated the payload item of `data_len` bytes is added behind the
header when `data_len` is not 0 (lines 1880-1883); its bounds check can throw. -/
def dissect_aeron_data (aeron_sequence_analysis aeron_window_analysis : Bool) (tvb : tvbuff_t)
    (offset : Int) (pinfo : packet_info) (cinfo : aeron_conversation_info_t)
    (state : dissector_state) : dissector_state × dissect_result Int :=
  match tvb_get_letohl tvb (offset + 4) with
  | some frame_len =>
    let rounded_len : Int :=
      if frame_len = 0 then (O_AERON_DATA_DATA : Int)
      else to_gint (aeron_pos_roundup frame_len)
    let data_len : Nat :=
      if frame_len = 0 then 0 else (frame_len + 2 ^ 32 - O_AERON_DATA_DATA) % 2 ^ 32
    match tvb_get_letohl tvb (offset + 8), tvb_get_letohl tvb (offset + 12) with
    | some term_offset, some session_id =>
      let state := aeron_transport_add state cinfo session_id pinfo.num
      match tvb_get_letohl tvb (offset + 16), tvb_get_letohl tvb (offset + 20),
          tvb_get_guint8 tvb (offset + 1) with
      | some stream_id, some term_id, some flags =>
        let state := transport_write state cinfo session_id (fun transport =>
          aeron_frame_apply aeron_sequence_analysis aeron_window_analysis pinfo transport
            (.data flags frame_len term_offset stream_id term_id))
        if data_len > 0 ∧
            proto_tree_add_item tvb (offset + O_AERON_DATA_DATA) (to_gint data_len) = false then
          (state, .exception)
        else (state, .returned rounded_len)
      | _, _, _ => (state, .exception)
    | _, _ => (state, .exception)
  | none => (state, .exception)

/-- Function `dissect_aeron_nak`. -/
def dissect_aeron_nak (aeron_sequence_analysis aeron_window_analysis : Bool) (tvb : tvbuff_t)
    (offset : Int) (pinfo : packet_info) (cinfo : aeron_conversation_info_t)
    (state : dissector_state) : dissector_state × dissect_result Int :=
  match tvb_get_letohl tvb (offset + 4), tvb_get_letohl tvb (offset + 8) with
  | some frame_len, some session_id =>
    let state := aeron_transport_add state cinfo session_id pinfo.num
    match tvb_get_letohl tvb (offset + 12), tvb_get_letohl tvb (offset + 16),
        tvb_get_letohl tvb (offset + 20), tvb_get_letohl tvb (offset + 24) with
    | some stream_id, some term_id, some _, some _ =>
      (transport_write state cinfo session_id (fun transport =>
          aeron_frame_apply aeron_sequence_analysis aeron_window_analysis pinfo transport
            (.nak frame_len stream_id term_id)),
        .returned (to_gint (aeron_pos_roundup frame_len)))
    | _, _, _, _ => (state, .exception)
  | _, _ => (state, .exception)

/-- Function `dissect_aeron_sm`.  After the state has been updated the feedback item of
`feedback_len = frame_len - O_AERON_SM_FEEDBACK` bytes (a `guint32`) is added behind
the receiver window when `feedback_len` is not 0 (lines 2062-2065); its bounds check
can throw. -/
def dissect_aeron_sm (aeron_sequence_analysis aeron_window_analysis : Bool) (tvb : tvbuff_t)
    (offset : Int) (pinfo : packet_info) (cinfo : aeron_conversation_info_t)
    (state : dissector_state) : dissector_state × dissect_result Int :=
  match tvb_get_letohl tvb (offset + 4), tvb_get_letohl tvb (offset + 8) with
  | some frame_len, some session_id =>
    let feedback_len : Nat := (frame_len + 2 ^ 32 - O_AERON_SM_FEEDBACK) % 2 ^ 32
    let state := aeron_transport_add state cinfo session_id pinfo.num
    match tvb_get_letohl tvb (offset + 12), tvb_get_letohl tvb (offset + 16),
        tvb_get_letohl tvb (offset + 20), tvb_get_letohl tvb (offset + 24) with
    | some stream_id, some term_id, some comp_offset, some rcv_window =>
      let state := transport_write state cinfo session_id (fun transport =>
        aeron_frame_apply aeron_sequence_analysis aeron_window_analysis pinfo transport
          (.sm frame_len stream_id term_id comp_offset rcv_window))
      if feedback_len > 0 ∧
          proto_tree_add_item tvb (offset + O_AERON_SM_FEEDBACK) (to_gint feedback_len) = false then
        (state, .exception)
      else (state, .returned (to_gint (aeron_pos_roundup frame_len)))
    | _, _, _, _ => (state, .exception)
  | _, _ => (state, .exception)

/-- The two items that `dissect_aeron_err` adds after the fixed header fields (lines
2094-2101): start and length of the offending-header item, and start and length of
the error-string item, `none` when that item is not added. -/
structure aeron_err_items where
  off_hdr_start : Int
  off_hdr_length : Int
  err_string : Option (Int × Int)
deriving DecidableEq

/-- The arguments `dissect_aeron_err` passes to `proto_tree_add_item` for the offending
header and for the error string (lines 2091-2101).  The variables `ofs` and
`string_len` are `int`; `len` and `bad_frame_len` are `guint32`, so that `ofs +=
bad_frame_len` and `len - ofs` are formed in 32 bits and stored as `int`. -/
def dissect_aeron_err_items (tvb : tvbuff_t) (offset : Int) : Option aeron_err_items :=
  match tvb_get_letohl tvb (offset + 4), tvb_get_letohl tvb (offset + 8) with
  | some len, some bad_frame_len =>
    let ofs := to_gint (offset + 12)
    let off_hdr_start := to_gint (offset + ofs)
    let ofs := to_gint (ofs + bad_frame_len)
    let string_len := to_gint (len - ofs)
    some { off_hdr_start := off_hdr_start, off_hdr_length := to_gint bad_frame_len,
           err_string := if string_len > 0 then some (to_gint (offset + ofs), string_len)
             else none }
  | _, _ => none

/-- Function `dissect_aeron_err`: no session state is touched.  The offending-header
item is added, then the error-string item when its length is positive; the bounds
check of either can throw. -/
def dissect_aeron_err (tvb : tvbuff_t) (offset : Int) (state : dissector_state) :
    dissector_state × dissect_result Int :=
  match tvb_get_letohl tvb (offset + 4), dissect_aeron_err_items tvb offset with
  | some len, some items =>
    if proto_tree_add_item tvb items.off_hdr_start items.off_hdr_length = false then
      (state, .exception)
    else
      match items.err_string with
      | some (start, length) =>
        if proto_tree_add_item tvb start length = false then (state, .exception)
        else (state, .returned (to_gint (aeron_pos_roundup len)))
      | none => (state, .returned (to_gint (aeron_pos_roundup len)))
  | _, _ => (state, .exception)

/-- Function `dissect_aeron_setup`: the term length and the MTU are read after
`aeron_sequence_setup` has run. -/
def dissect_aeron_setup (aeron_sequence_analysis aeron_window_analysis : Bool) (tvb : tvbuff_t)
    (offset : Int) (pinfo : packet_info) (cinfo : aeron_conversation_info_t)
    (state : dissector_state) : dissector_state × dissect_result Int :=
  match tvb_get_letohl tvb (offset + 4), tvb_get_letohl tvb (offset + 8),
      tvb_get_letohl tvb (offset + 12) with
  | some frame_len, some _, some session_id =>
    let state := aeron_transport_add state cinfo session_id pinfo.num
    match tvb_get_letohl tvb (offset + 16), tvb_get_letohl tvb (offset + 20),
        tvb_get_letohl tvb (offset + 24) with
    | some stream_id, some _, some active_term_id =>
      let state := transport_write state cinfo session_id (fun transport =>
        aeron_sequence_setup aeron_sequence_analysis aeron_window_analysis pinfo transport
          (aeron_setup_sinfo stream_id active_term_id))
      match tvb_get_letohl tvb (offset + 28), tvb_get_letohl tvb (offset + 32) with
      | some term_length, some mtu =>
        (transport_write state cinfo session_id (fun transport =>
            aeron_set_stream_mtu_term_length pinfo transport stream_id mtu term_length),
          .returned (to_gint (aeron_pos_roundup frame_len)))
      | _, _ => (state, .exception)
    | _, _, _ => (state, .exception)
  | _, _, _ => (state, .exception)

/-- The `switch (frame_type)` of `dissect_aeron` (lines 2217-2240): the dissector of the
frame kind, or `none` for `HDR_TYPE_EXT` and every other value. -/
def dissect_aeron_frame (aeron_sequence_analysis aeron_window_analysis : Bool) (tvb : tvbuff_t)
    (offset : Int) (pinfo : packet_info) (cinfo : aeron_conversation_info_t)
    (state : dissector_state) (frame_type : Nat) :
    Option (dissector_state × dissect_result Int) :=
  if frame_type = HDR_TYPE_PAD then
    some (dissect_aeron_pad aeron_sequence_analysis aeron_window_analysis tvb offset pinfo cinfo
      state)
  else if frame_type = HDR_TYPE_DATA then
    some (dissect_aeron_data aeron_sequence_analysis aeron_window_analysis tvb offset pinfo cinfo
      state)
  else if frame_type = HDR_TYPE_NAK then
    some (dissect_aeron_nak aeron_sequence_analysis aeron_window_analysis tvb offset pinfo cinfo
      state)
  else if frame_type = HDR_TYPE_SM then
    some (dissect_aeron_sm aeron_sequence_analysis aeron_window_analysis tvb offset pinfo cinfo
      state)
  else if frame_type = HDR_TYPE_ERR then
    some (dissect_aeron_err tvb offset state)
  else if frame_type = HDR_TYPE_SETUP then
    some (dissect_aeron_setup aeron_sequence_analysis aeron_window_analysis tvb offset pinfo cinfo
      state)
  else none

/-- The `while (len_remaining > 0)` loop of `dissect_aeron` (lines 2213-2245), run for
at most `fuel` iterations; the outer `none` means the iterations did not suffice.  The
three `int` variables are carried along. -/
def dissect_aeron_loop (aeron_sequence_analysis aeron_window_analysis : Bool) (tvb : tvbuff_t)
    (pinfo : packet_info) (endpoints : packet_endpoints) :
    Nat → dissector_state → Int → Int → Int → Option (dissector_state × dissect_result Int)
  | 0, _, _, _, _ => none
  | fuel + 1, state, offset, len_remaining, total_dissected_len =>
    if len_remaining > 0 then
      match tvb_get_letohs tvb (offset + 2) with
      | none => some (state, .exception)
      | some frame_type =>
        match aeron_setup_conversation_info endpoints frame_type with
        | none => some (state, .exception)
        | some cinfo =>
          match dissect_aeron_frame aeron_sequence_analysis aeron_window_analysis tvb offset
              pinfo cinfo state frame_type with
          | none => some (state, .returned total_dissected_len)
          | some (state, .exception) => some (state, .exception)
          | some (state, .returned dissected_len) =>
            dissect_aeron_loop aeron_sequence_analysis aeron_window_analysis tvb pinfo endpoints
              fuel state (to_gint (offset + dissected_len))
              (to_gint (len_remaining - dissected_len))
              (to_gint (total_dissected_len + dissected_len))
    else some (state, .returned total_dissected_len)

/-- Function `dissect_aeron`. -/
def dissect_aeron (aeron_sequence_analysis aeron_window_analysis : Bool) (fuel : Nat)
    (tvb : tvbuff_t) (pinfo : packet_info) (endpoints : packet_endpoints)
    (state : dissector_state) : Option (dissector_state × dissect_result Int) :=
  match tvb_get_letohs tvb 2 with
  | none => some (state, .exception)
  | some frame_type =>
    match aeron_setup_conversation_info endpoints frame_type with
    | none => some (state, .returned (-1))
    | some _ =>
      dissect_aeron_loop aeron_sequence_analysis aeron_window_analysis tvb pinfo endpoints
        fuel state 0 (to_gint tvb.length) 0

/-- The end of `test_aeron_packet` (lines 2305-2310): the call of `dissect_aeron` and
the test of its result. -/
def test_aeron_packet_dissect (aeron_sequence_analysis aeron_window_analysis : Bool) (fuel : Nat)
    (tvb : tvbuff_t) (pinfo : packet_info) (endpoints : packet_endpoints)
    (state : dissector_state) : Option (dissector_state × dissect_result Bool) :=
  match dissect_aeron aeron_sequence_analysis aeron_window_analysis fuel tvb pinfo endpoints
      state with
  | none => none
  | some (state, .exception) => some (state, .exception)
  | some (state, .returned rc) => some (state, .returned (rc != -1))

/-- Function `test_aeron_packet`. -/
def test_aeron_packet (aeron_sequence_analysis aeron_window_analysis : Bool) (fuel : Nat)
    (tvb : tvbuff_t) (pinfo : packet_info) (endpoints : packet_endpoints)
    (state : dissector_state) : Option (dissector_state × dissect_result Bool) :=
  let len_remaining : Int := to_gint tvb.length
  if len_remaining < HDR_LENGTH_MIN then some (state, .returned false)
  else
    match tvb_get_guint8 tvb 0 with
    | none => some (state, .exception)
    | some ver =>
      if ver ≠ 0 then some (state, .returned false)
      else
        match tvb_get_letohs tvb 2 with
        | none => some (state, .exception)
        | some packet_type =>
          if ¬ (packet_type = HDR_TYPE_PAD ∨ packet_type = HDR_TYPE_DATA ∨
              packet_type = HDR_TYPE_NAK ∨ packet_type = HDR_TYPE_SM ∨
              packet_type = HDR_TYPE_ERR ∨ packet_type = HDR_TYPE_SETUP ∨
              packet_type = HDR_TYPE_EXT) then some (state, .returned false)
          else
            match tvb_get_letohl tvb 4 with
            | none => some (state, .exception)
            | some frame_length =>
              let len : Int := to_gint (frame_length &&& 0x7fffffff : Nat)
              if ¬ (packet_type = HDR_TYPE_DATA ∧ len = 0) ∧ len < HDR_LENGTH_MIN then
                some (state, .returned false)
              else if packet_type = HDR_TYPE_PAD then
                match tvb_get_letohl tvb 8 with
                | none => some (state, .exception)
                | some term_offset =>
                  if term_offset = 0 then some (state, .returned false)
                  else
                    test_aeron_packet_dissect aeron_sequence_analysis aeron_window_analysis
                      fuel tvb pinfo endpoints state
              else if len > len_remaining then some (state, .returned false)
              else
                test_aeron_packet_dissect aeron_sequence_analysis aeron_window_analysis
                  fuel tvb pinfo endpoints state

/-! ## A worked capture

One transport, stream 10: frame 1 is a Data frame (term 2, offset 1000, frame length
1000, a whole message), frame 2 a Status frame reporting (term 2, offset 2000) with a
receiver window of 4096.  Both analyses are enabled. -/

def scenario_transport : aeron_transport_t :=
  aeron_transport_new 0 ⟨2, [10, 0, 0, 1]⟩ ⟨2, [10, 0, 0, 2]⟩ 7 40123 40124

def scenario_after_data : aeron_transport_t :=
  aeron_frame_apply true true ⟨false, 1⟩ scenario_transport (.data 0xC0 1000 1000 10 2)

def scenario_after_sm : aeron_transport_t :=
  aeron_frame_apply true true ⟨false, 2⟩ scenario_after_data (.sm 36 10 2 2000 4096)

/-! ## A frame of an older term

The same transport: frame 1 is a Data frame (term 2, offset 0, frame length 100),
frame 2 a Data frame of the previous term (term 1, offset 0, frame length 504). -/

def older_term_first : aeron_transport_t :=
  aeron_frame_apply true true ⟨false, 1⟩ scenario_transport (.data 0xC0 100 0 10 2)

def older_term_second : aeron_transport_t :=
  aeron_frame_apply true true ⟨false, 2⟩ older_term_first (.data 0xC0 504 0 10 1)

/-! ## A fragment sent twice

The same transport: frames 1 and 2 are Data frames of stream 10, both at (term 5,
offset 1000) with frame length 124. -/

def sent_twice_first : aeron_transport_t :=
  aeron_frame_apply true true ⟨false, 1⟩ scenario_transport (.data 0xC0 124 1000 10 5)

def sent_twice_second : aeron_transport_t :=
  aeron_frame_apply true true ⟨false, 2⟩ sent_twice_first (.data 0xC0 124 1000 10 5)

/-! ## Frames of the other kinds

The worked capture continued: frame 3 is a Pad frame (term 2, offset 2000, frame length
1000), or a NAK frame, or a Setup frame (term length 65536, MTU 4096), each of stream
10 and term 2. -/

def scenario_after_pad : aeron_transport_t :=
  aeron_frame_apply true true ⟨false, 3⟩ scenario_after_sm (.pad 1000 2000 10 2)

def scenario_after_nak : aeron_transport_t :=
  aeron_frame_apply true true ⟨false, 3⟩ scenario_after_sm (.nak 28 10 2)

def scenario_after_setup : aeron_transport_t :=
  aeron_frame_apply true true ⟨false, 3⟩ scenario_after_sm (.setup 40 10 2 65536 4096)

/-! ## The next-offset report

The values `aeron_next_offset_report` displays (lines 1678-1694): the offset after the
frame and the term id it lies in, shown when the stream, the term and the fragment of
the frame are known.  `length` is the rounded frame length. -/

def aeron_next_offset_report_next (transport : aeron_transport_t)
    (stream_id term_id term_offset length : Nat) : Option (Nat × Nat) :=
  match aeron_transport_stream_find transport stream_id with
  | none => none
  | some stream =>
    let term_length := if stream.term_length = 0 then length else stream.term_length
    match aeron_stream_term_find transport stream_id term_id,
        aeron_term_fragment_find transport stream_id term_id term_offset with
    | some _, some _ =>
      let next_offset := (term_offset + length) % 2 ^ 32
      if next_offset ≥ term_length then some (0, (term_id + 1) % 2 ^ 32)
      else some (next_offset, term_id)
    | _, _ => none

/-! ## Packets of a unicast session

The publisher 10.0.0.1:40123 sends to the subscriber 10.0.0.2:40124; the session id is
7, the stream id 10, the term id 5. -/

/-- The four bytes of a 32-bit value, little-endian. -/
def letohl_bytes (x : Nat) : List Nat :=
  [x % 256, x / 2 ^ 8 % 256, x / 2 ^ 16 % 256, x / 2 ^ 24 % 256]

/-- The 24 header bytes of a Pad or Data frame (lines 802-821). -/
def data_header_bytes (flags type frame_len term_offset session_id stream_id term_id : Nat) :
    List Nat :=
  [0, flags, type % 256, type / 256 % 256] ++ letohl_bytes frame_len ++
    letohl_bytes term_offset ++ letohl_bytes session_id ++ letohl_bytes stream_id ++
    letohl_bytes term_id

def publisher_endpoints : packet_endpoints :=
  { src := { type := AT_IPv4, data := [10, 0, 0, 1] },
    dst := { type := AT_IPv4, data := [10, 0, 0, 2] },
    srcport := 40123, destport := 40124, ptype := PT_UDP }

def publisher_cinfo : aeron_conversation_info_t :=
  { addr1 := { type := AT_IPv4, data := [10, 0, 0, 1] },
    addr2 := { type := AT_IPv4, data := [10, 0, 0, 2] },
    ptype := PT_UDP, port1 := 40123, port2 := 40124 }

/-- A Data frame with 8 bytes of payload (frame length 32) at the given term offset. -/
def data_frame_32 (term_offset : Nat) : List Nat :=
  data_header_bytes 0xC0 HDR_TYPE_DATA 32 term_offset 7 10 5 ++ List.replicate 8 0

/-- One packet that carries two Data frames, at term offsets 0 and 32. -/
def packet_two_data : tvbuff_t :=
  data_frame_32 0 ++ data_frame_32 32

/-- A Data frame, then a frame of the given unsupported type, then another Data
frame. -/
def packet_data_then (type : Nat) : tvbuff_t :=
  data_frame_32 0 ++ ([0, 0, type % 256, type / 256 % 256] ++ letohl_bytes 16 ++
    List.replicate 8 0) ++ data_frame_32 32

/-- A packet whose first frame is of the given type, followed by a Data frame. -/
def packet_first_then_data (type : Nat) : tvbuff_t :=
  ([0, 0, type % 256, type / 256 % 256] ++ letohl_bytes 16 ++ List.replicate 8 0) ++
    data_frame_32 0

/-- A Pad frame on the wire: the 24 header bytes, declaring a frame length of 1000 at
term offset 8. -/
def packet_pad_long : tvbuff_t :=
  data_header_bytes 0 HDR_TYPE_PAD 1000 8 7 10 5

/-- A Data frame with 100 bytes of payload (frame length 124) at term offset 0, padded
to 128 bytes. -/
def packet_data_124 : tvbuff_t :=
  data_header_bytes 0xC0 HDR_TYPE_DATA 124 0 7 10 5 ++ List.replicate 104 0

/-- A NAK frame that declares a frame length of 8, below the minimum header size. -/
def packet_nak_short : tvbuff_t :=
  [0, 0, 2, 0] ++ letohl_bytes 8 ++ letohl_bytes 7

/-- A Pad frame header with term offset 0. -/
def packet_pad_at_zero : tvbuff_t :=
  data_header_bytes 0 HDR_TYPE_PAD 1000 0 7 10 5

/-- A Data frame header that declares a frame length of 1000; the buffer ends after the
header. -/
def packet_data_truncated : tvbuff_t :=
  data_header_bytes 0xC0 HDR_TYPE_DATA 1000 0 7 10 5

/-- A Data frame header that declares the frame length 2^31. -/
def packet_data_huge : tvbuff_t :=
  data_header_bytes 0xC0 HDR_TYPE_DATA 2147483648 0 7 10 5

/-- Endpoints of a packet whose addresses are of another family (type 1, six bytes). -/
def other_family_endpoints : packet_endpoints :=
  { src := { type := 1, data := [0, 1, 2, 3, 4, 5] },
    dst := { type := 1, data := [0, 1, 2, 3, 4, 6] },
    srcport := 40123, destport := 40124, ptype := PT_UDP }

/-- The transport of the session in the state a run ends with. -/
def session_transport {α : Type} (run : Option (dissector_state × dissect_result α)) :
    Option aeron_transport_t :=
  match run with
  | some (state, _) => aeron_transport_find state publisher_cinfo 7
  | none => none

/-- Scenario A: a Setup frame announces term length 65536 for stream 10 (frame 1), then
the Data frame of `packet_data_124` is analysed (frame 2). -/
def scenario_a_setup : aeron_transport_t :=
  aeron_frame_apply true true ⟨false, 1⟩ scenario_transport (.setup 40 10 5 65536 4096)

def scenario_a_data : aeron_transport_t :=
  aeron_sequence_setup true true ⟨false, 2⟩ scenario_a_setup (aeron_data_sinfo 0xC0 124 0 10 5)

/-! ## A frame shown again

The worked transport: the first-visit Data frame 1 (frame length 1000), then the
first-visit Setup frame 2 that announces term length 0; after that, frame 1 is decoded
again with its visited flag set. -/

def revisit_before : aeron_transport_t :=
  aeron_frames_apply true true scenario_transport
    [(⟨false, 1⟩, .data 0xC0 1000 1000 10 2), (⟨false, 2⟩, .setup 40 10 2 0 4096)]

def revisit_after : aeron_transport_t :=
  aeron_frame_apply true true ⟨true, 1⟩ revisit_before (.data 0xC0 1000 1000 10 2)

/-! ## A packet with two Data frames, and a frame that ends its term

Stream 10 of the worked transport, term 5, with a Setup frame (frame 1) that announces
term length 65536.  In the first run frame 2 is a Data frame at offset 0 (frame length
512), frame 3 a Status frame reporting offset 512, and packet 4 carries two Data frames
of 512 bytes at offsets 512 and 1024.  In the second run frame 2 is a Data frame at
offset 65024 (frame length 256), frame 3 a Status frame reporting offset 65280, and
frame 4 a Data frame of 256 bytes at offset 65280, which ends at the end of the term;
frame 5 is the Data frame that follows it, at offset 0 of term 6. -/

def two_data_before : aeron_transport_t :=
  aeron_frames_apply true true scenario_transport
    [(⟨false, 1⟩, .setup 40 10 5 65536 4096), (⟨false, 2⟩, .data 0xC0 512 0 10 5),
      (⟨false, 3⟩, .sm 36 10 5 512 4096)]

def two_data_first : aeron_transport_t :=
  aeron_frame_apply true true ⟨false, 4⟩ two_data_before (.data 0xC0 512 512 10 5)

def two_data_second : aeron_transport_t :=
  aeron_frame_apply true true ⟨false, 4⟩ two_data_first (.data 0xC0 512 1024 10 5)

def term_end_before : aeron_transport_t :=
  aeron_frames_apply true true scenario_transport
    [(⟨false, 1⟩, .setup 40 10 5 65536 4096), (⟨false, 2⟩, .data 0xC0 256 65024 10 5),
      (⟨false, 3⟩, .sm 36 10 5 65280 4096)]

def term_end_frame : aeron_transport_t :=
  aeron_frame_apply true true ⟨false, 4⟩ term_end_before (.data 0xC0 256 65280 10 5)

def term_end_next : aeron_transport_t :=
  aeron_frame_apply true true ⟨false, 5⟩ term_end_frame (.data 0xC0 256 0 10 6)

/-! ## An Error frame behind a Data frame

An Error frame with frame length 32 and offending frame length 8: the 12 fixed header
bytes, the 8 bytes of the offending header, and 12 bytes of error string.  In the
packet it follows a Data frame of 32 bytes, so that it starts at offset 32. -/

def err_frame_32 : List Nat :=
  [0, 0, HDR_TYPE_ERR % 256, HDR_TYPE_ERR / 256 % 256] ++ letohl_bytes 32 ++ letohl_bytes 8 ++
    List.replicate 8 1 ++ List.replicate 12 65

def packet_data_then_err : tvbuff_t :=
  data_frame_32 0 ++ err_frame_32

/-! ## A NAK frame with frame length 0 behind a Data frame

One packet: a Data frame of 32 bytes, then the 28 bytes of a NAK frame (session 7,
stream 10, term 5) whose frame length field is 0. -/

def nak_frame_zero_length : List Nat :=
  [0, 0, HDR_TYPE_NAK % 256, HDR_TYPE_NAK / 256 % 256] ++ letohl_bytes 0 ++ letohl_bytes 7 ++
    letohl_bytes 10 ++ letohl_bytes 5 ++ letohl_bytes 0 ++ letohl_bytes 0

def packet_data_then_nak_zero : tvbuff_t :=
  data_frame_32 0 ++ nak_frame_zero_length

/-- The state after the Data frame of the packet has been processed as frame 1 of the
capture, starting from the state after `aeron_init`. -/
def nak_zero_after_data (aeron_sequence_analysis aeron_window_analysis : Bool) :
    dissector_state :=
  (dissect_aeron_data aeron_sequence_analysis aeron_window_analysis packet_data_then_nak_zero 0
    ⟨false, 1⟩ publisher_cinfo dissector_state_init).1

/-- The state after the NAK frame of the packet has then been processed once. -/
def nak_zero_after_nak (aeron_sequence_analysis aeron_window_analysis : Bool) :
    dissector_state :=
  (dissect_aeron_nak aeron_sequence_analysis aeron_window_analysis packet_data_then_nak_zero 32
    ⟨false, 1⟩ (aeron_setup_conversation_info_family publisher_endpoints HDR_TYPE_NAK AT_IPv4)
    (nak_zero_after_data aeron_sequence_analysis aeron_window_analysis)).1

/-! ## Two Status frames in one packet

The worked capture after its Data frame 1 (high position term 2, offset 2000; the
stream's term length is 1000).  Packet 2 carries two Status frames of stream 10, both
reporting (term 2, offset 1000): the first with receiver window 500, the second with
receiver window 4096. -/

def two_status_first : aeron_transport_t :=
  aeron_frame_apply true true ⟨false, 2⟩ scenario_after_data (.sm 36 10 2 1000 500)

def two_status_second : aeron_transport_t :=
  aeron_frame_apply true true ⟨false, 2⟩ two_status_first (.sm 36 10 2 1000 4096)

/-! ## Views used to state the properties -/

/-- The three message flags of the fragment at (stream id, term id, offset):
`is_data_frame`, `is_begin_msg`, `is_end_msg`; `none` when there is no such fragment. -/
def fragment_message_flags (transport : aeron_transport_t) (stream_id term_id offset : Nat) :
    Option (Bool × Bool × Bool) :=
  match aeron_term_fragment_find transport stream_id term_id offset with
  | some fragment => some (fragment.is_data_frame, fragment.is_begin_msg, fragment.is_end_msg)
  | none => none

/-- The last byte of an address, the one `aeron_setup_conversation_info` tests and
changes for a multicast destination. -/
def address_last_byte (addr : address) : Nat :=
  addr.data.getD (addr.data.length - 1) 0

/-- An address with its last byte replaced. -/
def address_with_last_byte (addr : address) (byte : Nat) : address :=
  { type := addr.type, data := addr.data.set (addr.data.length - 1) byte }

/-- The occurrence record of `frame` at the Stream level: `aeron_stream_frame_find` on the
stream that `aeron_transport_stream_find` returns. -/
def stream_frame_lookup (transport : aeron_transport_t) (stream_id frame : Nat) :
    Option aeron_frame_t :=
  match aeron_transport_stream_find transport stream_id with
  | some stream => aeron_stream_frame_find stream frame
  | none => none

/-- The occurrence record of `frame` at the Term level: `aeron_term_frame_find` on the
term that `aeron_stream_term_find` returns. -/
def term_frame_lookup (transport : aeron_transport_t) (stream_id term_id frame : Nat) :
    Option aeron_frame_t :=
  match aeron_stream_term_find transport stream_id term_id with
  | some term => aeron_term_frame_find term frame
  | none => none

/-- The occurrence record of `frame` at the Fragment level: `aeron_fragment_frame_find` on
the fragment that `aeron_term_fragment_find` returns. -/
def fragment_frame_lookup (transport : aeron_transport_t)
    (stream_id term_id offset frame : Nat) : Option aeron_frame_t :=
  match aeron_term_fragment_find transport stream_id term_id offset with
  | some fragment => aeron_fragment_frame_find fragment frame
  | none => none

/-- The stream a frame carrying `stream_id` is analysed against: the stored stream, or
the zeroed one that lines 1212-1216 create when the transport has none yet. -/
def stream_on_entry (transport : aeron_transport_t) (stream_id : Nat) : aeron_stream_t :=
  match aeron_transport_stream_find transport stream_id with
  | some stream => stream
  | none => aeron_stream_new stream_id

/-- The members of a stream that window analysis reads and writes. -/
def window_state (stream : aeron_stream_t) :
    Nat × aeron_pos_t × aeron_pos_t × Nat × Nat × wmem_tree_t aeron_stream_frame_analysis_t :=
  (stream.flags, stream.high, stream.completed, stream.receiver_window, stream.term_length,
    stream.analysis)

/-- What lines 1239-1442 do to the stream object itself, the fragment block left out:
position update, snapshot creation, snapshot fill and classification. -/
def aeron_sequence_setup_window (aeron_window_analysis : Bool) (pinfo : packet_info)
    (info : aeron_sequence_info_t) (term_id offset : Nat) (stream0 : aeron_stream_t) :
    aeron_stream_t :=
  let pdp := stream0.high
  let pdpv := (stream0.flags &&& AERON_STREAM_FLAGS_HIGH_VALID) != 0
  let prp := stream0.completed
  let prpv := (stream0.flags &&& AERON_STREAM_FLAGS_COMPLETED_VALID) != 0
  let cur_receiver_window := stream0.receiver_window
  let stream := aeron_sequence_setup_positions stream0 info term_id offset pdpv prpv
  let stream :=
    if aeron_sequence_setup_has_sfa aeron_window_analysis stream then
      aeron_stream_frame_analysis_add stream pinfo.num
    else stream
  if aeron_sequence_setup_has_sfa aeron_window_analysis stream then
    aeron_sequence_setup_snapshot stream pinfo info term_id offset
      pdp pdpv prp prpv cur_receiver_window
  else stream

/-- The occurrence chain of the fragment at (stream id, term id, offset): its frame
tree and its `last_frame`; a fragment that does not exist yet has the empty chain a
newly created one has. -/
def fragment_chain (transport : aeron_transport_t) (stream_id term_id offset : Nat) :
    wmem_tree_t aeron_frame_t × Option Nat :=
  match aeron_term_fragment_find transport stream_id term_id offset with
  | some fragment => (fragment.frame, fragment.last_frame)
  | none => ([], none)

/-- What lines 585-607 of `aeron_fragment_frame_add` do to a fragment's chain. -/
def fragment_chain_add (chain : wmem_tree_t aeron_frame_t × Option Nat) (frame : Nat) :
    wmem_tree_t aeron_frame_t × Option Nat :=
  match wmem_tree_lookup32 chain.1 frame with
  | some _ => chain
  | none =>
    match chain.2 with
    | none =>
      (wmem_tree_insert32 chain.1 frame
        { frame := frame, previous_frame := 0, next_frame := 0, retransmission := false },
        some frame)
    | some last =>
      (wmem_tree_insert32 chain.1 frame
        { frame := frame, previous_frame := last, next_frame := 0, retransmission := true },
        some frame)

/-- A first-visit Data frame that reports (stream id, term id, offset). -/
def is_fragment_hit (stream_id term_id offset : Nat) (p : packet_info × aeron_frame_fields) :
    Bool :=
  match p.2 with
  | .data _ _ term_offset sid tid =>
    p.1.visited == false && sid == stream_id && tid == term_id && term_offset == offset
  | _ => false

/-- What one frame does to the window members of stream `sid'`, given that stream as it
is on entry: the window step of `aeron_sequence_setup` for a first-visit Pad, Data or
Status frame of that stream with analysis enabled, and nothing otherwise. -/
def frame_window_step (sa wa : Bool) (pinfo : packet_info) (fields : aeron_frame_fields)
    (sid' : Nat) (s : aeron_stream_t) : aeron_stream_t :=
  if (sa || wa) = true ∧ pinfo.visited = false then
    match fields with
    | .pad frame_len term_offset stream_id term_id =>
      if stream_id = sid' then
        aeron_sequence_setup_window wa pinfo
          (aeron_pad_sinfo frame_len term_offset stream_id term_id) term_id term_offset s
      else s
    | .data flags frame_len term_offset stream_id term_id =>
      if stream_id = sid' then
        aeron_sequence_setup_window wa pinfo
          (aeron_data_sinfo flags frame_len term_offset stream_id term_id) term_id term_offset s
      else s
    | .sm _ stream_id term_id comp_offset rcv_window =>
      if stream_id = sid' then
        aeron_sequence_setup_window wa pinfo
          (aeron_sm_sinfo stream_id term_id comp_offset rcv_window) term_id comp_offset s
      else s
    | _ => s
  else s

/-- The consistency of a stream's validity flags with its cached positions: a position
whose flag is not set is still (0, 0), and a valid completed position comes with a
valid receiver window. -/
def stream_positions_consistent (s : aeron_stream_t) : Prop :=
  (s.flags &&& AERON_STREAM_FLAGS_HIGH_VALID = 0 → s.high = { term_id := 0, term_offset := 0 }) ∧
  (s.flags &&& AERON_STREAM_FLAGS_COMPLETED_VALID = 0 →
    s.completed = { term_id := 0, term_offset := 0 }) ∧
  (s.flags &&& AERON_STREAM_FLAGS_COMPLETED_VALID ≠ 0 →
    s.flags &&& AERON_STREAM_FLAGS_RECEIVER_WINDOW_VALID ≠ 0)

instance (s : aeron_stream_t) : Decidable (stream_positions_consistent s) := by
  unfold stream_positions_consistent
  exact inferInstance

/-- The snapshot stored for frame `frame` on stream `stream_id`, `none` when there is
none (or no such stream). -/
def stream_snapshot (transport : aeron_transport_t) (stream_id frame : Nat) :
    Option aeron_stream_frame_analysis_t :=
  aeron_stream_frame_analysis_find (stream_on_entry transport stream_id) frame

/-- The channel ids of the transports in the session tree of one conversation. -/
def session_channels (conv : conversation_t) : List Nat :=
  conv.session_tree.map (fun entry => entry.2.channel)

/-- The channel ids of all transports of the session, conversation by conversation. -/
def transport_channels : List conversation_t → List Nat
  | [] => []
  | conv :: rest => session_channels conv ++ transport_channels rest

/-- A run of `aeron_transport_add` calls, each with its conversation information, its
session id and its frame number. -/
def aeron_transport_adds (state : dissector_state) :
    List (aeron_conversation_info_t × Nat × Nat) → dissector_state
  | [] => state
  | (cinfo, session_id, frame) :: rest =>
    aeron_transport_adds (aeron_transport_add state cinfo session_id frame) rest

/-- The unsigned value of the `n` bytes at position `i` of the buffer, read
little-endian: byte `k` of the field has weight `256 ^ k`. -/
def little_endian_field (tvb : tvbuff_t) (i n : Nat) : Nat :=
  ((List.range n).map (fun k => tvb_byte tvb (i + k) * 256 ^ k)).sum

/-- The stream id, the sequence information, the term id and the offset that a Pad, Data
or Status frame hands to the window step of `aeron_sequence_setup`; `none` for the
frame kinds that hand over no offset. -/
def frame_window_info : aeron_frame_fields → Option (Nat × aeron_sequence_info_t × Nat × Nat)
  | .pad frame_len term_offset stream_id term_id =>
    some (stream_id, aeron_pad_sinfo frame_len term_offset stream_id term_id, term_id,
      term_offset)
  | .data flags frame_len term_offset stream_id term_id =>
    some (stream_id, aeron_data_sinfo flags frame_len term_offset stream_id term_id, term_id,
      term_offset)
  | .sm _ stream_id term_id comp_offset rcv_window =>
    some (stream_id, aeron_sm_sinfo stream_id term_id comp_offset rcv_window, term_id,
      comp_offset)
  | _ => none

/-! ## Theorems -/

theorem land_mask32 (x : Nat) : x &&& 0x00000000ffffffff = x % 2 ^ 32 := by
  have h := Nat.and_pow_two_sub_one_eq_mod x 32
  simpa using h

/-! ### The key/value store -/

theorem lookup_insert {α : Type} (t : wmem_tree_t α) (k k' : Nat) (v : α) :
    wmem_tree_lookup32 (wmem_tree_insert32 t k v) k' =
      if k' = k then some v else wmem_tree_lookup32 t k' := by
  induction t with
  | nil =>
    by_cases h : k' = k
    · simp [wmem_tree_insert32, wmem_tree_lookup32, h]
    · have h2 : ¬ k = k' := fun e => h e.symm
      simp [wmem_tree_insert32, wmem_tree_lookup32, h, h2]
  | cons p rest ih =>
    obtain ⟨k0, v0⟩ := p
    by_cases h0 : k0 = k
    · subst h0
      by_cases h : k' = k0
      · simp [wmem_tree_insert32, wmem_tree_lookup32, h]
      · have h2 : ¬ k0 = k' := fun e => h e.symm
        simp [wmem_tree_insert32, wmem_tree_lookup32, h, h2]
    · by_cases h1 : k0 = k'
      · have h3 : ¬ k' = k := fun e => h0 (h1.trans e)
        simp [wmem_tree_insert32, wmem_tree_lookup32, h0, h1, h3]
      · simp [wmem_tree_insert32, wmem_tree_lookup32, h0, h1, ih]

theorem lookup_update {α : Type} (t : wmem_tree_t α) (k k' : Nat) (f : α → α) :
    wmem_tree_lookup32 (wmem_tree_update t k f) k' =
      if k' = k then (wmem_tree_lookup32 t k).map f else wmem_tree_lookup32 t k' := by
  unfold wmem_tree_update
  cases h : wmem_tree_lookup32 t k with
  | none =>
    by_cases hk : k' = k
    · subst hk; simp [h]
    · simp [hk]
  | some v =>
    simp only [lookup_insert]
    by_cases hk : k' = k
    · simp [hk]
    · simp [hk]

/-! ### Streams inside a transport -/

theorem find_stream_write (transport : aeron_transport_t) (sid sid' : Nat)
    (f : aeron_stream_t → aeron_stream_t) :
    aeron_transport_stream_find (stream_write transport sid f) sid' =
      if sid' = sid then (aeron_transport_stream_find transport sid).map f
      else aeron_transport_stream_find transport sid' := by
  simp [aeron_transport_stream_find, stream_write, lookup_update]

theorem find_transport_frame_add (transport : aeron_transport_t) (frame sid' : Nat) :
    aeron_transport_stream_find (aeron_transport_frame_add transport frame) sid' =
      aeron_transport_stream_find transport sid' := by
  simp [aeron_transport_stream_find, aeron_transport_frame_add]

theorem find_stream_add (transport : aeron_transport_t) (sid sid' : Nat) :
    aeron_transport_stream_find (aeron_transport_stream_add transport sid) sid' =
      if sid' = sid then some (stream_on_entry transport sid)
      else aeron_transport_stream_find transport sid' := by
  unfold aeron_transport_stream_add stream_on_entry
  cases h : aeron_transport_stream_find transport sid with
  | none =>
    simp only [aeron_transport_stream_find, lookup_insert]
  | some s =>
    by_cases hk : sid' = sid
    · subst hk; simp [h]
    · simp [hk]

/-- A stream write that leaves the window members alone is invisible to window
analysis. -/
theorem window_stream_write (transport : aeron_transport_t) (sid sid' : Nat)
    (f : aeron_stream_t → aeron_stream_t) (hf : ∀ s, window_state (f s) = window_state s) :
    (aeron_transport_stream_find (stream_write transport sid f) sid').map window_state =
      (aeron_transport_stream_find transport sid').map window_state := by
  rw [find_stream_write]
  by_cases hk : sid' = sid
  · subst hk
    cases h : aeron_transport_stream_find transport sid' with
    | none => simp
    | some s => simp [hf]
  · simp [hk]

theorem window_term_write (transport : aeron_transport_t) (sid tid sid' : Nat)
    (f : aeron_term_t → aeron_term_t) :
    (aeron_transport_stream_find (term_write transport sid tid f) sid').map window_state =
      (aeron_transport_stream_find transport sid').map window_state := by
  unfold term_write
  exact window_stream_write _ _ _ _ (fun s => rfl)

theorem window_fragment_write (transport : aeron_transport_t) (sid tid off sid' : Nat)
    (f : aeron_fragment_t → aeron_fragment_t) :
    (aeron_transport_stream_find (fragment_write transport sid tid off f) sid').map window_state =
      (aeron_transport_stream_find transport sid').map window_state := by
  unfold fragment_write
  exact window_term_write _ _ _ _ _

theorem window_stream_frame_add (transport : aeron_transport_t) (sid frame sid' : Nat) :
    (aeron_transport_stream_find (aeron_stream_frame_add transport sid frame) sid').map
        window_state =
      (aeron_transport_stream_find transport sid').map window_state := by
  unfold aeron_stream_frame_add
  simp only [find_transport_frame_add]
  exact window_stream_write _ _ _ _ (fun s => rfl)

theorem window_term_frame_add (transport : aeron_transport_t) (sid tid frame sid' : Nat) :
    (aeron_transport_stream_find (aeron_term_frame_add transport sid tid frame) sid').map
        window_state =
      (aeron_transport_stream_find transport sid').map window_state := by
  unfold aeron_term_frame_add
  simp only [window_stream_frame_add, window_term_write]

theorem window_term_fragment_add (transport : aeron_transport_t) (sid tid off len dlen sid' : Nat) :
    (aeron_transport_stream_find
        (aeron_term_fragment_add transport sid tid off len dlen) sid').map window_state =
      (aeron_transport_stream_find transport sid').map window_state := by
  unfold aeron_term_fragment_add
  cases aeron_term_fragment_find transport sid tid off with
  | none => simp only [window_term_write]
  | some f => rfl

theorem window_fragment_frame_add (transport : aeron_transport_t) (sid tid off frame sid' : Nat) :
    (aeron_transport_stream_find
        (aeron_fragment_frame_add transport sid tid off frame) sid').map window_state =
      (aeron_transport_stream_find transport sid').map window_state := by
  unfold aeron_fragment_frame_add
  split
  · rfl
  · split
    · rfl
    · simp only [window_fragment_write, window_term_frame_add]

theorem window_setup_fragment (transport : aeron_transport_t) (info : aeron_sequence_info_t)
    (sid tid off frame sid' : Nat) :
    (aeron_transport_stream_find
        (aeron_sequence_setup_fragment transport info sid tid off frame) sid').map window_state =
      (aeron_transport_stream_find transport sid').map window_state := by
  unfold aeron_sequence_setup_fragment
  simp only [window_fragment_frame_add, window_fragment_write]
  cases aeron_term_fragment_find transport sid tid off with
  | none => simp only [window_term_fragment_add]
  | some f => rfl

/-! ### The window members through `aeron_sequence_setup` -/

theorem window_state_eq_iff (s t : aeron_stream_t) :
    window_state s = window_state t ↔
      s.flags = t.flags ∧ s.high = t.high ∧ s.completed = t.completed ∧
      s.receiver_window = t.receiver_window ∧ s.term_length = t.term_length ∧
      s.analysis = t.analysis := by
  simp [window_state]

theorem window_snapshot_congr (s t : aeron_stream_t) (pinfo : packet_info)
    (info : aeron_sequence_info_t) (tid off : Nat) (pdp : aeron_pos_t) (pdpv : Bool)
    (prp : aeron_pos_t) (prpv : Bool) (crw : Nat) (h : window_state s = window_state t) :
    window_state (aeron_sequence_setup_snapshot s pinfo info tid off pdp pdpv prp prpv crw) =
      window_state (aeron_sequence_setup_snapshot t pinfo info tid off pdp pdpv prp prpv crw) := by
  rw [window_state_eq_iff] at h
  obtain ⟨h1, h2, h3, h4, h5, h6⟩ := h
  have hfill : ∀ sfa, aeron_sequence_setup_fill s info sfa = aeron_sequence_setup_fill t info sfa := by
    intro sfa
    simp only [aeron_sequence_setup_fill, h1, h2, h3, h4, h5]
  simp only [window_state, aeron_sequence_setup_snapshot, h1, h2, h3, h4, h5, h6, hfill]

theorem has_sfa_congr (wa : Bool) (s t : aeron_stream_t) (h : window_state s = window_state t) :
    aeron_sequence_setup_has_sfa wa s = aeron_sequence_setup_has_sfa wa t := by
  rw [window_state_eq_iff] at h
  simp only [aeron_sequence_setup_has_sfa, h.1]

theorem window_positions_congr (s t : aeron_stream_t) (info : aeron_sequence_info_t)
    (tid off : Nat) (pdpv prpv : Bool) (h : window_state s = window_state t) :
    window_state (aeron_sequence_setup_positions s info tid off pdpv prpv) =
      window_state (aeron_sequence_setup_positions t info tid off pdpv prpv) := by
  rw [window_state_eq_iff] at h
  obtain ⟨h1, h2, h3, h4, h5, h6⟩ := h
  unfold aeron_sequence_setup_positions
  simp only [h2, h3]
  split_ifs <;> simp [window_state, h1, h2, h3, h4, h5, h6]

theorem window_analysis_add_congr (s t : aeron_stream_t) (frame : Nat)
    (h : window_state s = window_state t) :
    window_state (aeron_stream_frame_analysis_add s frame) =
      window_state (aeron_stream_frame_analysis_add t frame) := by
  rw [window_state_eq_iff] at h
  obtain ⟨h1, h2, h3, h4, h5, h6⟩ := h
  unfold aeron_stream_frame_analysis_add aeron_stream_frame_analysis_find
  rw [h6]
  cases wmem_tree_lookup32 t.analysis frame with
  | none => simp [window_state, h1, h2, h3, h4, h5, h6]
  | some a => simp [window_state, h1, h2, h3, h4, h5, h6]

theorem window_setup_window_congr (wa : Bool) (pinfo : packet_info) (info : aeron_sequence_info_t)
    (tid off : Nat) (s t : aeron_stream_t) (h : window_state s = window_state t) :
    window_state (aeron_sequence_setup_window wa pinfo info tid off s) =
      window_state (aeron_sequence_setup_window wa pinfo info tid off t) := by
  have h0 := h
  rw [window_state_eq_iff] at h0
  obtain ⟨h1, h2, h3, h4, h5, h6⟩ := h0
  unfold aeron_sequence_setup_window
  simp only [h1, h2, h3, h4]
  have hp := window_positions_congr s t info tid off
    ((t.flags &&& AERON_STREAM_FLAGS_HIGH_VALID) != 0)
    ((t.flags &&& AERON_STREAM_FLAGS_COMPLETED_VALID) != 0) h
  have hs := has_sfa_congr wa _ _ hp
  cases hc : aeron_sequence_setup_has_sfa wa
      (aeron_sequence_setup_positions t info tid off
        ((t.flags &&& AERON_STREAM_FLAGS_HIGH_VALID) != 0)
        ((t.flags &&& AERON_STREAM_FLAGS_COMPLETED_VALID) != 0))
  · simp only [hs, hc, Bool.false_eq_true, if_false]
    exact hp
  · simp only [hs, hc, if_true]
    have ha := window_analysis_add_congr _ _ pinfo.num hp
    have hs2 := has_sfa_congr wa _ _ ha
    rw [hs2]
    split_ifs
    · exact window_snapshot_congr _ _ _ _ _ _ _ _ _ _ _ ha
    · exact ha

theorem window_setup_offset (wa : Bool) (pinfo : packet_info) (transport : aeron_transport_t)
    (info : aeron_sequence_info_t) (sid tid off : Nat) (s0 : aeron_stream_t)
    (h : aeron_transport_stream_find transport sid = some s0) :
    (aeron_transport_stream_find
        (aeron_sequence_setup_offset wa pinfo transport info sid tid off s0) sid).map
        window_state =
      some (window_state (aeron_sequence_setup_window wa pinfo info tid off s0)) := by
  unfold aeron_sequence_setup_offset aeron_sequence_setup_window
  simp only [find_stream_write, if_true, h, Option.map_some']
  generalize hs1 : aeron_sequence_setup_positions s0 info tid off
    ((s0.flags &&& AERON_STREAM_FLAGS_HIGH_VALID) != 0)
    ((s0.flags &&& AERON_STREAM_FLAGS_COMPLETED_VALID) != 0) = s1
  generalize hs2 : (if aeron_sequence_setup_has_sfa wa s1 = true then
    aeron_stream_frame_analysis_add s1 pinfo.num else s1) = s2
  generalize htr2 : stream_write (stream_write transport sid fun stream =>
      aeron_sequence_setup_positions stream info tid off
        ((s0.flags &&& AERON_STREAM_FLAGS_HIGH_VALID) != 0)
        ((s0.flags &&& AERON_STREAM_FLAGS_COMPLETED_VALID) != 0)) sid
      (fun stream => if aeron_sequence_setup_has_sfa wa stream = true then
        aeron_stream_frame_analysis_add stream pinfo.num else stream) = tr2
  have hf2 : aeron_transport_stream_find tr2 sid = some s2 := by
    rw [← htr2, find_stream_write, find_stream_write]
    simp [h, hs1, hs2]
  generalize htr3 : (if info.type = HDR_TYPE_DATA then
      aeron_sequence_setup_fragment tr2 info sid tid off pinfo.num else tr2) = tr3
  have hf3 : (aeron_transport_stream_find tr3 sid).map window_state = some (window_state s2) := by
    rw [← htr3]
    split_ifs
    · rw [window_setup_fragment, hf2]; rfl
    · rw [hf2]; rfl
  cases hs3 : aeron_transport_stream_find tr3 sid with
  | none => rw [hs3] at hf3; simp at hf3
  | some s3 =>
    rw [hs3] at hf3
    simp only [Option.map_some', Option.some.injEq] at hf3
    by_cases hc : aeron_sequence_setup_has_sfa wa s2 = true
    · simp only [hc, if_true, find_stream_write, hs3, Option.map_some', Option.some.injEq]
      exact window_snapshot_congr _ _ _ _ _ _ _ _ _ _ _ hf3
    · simp only [hc, Bool.false_eq_true, if_false, hs3, Option.map_some', Option.some.injEq]
      exact hf3

theorem window_stream_term_add (transport : aeron_transport_t) (sid tid sid' : Nat) :
    (aeron_transport_stream_find (aeron_stream_term_add transport sid tid) sid').map window_state =
      (aeron_transport_stream_find transport sid').map window_state := by
  unfold aeron_stream_term_add
  split
  · rfl
  · exact window_stream_write _ _ _ _ (fun s => rfl)

/-- The stream found after lines 1212-1225 (stream and term looked up or created) has
the window members of the stream the frame is analysed against. -/
theorem window_after_lookup (transport : aeron_transport_t) (sid tid : Nat) :
    let tr1 := match aeron_transport_stream_find transport sid with
      | some _ => transport
      | none => aeron_transport_stream_add transport sid
    let tr2 := match aeron_stream_term_find tr1 sid tid with
      | some _ => tr1
      | none => aeron_stream_term_add tr1 sid tid
    (aeron_transport_stream_find tr2 sid).map window_state =
      some (window_state (stream_on_entry transport sid)) := by
  intro tr1 tr2
  have h1 : aeron_transport_stream_find tr1 sid = some (stream_on_entry transport sid) := by
    show aeron_transport_stream_find (match aeron_transport_stream_find transport sid with
      | some _ => transport
      | none => aeron_transport_stream_add transport sid) sid = _
    cases h : aeron_transport_stream_find transport sid with
    | none => simp only [find_stream_add, if_true]
    | some s => simp only [h, stream_on_entry]
  show (aeron_transport_stream_find (match aeron_stream_term_find tr1 sid tid with
      | some _ => tr1
      | none => aeron_stream_term_add tr1 sid tid) sid).map window_state = _
  cases aeron_stream_term_find tr1 sid tid with
  | none => simp only [window_stream_term_add, h1, Option.map_some']
  | some t => simp only [h1, Option.map_some']

/-- A first-visit frame that carries a stream id, a term id and an offset changes the
window members of its stream exactly as `aeron_sequence_setup_window` says. -/
theorem window_setup (sa wa : Bool) (pinfo : packet_info) (transport : aeron_transport_t)
    (info : aeron_sequence_info_t) (sid tid off : Nat)
    (hen : (sa || wa) = true) (hv : pinfo.visited = false)
    (h1 : info.stream_id = some sid) (h2 : info.term_id = some tid)
    (h3 : info.offset = some off) :
    (aeron_transport_stream_find (aeron_sequence_setup sa wa pinfo transport info) sid).map
        window_state =
      some (window_state
        (aeron_sequence_setup_window wa pinfo info tid off (stream_on_entry transport sid))) := by
  have hl := window_after_lookup transport sid tid
  simp only at hl
  unfold aeron_sequence_setup
  simp only [hen, hv, h1, h2, h3, if_true]
  generalize (match aeron_stream_term_find
      (match aeron_transport_stream_find transport sid with
        | some _ => transport
        | none => aeron_transport_stream_add transport sid) sid tid with
      | some _ => (match aeron_transport_stream_find transport sid with
        | some _ => transport
        | none => aeron_transport_stream_add transport sid)
      | none => aeron_stream_term_add (match aeron_transport_stream_find transport sid with
        | some _ => transport
        | none => aeron_transport_stream_add transport sid) sid tid) = tr2 at hl ⊢
  cases hs : aeron_transport_stream_find tr2 sid with
  | none => rw [hs] at hl; simp at hl
  | some s0 =>
    rw [hs] at hl
    simp only [Option.map_some', Option.some.injEq] at hl
    simp only [window_setup_offset wa pinfo tr2 info sid tid off s0 hs, Option.some.injEq]
    exact window_setup_window_congr _ _ _ _ _ _ _ hl

/-! ### Flag bits -/

theorem and_two_pow_ne_zero (n i : Nat) : n &&& 2 ^ i ≠ 0 ↔ n.testBit i = true := by
  rw [Nat.and_two_pow]
  cases n.testBit i <;> simp

theorem stream_flags_both_valid (n : Nat) :
    (n &&& (AERON_STREAM_FLAGS_HIGH_VALID ||| AERON_STREAM_FLAGS_COMPLETED_VALID)
        == (AERON_STREAM_FLAGS_HIGH_VALID ||| AERON_STREAM_FLAGS_COMPLETED_VALID)) = true ↔
      (n &&& AERON_STREAM_FLAGS_HIGH_VALID ≠ 0 ∧ n &&& AERON_STREAM_FLAGS_COMPLETED_VALID ≠ 0) := by
  have h3 : n &&& 3 = n % 4 := by
    have h := Nat.and_pow_two_sub_one_eq_mod n 2
    simpa using h
  have h1 : n &&& 1 = n % 2 := Nat.and_one_is_mod n
  have h2 : n &&& 2 = (n / 2 % 2) * 2 := by
    have h := Nat.and_two_pow n 1
    rw [Nat.testBit_to_div_mod] at h
    simp only [pow_one] at h
    rw [h]
    by_cases hb : n / 2 % 2 = 1
    · simp [hb]
    · have : n / 2 % 2 = 0 := by omega
      simp [this]
  have e3 : AERON_STREAM_FLAGS_HIGH_VALID ||| AERON_STREAM_FLAGS_COMPLETED_VALID = 3 := by decide
  have e1 : AERON_STREAM_FLAGS_HIGH_VALID = 1 := rfl
  have e2 : AERON_STREAM_FLAGS_COMPLETED_VALID = 2 := rfl
  rw [e3, e1, e2, beq_iff_eq, h3, h1, h2]
  omega

/-! ### The stream after the window step -/

theorem positions_term_length (s : aeron_stream_t) (info : aeron_sequence_info_t)
    (tid off : Nat) (pdpv prpv : Bool) :
    (aeron_sequence_setup_positions s info tid off pdpv prpv).term_length = s.term_length ∧
    (aeron_sequence_setup_positions s info tid off pdpv prpv).analysis = s.analysis := by
  unfold aeron_sequence_setup_positions
  dsimp only
  split_ifs <;> exact ⟨rfl, rfl⟩

theorem analysis_add_fields (s : aeron_stream_t) (frame : Nat) :
    (aeron_stream_frame_analysis_add s frame).flags = s.flags ∧
    (aeron_stream_frame_analysis_add s frame).high = s.high ∧
    (aeron_stream_frame_analysis_add s frame).completed = s.completed ∧
    (aeron_stream_frame_analysis_add s frame).receiver_window = s.receiver_window ∧
    (aeron_stream_frame_analysis_add s frame).term_length = s.term_length := by
  unfold aeron_stream_frame_analysis_add
  split <;> simp

theorem analysis_add_lookup (s : aeron_stream_t) (frame : Nat) :
    wmem_tree_lookup32 (aeron_stream_frame_analysis_add s frame).analysis frame =
      some ((wmem_tree_lookup32 s.analysis frame).getD (aeron_stream_frame_analysis_new frame)) := by
  unfold aeron_stream_frame_analysis_add aeron_stream_frame_analysis_find
  cases h : wmem_tree_lookup32 s.analysis frame with
  | none => simp [lookup_insert]
  | some a => simp [h]

theorem has_sfa_analysis_add (wa : Bool) (s : aeron_stream_t) (frame : Nat) :
    aeron_sequence_setup_has_sfa wa (aeron_stream_frame_analysis_add s frame) =
      aeron_sequence_setup_has_sfa wa s := by
  simp only [aeron_sequence_setup_has_sfa, (analysis_add_fields s frame).1]

theorem fill_analysis_add (s : aeron_stream_t) (frame : Nat) (info : aeron_sequence_info_t)
    (sfa : aeron_stream_frame_analysis_t) :
    aeron_sequence_setup_fill (aeron_stream_frame_analysis_add s frame) info sfa =
      aeron_sequence_setup_fill s info sfa := by
  obtain ⟨h1, h2, h3, h4, h5⟩ := analysis_add_fields s frame
  simp only [aeron_sequence_setup_fill, h1, h2, h3, h4, h5]

/-- The scalar window members after the step are those the position update left. -/
theorem setup_window_scalars (wa : Bool) (pinfo : packet_info) (info : aeron_sequence_info_t)
    (tid off : Nat) (s : aeron_stream_t) :
    let s1 := aeron_sequence_setup_positions s info tid off
      ((s.flags &&& AERON_STREAM_FLAGS_HIGH_VALID) != 0)
      ((s.flags &&& AERON_STREAM_FLAGS_COMPLETED_VALID) != 0)
    let r := aeron_sequence_setup_window wa pinfo info tid off s
    r.flags = s1.flags ∧ r.high = s1.high ∧ r.completed = s1.completed ∧
      r.receiver_window = s1.receiver_window ∧ r.term_length = s.term_length := by
  intro s1 r
  have ht := (positions_term_length s info tid off
      ((s.flags &&& AERON_STREAM_FLAGS_HIGH_VALID) != 0)
      ((s.flags &&& AERON_STREAM_FLAGS_COMPLETED_VALID) != 0)).1
  obtain ⟨h1, h2, h3, h4, h5⟩ := analysis_add_fields s1 pinfo.num
  show (aeron_sequence_setup_window wa pinfo info tid off s).flags = s1.flags ∧
    (aeron_sequence_setup_window wa pinfo info tid off s).high = s1.high ∧
    (aeron_sequence_setup_window wa pinfo info tid off s).completed = s1.completed ∧
    (aeron_sequence_setup_window wa pinfo info tid off s).receiver_window = s1.receiver_window ∧
    (aeron_sequence_setup_window wa pinfo info tid off s).term_length = s.term_length
  unfold aeron_sequence_setup_window
  simp only
  cases hc : aeron_sequence_setup_has_sfa wa s1
  · simp only [s1] at hc
    simp only [hc, Bool.false_eq_true, if_false]
    refine ⟨?_, ?_, ?_, ?_, ?_⟩ <;> trivial
  · simp only [s1] at hc
    simp only [hc, if_true, has_sfa_analysis_add, aeron_sequence_setup_snapshot]
    refine ⟨?_, ?_, ?_, ?_, ?_⟩ <;>
      first | trivial | exact h1 | exact h2 | exact h3 | exact h4 | exact h5.trans ht

/-- Without both validity flags the analysis tree is left as it was. -/
theorem setup_window_analysis_skip (wa : Bool) (pinfo : packet_info)
    (info : aeron_sequence_info_t) (tid off : Nat) (s : aeron_stream_t)
    (hc : aeron_sequence_setup_has_sfa wa (aeron_sequence_setup_positions s info tid off
      ((s.flags &&& AERON_STREAM_FLAGS_HIGH_VALID) != 0)
      ((s.flags &&& AERON_STREAM_FLAGS_COMPLETED_VALID) != 0)) = false) :
    (aeron_sequence_setup_window wa pinfo info tid off s).analysis = s.analysis := by
  unfold aeron_sequence_setup_window
  simp only [hc, Bool.false_eq_true, if_false]
  exact (positions_term_length s info tid off _ _).2

/-- With both validity flags the snapshot stored under the frame number is the
classified, filled snapshot; it starts from the one already stored there, or from a
zeroed one. -/
theorem setup_window_analysis_made (wa : Bool) (pinfo : packet_info)
    (info : aeron_sequence_info_t) (tid off : Nat) (s : aeron_stream_t)
    (hc : aeron_sequence_setup_has_sfa wa (aeron_sequence_setup_positions s info tid off
      ((s.flags &&& AERON_STREAM_FLAGS_HIGH_VALID) != 0)
      ((s.flags &&& AERON_STREAM_FLAGS_COMPLETED_VALID) != 0)) = true) :
    wmem_tree_lookup32 (aeron_sequence_setup_window wa pinfo info tid off s).analysis pinfo.num =
      some (aeron_sequence_setup_classify s.term_length info tid off s.high
        ((s.flags &&& AERON_STREAM_FLAGS_HIGH_VALID) != 0) s.completed
        ((s.flags &&& AERON_STREAM_FLAGS_COMPLETED_VALID) != 0) s.receiver_window
        (aeron_sequence_setup_fill (aeron_sequence_setup_positions s info tid off
            ((s.flags &&& AERON_STREAM_FLAGS_HIGH_VALID) != 0)
            ((s.flags &&& AERON_STREAM_FLAGS_COMPLETED_VALID) != 0)) info
          ((wmem_tree_lookup32 s.analysis pinfo.num).getD
            (aeron_stream_frame_analysis_new pinfo.num)))) := by
  obtain ⟨ht, ha⟩ := positions_term_length s info tid off
      ((s.flags &&& AERON_STREAM_FLAGS_HIGH_VALID) != 0)
      ((s.flags &&& AERON_STREAM_FLAGS_COMPLETED_VALID) != 0)
  unfold aeron_sequence_setup_window
  simp only [hc, if_true, has_sfa_analysis_add, aeron_sequence_setup_snapshot, lookup_update,
    analysis_add_lookup, Option.map_some', fill_analysis_add, (analysis_add_fields _ _).2.2.2.2,
    ht, ha]

/-- The stream of a first-visit frame that carries a stream id, a term id and an offset
is stored after `aeron_sequence_setup`, with the window members of the window step. -/
theorem setup_stream_stored (sa wa : Bool) (pinfo : packet_info) (transport : aeron_transport_t)
    (info : aeron_sequence_info_t) (sid tid off : Nat)
    (hen : (sa || wa) = true) (hv : pinfo.visited = false)
    (h1 : info.stream_id = some sid) (h2 : info.term_id = some tid)
    (h3 : info.offset = some off) :
    ∃ s', aeron_transport_stream_find (aeron_sequence_setup sa wa pinfo transport info) sid =
        some s' ∧
      window_state s' = window_state
        (aeron_sequence_setup_window wa pinfo info tid off (stream_on_entry transport sid)) := by
  have h := window_setup sa wa pinfo transport info sid tid off hen hv h1 h2 h3
  cases hs : aeron_transport_stream_find (aeron_sequence_setup sa wa pinfo transport info) sid with
  | none => rw [hs] at h; simp at h
  | some s' =>
    rw [hs] at h
    simp only [Option.map_some', Option.some.injEq] at h
    exact ⟨s', rfl, h⟩

/-! ### Settled claims -/

/-- C2: a first-visit Data frame for an older term with a larger rounded offset.  The
stream's high position is (term 2, offset 104) after frame 1; frame 2 reports
(term 1, offset 504), which is below it in `aeron_pos_compare` order, yet the cached
high position becomes (term 2, offset 504), a position no frame reported, instead of
the maximum (term 2, offset 104). -/
theorem high_update_older_term_not_max :
    (aeron_transport_stream_find older_term_first 10).map (fun s => (s.flags, s.high)) =
        some (AERON_STREAM_FLAGS_HIGH_VALID, ⟨2, 104⟩) ∧
      (aeron_transport_stream_find older_term_second 10).map (fun s => s.high) =
        some ⟨2, 504⟩ ∧
      aeron_pos_compare ⟨1, 504⟩ ⟨2, 104⟩ = -1 ∧
      (if aeron_pos_compare ⟨2, 104⟩ ⟨1, 504⟩ ≥ 0 then (⟨2, 104⟩ : aeron_pos_t) else ⟨1, 504⟩) =
        ⟨2, 104⟩ := by
  decide

theorem has_sfa_true_iff (s : aeron_stream_t) :
    aeron_sequence_setup_has_sfa true s = true ↔
      (s.flags &&& AERON_STREAM_FLAGS_HIGH_VALID ≠ 0 ∧
        s.flags &&& AERON_STREAM_FLAGS_COMPLETED_VALID ≠ 0) := by
  unfold aeron_sequence_setup_has_sfa
  rw [Bool.true_and]
  exact stream_flags_both_valid s.flags

/-- C3: with window analysis enabled, a first-visit frame that carries a stream id, a
term id and an offset (every Data, Pad and Status frame does), on a stream that has no
snapshot for this frame number yet, gets a snapshot if and only if the stream's
HIGH_VALID and COMPLETED_VALID flags are both set after the position update; when one
is missing the analysis tree is left exactly as it was.  The function is total, so
nothing is signalled in either case. -/
theorem snapshot_created_iff_both_valid (sa : Bool) (pinfo : packet_info)
    (transport : aeron_transport_t) (info : aeron_sequence_info_t) (sid tid off : Nat)
    (hv : pinfo.visited = false)
    (h1 : info.stream_id = some sid) (h2 : info.term_id = some tid)
    (h3 : info.offset = some off)
    (hnew : aeron_stream_frame_analysis_find (stream_on_entry transport sid) pinfo.num = none) :
    ∃ s', aeron_transport_stream_find (aeron_sequence_setup sa true pinfo transport info) sid =
        some s' ∧
      ((aeron_stream_frame_analysis_find s' pinfo.num).isSome = true ↔
        (s'.flags &&& AERON_STREAM_FLAGS_HIGH_VALID ≠ 0 ∧
          s'.flags &&& AERON_STREAM_FLAGS_COMPLETED_VALID ≠ 0)) ∧
      (¬ (s'.flags &&& AERON_STREAM_FLAGS_HIGH_VALID ≠ 0 ∧
          s'.flags &&& AERON_STREAM_FLAGS_COMPLETED_VALID ≠ 0) →
        s'.analysis = (stream_on_entry transport sid).analysis) := by
  obtain ⟨s', hs', hw⟩ := setup_stream_stored sa true pinfo transport info sid tid off
    (by simp) hv h1 h2 h3
  refine ⟨s', hs', ?_⟩
  rw [window_state_eq_iff] at hw
  obtain ⟨hf, -, -, -, -, ha⟩ := hw
  obtain ⟨hf2, -, -, -, -⟩ :=
    setup_window_scalars true pinfo info tid off (stream_on_entry transport sid)
  rw [hf2] at hf
  rw [hf, ← has_sfa_true_iff]
  unfold aeron_stream_frame_analysis_find at hnew ⊢
  rw [ha]
  cases hc : aeron_sequence_setup_has_sfa true (aeron_sequence_setup_positions
      (stream_on_entry transport sid) info tid off
      (((stream_on_entry transport sid).flags &&& AERON_STREAM_FLAGS_HIGH_VALID) != 0)
      (((stream_on_entry transport sid).flags &&& AERON_STREAM_FLAGS_COMPLETED_VALID) != 0))
  · rw [setup_window_analysis_skip true pinfo info tid off _ hc, hnew]
    simp
  · rw [setup_window_analysis_made true pinfo info tid off _ hc]
    simp

theorem classify_keeps_fields (L : Nat) (info : aeron_sequence_info_t) (tid off : Nat)
    (pdp : aeron_pos_t) (pdpv : Bool) (prp : aeron_pos_t) (prpv : Bool) (crw : Nat)
    (sfa : aeron_stream_frame_analysis_t) :
    let r := aeron_sequence_setup_classify L info tid off pdp pdpv prp prpv crw sfa
    r.frame = sfa.frame ∧ r.high = sfa.high ∧ r.completed = sfa.completed ∧
      r.receiver_window = sfa.receiver_window ∧ r.outstanding_bytes = sfa.outstanding_bytes := by
  intro r
  show (aeron_sequence_setup_classify L info tid off pdp pdpv prp prpv crw sfa).frame = _ ∧
    (aeron_sequence_setup_classify L info tid off pdp pdpv prp prpv crw sfa).high = _ ∧
    (aeron_sequence_setup_classify L info tid off pdp pdpv prp prpv crw sfa).completed = _ ∧
    (aeron_sequence_setup_classify L info tid off pdp pdpv prp prpv crw sfa).receiver_window = _ ∧
    (aeron_sequence_setup_classify L info tid off pdp pdpv prp prpv crw sfa).outstanding_bytes = _
  unfold aeron_sequence_setup_classify
  dsimp only
  split_ifs <;> exact ⟨rfl, rfl, rfl, rfl, rfl⟩

theorem fill_sets_fields (s : aeron_stream_t) (info : aeron_sequence_info_t)
    (sfa : aeron_stream_frame_analysis_t)
    (hty : info.type = HDR_TYPE_DATA ∨ info.type = HDR_TYPE_PAD ∨ info.type = HDR_TYPE_SM) :
    let r := aeron_sequence_setup_fill s info sfa
    r.frame = sfa.frame ∧ r.high = s.high ∧ r.completed = s.completed ∧
      r.receiver_window = s.receiver_window ∧
      r.outstanding_bytes = aeron_pos_delta s.high s.completed s.term_length := by
  intro r
  have hty2 : info.type = HDR_TYPE_DATA ∨ info.type = HDR_TYPE_SM ∨ info.type = HDR_TYPE_PAD := by
    rcases hty with h | h | h
    · exact Or.inl h
    · exact Or.inr (Or.inr h)
    · exact Or.inr (Or.inl h)
  show (aeron_sequence_setup_fill s info sfa).frame = _ ∧
    (aeron_sequence_setup_fill s info sfa).high = _ ∧
    (aeron_sequence_setup_fill s info sfa).completed = _ ∧
    (aeron_sequence_setup_fill s info sfa).receiver_window = _ ∧
    (aeron_sequence_setup_fill s info sfa).outstanding_bytes = _
  unfold aeron_sequence_setup_fill
  simp only [hty2, if_true]
  split_ifs <;> exact ⟨rfl, rfl, rfl, rfl, rfl⟩

/-- C4: every snapshot `aeron_sequence_setup` makes or refreshes for a first-visit Data,
Pad or Status frame holds the stream's high, completed and receiver window as they are
after the frame's update, and `outstanding_bytes` is `aeron_pos_delta` of the two
positions for the stream's term length.  In the worked capture (Data advancing high to
term 2 offset 2000, then Status reporting term 2 offset 2000 with window 4096) the
Status frame's snapshot has 0 outstanding bytes and no flag set, WINDOW_FULL included. -/
theorem snapshot_copies_stream_state (sa : Bool) (pinfo : packet_info)
    (transport : aeron_transport_t) (info : aeron_sequence_info_t) (sid tid off : Nat)
    (hv : pinfo.visited = false)
    (h1 : info.stream_id = some sid) (h2 : info.term_id = some tid)
    (h3 : info.offset = some off)
    (hty : info.type = HDR_TYPE_DATA ∨ info.type = HDR_TYPE_PAD ∨ info.type = HDR_TYPE_SM) :
    (∃ s', aeron_transport_stream_find (aeron_sequence_setup sa true pinfo transport info) sid =
        some s' ∧
      ((s'.flags &&& AERON_STREAM_FLAGS_HIGH_VALID ≠ 0 ∧
          s'.flags &&& AERON_STREAM_FLAGS_COMPLETED_VALID ≠ 0) →
        ∃ sfa, aeron_stream_frame_analysis_find s' pinfo.num = some sfa ∧
          sfa.high = s'.high ∧ sfa.completed = s'.completed ∧
          sfa.receiver_window = s'.receiver_window ∧
          sfa.outstanding_bytes = aeron_pos_delta s'.high s'.completed s'.term_length)) ∧
    (aeron_transport_stream_find scenario_after_data 10).map (fun s => (s.flags, s.high)) =
      some (AERON_STREAM_FLAGS_HIGH_VALID, ⟨2, 2000⟩) ∧
    (aeron_transport_stream_find scenario_after_sm 10).bind
        (fun s => aeron_stream_frame_analysis_find s 2) =
      some { flags := 0, frame := 2, high := ⟨2, 2000⟩, completed := ⟨2, 2000⟩,
             receiver_window := 4096, outstanding_bytes := 0 } := by
  refine ⟨?_, by decide, by decide⟩
  obtain ⟨s', hs', hw⟩ := setup_stream_stored sa true pinfo transport info sid tid off
    (by simp) hv h1 h2 h3
  refine ⟨s', hs', ?_⟩
  rw [window_state_eq_iff] at hw
  obtain ⟨hf, hh, hc, hr, ht, ha⟩ := hw
  obtain ⟨hf2, hh2, hc2, hr2, ht2⟩ :=
    setup_window_scalars true pinfo info tid off (stream_on_entry transport sid)
  rw [hf2] at hf
  rw [hh2] at hh
  rw [hc2] at hc
  rw [hr2] at hr
  rw [ht2] at ht
  intro hvalid
  rw [hf, ← has_sfa_true_iff] at hvalid
  unfold aeron_stream_frame_analysis_find
  rw [ha, setup_window_analysis_made true pinfo info tid off _ hvalid]
  refine ⟨_, rfl, ?_⟩
  obtain ⟨c0, c1, c2, c3, c4⟩ := classify_keeps_fields (stream_on_entry transport sid).term_length
    info tid off (stream_on_entry transport sid).high
    (((stream_on_entry transport sid).flags &&& AERON_STREAM_FLAGS_HIGH_VALID) != 0)
    (stream_on_entry transport sid).completed
    (((stream_on_entry transport sid).flags &&& AERON_STREAM_FLAGS_COMPLETED_VALID) != 0)
    (stream_on_entry transport sid).receiver_window
    (aeron_sequence_setup_fill (aeron_sequence_setup_positions
        (stream_on_entry transport sid) info tid off
        (((stream_on_entry transport sid).flags &&& AERON_STREAM_FLAGS_HIGH_VALID) != 0)
        (((stream_on_entry transport sid).flags &&& AERON_STREAM_FLAGS_COMPLETED_VALID) != 0))
      info ((wmem_tree_lookup32 (stream_on_entry transport sid).analysis pinfo.num).getD
        (aeron_stream_frame_analysis_new pinfo.num)))
  obtain ⟨f0, f1, f2, f3, f4⟩ := fill_sets_fields (aeron_sequence_setup_positions
        (stream_on_entry transport sid) info tid off
        (((stream_on_entry transport sid).flags &&& AERON_STREAM_FLAGS_HIGH_VALID) != 0)
        (((stream_on_entry transport sid).flags &&& AERON_STREAM_FLAGS_COMPLETED_VALID) != 0))
      info ((wmem_tree_lookup32 (stream_on_entry transport sid).analysis pinfo.num).getD
        (aeron_stream_frame_analysis_new pinfo.num)) hty
  have htl := (positions_term_length (stream_on_entry transport sid) info tid off
        (((stream_on_entry transport sid).flags &&& AERON_STREAM_FLAGS_HIGH_VALID) != 0)
        (((stream_on_entry transport sid).flags &&& AERON_STREAM_FLAGS_COMPLETED_VALID) != 0)).1
  rw [c1, c2, c3, c4, f1, f2, f3, f4, hh, hc, hr, ht, htl]
  exact ⟨rfl, rfl, rfl, rfl⟩

theorem flag_or_other (f m i : Nat) (hm : m.testBit i = false) :
    (f ||| m) &&& 2 ^ i ≠ 0 ↔ f &&& 2 ^ i ≠ 0 := by
  rw [and_two_pow_ne_zero, and_two_pow_ne_zero, Nat.testBit_lor, hm, Bool.or_false]

theorem flag_or_self (f i : Nat) : (f ||| 2 ^ i) &&& 2 ^ i ≠ 0 := by
  rw [and_two_pow_ne_zero, Nat.testBit_lor, Nat.testBit_two_pow]
  simp

/-- Classification never touches the window-full bit. -/
theorem classify_keeps_window_full (L : Nat) (info : aeron_sequence_info_t) (tid off : Nat)
    (pdp : aeron_pos_t) (pdpv : Bool) (prp : aeron_pos_t) (prpv : Bool) (crw : Nat)
    (sfa : aeron_stream_frame_analysis_t) :
    (aeron_sequence_setup_classify L info tid off pdp pdpv prp prpv crw sfa).flags &&&
        AERON_STREAM_FRAME_ANALYSIS_FLAG_WINDOW_FULL ≠ 0 ↔
      sfa.flags &&& AERON_STREAM_FRAME_ANALYSIS_FLAG_WINDOW_FULL ≠ 0 := by
  have e : AERON_STREAM_FRAME_ANALYSIS_FLAG_WINDOW_FULL = 2 ^ 0 := rfl
  rw [e]
  unfold aeron_sequence_setup_classify
  dsimp only
  split_ifs <;>
    first
    | exact Iff.rfl
    | exact flag_or_other _ _ 0 (by decide)
    | exact (flag_or_other _ _ 0 (by decide)).trans (flag_or_other _ _ 0 (by decide))

theorem fill_window_full (s : aeron_stream_t) (info : aeron_sequence_info_t)
    (sfa : aeron_stream_frame_analysis_t)
    (hty : info.type = HDR_TYPE_DATA ∨ info.type = HDR_TYPE_PAD ∨ info.type = HDR_TYPE_SM)
    (h0 : sfa.flags &&& AERON_STREAM_FRAME_ANALYSIS_FLAG_WINDOW_FULL = 0) :
    (aeron_sequence_setup_fill s info sfa).flags &&&
        AERON_STREAM_FRAME_ANALYSIS_FLAG_WINDOW_FULL ≠ 0 ↔
      ((aeron_sequence_setup_fill s info sfa).outstanding_bytes ≥
          (aeron_sequence_setup_fill s info sfa).receiver_window ∧
        s.flags &&& AERON_STREAM_FLAGS_RECEIVER_WINDOW_VALID ≠ 0) := by
  have hty2 : info.type = HDR_TYPE_DATA ∨ info.type = HDR_TYPE_SM ∨ info.type = HDR_TYPE_PAD := by
    rcases hty with h | h | h
    · exact Or.inl h
    · exact Or.inr (Or.inr h)
    · exact Or.inr (Or.inl h)
  have e : AERON_STREAM_FRAME_ANALYSIS_FLAG_WINDOW_FULL = 2 ^ 0 := rfl
  unfold aeron_sequence_setup_fill
  simp only [hty2, if_true]
  split_ifs with hc
  · exact ⟨fun _ => hc, fun _ => by rw [e]; exact flag_or_self _ 0⟩
  · exact ⟨fun h => absurd h0 h, fun h => absurd h hc⟩

/-- The window-full bit of a snapshot created for a first-visit Data, Pad or Status
frame: set exactly when the outstanding bytes reach the receiver window and the
stream's RECEIVER_WINDOW_VALID flag is set. -/
theorem window_full_step (sa : Bool) (pinfo : packet_info)
    (transport : aeron_transport_t) (info : aeron_sequence_info_t) (sid tid off : Nat)
    (hv : pinfo.visited = false)
    (h1 : info.stream_id = some sid) (h2 : info.term_id = some tid)
    (h3 : info.offset = some off)
    (hty : info.type = HDR_TYPE_DATA ∨ info.type = HDR_TYPE_PAD ∨ info.type = HDR_TYPE_SM)
    (hnew : aeron_stream_frame_analysis_find (stream_on_entry transport sid) pinfo.num = none) :
    ∃ s', aeron_transport_stream_find (aeron_sequence_setup sa true pinfo transport info) sid =
        some s' ∧
      ((s'.flags &&& AERON_STREAM_FLAGS_HIGH_VALID ≠ 0 ∧
          s'.flags &&& AERON_STREAM_FLAGS_COMPLETED_VALID ≠ 0) →
        ∃ sfa, aeron_stream_frame_analysis_find s' pinfo.num = some sfa ∧
          (sfa.flags &&& AERON_STREAM_FRAME_ANALYSIS_FLAG_WINDOW_FULL ≠ 0 ↔
            (sfa.outstanding_bytes ≥ sfa.receiver_window ∧
              s'.flags &&& AERON_STREAM_FLAGS_RECEIVER_WINDOW_VALID ≠ 0))) := by
  obtain ⟨s', hs', hw⟩ := setup_stream_stored sa true pinfo transport info sid tid off
    (by simp) hv h1 h2 h3
  refine ⟨s', hs', ?_⟩
  rw [window_state_eq_iff] at hw
  obtain ⟨hf, -, -, -, -, ha⟩ := hw
  obtain ⟨hf2, -, -, -, -⟩ :=
    setup_window_scalars true pinfo info tid off (stream_on_entry transport sid)
  rw [hf2] at hf
  intro hvalid
  rw [hf, ← has_sfa_true_iff] at hvalid
  unfold aeron_stream_frame_analysis_find at hnew ⊢
  rw [ha, setup_window_analysis_made true pinfo info tid off _ hvalid, hnew]
  refine ⟨_, rfl, ?_⟩
  obtain ⟨-, -, -, c3, c4⟩ := classify_keeps_fields (stream_on_entry transport sid).term_length
    info tid off (stream_on_entry transport sid).high
    (((stream_on_entry transport sid).flags &&& AERON_STREAM_FLAGS_HIGH_VALID) != 0)
    (stream_on_entry transport sid).completed
    (((stream_on_entry transport sid).flags &&& AERON_STREAM_FLAGS_COMPLETED_VALID) != 0)
    (stream_on_entry transport sid).receiver_window
    (aeron_sequence_setup_fill (aeron_sequence_setup_positions
        (stream_on_entry transport sid) info tid off
        (((stream_on_entry transport sid).flags &&& AERON_STREAM_FLAGS_HIGH_VALID) != 0)
        (((stream_on_entry transport sid).flags &&& AERON_STREAM_FLAGS_COMPLETED_VALID) != 0))
      info ((none : Option aeron_stream_frame_analysis_t).getD
        (aeron_stream_frame_analysis_new pinfo.num)))
  rw [classify_keeps_window_full, c3, c4, hf]
  exact fill_window_full _ info _ hty (Nat.zero_and _)

/-! ### Frames that leave a stream's window members alone -/

theorem entry_of_map (a b : aeron_transport_t) (sid : Nat)
    (h : (aeron_transport_stream_find a sid).map window_state =
      (aeron_transport_stream_find b sid).map window_state) :
    window_state (stream_on_entry a sid) = window_state (stream_on_entry b sid) := by
  unfold stream_on_entry
  cases ha : aeron_transport_stream_find a sid with
  | none =>
    cases hb : aeron_transport_stream_find b sid with
    | none => rfl
    | some t => rw [ha, hb] at h; simp at h
  | some s =>
    cases hb : aeron_transport_stream_find b sid with
    | none => rw [ha, hb] at h; simp at h
    | some t => rw [ha, hb] at h; simpa using h

theorem entry_stream_lookup (transport : aeron_transport_t) (sid sid' : Nat) :
    stream_on_entry (match aeron_transport_stream_find transport sid with
      | some _ => transport
      | none => aeron_transport_stream_add transport sid) sid' =
    stream_on_entry transport sid' := by
  cases h : aeron_transport_stream_find transport sid with
  | some s => rfl
  | none =>
    simp only
    unfold stream_on_entry
    rw [find_stream_add]
    by_cases hk : sid' = sid
    · subst hk
      simp [h, stream_on_entry]
    · simp [hk]

theorem entry_term_lookup (transport : aeron_transport_t) (sid tid sid' : Nat) :
    window_state (stream_on_entry (match aeron_stream_term_find transport sid tid with
      | some _ => transport
      | none => aeron_stream_term_add transport sid tid) sid') =
    window_state (stream_on_entry transport sid') := by
  cases h : aeron_stream_term_find transport sid tid with
  | some s => rfl
  | none => exact entry_of_map _ _ _ (window_stream_term_add _ _ _ _)

theorem window_setup_offset_other (wa : Bool) (pinfo : packet_info)
    (transport : aeron_transport_t) (info : aeron_sequence_info_t) (sid tid off : Nat)
    (s0 : aeron_stream_t) (sid' : Nat) (hne : sid' ≠ sid) :
    (aeron_transport_stream_find
        (aeron_sequence_setup_offset wa pinfo transport info sid tid off s0) sid').map
        window_state =
      (aeron_transport_stream_find transport sid').map window_state := by
  unfold aeron_sequence_setup_offset
  dsimp only
  split_ifs <;>
    simp only [find_stream_write, window_setup_fragment, hne, if_false]

/-- The window members of stream `sid'` after `aeron_sequence_setup`: the window step
when the frame is a first visit, analysis is enabled and the frame carries this stream
id with a term id and an offset; unchanged in every other case. -/
theorem window_setup_any (sa wa : Bool) (pinfo : packet_info) (transport : aeron_transport_t)
    (info : aeron_sequence_info_t) (sid' : Nat) :
    window_state (stream_on_entry (aeron_sequence_setup sa wa pinfo transport info) sid') =
      match info.term_id, info.offset with
      | some tid, some off =>
        if (sa || wa) = true ∧ pinfo.visited = false ∧ info.stream_id = some sid' then
          window_state (aeron_sequence_setup_window wa pinfo info tid off
            (stream_on_entry transport sid'))
        else window_state (stream_on_entry transport sid')
      | _, _ => window_state (stream_on_entry transport sid') := by
  by_cases hen : (sa || wa) = true
  swap
  · have : aeron_sequence_setup sa wa pinfo transport info = transport := by
      unfold aeron_sequence_setup
      simp only [hen, Bool.false_eq_true, if_false]
    rw [this]
    split <;> simp [hen]
  by_cases hv : pinfo.visited = false
  swap
  · have hv2 : pinfo.visited = true := by simpa using hv
    have : aeron_sequence_setup sa wa pinfo transport info = transport := by
      unfold aeron_sequence_setup
      simp only [hv2, Bool.true_eq_false, if_false, ite_self]
    rw [this]
    split <;> simp [hv2]
  cases hsid : info.stream_id with
  | none =>
    have : aeron_sequence_setup sa wa pinfo transport info =
        aeron_transport_frame_add transport pinfo.num := by
      unfold aeron_sequence_setup
      simp only [hen, hv, hsid, if_true]
    rw [this]
    have hw := entry_of_map (aeron_transport_frame_add transport pinfo.num) transport sid'
      (by rw [find_transport_frame_add])
    split <;> simp [hw]
  | some sid =>
    cases htid : info.term_id with
    | none =>
      have : aeron_sequence_setup sa wa pinfo transport info =
          aeron_stream_frame_add (match aeron_transport_stream_find transport sid with
            | some _ => transport
            | none => aeron_transport_stream_add transport sid) sid pinfo.num := by
        unfold aeron_sequence_setup
        simp only [hen, hv, hsid, htid, if_true]
      rw [this]
      simp only
      rw [entry_of_map _ _ _ (window_stream_frame_add _ _ _ _), entry_stream_lookup]
    | some tid =>
      cases hoff : info.offset with
      | none =>
        have : aeron_sequence_setup sa wa pinfo transport info =
            aeron_term_frame_add
              (match aeron_stream_term_find (match aeron_transport_stream_find transport sid with
                  | some _ => transport
                  | none => aeron_transport_stream_add transport sid) sid tid with
                | some _ => (match aeron_transport_stream_find transport sid with
                  | some _ => transport
                  | none => aeron_transport_stream_add transport sid)
                | none => aeron_stream_term_add (match aeron_transport_stream_find transport sid with
                  | some _ => transport
                  | none => aeron_transport_stream_add transport sid) sid tid)
              sid tid pinfo.num := by
          unfold aeron_sequence_setup
          simp only [hen, hv, hsid, htid, hoff, if_true]
        rw [this]
        simp only
        rw [entry_of_map _ _ _ (window_term_frame_add _ _ _ _ _), entry_term_lookup,
          entry_stream_lookup]
      | some off =>
        simp only
        by_cases hk : sid = sid'
        · subst hk
          simp only [hen, hv, true_and, if_true]
          have h := window_setup sa wa pinfo transport info sid tid off hen hv hsid htid hoff
          have h' : (aeron_transport_stream_find
              (aeron_sequence_setup sa wa pinfo transport info) sid).map window_state =
              (some (aeron_sequence_setup_window wa pinfo info tid off
                (stream_on_entry transport sid))).map window_state := by
            rw [h]; rfl
          unfold stream_on_entry at h' ⊢
          cases hs : aeron_transport_stream_find
              (aeron_sequence_setup sa wa pinfo transport info) sid with
          | none => rw [hs] at h'; simp at h'
          | some s' => rw [hs] at h'; simpa using h'
        · have hk2 : ¬ (some sid = some sid') := by simpa using hk
          simp only [hk2, and_false, if_false]
          have hk3 : sid' ≠ sid := fun e => hk e.symm
          have : window_state (stream_on_entry (aeron_sequence_setup sa wa pinfo transport info)
              sid') = window_state (stream_on_entry
                (match aeron_stream_term_find (match aeron_transport_stream_find transport sid with
                  | some _ => transport
                  | none => aeron_transport_stream_add transport sid) sid tid with
                | some _ => (match aeron_transport_stream_find transport sid with
                  | some _ => transport
                  | none => aeron_transport_stream_add transport sid)
                | none => aeron_stream_term_add (match aeron_transport_stream_find transport sid with
                  | some _ => transport
                  | none => aeron_transport_stream_add transport sid) sid tid) sid') := by
            unfold aeron_sequence_setup
            simp only [hen, hv, hsid, htid, hoff, if_true]
            split
            · exact entry_of_map _ _ _ (window_setup_offset_other _ _ _ _ _ _ _ _ _ hk3)
            · rfl
          rw [this, entry_term_lookup, entry_stream_lookup]

/-! ### A stream that has seen no Status frame -/

theorem entry_stream_write (transport : aeron_transport_t) (sid sid' : Nat)
    (f : aeron_stream_t → aeron_stream_t) :
    stream_on_entry (stream_write transport sid f) sid' =
      if sid' = sid then
        (match aeron_transport_stream_find transport sid with
          | some s => f s
          | none => aeron_stream_new sid)
      else stream_on_entry transport sid' := by
  unfold stream_on_entry
  rw [find_stream_write]
  by_cases hk : sid' = sid
  · subst hk
    cases h : aeron_transport_stream_find transport sid' with
    | none => simp
    | some s => simp
  · simp [hk]

theorem positions_no_status (s : aeron_stream_t) (info : aeron_sequence_info_t)
    (tid off : Nat) (pdpv prpv : Bool) (hty : info.type ≠ HDR_TYPE_SM)
    (h : s.flags &&& AERON_STREAM_FLAGS_COMPLETED_VALID = 0) :
    (aeron_sequence_setup_positions s info tid off pdpv prpv).flags &&&
      AERON_STREAM_FLAGS_COMPLETED_VALID = 0 := by
  have e : AERON_STREAM_FLAGS_COMPLETED_VALID = 2 ^ 1 := rfl
  have hor : (s.flags ||| AERON_STREAM_FLAGS_HIGH_VALID) &&&
      AERON_STREAM_FLAGS_COMPLETED_VALID = 0 := by
    by_contra hc
    rw [e] at hc h
    have := (flag_or_other s.flags AERON_STREAM_FLAGS_HIGH_VALID 1 (by decide)).1 hc
    exact this h
  unfold aeron_sequence_setup_positions
  dsimp only
  split_ifs <;> first | exact h | exact hor

theorem has_sfa_no_status (wa : Bool) (s : aeron_stream_t)
    (h : s.flags &&& AERON_STREAM_FLAGS_COMPLETED_VALID = 0) :
    aeron_sequence_setup_has_sfa wa s = false := by
  cases wa with
  | false => rfl
  | true =>
    cases hc : aeron_sequence_setup_has_sfa true s with
    | false => rfl
    | true => exact absurd h ((has_sfa_true_iff s).1 hc).2

/-- A frame that is not a Status frame leaves a stream without COMPLETED_VALID in
that condition and creates no snapshot. -/
theorem window_step_no_status (wa : Bool) (pinfo : packet_info) (info : aeron_sequence_info_t)
    (tid off : Nat) (s : aeron_stream_t) (hty : info.type ≠ HDR_TYPE_SM)
    (h : s.flags &&& AERON_STREAM_FLAGS_COMPLETED_VALID = 0) :
    (aeron_sequence_setup_window wa pinfo info tid off s).flags &&&
        AERON_STREAM_FLAGS_COMPLETED_VALID = 0 ∧
      (aeron_sequence_setup_window wa pinfo info tid off s).analysis = s.analysis := by
  have hp := positions_no_status s info tid off
    ((s.flags &&& AERON_STREAM_FLAGS_HIGH_VALID) != 0)
    ((s.flags &&& AERON_STREAM_FLAGS_COMPLETED_VALID) != 0) hty h
  have hs := has_sfa_no_status wa _ hp
  obtain ⟨hf, -, -, -, -⟩ := setup_window_scalars wa pinfo info tid off s
  exact ⟨by rw [hf]; exact hp, setup_window_analysis_skip wa pinfo info tid off s hs⟩

theorem entry_flags_analysis_write (transport : aeron_transport_t) (sid sid' : Nat)
    (f : aeron_stream_t → aeron_stream_t)
    (hf : ∀ s, (f s).flags = s.flags ∧ (f s).analysis = s.analysis ∧
      (f s).receiver_window = s.receiver_window) :
    (stream_on_entry (stream_write transport sid f) sid').flags =
        (stream_on_entry transport sid').flags ∧
      (stream_on_entry (stream_write transport sid f) sid').analysis =
        (stream_on_entry transport sid').analysis ∧
      (stream_on_entry (stream_write transport sid f) sid').receiver_window =
        (stream_on_entry transport sid').receiver_window := by
  rw [entry_stream_write]
  by_cases hk : sid' = sid
  · subst hk
    simp only [if_true]
    unfold stream_on_entry
    cases h : aeron_transport_stream_find transport sid' with
    | none => exact ⟨rfl, rfl, rfl⟩
    | some s => exact hf s
  · simp only [hk, if_false, and_self]

theorem entry_next_offset_report (transport : aeron_transport_t)
    (stream_id term_id term_offset length sid' : Nat) :
    (stream_on_entry (aeron_next_offset_report transport stream_id term_id term_offset length)
        sid').flags = (stream_on_entry transport sid').flags ∧
      (stream_on_entry (aeron_next_offset_report transport stream_id term_id term_offset length)
        sid').analysis = (stream_on_entry transport sid').analysis ∧
      (stream_on_entry (aeron_next_offset_report transport stream_id term_id term_offset length)
        sid').receiver_window = (stream_on_entry transport sid').receiver_window := by
  unfold aeron_next_offset_report
  apply entry_flags_analysis_write
  intro s
  split_ifs <;> exact ⟨rfl, rfl, rfl⟩

theorem entry_set_stream_mtu_term_length (pinfo : packet_info) (transport : aeron_transport_t)
    (stream_id mtu term_length sid' : Nat) :
    (stream_on_entry (aeron_set_stream_mtu_term_length pinfo transport stream_id mtu term_length)
        sid').flags = (stream_on_entry transport sid').flags ∧
      (stream_on_entry (aeron_set_stream_mtu_term_length pinfo transport stream_id mtu term_length)
        sid').analysis = (stream_on_entry transport sid').analysis ∧
      (stream_on_entry (aeron_set_stream_mtu_term_length pinfo transport stream_id mtu term_length)
        sid').receiver_window = (stream_on_entry transport sid').receiver_window := by
  unfold aeron_set_stream_mtu_term_length
  split_ifs
  · apply entry_flags_analysis_write
    intro s
    exact ⟨rfl, rfl, rfl⟩
  · exact ⟨rfl, rfl, rfl⟩

/-- The flags, analysis tree and receiver window of stream `sid'` after
`aeron_sequence_setup`, read off `window_setup_any`. -/
theorem setup_no_status (sa wa : Bool) (pinfo : packet_info) (transport : aeron_transport_t)
    (info : aeron_sequence_info_t) (sid' : Nat)
    (hty : info.type ≠ HDR_TYPE_SM ∨ info.stream_id ≠ some sid')
    (h : (stream_on_entry transport sid').flags &&& AERON_STREAM_FLAGS_COMPLETED_VALID = 0) :
    (stream_on_entry (aeron_sequence_setup sa wa pinfo transport info) sid').flags &&&
        AERON_STREAM_FLAGS_COMPLETED_VALID = 0 ∧
      (stream_on_entry (aeron_sequence_setup sa wa pinfo transport info) sid').analysis =
        (stream_on_entry transport sid').analysis := by
  have hw := window_setup_any sa wa pinfo transport info sid'
  have key : window_state (stream_on_entry (aeron_sequence_setup sa wa pinfo transport info) sid') =
      window_state (stream_on_entry transport sid') ∨
      ∃ tid off, info.type ≠ HDR_TYPE_SM ∧
        window_state (stream_on_entry (aeron_sequence_setup sa wa pinfo transport info) sid') =
        window_state (aeron_sequence_setup_window wa pinfo info tid off
          (stream_on_entry transport sid')) := by
    rw [hw]
    split
    · rename_i tid off _ _
      split_ifs with hc
      · rcases hty with hty | hty
        · exact Or.inr ⟨tid, off, hty, rfl⟩
        · exact absurd hc.2.2 hty
      · exact Or.inl rfl
    · exact Or.inl rfl
  rcases key with hk | ⟨tid, off, hty2, hk⟩
  · rw [window_state_eq_iff] at hk
    rw [hk.1, hk.2.2.2.2.2]
    exact ⟨h, rfl⟩
  · rw [window_state_eq_iff] at hk
    rw [hk.1, hk.2.2.2.2.2]
    exact window_step_no_status wa pinfo info tid off _ hty2 h

/-- One frame that is not a Status frame of stream `sid'` leaves that stream without
COMPLETED_VALID and with the analysis tree it had. -/
theorem frame_apply_no_status (sa wa : Bool) (pinfo : packet_info)
    (transport : aeron_transport_t) (fields : aeron_frame_fields) (sid' : Nat)
    (hf : ∀ fl tid co rw, fields ≠ .sm fl sid' tid co rw)
    (h : (stream_on_entry transport sid').flags &&& AERON_STREAM_FLAGS_COMPLETED_VALID = 0) :
    (stream_on_entry (aeron_frame_apply sa wa pinfo transport fields) sid').flags &&&
        AERON_STREAM_FLAGS_COMPLETED_VALID = 0 ∧
      (stream_on_entry (aeron_frame_apply sa wa pinfo transport fields) sid').analysis =
        (stream_on_entry transport sid').analysis := by
  cases fields with
  | pad frame_len term_offset stream_id term_id =>
    simp only [aeron_frame_apply]
    obtain ⟨e1, e2, -⟩ := entry_next_offset_report
      (aeron_sequence_setup sa wa pinfo transport
        (aeron_pad_sinfo frame_len term_offset stream_id term_id))
      stream_id term_id term_offset (aeron_pos_roundup frame_len) sid'
    rw [e1, e2]
    exact setup_no_status sa wa pinfo transport _ sid' (Or.inl (by simp [aeron_pad_sinfo, aeron_data_sinfo, aeron_nak_sinfo, aeron_setup_sinfo, HDR_TYPE_PAD, HDR_TYPE_DATA, HDR_TYPE_NAK, HDR_TYPE_SETUP, HDR_TYPE_SM])) h
  | data flags frame_len term_offset stream_id term_id =>
    simp only [aeron_frame_apply]
    obtain ⟨e1, e2, -⟩ := entry_next_offset_report
      (aeron_sequence_setup sa wa pinfo transport
        (aeron_data_sinfo flags frame_len term_offset stream_id term_id))
      stream_id term_id term_offset (if frame_len = 0 then 0 else aeron_pos_roundup frame_len) sid'
    rw [e1, e2]
    exact setup_no_status sa wa pinfo transport _ sid' (Or.inl (by simp [aeron_pad_sinfo, aeron_data_sinfo, aeron_nak_sinfo, aeron_setup_sinfo, HDR_TYPE_PAD, HDR_TYPE_DATA, HDR_TYPE_NAK, HDR_TYPE_SETUP, HDR_TYPE_SM])) h
  | nak frame_len stream_id term_id =>
    simp only [aeron_frame_apply]
    exact setup_no_status sa wa pinfo transport _ sid' (Or.inl (by simp [aeron_pad_sinfo, aeron_data_sinfo, aeron_nak_sinfo, aeron_setup_sinfo, HDR_TYPE_PAD, HDR_TYPE_DATA, HDR_TYPE_NAK, HDR_TYPE_SETUP, HDR_TYPE_SM])) h
  | sm frame_len stream_id term_id comp_offset rcv_window =>
    simp only [aeron_frame_apply]
    refine setup_no_status sa wa pinfo transport _ sid' (Or.inr ?_) h
    intro hc
    simp only [aeron_sm_sinfo, Option.some.injEq] at hc
    subst hc
    exact hf frame_len term_id comp_offset rcv_window rfl
  | err len =>
    exact ⟨h, rfl⟩
  | setup frame_len stream_id active_term_id term_length mtu =>
    simp only [aeron_frame_apply]
    obtain ⟨e1, e2, -⟩ := entry_set_stream_mtu_term_length pinfo
      (aeron_sequence_setup sa wa pinfo transport (aeron_setup_sinfo stream_id active_term_id))
      stream_id mtu term_length sid'
    rw [e1, e2]
    exact setup_no_status sa wa pinfo transport _ sid' (Or.inl (by simp [aeron_pad_sinfo, aeron_data_sinfo, aeron_nak_sinfo, aeron_setup_sinfo, HDR_TYPE_PAD, HDR_TYPE_DATA, HDR_TYPE_NAK, HDR_TYPE_SETUP, HDR_TYPE_SM])) h

/-- A run of frames none of which is a Status frame of stream `sid'`. -/
theorem frames_apply_no_status (sa wa : Bool) (frames : List (packet_info × aeron_frame_fields))
    (sid' : Nat) :
    ∀ (transport : aeron_transport_t),
      (∀ p ∈ frames, ∀ fl tid co rw, p.2 ≠ .sm fl sid' tid co rw) →
      (stream_on_entry transport sid').flags &&& AERON_STREAM_FLAGS_COMPLETED_VALID = 0 →
      (stream_on_entry (aeron_frames_apply sa wa transport frames) sid').flags &&&
          AERON_STREAM_FLAGS_COMPLETED_VALID = 0 ∧
        (stream_on_entry (aeron_frames_apply sa wa transport frames) sid').analysis =
          (stream_on_entry transport sid').analysis := by
  induction frames with
  | nil => intro transport _ h; exact ⟨h, rfl⟩
  | cons p rest ih =>
    intro transport hall h
    obtain ⟨pinfo, fields⟩ := p
    have h1 := frame_apply_no_status sa wa pinfo transport fields sid'
      (hall (pinfo, fields) (List.mem_cons_self _ _)) h
    have h2 := ih (aeron_frame_apply sa wa pinfo transport fields)
      (fun q hq => hall q (List.mem_cons_of_mem _ hq)) h1.1
    simp only [aeron_frames_apply]
    exact ⟨h2.1, h2.2.trans h1.2⟩

/-! ### Classification bits of a fresh snapshot -/

theorem and_two_pow_eq_zero (n j : Nat) : n &&& 2 ^ j = 0 ↔ n / 2 ^ j % 2 = 0 := by
  rw [Nat.and_two_pow, Nat.testBit_to_div_mod]
  have hp : 2 ^ j ≠ 0 := by positivity
  by_cases hb : n / 2 ^ j % 2 = 1
  · simp [hb, hp]
  · have : n / 2 ^ j % 2 = 0 := by omega
    simp [this]

theorem and_flag_1 (n : Nat) : n &&& 1 = 0 ↔ n / 1 % 2 = 0 := and_two_pow_eq_zero n 0
theorem and_flag_2 (n : Nat) : n &&& 2 = 0 ↔ n / 2 % 2 = 0 := and_two_pow_eq_zero n 1
theorem and_flag_4 (n : Nat) : n &&& 4 = 0 ↔ n / 4 % 2 = 0 := and_two_pow_eq_zero n 2
theorem and_flag_8 (n : Nat) : n &&& 8 = 0 ↔ n / 8 % 2 = 0 := and_two_pow_eq_zero n 3
theorem and_flag_16 (n : Nat) : n &&& 16 = 0 ↔ n / 16 % 2 = 0 := and_two_pow_eq_zero n 4
theorem and_flag_32 (n : Nat) : n &&& 32 = 0 ↔ n / 32 % 2 = 0 := and_two_pow_eq_zero n 5
theorem and_flag_64 (n : Nat) : n &&& 64 = 0 ↔ n / 64 % 2 = 0 := and_two_pow_eq_zero n 6
theorem and_flag_128 (n : Nat) : n &&& 128 = 0 ↔ n / 128 % 2 = 0 := and_two_pow_eq_zero n 7
theorem and_flag_256 (n : Nat) : n &&& 256 = 0 ↔ n / 256 % 2 = 0 := and_two_pow_eq_zero n 8

theorem fill_new_flags (s : aeron_stream_t) (info : aeron_sequence_info_t) (frame : Nat) :
    (aeron_sequence_setup_fill s info (aeron_stream_frame_analysis_new frame)).flags = 0 ∨
      (aeron_sequence_setup_fill s info (aeron_stream_frame_analysis_new frame)).flags = 1 := by
  unfold aeron_sequence_setup_fill aeron_stream_frame_analysis_new
  dsimp only
  split_ifs
  · exact Or.inr rfl
  · exact Or.inl rfl
  · exact Or.inl rfl

theorem classify_data_same (L : Nat) (info : aeron_sequence_info_t) (tid off : Nat)
    (pdp prp : aeron_pos_t) (prpv : Bool) (crw : Nat) (g : aeron_stream_frame_analysis_t)
    (hty : info.type = HDR_TYPE_DATA ∨ info.type = HDR_TYPE_PAD)
    (hg : g.flags = 0 ∨ g.flags = 1)
    (hrc : aeron_pos_compare ⟨tid, aeron_pos_roundup ((off + info.len) % 2 ^ 32)⟩ pdp = 0) :
    ((aeron_sequence_setup_classify L info tid off pdp true prp prpv crw g).flags &&&
        AERON_STREAM_FRAME_ANALYSIS_FLAG_KEEPALIVE ≠ 0 ↔ info.len = 0) ∧
    ((aeron_sequence_setup_classify L info tid off pdp true prp prpv crw g).flags &&&
        AERON_STREAM_FRAME_ANALYSIS_FLAG_IDLE_RX ≠ 0 ↔
      (info.len ≠ 0 ∧ (prpv = true →
        aeron_pos_compare ⟨tid, aeron_pos_roundup ((off + info.len) % 2 ^ 32)⟩ prp = 0))) ∧
    ((aeron_sequence_setup_classify L info tid off pdp true prp prpv crw g).flags &&&
        AERON_STREAM_FRAME_ANALYSIS_FLAG_PACING_RX ≠ 0 ↔
      (info.len ≠ 0 ∧ prpv = true ∧
        aeron_pos_compare ⟨tid, aeron_pos_roundup ((off + info.len) % 2 ^ 32)⟩ prp ≠ 0)) := by
  unfold aeron_sequence_setup_classify
  simp only [hty, hrc, if_true]
  generalize (⟨tid, aeron_pos_roundup ((off + info.len) % 2 ^ 32)⟩ : aeron_pos_t) = dp
  rcases hg with hg | hg <;> split_ifs with h1 h2 h3 <;>
    simp [hg, *, AERON_STREAM_FRAME_ANALYSIS_FLAG_KEEPALIVE,
      AERON_STREAM_FRAME_ANALYSIS_FLAG_IDLE_RX, AERON_STREAM_FRAME_ANALYSIS_FLAG_PACING_RX,
      and_flag_2, and_flag_4, and_flag_32]

theorem aeron_pos_compare_eq_zero (a b : aeron_pos_t) : aeron_pos_compare a b = 0 ↔ a = b := by
  obtain ⟨a1, a2⟩ := a
  obtain ⟨b1, b2⟩ := b
  unfold aeron_pos_compare
  simp only [aeron_pos_t.mk.injEq]
  split_ifs <;> simp_all

theorem positions_data_flags (s : aeron_stream_t) (info : aeron_sequence_info_t)
    (tid off : Nat) (prpv : Bool)
    (hty : info.type = HDR_TYPE_DATA ∨ info.type = HDR_TYPE_PAD) :
    (aeron_sequence_setup_positions s info tid off true prpv).flags = s.flags := by
  unfold aeron_sequence_setup_positions
  simp only [hty, if_true]
  split_ifs <;> rfl

theorem snapshot_fresh_lookup (sa : Bool) (pinfo : packet_info)
    (transport : aeron_transport_t) (info : aeron_sequence_info_t) (sid tid off : Nat)
    (hv : pinfo.visited = false)
    (h1 : info.stream_id = some sid) (h2 : info.term_id = some tid)
    (h3 : info.offset = some off)
    (hnew : aeron_stream_frame_analysis_find (stream_on_entry transport sid) pinfo.num = none) :
    ∃ s', aeron_transport_stream_find (aeron_sequence_setup sa true pinfo transport info) sid =
        some s' ∧
      s'.flags = (aeron_sequence_setup_positions (stream_on_entry transport sid) info tid off
        (((stream_on_entry transport sid).flags &&& AERON_STREAM_FLAGS_HIGH_VALID) != 0)
        (((stream_on_entry transport sid).flags &&& AERON_STREAM_FLAGS_COMPLETED_VALID) != 0)).flags ∧
      ((s'.flags &&& AERON_STREAM_FLAGS_HIGH_VALID ≠ 0 ∧
          s'.flags &&& AERON_STREAM_FLAGS_COMPLETED_VALID ≠ 0) →
        aeron_stream_frame_analysis_find s' pinfo.num =
          some (aeron_sequence_setup_classify (stream_on_entry transport sid).term_length
            info tid off (stream_on_entry transport sid).high
            (((stream_on_entry transport sid).flags &&& AERON_STREAM_FLAGS_HIGH_VALID) != 0)
            (stream_on_entry transport sid).completed
            (((stream_on_entry transport sid).flags &&& AERON_STREAM_FLAGS_COMPLETED_VALID) != 0)
            (stream_on_entry transport sid).receiver_window
            (aeron_sequence_setup_fill (aeron_sequence_setup_positions
                (stream_on_entry transport sid) info tid off
                (((stream_on_entry transport sid).flags &&& AERON_STREAM_FLAGS_HIGH_VALID) != 0)
                (((stream_on_entry transport sid).flags &&&
                  AERON_STREAM_FLAGS_COMPLETED_VALID) != 0))
              info (aeron_stream_frame_analysis_new pinfo.num)))) := by
  obtain ⟨s', hs', hw⟩ := setup_stream_stored sa true pinfo transport info sid tid off
    (by simp) hv h1 h2 h3
  refine ⟨s', hs', ?_⟩
  rw [window_state_eq_iff] at hw
  obtain ⟨hf, -, -, -, -, ha⟩ := hw
  obtain ⟨hf2, -, -, -, -⟩ :=
    setup_window_scalars true pinfo info tid off (stream_on_entry transport sid)
  rw [hf2] at hf
  refine ⟨hf, ?_⟩
  intro hvalid
  rw [hf, ← has_sfa_true_iff] at hvalid
  unfold aeron_stream_frame_analysis_find at hnew ⊢
  rw [ha, setup_window_analysis_made true pinfo info tid off _ hvalid, hnew]
  rfl

theorem bne_zero_true (n : Nat) (h : n ≠ 0) : (n != 0) = true := by
  simpa using h

/-- C6: a first-visit Data or Pad frame whose stream had a valid high position before
the frame, whose position `dp` equals that position, and for which a snapshot is
created: KEEPALIVE is set exactly when the frame length is 0; for a non-zero frame
length IDLE_RX is set exactly when a previous completed position exists and equals
`dp`, and PACING_RX exactly when that is not so. -/
theorem keepalive_idle_pacing (sa : Bool) (pinfo : packet_info)
    (transport : aeron_transport_t) (info : aeron_sequence_info_t) (sid tid off : Nat)
    (hv : pinfo.visited = false)
    (h1 : info.stream_id = some sid) (h2 : info.term_id = some tid)
    (h3 : info.offset = some off)
    (hty : info.type = HDR_TYPE_DATA ∨ info.type = HDR_TYPE_PAD)
    (hnew : aeron_stream_frame_analysis_find (stream_on_entry transport sid) pinfo.num = none)
    (hpdpv : (stream_on_entry transport sid).flags &&& AERON_STREAM_FLAGS_HIGH_VALID ≠ 0)
    (hsame : (⟨tid, aeron_pos_roundup ((off + info.len) % 2 ^ 32)⟩ : aeron_pos_t) =
      (stream_on_entry transport sid).high) :
    ∃ s', aeron_transport_stream_find (aeron_sequence_setup sa true pinfo transport info) sid =
        some s' ∧
      ((s'.flags &&& AERON_STREAM_FLAGS_HIGH_VALID ≠ 0 ∧
          s'.flags &&& AERON_STREAM_FLAGS_COMPLETED_VALID ≠ 0) →
        ∃ sfa, aeron_stream_frame_analysis_find s' pinfo.num = some sfa ∧
          (sfa.flags &&& AERON_STREAM_FRAME_ANALYSIS_FLAG_KEEPALIVE ≠ 0 ↔ info.len = 0) ∧
          (info.len ≠ 0 →
            (sfa.flags &&& AERON_STREAM_FRAME_ANALYSIS_FLAG_IDLE_RX ≠ 0 ↔
              ((stream_on_entry transport sid).flags &&&
                  AERON_STREAM_FLAGS_COMPLETED_VALID ≠ 0 ∧
                (⟨tid, aeron_pos_roundup ((off + info.len) % 2 ^ 32)⟩ : aeron_pos_t) =
                  (stream_on_entry transport sid).completed)) ∧
            (sfa.flags &&& AERON_STREAM_FRAME_ANALYSIS_FLAG_PACING_RX ≠ 0 ↔
              ¬ ((stream_on_entry transport sid).flags &&&
                  AERON_STREAM_FLAGS_COMPLETED_VALID ≠ 0 ∧
                (⟨tid, aeron_pos_roundup ((off + info.len) % 2 ^ 32)⟩ : aeron_pos_t) =
                  (stream_on_entry transport sid).completed)))) := by
  obtain ⟨s', hs', hf, hsfa⟩ :=
    snapshot_fresh_lookup sa pinfo transport info sid tid off hv h1 h2 h3 hnew
  refine ⟨s', hs', ?_⟩
  intro hvalid
  refine ⟨_, hsfa hvalid, ?_⟩
  have hpd := bne_zero_true _ hpdpv
  rw [hpd] at hf ⊢
  rw [positions_data_flags _ _ _ _ _ hty] at hf
  have hcv : (stream_on_entry transport sid).flags &&& AERON_STREAM_FLAGS_COMPLETED_VALID ≠ 0 := by
    rw [← hf]; exact hvalid.2
  have hpr := bne_zero_true _ hcv
  rw [hpr]
  obtain ⟨k1, k2, k3⟩ := classify_data_same (stream_on_entry transport sid).term_length info
    tid off (stream_on_entry transport sid).high (stream_on_entry transport sid).completed true
    (stream_on_entry transport sid).receiver_window
    (aeron_sequence_setup_fill (aeron_sequence_setup_positions
        (stream_on_entry transport sid) info tid off true true)
      info (aeron_stream_frame_analysis_new pinfo.num))
    hty (fill_new_flags _ _ _) ((aeron_pos_compare_eq_zero _ _).2 hsame)
  simp only [ne_eq, aeron_pos_compare_eq_zero, true_implies, true_and] at k2 k3
  refine ⟨k1, fun hlen => ⟨k2.trans ⟨?_, ?_⟩, k3.trans ⟨?_, ?_⟩⟩⟩
  · intro h; exact ⟨hcv, h.2⟩
  · intro h; exact ⟨hlen, h.2⟩
  · intro h hc; exact h.2 hc.2
  · intro h; exact ⟨hlen, fun hc => h ⟨hcv, hc⟩⟩

theorem classify_data_diff (L : Nat) (info : aeron_sequence_info_t) (tid off : Nat)
    (pdp prp : aeron_pos_t) (prpv : Bool) (crw : Nat) (g : aeron_stream_frame_analysis_t)
    (hty : info.type = HDR_TYPE_DATA ∨ info.type = HDR_TYPE_PAD)
    (hg : g.flags = 0 ∨ g.flags = 1)
    (hrc : aeron_pos_compare ⟨tid, aeron_pos_roundup ((off + info.len) % 2 ^ 32)⟩ pdp ≠ 0) :
    ((aeron_sequence_setup_classify L info tid off pdp true prp prpv crw g).flags &&&
        AERON_STREAM_FRAME_ANALYSIS_FLAG_OOO ≠ 0 ↔
      aeron_pos_compare (aeron_pos_add_length pdp info.len L)
        ⟨tid, aeron_pos_roundup ((off + info.len) % 2 ^ 32)⟩ < 0) ∧
    ((aeron_sequence_setup_classify L info tid off pdp true prp prpv crw g).flags &&&
        AERON_STREAM_FRAME_ANALYSIS_FLAG_OOO_GAP ≠ 0 ↔
      aeron_pos_compare (aeron_pos_add_length pdp info.len L)
        ⟨tid, aeron_pos_roundup ((off + info.len) % 2 ^ 32)⟩ > 0) := by
  unfold aeron_sequence_setup_classify
  simp only [hty, hrc, if_true, if_false]
  generalize (⟨tid, aeron_pos_roundup ((off + info.len) % 2 ^ 32)⟩ : aeron_pos_t) = dp
  generalize aeron_pos_compare (aeron_pos_add_length pdp info.len L) dp = erc
  rcases hg with hg | hg <;> split_ifs with h1 h2 <;>
    simp [hg, *, AERON_STREAM_FRAME_ANALYSIS_FLAG_OOO, AERON_STREAM_FRAME_ANALYSIS_FLAG_OOO_GAP,
      and_flag_8, and_flag_16] <;> omega

/-- C7: a first-visit Data or Pad frame whose stream had a valid high position `pdp`
before the frame, whose position `dp` differs from it, and for which a snapshot is
created: with `expected = aeron_pos_add_length(pdp, frame length, term length)`, OOO is
set exactly when `expected` is below `dp`, OOO_GAP exactly when it is above, and
neither when the two are equal. -/
theorem out_of_order_iff (sa : Bool) (pinfo : packet_info)
    (transport : aeron_transport_t) (info : aeron_sequence_info_t) (sid tid off : Nat)
    (hv : pinfo.visited = false)
    (h1 : info.stream_id = some sid) (h2 : info.term_id = some tid)
    (h3 : info.offset = some off)
    (hty : info.type = HDR_TYPE_DATA ∨ info.type = HDR_TYPE_PAD)
    (hnew : aeron_stream_frame_analysis_find (stream_on_entry transport sid) pinfo.num = none)
    (hpdpv : (stream_on_entry transport sid).flags &&& AERON_STREAM_FLAGS_HIGH_VALID ≠ 0)
    (hdiff : (⟨tid, aeron_pos_roundup ((off + info.len) % 2 ^ 32)⟩ : aeron_pos_t) ≠
      (stream_on_entry transport sid).high) :
    ∃ s', aeron_transport_stream_find (aeron_sequence_setup sa true pinfo transport info) sid =
        some s' ∧
      ((s'.flags &&& AERON_STREAM_FLAGS_HIGH_VALID ≠ 0 ∧
          s'.flags &&& AERON_STREAM_FLAGS_COMPLETED_VALID ≠ 0) →
        ∃ sfa, aeron_stream_frame_analysis_find s' pinfo.num = some sfa ∧
          (sfa.flags &&& AERON_STREAM_FRAME_ANALYSIS_FLAG_OOO ≠ 0 ↔
            aeron_pos_compare
              (aeron_pos_add_length (stream_on_entry transport sid).high info.len s'.term_length)
              ⟨tid, aeron_pos_roundup ((off + info.len) % 2 ^ 32)⟩ < 0) ∧
          (sfa.flags &&& AERON_STREAM_FRAME_ANALYSIS_FLAG_OOO_GAP ≠ 0 ↔
            aeron_pos_compare
              (aeron_pos_add_length (stream_on_entry transport sid).high info.len s'.term_length)
              ⟨tid, aeron_pos_roundup ((off + info.len) % 2 ^ 32)⟩ > 0) ∧
          (aeron_pos_compare
              (aeron_pos_add_length (stream_on_entry transport sid).high info.len s'.term_length)
              ⟨tid, aeron_pos_roundup ((off + info.len) % 2 ^ 32)⟩ = 0 →
            sfa.flags &&& AERON_STREAM_FRAME_ANALYSIS_FLAG_OOO = 0 ∧
              sfa.flags &&& AERON_STREAM_FRAME_ANALYSIS_FLAG_OOO_GAP = 0)) := by
  obtain ⟨s', hs', hf, hsfa⟩ :=
    snapshot_fresh_lookup sa pinfo transport info sid tid off hv h1 h2 h3 hnew
  have hL : s'.term_length = (stream_on_entry transport sid).term_length := by
    obtain ⟨t', ht', hw⟩ := setup_stream_stored sa true pinfo transport info sid tid off
      (by simp) hv h1 h2 h3
    rw [hs'] at ht'
    cases ht'
    rw [window_state_eq_iff] at hw
    rw [hw.2.2.2.2.1]
    exact (setup_window_scalars true pinfo info tid off (stream_on_entry transport sid)).2.2.2.2
  refine ⟨s', hs', ?_⟩
  intro hvalid
  refine ⟨_, hsfa hvalid, ?_⟩
  have hpd := bne_zero_true _ hpdpv
  rw [hpd, hL]
  obtain ⟨k1, k2⟩ := classify_data_diff (stream_on_entry transport sid).term_length info
    tid off (stream_on_entry transport sid).high (stream_on_entry transport sid).completed
    (((stream_on_entry transport sid).flags &&& AERON_STREAM_FLAGS_COMPLETED_VALID) != 0)
    (stream_on_entry transport sid).receiver_window
    (aeron_sequence_setup_fill (aeron_sequence_setup_positions
        (stream_on_entry transport sid) info tid off true
        (((stream_on_entry transport sid).flags &&& AERON_STREAM_FLAGS_COMPLETED_VALID) != 0))
      info (aeron_stream_frame_analysis_new pinfo.num))
    hty (fill_new_flags _ _ _) (fun h => hdiff ((aeron_pos_compare_eq_zero _ _).1 h))
  refine ⟨k1, k2, ?_⟩
  intro he
  constructor
  · by_contra hc
    have := k1.1 hc
    omega
  · by_contra hc
    have := k2.1 hc
    omega

theorem classify_sm_valid (L : Nat) (info : aeron_sequence_info_t) (tid off : Nat)
    (pdp : aeron_pos_t) (pdpv : Bool) (prp : aeron_pos_t) (crw : Nat)
    (g : aeron_stream_frame_analysis_t)
    (hty : info.type = HDR_TYPE_SM) (hg : g.flags = 0 ∨ g.flags = 1) :
    ((aeron_sequence_setup_classify L info tid off pdp pdpv prp true crw g).flags &&&
        AERON_STREAM_FRAME_ANALYSIS_FLAG_KEEPALIVE_SM ≠ 0 ↔
      (aeron_pos_compare ⟨tid, off⟩ prp = 0 ∧ pdpv = true ∧
        aeron_pos_compare pdp ⟨tid, off⟩ = 0)) ∧
    ((aeron_sequence_setup_classify L info tid off pdp pdpv prp true crw g).flags &&&
        AERON_STREAM_FRAME_ANALYSIS_FLAG_OOO_SM ≠ 0 ↔
      aeron_pos_compare ⟨tid, off⟩ prp < 0) ∧
    ((aeron_sequence_setup_classify L info tid off pdp pdpv prp true crw g).flags &&&
        AERON_STREAM_FRAME_ANALYSIS_FLAG_WINDOW_RESIZE ≠ 0 ↔
      crw ≠ g.receiver_window) := by
  have hne : ¬ (info.type = HDR_TYPE_DATA ∨ info.type = HDR_TYPE_PAD) := by
    rw [hty]; decide
  unfold aeron_sequence_setup_classify
  simp only [hne, hty, if_true, if_false]
  generalize aeron_pos_compare (⟨tid, off⟩ : aeron_pos_t) prp = rc
  generalize aeron_pos_compare pdp (⟨tid, off⟩ : aeron_pos_t) = rc2
  rcases hg with hg | hg <;> split_ifs with h1 h2 h3 h4 h5 <;>
    simp [hg, *, AERON_STREAM_FRAME_ANALYSIS_FLAG_KEEPALIVE_SM,
      AERON_STREAM_FRAME_ANALYSIS_FLAG_OOO_SM, AERON_STREAM_FRAME_ANALYSIS_FLAG_WINDOW_RESIZE,
      and_flag_64, and_flag_128, and_flag_256] <;> omega

theorem classify_sm_first (L : Nat) (info : aeron_sequence_info_t) (tid off : Nat)
    (pdp : aeron_pos_t) (pdpv : Bool) (prp : aeron_pos_t) (crw : Nat)
    (g : aeron_stream_frame_analysis_t) (hty : info.type = HDR_TYPE_SM) :
    aeron_sequence_setup_classify L info tid off pdp pdpv prp false crw g = g := by
  have hne2 : ¬ (HDR_TYPE_SM = HDR_TYPE_DATA ∨ HDR_TYPE_SM = HDR_TYPE_PAD) := by decide
  unfold aeron_sequence_setup_classify
  simp only [hty, hne2, if_true, if_false, Bool.false_eq_true]

theorem positions_sm_receiver_window (s : aeron_stream_t) (info : aeron_sequence_info_t)
    (tid off : Nat) (pdpv prpv : Bool) (hty : info.type = HDR_TYPE_SM) :
    (aeron_sequence_setup_positions s info tid off pdpv prpv).receiver_window =
      info.receiver_window := by
  have hne2 : ¬ (HDR_TYPE_SM = HDR_TYPE_DATA ∨ HDR_TYPE_SM = HDR_TYPE_PAD) := by decide
  unfold aeron_sequence_setup_positions
  simp only [hty, hne2, if_true, if_false]

/-- C8: a first-visit Status frame reporting `rp` whose stream had a valid completed
position `prp` before the frame, and for which a snapshot is created: KEEPALIVE_SM is
set exactly when `rp` equals `prp` and the previous high position is valid and equal
to `rp`; OOO_SM is set exactly when `rp` is below `prp` in `aeron_pos_compare` order. -/
theorem status_keepalive_ooo_iff (sa : Bool) (pinfo : packet_info)
    (transport : aeron_transport_t) (info : aeron_sequence_info_t) (sid tid off : Nat)
    (hv : pinfo.visited = false)
    (h1 : info.stream_id = some sid) (h2 : info.term_id = some tid)
    (h3 : info.offset = some off)
    (hty : info.type = HDR_TYPE_SM)
    (hnew : aeron_stream_frame_analysis_find (stream_on_entry transport sid) pinfo.num = none)
    (hprpv : (stream_on_entry transport sid).flags &&& AERON_STREAM_FLAGS_COMPLETED_VALID ≠ 0) :
    ∃ s', aeron_transport_stream_find (aeron_sequence_setup sa true pinfo transport info) sid =
        some s' ∧
      ((s'.flags &&& AERON_STREAM_FLAGS_HIGH_VALID ≠ 0 ∧
          s'.flags &&& AERON_STREAM_FLAGS_COMPLETED_VALID ≠ 0) →
        ∃ sfa, aeron_stream_frame_analysis_find s' pinfo.num = some sfa ∧
          (sfa.flags &&& AERON_STREAM_FRAME_ANALYSIS_FLAG_KEEPALIVE_SM ≠ 0 ↔
            ((⟨tid, off⟩ : aeron_pos_t) = (stream_on_entry transport sid).completed ∧
              (stream_on_entry transport sid).flags &&& AERON_STREAM_FLAGS_HIGH_VALID ≠ 0 ∧
              (stream_on_entry transport sid).high = ⟨tid, off⟩)) ∧
          (sfa.flags &&& AERON_STREAM_FRAME_ANALYSIS_FLAG_OOO_SM ≠ 0 ↔
            aeron_pos_compare ⟨tid, off⟩ (stream_on_entry transport sid).completed < 0)) := by
  obtain ⟨s', hs', -, hsfa⟩ :=
    snapshot_fresh_lookup sa pinfo transport info sid tid off hv h1 h2 h3 hnew
  refine ⟨s', hs', ?_⟩
  intro hvalid
  refine ⟨_, hsfa hvalid, ?_⟩
  have hpr := bne_zero_true _ hprpv
  rw [hpr]
  obtain ⟨k1, k2, -⟩ := classify_sm_valid (stream_on_entry transport sid).term_length info
    tid off (stream_on_entry transport sid).high
    (((stream_on_entry transport sid).flags &&& AERON_STREAM_FLAGS_HIGH_VALID) != 0)
    (stream_on_entry transport sid).completed
    (stream_on_entry transport sid).receiver_window
    (aeron_sequence_setup_fill (aeron_sequence_setup_positions
        (stream_on_entry transport sid) info tid off
        (((stream_on_entry transport sid).flags &&& AERON_STREAM_FLAGS_HIGH_VALID) != 0) true)
      info (aeron_stream_frame_analysis_new pinfo.num))
    hty (fill_new_flags _ _ _)
  simp only [aeron_pos_compare_eq_zero, bne_iff_ne] at k1
  exact ⟨k1, k2⟩

theorem snapshot_skipped (sa : Bool) (pinfo : packet_info)
    (transport : aeron_transport_t) (info : aeron_sequence_info_t) (sid tid off : Nat)
    (hv : pinfo.visited = false)
    (h1 : info.stream_id = some sid) (h2 : info.term_id = some tid)
    (h3 : info.offset = some off) :
    ∀ s', aeron_transport_stream_find (aeron_sequence_setup sa true pinfo transport info) sid =
        some s' →
      ¬ (s'.flags &&& AERON_STREAM_FLAGS_HIGH_VALID ≠ 0 ∧
          s'.flags &&& AERON_STREAM_FLAGS_COMPLETED_VALID ≠ 0) →
      s'.analysis = (stream_on_entry transport sid).analysis := by
  intro s' hs' hnv
  obtain ⟨t', ht', hw⟩ := setup_stream_stored sa true pinfo transport info sid tid off
    (by simp) hv h1 h2 h3
  rw [hs'] at ht'
  cases ht'
  rw [window_state_eq_iff] at hw
  obtain ⟨hf, -, -, -, -, ha⟩ := hw
  obtain ⟨hf2, -, -, -, -⟩ :=
    setup_window_scalars true pinfo info tid off (stream_on_entry transport sid)
  rw [hf2] at hf
  rw [hf, ← has_sfa_true_iff] at hnv
  rw [ha]
  exact setup_window_analysis_skip true pinfo info tid off _ (by simpa using hnv)

theorem entry_of_find (transport : aeron_transport_t) (sid : Nat) (s : aeron_stream_t)
    (h : aeron_transport_stream_find transport sid = some s) :
    stream_on_entry transport sid = s := by
  unfold stream_on_entry
  rw [h]

theorem window_resize_step (sa : Bool) (pinfo : packet_info)
    (transport : aeron_transport_t) (info : aeron_sequence_info_t) (sid tid off : Nat)
    (hv : pinfo.visited = false)
    (h1 : info.stream_id = some sid) (h2 : info.term_id = some tid)
    (h3 : info.offset = some off)
    (hty : info.type = HDR_TYPE_SM)
    (hnew : aeron_stream_frame_analysis_find (stream_on_entry transport sid) pinfo.num = none) :
    ∃ s', aeron_transport_stream_find (aeron_sequence_setup sa true pinfo transport info) sid =
        some s' ∧
      ((s'.flags &&& AERON_STREAM_FLAGS_HIGH_VALID ≠ 0 ∧
          s'.flags &&& AERON_STREAM_FLAGS_COMPLETED_VALID ≠ 0) →
        ∃ sfa, aeron_stream_frame_analysis_find s' pinfo.num = some sfa ∧
          (sfa.flags &&& AERON_STREAM_FRAME_ANALYSIS_FLAG_WINDOW_RESIZE ≠ 0 ↔
            ((stream_on_entry transport sid).flags &&& AERON_STREAM_FLAGS_COMPLETED_VALID ≠ 0 ∧
              info.receiver_window ≠ (stream_on_entry transport sid).receiver_window))) := by
  obtain ⟨s', hs', -, hsfa⟩ :=
    snapshot_fresh_lookup sa pinfo transport info sid tid off hv h1 h2 h3 hnew
  refine ⟨s', hs', ?_⟩
  intro hvalid
  refine ⟨_, hsfa hvalid, ?_⟩
  have hrw : (aeron_sequence_setup_fill (aeron_sequence_setup_positions
        (stream_on_entry transport sid) info tid off
        (((stream_on_entry transport sid).flags &&& AERON_STREAM_FLAGS_HIGH_VALID) != 0)
        (((stream_on_entry transport sid).flags &&& AERON_STREAM_FLAGS_COMPLETED_VALID) != 0))
      info (aeron_stream_frame_analysis_new pinfo.num)).receiver_window = info.receiver_window := by
    rw [(fill_sets_fields _ info _ (Or.inr (Or.inr hty))).2.2.2.1]
    exact positions_sm_receiver_window _ _ _ _ _ _ hty
  by_cases hprpv : (stream_on_entry transport sid).flags &&&
      AERON_STREAM_FLAGS_COMPLETED_VALID ≠ 0
  · have hpr := bne_zero_true _ hprpv
    rw [hpr]
    obtain ⟨-, -, k3⟩ := classify_sm_valid (stream_on_entry transport sid).term_length info
      tid off (stream_on_entry transport sid).high
      (((stream_on_entry transport sid).flags &&& AERON_STREAM_FLAGS_HIGH_VALID) != 0)
      (stream_on_entry transport sid).completed
      (stream_on_entry transport sid).receiver_window
      (aeron_sequence_setup_fill (aeron_sequence_setup_positions
          (stream_on_entry transport sid) info tid off
          (((stream_on_entry transport sid).flags &&& AERON_STREAM_FLAGS_HIGH_VALID) != 0) true)
        info (aeron_stream_frame_analysis_new pinfo.num))
      hty (fill_new_flags _ _ _)
    rw [hpr] at hrw
    rw [hrw] at k3
    refine k3.trans ⟨fun h => ⟨hprpv, fun e => h e.symm⟩, fun h e => h.2 e.symm⟩
  · have hpr : (((stream_on_entry transport sid).flags &&&
        AERON_STREAM_FLAGS_COMPLETED_VALID) != 0) = false := by simpa using hprpv
    rw [hpr, classify_sm_first _ _ _ _ _ _ _ _ _ hty]
    have hz : (aeron_sequence_setup_fill (aeron_sequence_setup_positions
          (stream_on_entry transport sid) info tid off
          (((stream_on_entry transport sid).flags &&& AERON_STREAM_FLAGS_HIGH_VALID) != 0) false)
        info (aeron_stream_frame_analysis_new pinfo.num)).flags &&&
        AERON_STREAM_FRAME_ANALYSIS_FLAG_WINDOW_RESIZE = 0 := by
      rcases fill_new_flags (aeron_sequence_setup_positions
          (stream_on_entry transport sid) info tid off
          (((stream_on_entry transport sid).flags &&& AERON_STREAM_FLAGS_HIGH_VALID) != 0) false)
        info pinfo.num with h | h <;> rw [h] <;> decide
    exact ⟨fun h => absurd hz h, fun h => absurd h.1 hprpv⟩

theorem entry_transport_new (channel : Nat) (addr1 addr2 : address)
    (session_id port1 port2 sid : Nat) :
    stream_on_entry (aeron_transport_new channel addr1 addr2 session_id port1 port2) sid =
      aeron_stream_new sid := rfl

/-- The first Status frame of a stream, after any run of other frames on a new
transport: the stream has no snapshot before it, and the snapshot it gets, if any,
does not carry WINDOW_RESIZE. -/
theorem first_status_no_resize (sa : Bool) (channel : Nat) (addr1 addr2 : address)
    (session_id port1 port2 : Nat) (frames : List (packet_info × aeron_frame_fields))
    (pinfo : packet_info) (fl sid tid co rw : Nat)
    (hno : ∀ p ∈ frames, ∀ fl' tid' co' rw', p.2 ≠ .sm fl' sid tid' co' rw')
    (hv : pinfo.visited = false) :
    ∀ s' sfa,
      aeron_transport_stream_find (aeron_frame_apply sa true pinfo
        (aeron_frames_apply sa true
          (aeron_transport_new channel addr1 addr2 session_id port1 port2) frames)
        (.sm fl sid tid co rw)) sid = some s' →
      aeron_stream_frame_analysis_find s' pinfo.num = some sfa →
      sfa.flags &&& AERON_STREAM_FRAME_ANALYSIS_FLAG_WINDOW_RESIZE = 0 := by
  intro s' sfa hs' hsfa
  obtain ⟨hcv, han⟩ := frames_apply_no_status sa true frames sid
    (aeron_transport_new channel addr1 addr2 session_id port1 port2) hno (by
      rw [entry_transport_new]; exact Nat.zero_and _)
  rw [entry_transport_new] at han
  have han2 : (stream_on_entry (aeron_frames_apply sa true
      (aeron_transport_new channel addr1 addr2 session_id port1 port2) frames) sid).analysis
      = [] := han
  have hnew : aeron_stream_frame_analysis_find (stream_on_entry (aeron_frames_apply sa true
      (aeron_transport_new channel addr1 addr2 session_id port1 port2) frames) sid) pinfo.num
      = none := by
    unfold aeron_stream_frame_analysis_find
    rw [han2]; rfl
  simp only [aeron_frame_apply] at hs'
  obtain ⟨t', ht', hiff⟩ := window_resize_step sa pinfo _ (aeron_sm_sinfo sid tid co rw)
    sid tid co hv rfl rfl rfl rfl hnew
  rw [hs'] at ht'
  cases ht'
  by_cases hvalid : (s'.flags &&& AERON_STREAM_FLAGS_HIGH_VALID ≠ 0 ∧
          s'.flags &&& AERON_STREAM_FLAGS_COMPLETED_VALID ≠ 0)
  · obtain ⟨sfa2, h2, hres⟩ := hiff hvalid
    rw [hsfa] at h2
    cases h2
    by_contra hc
    exact (hres.1 hc).1 hcv
  · have hsk := snapshot_skipped sa pinfo _ (aeron_sm_sinfo sid tid co rw) sid tid co hv
      rfl rfl rfl s' hs' hvalid
    unfold aeron_stream_frame_analysis_find at hsfa
    rw [hsk, han2] at hsfa
    cases hsfa

/-! ### Position distance -/

/-- The distance in terms of the exact byte-axis values: the low 32 bits of the
difference between the position ranked first by `aeron_pos_compare` and the other. -/
theorem aeron_pos_delta_mod (a b : aeron_pos_t) (L : Nat) :
    ((aeron_pos_delta a b L : Nat) : Int) =
      ((byte_axis (if aeron_pos_compare a b ≥ 0 then a else b) L : Int) -
        (byte_axis (if aeron_pos_compare a b ≥ 0 then b else a) L : Int)) % 2 ^ 32 := by
  unfold aeron_pos_delta byte_axis
  simp only [land_mask32]
  generalize (if aeron_pos_compare a b ≥ 0 then a else b) = hi
  generalize (if aeron_pos_compare a b ≥ 0 then b else a) = lo
  generalize hi.term_id * L = m1
  generalize lo.term_id * L = m2
  push_cast
  omega

/-- C10, as the claim states it, fails: with term length 0 (a stream that has seen no
Setup frame) the positions (term 3, offset 104) and (term 2, offset 500) have byte-axis
values 104 and 500, at distance 396, while `aeron_pos_delta` subtracts in the order
`aeron_pos_compare` gives and returns 2^32 - 396. -/
theorem aeron_pos_delta_not_abs :
    aeron_pos_delta ⟨3, 104⟩ ⟨2, 500⟩ 0 = 4294966900 ∧
      Int.natAbs ((byte_axis ⟨3, 104⟩ 0 : Int) - (byte_axis ⟨2, 500⟩ 0 : Int)) % 2 ^ 32 = 396 := by
  decide

/-- C10, amended: `aeron_pos_delta(a, b, L)` is the low 32 bits of `A_hi - A_lo`, where
`hi` is the position `aeron_pos_compare` ranks first and `A` the exact byte-axis value
`term_id * L + term_offset`; it is the low 32 bits of `|A - B|` whenever
`A_lo <= A_hi`, which holds in particular when both term offsets are below `L`. -/
theorem aeron_pos_delta_low32 (a b : aeron_pos_t) (L : Nat) :
    ((aeron_pos_delta a b L : Nat) : Int) =
        ((byte_axis (if aeron_pos_compare a b ≥ 0 then a else b) L : Int) -
          (byte_axis (if aeron_pos_compare a b ≥ 0 then b else a) L : Int)) % 2 ^ 32 ∧
      (byte_axis (if aeron_pos_compare a b ≥ 0 then b else a) L ≤
          byte_axis (if aeron_pos_compare a b ≥ 0 then a else b) L →
        aeron_pos_delta a b L =
          Int.natAbs ((byte_axis a L : Int) - (byte_axis b L : Int)) % 2 ^ 32) ∧
      (a.term_offset < L → b.term_offset < L →
        byte_axis (if aeron_pos_compare a b ≥ 0 then b else a) L ≤
          byte_axis (if aeron_pos_compare a b ≥ 0 then a else b) L) := by
  refine ⟨aeron_pos_delta_mod a b L, ?_, ?_⟩
  · intro hle
    have h := aeron_pos_delta_mod a b L
    by_cases hc : aeron_pos_compare a b ≥ 0
    · simp only [hc, if_true] at h hle
      omega
    · simp only [hc, if_false] at h hle
      omega
  · intro ha hb
    obtain ⟨a1, a2⟩ := a
    obtain ⟨b1, b2⟩ := b
    simp only at ha hb
    unfold aeron_pos_compare byte_axis
    simp only
    by_cases h1 : a1 = b1
    · subst h1
      by_cases h2 : a2 = b2
      · subst h2; simp
      · by_cases h3 : a2 < b2
        · simp [h2, h3]; omega
        · simp [h2, h3]; omega
    · by_cases h3 : a1 < b1
      · simp only [h1, h3, if_true, if_false]
        have : (a1 + 1) * L ≤ b1 * L := Nat.mul_le_mul_right L h3
        simp
        nlinarith
      · simp only [h1, h3, if_false]
        have h4 : b1 < a1 := by omega
        have : (b1 + 1) * L ≤ a1 * L := Nat.mul_le_mul_right L h4
        simp
        nlinarith

/-! ### Terms and fragments inside a transport -/

theorem find_term_stream_write (transport : aeron_transport_t) (sid sid' tid' : Nat)
    (f : aeron_stream_t → aeron_stream_t) (hf : ∀ s, (f s).term = s.term) :
    aeron_stream_term_find (stream_write transport sid f) sid' tid' =
      aeron_stream_term_find transport sid' tid' := by
  unfold aeron_stream_term_find
  rw [find_stream_write]
  by_cases hk : sid' = sid
  · subst hk
    cases h : aeron_transport_stream_find transport sid' with
    | none => simp
    | some s => simp [hf]
  · simp [hk]

theorem find_term_term_write (transport : aeron_transport_t) (sid tid sid' tid' : Nat)
    (f : aeron_term_t → aeron_term_t) :
    aeron_stream_term_find (term_write transport sid tid f) sid' tid' =
      if sid' = sid ∧ tid' = tid then (aeron_stream_term_find transport sid tid).map f
      else aeron_stream_term_find transport sid' tid' := by
  unfold aeron_stream_term_find term_write
  rw [find_stream_write]
  by_cases hk : sid' = sid
  · subst hk
    cases h : aeron_transport_stream_find transport sid' with
    | none => simp
    | some s =>
      simp only [Option.map_some', if_true, lookup_update, true_and]
  · simp [hk]

theorem find_term_transport_frame_add (transport : aeron_transport_t) (frame sid' tid' : Nat) :
    aeron_stream_term_find (aeron_transport_frame_add transport frame) sid' tid' =
      aeron_stream_term_find transport sid' tid' := by
  unfold aeron_stream_term_find
  rw [find_transport_frame_add]

theorem find_fragment_of_term (a b : aeron_transport_t) (sid tid off : Nat)
    (h : (aeron_stream_term_find a sid tid).map (fun t => t.fragment) =
      (aeron_stream_term_find b sid tid).map (fun t => t.fragment)) :
    aeron_term_fragment_find a sid tid off = aeron_term_fragment_find b sid tid off := by
  unfold aeron_term_fragment_find
  cases ha : aeron_stream_term_find a sid tid with
  | none =>
    cases hb : aeron_stream_term_find b sid tid with
    | none => rfl
    | some t => rw [ha, hb] at h; simp at h
  | some s =>
    cases hb : aeron_stream_term_find b sid tid with
    | none => rw [ha, hb] at h; simp at h
    | some t =>
      rw [ha, hb] at h
      simp only [Option.map_some', Option.some.injEq] at h
      simp only [h]

theorem find_fragment_stream_write (transport : aeron_transport_t) (sid sid' tid' off' : Nat)
    (f : aeron_stream_t → aeron_stream_t) (hf : ∀ s, (f s).term = s.term) :
    aeron_term_fragment_find (stream_write transport sid f) sid' tid' off' =
      aeron_term_fragment_find transport sid' tid' off' := by
  apply find_fragment_of_term
  rw [find_term_stream_write _ _ _ _ _ hf]

theorem find_fragment_term_write (transport : aeron_transport_t) (sid tid sid' tid' off' : Nat)
    (f : aeron_term_t → aeron_term_t) (hf : ∀ t, (f t).fragment = t.fragment) :
    aeron_term_fragment_find (term_write transport sid tid f) sid' tid' off' =
      aeron_term_fragment_find transport sid' tid' off' := by
  apply find_fragment_of_term
  rw [find_term_term_write]
  by_cases hk : sid' = sid ∧ tid' = tid
  · obtain ⟨hs, ht⟩ := hk
    subst hs; subst ht
    cases h : aeron_stream_term_find transport sid' tid' with
    | none => simp
    | some t => simp [hf]
  · simp [hk]

theorem find_fragment_fragment_write (transport : aeron_transport_t)
    (sid tid off sid' tid' off' : Nat) (f : aeron_fragment_t → aeron_fragment_t) :
    aeron_term_fragment_find (fragment_write transport sid tid off f) sid' tid' off' =
      if sid' = sid ∧ tid' = tid ∧ off' = off then
        (aeron_term_fragment_find transport sid tid off).map f
      else aeron_term_fragment_find transport sid' tid' off' := by
  unfold aeron_term_fragment_find fragment_write
  rw [find_term_term_write]
  by_cases hk : sid' = sid ∧ tid' = tid
  · obtain ⟨hs, ht⟩ := hk
    subst hs; subst ht
    cases h : aeron_stream_term_find transport sid' tid' with
    | none => simp
    | some t => simp only [and_self, if_true, Option.map_some', lookup_update, true_and]
  · have hk2 : ¬ (sid' = sid ∧ tid' = tid ∧ off' = off) := fun h => hk ⟨h.1, h.2.1⟩
    simp [hk, hk2]

theorem find_fragment_transport_frame_add (transport : aeron_transport_t)
    (frame sid' tid' off' : Nat) :
    aeron_term_fragment_find (aeron_transport_frame_add transport frame) sid' tid' off' =
      aeron_term_fragment_find transport sid' tid' off' := by
  unfold aeron_term_fragment_find
  rw [find_term_transport_frame_add]

theorem find_fragment_stream_frame_add (transport : aeron_transport_t)
    (sid frame sid' tid' off' : Nat) :
    aeron_term_fragment_find (aeron_stream_frame_add transport sid frame) sid' tid' off' =
      aeron_term_fragment_find transport sid' tid' off' := by
  unfold aeron_stream_frame_add
  simp only [find_fragment_transport_frame_add]
  exact find_fragment_stream_write _ _ _ _ _ _ (fun s => rfl)

theorem find_fragment_term_frame_add (transport : aeron_transport_t)
    (sid tid frame sid' tid' off' : Nat) :
    aeron_term_fragment_find (aeron_term_frame_add transport sid tid frame) sid' tid' off' =
      aeron_term_fragment_find transport sid' tid' off' := by
  unfold aeron_term_frame_add
  simp only [find_fragment_stream_frame_add]
  exact find_fragment_term_write _ _ _ _ _ _ _ (fun t => rfl)

theorem find_fragment_stream_add (transport : aeron_transport_t) (sid sid' tid' off' : Nat) :
    aeron_term_fragment_find (aeron_transport_stream_add transport sid) sid' tid' off' =
      aeron_term_fragment_find transport sid' tid' off' := by
  unfold aeron_term_fragment_find aeron_stream_term_find
  rw [find_stream_add]
  by_cases hk : sid' = sid
  · subst hk
    unfold stream_on_entry
    cases h : aeron_transport_stream_find transport sid' with
    | none => simp [aeron_stream_new, wmem_tree_lookup32]
    | some s => simp
  · simp [hk]

theorem find_fragment_term_add (transport : aeron_transport_t) (sid tid sid' tid' off' : Nat) :
    aeron_term_fragment_find (aeron_stream_term_add transport sid tid) sid' tid' off' =
      aeron_term_fragment_find transport sid' tid' off' := by
  unfold aeron_stream_term_add
  cases h : aeron_stream_term_find transport sid tid with
  | some t => rfl
  | none =>
    simp only
    unfold aeron_term_fragment_find aeron_stream_term_find
    rw [find_stream_write]
    by_cases hk : sid' = sid
    · subst hk
      unfold aeron_stream_term_find at h
      cases hs : aeron_transport_stream_find transport sid' with
      | none => simp
      | some s =>
        rw [hs] at h
        simp only at h
        simp only [if_true, Option.map_some', lookup_insert]
        by_cases ht : tid' = tid
        · subst ht
          simp [h, wmem_tree_lookup32]
        · simp [ht]
    · simp [hk]

/-! ### The occurrence chain of one fragment -/

theorem chain_of_find (a b : aeron_transport_t) (sid tid off : Nat)
    (h : aeron_term_fragment_find a sid tid off = aeron_term_fragment_find b sid tid off) :
    fragment_chain a sid tid off = fragment_chain b sid tid off := by
  unfold fragment_chain
  rw [h]

theorem chain_fragment_add (transport : aeron_transport_t) (sid tid off len dlen : Nat)
    (sid' tid' off' : Nat) :
    fragment_chain (aeron_term_fragment_add transport sid tid off len dlen) sid' tid' off' =
      fragment_chain transport sid' tid' off' := by
  unfold aeron_term_fragment_add
  cases h : aeron_term_fragment_find transport sid tid off with
  | some f => rfl
  | none =>
    simp only
    unfold fragment_chain aeron_term_fragment_find
    rw [find_term_term_write]
    by_cases hk : sid' = sid ∧ tid' = tid
    · obtain ⟨hs, ht⟩ := hk
      subst hs; subst ht
      unfold aeron_term_fragment_find at h
      cases ht : aeron_stream_term_find transport sid' tid' with
      | none => simp
      | some t =>
        rw [ht] at h
        simp only at h
        simp only [and_self, if_true, Option.map_some', lookup_insert]
        by_cases ho : off' = off
        · subst ho; simp [h]
        · simp [ho]
    · simp [hk]

theorem find_fragment_add_same (transport : aeron_transport_t) (sid tid off len dlen : Nat)
    (hterm : aeron_stream_term_find transport sid tid ≠ none) :
    aeron_term_fragment_find
      (match aeron_term_fragment_find transport sid tid off with
        | some _ => transport
        | none => aeron_term_fragment_add transport sid tid off len dlen) sid tid off ≠ none := by
  cases h : aeron_term_fragment_find transport sid tid off with
  | some f => simp [h]
  | none =>
    simp only
    unfold aeron_term_fragment_add
    simp only [h]
    unfold aeron_term_fragment_find
    rw [find_term_term_write]
    cases ht : aeron_stream_term_find transport sid tid with
    | none => exact absurd ht hterm
    | some t => simp [lookup_insert]

theorem chain_fragment_write (transport : aeron_transport_t) (sid tid off sid' tid' off' : Nat)
    (f : aeron_fragment_t → aeron_fragment_t)
    (hf : ∀ x, (f x).frame = x.frame ∧ (f x).last_frame = x.last_frame) :
    fragment_chain (fragment_write transport sid tid off f) sid' tid' off' =
      fragment_chain transport sid' tid' off' := by
  unfold fragment_chain
  rw [find_fragment_fragment_write]
  by_cases hk : sid' = sid ∧ tid' = tid ∧ off' = off
  · obtain ⟨hs, ht, ho⟩ := hk
    subst hs; subst ht; subst ho
    cases h : aeron_term_fragment_find transport sid' tid' off' with
    | none => simp
    | some x => simp [(hf x).1, (hf x).2]
  · simp [hk]

/-- The chain of the fragment `aeron_fragment_frame_add` is called on, when that
fragment exists. -/
theorem chain_fragment_frame_add_same (transport : aeron_transport_t) (sid tid off frame : Nat)
    (hex : aeron_term_fragment_find transport sid tid off ≠ none) :
    fragment_chain (aeron_fragment_frame_add transport sid tid off frame) sid tid off =
      fragment_chain_add (fragment_chain transport sid tid off) frame := by
  unfold aeron_fragment_frame_add
  cases h : aeron_term_fragment_find transport sid tid off with
  | none => exact absurd h hex
  | some x =>
    simp only
    unfold fragment_chain_add
    have hc : fragment_chain transport sid tid off = (x.frame, x.last_frame) := by
      unfold fragment_chain; rw [h]
    rw [hc]
    simp only
    unfold aeron_fragment_frame_find
    cases hl : wmem_tree_lookup32 x.frame frame with
    | some e => simp only [hc]
    | none =>
      simp only
      unfold fragment_chain
      rw [find_fragment_fragment_write, find_fragment_term_frame_add,
        find_fragment_fragment_write]
      simp only [and_self, if_true, h, Option.map_some']
      cases x.last_frame <;> rfl

theorem chain_fragment_frame_add_other (transport : aeron_transport_t)
    (sid tid off frame sid' tid' off' : Nat)
    (hne : ¬ (sid' = sid ∧ tid' = tid ∧ off' = off)) :
    fragment_chain (aeron_fragment_frame_add transport sid tid off frame) sid' tid' off' =
      fragment_chain transport sid' tid' off' := by
  unfold aeron_fragment_frame_add
  split
  · rfl
  · split
    · rfl
    · apply chain_of_find
      simp only [find_fragment_fragment_write, find_fragment_term_frame_add, hne, if_false]

theorem chain_setup_fragment_same (transport : aeron_transport_t) (info : aeron_sequence_info_t)
    (sid tid off frame : Nat) (hterm : aeron_stream_term_find transport sid tid ≠ none) :
    fragment_chain (aeron_sequence_setup_fragment transport info sid tid off frame) sid tid off =
      fragment_chain_add (fragment_chain transport sid tid off) frame := by
  unfold aeron_sequence_setup_fragment
  simp only
  have hex := find_fragment_add_same transport sid tid off info.len info.data_len hterm
  rw [chain_fragment_frame_add_same]
  · rw [chain_fragment_write]
    · cases h : aeron_term_fragment_find transport sid tid off with
      | some f => rfl
      | none => simp only [chain_fragment_add]
    · intro y; exact ⟨rfl, rfl⟩
  · rw [find_fragment_fragment_write]
    simp only [and_self, if_true]
    intro hc
    apply hex
    cases hx : aeron_term_fragment_find
      (match aeron_term_fragment_find transport sid tid off with
        | some _ => transport
        | none => aeron_term_fragment_add transport sid tid off info.len info.data_len)
      sid tid off with
    | none => rfl
    | some y => rw [hx] at hc; simp at hc

theorem chain_setup_fragment_other (transport : aeron_transport_t) (info : aeron_sequence_info_t)
    (sid tid off frame sid' tid' off' : Nat)
    (hne : ¬ (sid' = sid ∧ tid' = tid ∧ off' = off)) :
    fragment_chain (aeron_sequence_setup_fragment transport info sid tid off frame)
        sid' tid' off' =
      fragment_chain transport sid' tid' off' := by
  unfold aeron_sequence_setup_fragment
  simp only
  rw [chain_fragment_frame_add_other _ _ _ _ _ _ _ _ hne, chain_fragment_write]
  · cases h : aeron_term_fragment_find transport sid tid off with
    | some f => rfl
    | none => simp only [chain_fragment_add]
  · intro y; exact ⟨rfl, rfl⟩

theorem positions_term (s : aeron_stream_t) (info : aeron_sequence_info_t)
    (tid off : Nat) (pdpv prpv : Bool) :
    (aeron_sequence_setup_positions s info tid off pdpv prpv).term = s.term := by
  unfold aeron_sequence_setup_positions
  dsimp only
  split_ifs <;> rfl

theorem analysis_add_term (s : aeron_stream_t) (frame : Nat) :
    (aeron_stream_frame_analysis_add s frame).term = s.term := by
  unfold aeron_stream_frame_analysis_add
  split <;> rfl

/-- The chain of any fragment through the block entered with a non-`NULL` offset. -/
theorem chain_setup_offset (wa : Bool) (pinfo : packet_info) (transport : aeron_transport_t)
    (info : aeron_sequence_info_t) (sid tid off : Nat) (s0 : aeron_stream_t)
    (sid' tid' off' : Nat) (hterm : aeron_stream_term_find transport sid tid ≠ none) :
    fragment_chain (aeron_sequence_setup_offset wa pinfo transport info sid tid off s0)
        sid' tid' off' =
      if info.type = HDR_TYPE_DATA ∧ sid' = sid ∧ tid' = tid ∧ off' = off then
        fragment_chain_add (fragment_chain transport sid' tid' off') pinfo.num
      else fragment_chain transport sid' tid' off' := by
  unfold aeron_sequence_setup_offset
  simp only
  have hw1 : ∀ (t : aeron_transport_t) (f : aeron_stream_t → aeron_stream_t),
      (∀ s, (f s).term = s.term) →
      fragment_chain (stream_write t sid f) sid' tid' off' = fragment_chain t sid' tid' off' :=
    fun t f hf => chain_of_find _ _ _ _ _ (find_fragment_stream_write t sid sid' tid' off' f hf)
  have hpos : ∀ s, (aeron_sequence_setup_positions s info tid off
      ((s0.flags &&& AERON_STREAM_FLAGS_HIGH_VALID) != 0)
      ((s0.flags &&& AERON_STREAM_FLAGS_COMPLETED_VALID) != 0)).term = s.term :=
    fun s => positions_term _ _ _ _ _ _
  have hadd : ∀ s : aeron_stream_t, (if aeron_sequence_setup_has_sfa wa s = true then
      aeron_stream_frame_analysis_add s pinfo.num else s).term = s.term := by
    intro s
    split_ifs
    · exact analysis_add_term _ _
    · rfl
  have hsnap : ∀ s : aeron_stream_t, (aeron_sequence_setup_snapshot s pinfo info tid off
      s0.high ((s0.flags &&& AERON_STREAM_FLAGS_HIGH_VALID) != 0) s0.completed
      ((s0.flags &&& AERON_STREAM_FLAGS_COMPLETED_VALID) != 0) s0.receiver_window).term =
      s.term := fun s => rfl
  have hterm2 : aeron_stream_term_find (stream_write (stream_write transport sid fun stream =>
      aeron_sequence_setup_positions stream info tid off
        ((s0.flags &&& AERON_STREAM_FLAGS_HIGH_VALID) != 0)
        ((s0.flags &&& AERON_STREAM_FLAGS_COMPLETED_VALID) != 0)) sid
      (fun stream => if aeron_sequence_setup_has_sfa wa stream = true then
        aeron_stream_frame_analysis_add stream pinfo.num else stream)) sid tid ≠ none := by
    rw [find_term_stream_write _ _ _ _ _ hadd, find_term_stream_write _ _ _ _ _ hpos]
    exact hterm
  have hmid : fragment_chain (if info.type = HDR_TYPE_DATA then
        aeron_sequence_setup_fragment (stream_write (stream_write transport sid fun stream =>
          aeron_sequence_setup_positions stream info tid off
            ((s0.flags &&& AERON_STREAM_FLAGS_HIGH_VALID) != 0)
            ((s0.flags &&& AERON_STREAM_FLAGS_COMPLETED_VALID) != 0)) sid
          (fun stream => if aeron_sequence_setup_has_sfa wa stream = true then
            aeron_stream_frame_analysis_add stream pinfo.num else stream))
          info sid tid off pinfo.num
      else (stream_write (stream_write transport sid fun stream =>
          aeron_sequence_setup_positions stream info tid off
            ((s0.flags &&& AERON_STREAM_FLAGS_HIGH_VALID) != 0)
            ((s0.flags &&& AERON_STREAM_FLAGS_COMPLETED_VALID) != 0)) sid
          (fun stream => if aeron_sequence_setup_has_sfa wa stream = true then
            aeron_stream_frame_analysis_add stream pinfo.num else stream))) sid' tid' off' =
      if info.type = HDR_TYPE_DATA ∧ sid' = sid ∧ tid' = tid ∧ off' = off then
        fragment_chain_add (fragment_chain transport sid' tid' off') pinfo.num
      else fragment_chain transport sid' tid' off' := by
    by_cases hty : info.type = HDR_TYPE_DATA
    · simp only [hty, if_true, true_and]
      by_cases hk : sid' = sid ∧ tid' = tid ∧ off' = off
      · obtain ⟨e1, e2, e3⟩ := hk
        subst e1; subst e2; subst e3
        simp only [and_self, if_true]
        rw [chain_setup_fragment_same _ _ _ _ _ _ hterm2, hw1 _ _ hadd, hw1 _ _ hpos]
      · simp only [hk, if_false]
        rw [chain_setup_fragment_other _ _ _ _ _ _ _ _ _ hk, hw1 _ _ hadd, hw1 _ _ hpos]
    · simp only [hty, if_false, false_and]
      rw [hw1 _ _ hadd, hw1 _ _ hpos]
  have hlast : ∀ (b : Bool) (t : aeron_transport_t),
      fragment_chain (if b = true then stream_write t sid (fun stream =>
        aeron_sequence_setup_snapshot stream pinfo info tid off
          s0.high ((s0.flags &&& AERON_STREAM_FLAGS_HIGH_VALID) != 0) s0.completed
          ((s0.flags &&& AERON_STREAM_FLAGS_COMPLETED_VALID) != 0) s0.receiver_window)
        else t) sid' tid' off' = fragment_chain t sid' tid' off' := by
    intro b t
    cases b
    · rfl
    · simp only [if_true]
      exact hw1 _ _ hsnap
  rw [hlast]
  exact hmid

theorem term_after_lookup (transport : aeron_transport_t) (sid tid : Nat) :
    aeron_stream_term_find
      (match aeron_stream_term_find (match aeron_transport_stream_find transport sid with
          | some _ => transport
          | none => aeron_transport_stream_add transport sid) sid tid with
        | some _ => (match aeron_transport_stream_find transport sid with
          | some _ => transport
          | none => aeron_transport_stream_add transport sid)
        | none => aeron_stream_term_add (match aeron_transport_stream_find transport sid with
          | some _ => transport
          | none => aeron_transport_stream_add transport sid) sid tid) sid tid ≠ none := by
  generalize htr1 : (match aeron_transport_stream_find transport sid with
          | some _ => transport
          | none => aeron_transport_stream_add transport sid) = tr1
  have hs1 : aeron_transport_stream_find tr1 sid ≠ none := by
    rw [← htr1]
    cases h : aeron_transport_stream_find transport sid with
    | some s => simp [h]
    | none => simp [find_stream_add]
  cases ht : aeron_stream_term_find tr1 sid tid with
  | some t => simp [ht]
  | none =>
    simp only
    unfold aeron_stream_term_add
    simp only [ht]
    unfold aeron_stream_term_find
    rw [find_stream_write]
    cases hs : aeron_transport_stream_find tr1 sid with
    | none => exact absurd hs hs1
    | some s => simp [lookup_insert]

theorem chain_after_lookup (transport : aeron_transport_t) (sid tid sid' tid' off' : Nat) :
    fragment_chain
      (match aeron_stream_term_find (match aeron_transport_stream_find transport sid with
          | some _ => transport
          | none => aeron_transport_stream_add transport sid) sid tid with
        | some _ => (match aeron_transport_stream_find transport sid with
          | some _ => transport
          | none => aeron_transport_stream_add transport sid)
        | none => aeron_stream_term_add (match aeron_transport_stream_find transport sid with
          | some _ => transport
          | none => aeron_transport_stream_add transport sid) sid tid) sid' tid' off' =
      fragment_chain transport sid' tid' off' := by
  apply chain_of_find
  have h1 : aeron_term_fragment_find (match aeron_transport_stream_find transport sid with
          | some _ => transport
          | none => aeron_transport_stream_add transport sid) sid' tid' off' =
      aeron_term_fragment_find transport sid' tid' off' := by
    cases h : aeron_transport_stream_find transport sid with
    | some s => rfl
    | none => exact find_fragment_stream_add _ _ _ _ _
  generalize (match aeron_transport_stream_find transport sid with
          | some _ => transport
          | none => aeron_transport_stream_add transport sid) = tr1 at h1 ⊢
  cases h : aeron_stream_term_find tr1 sid tid with
  | some t => exact h1
  | none => simp only [find_fragment_term_add, h1]

theorem chain_stream_lookup (transport : aeron_transport_t) (sid sid' tid' off' : Nat) :
    fragment_chain (match aeron_transport_stream_find transport sid with
          | some _ => transport
          | none => aeron_transport_stream_add transport sid) sid' tid' off' =
      fragment_chain transport sid' tid' off' := by
  apply chain_of_find
  cases h : aeron_transport_stream_find transport sid with
  | some s => rfl
  | none => exact find_fragment_stream_add _ _ _ _ _

/-- The chain of the fragment at (sid', tid', off') after `aeron_sequence_setup`: one
`aeron_fragment_frame_add` step when the frame is a first-visit Data frame for that
very fragment and analysis is enabled, and unchanged otherwise. -/
theorem chain_setup_any (sa wa : Bool) (pinfo : packet_info) (transport : aeron_transport_t)
    (info : aeron_sequence_info_t) (sid' tid' off' : Nat) :
    fragment_chain (aeron_sequence_setup sa wa pinfo transport info) sid' tid' off' =
      if (sa || wa) = true ∧ pinfo.visited = false ∧ info.type = HDR_TYPE_DATA ∧
          info.stream_id = some sid' ∧ info.term_id = some tid' ∧ info.offset = some off' then
        fragment_chain_add (fragment_chain transport sid' tid' off') pinfo.num
      else fragment_chain transport sid' tid' off' := by
  by_cases hen : (sa || wa) = true
  swap
  · have : aeron_sequence_setup sa wa pinfo transport info = transport := by
      unfold aeron_sequence_setup
      simp only [hen, Bool.false_eq_true, if_false]
    rw [this]
    simp [hen]
  by_cases hv : pinfo.visited = false
  swap
  · have hv2 : pinfo.visited = true := by simpa using hv
    have : aeron_sequence_setup sa wa pinfo transport info = transport := by
      unfold aeron_sequence_setup
      simp only [hv2, Bool.true_eq_false, if_false, ite_self]
    rw [this]
    simp [hv2]
  cases hsid : info.stream_id with
  | none =>
    have : aeron_sequence_setup sa wa pinfo transport info =
        aeron_transport_frame_add transport pinfo.num := by
      unfold aeron_sequence_setup
      simp only [hen, hv, hsid, if_true]
    rw [this, chain_of_find _ _ _ _ _ (find_fragment_transport_frame_add _ _ _ _ _)]
    simp
  | some sid =>
    cases htid : info.term_id with
    | none =>
      have : aeron_sequence_setup sa wa pinfo transport info =
          aeron_stream_frame_add (match aeron_transport_stream_find transport sid with
            | some _ => transport
            | none => aeron_transport_stream_add transport sid) sid pinfo.num := by
        unfold aeron_sequence_setup
        simp only [hen, hv, hsid, htid, if_true]
      rw [this, chain_of_find _ _ _ _ _ (find_fragment_stream_frame_add _ _ _ _ _ _),
        chain_stream_lookup]
      simp
    | some tid =>
      cases hoff : info.offset with
      | none =>
        have : aeron_sequence_setup sa wa pinfo transport info =
            aeron_term_frame_add
              (match aeron_stream_term_find (match aeron_transport_stream_find transport sid with
                  | some _ => transport
                  | none => aeron_transport_stream_add transport sid) sid tid with
                | some _ => (match aeron_transport_stream_find transport sid with
                  | some _ => transport
                  | none => aeron_transport_stream_add transport sid)
                | none => aeron_stream_term_add (match aeron_transport_stream_find transport sid with
                  | some _ => transport
                  | none => aeron_transport_stream_add transport sid) sid tid)
              sid tid pinfo.num := by
          unfold aeron_sequence_setup
          simp only [hen, hv, hsid, htid, hoff, if_true]
        rw [this, chain_of_find _ _ _ _ _ (find_fragment_term_frame_add _ _ _ _ _ _ _),
          chain_after_lookup]
        simp
      | some off =>
        have hterm := term_after_lookup transport sid tid
        have hchain := chain_after_lookup transport sid tid sid' tid' off'
        have hex := window_after_lookup transport sid tid
        simp only at hex
        unfold aeron_sequence_setup
        simp only [hen, hv, hsid, htid, hoff, if_true, true_and, Option.some.injEq]
        generalize (match aeron_stream_term_find
            (match aeron_transport_stream_find transport sid with
              | some _ => transport
              | none => aeron_transport_stream_add transport sid) sid tid with
            | some _ => (match aeron_transport_stream_find transport sid with
              | some _ => transport
              | none => aeron_transport_stream_add transport sid)
            | none => aeron_stream_term_add (match aeron_transport_stream_find transport sid with
              | some _ => transport
              | none => aeron_transport_stream_add transport sid) sid tid) = tr2
            at hterm hchain hex ⊢
        cases hs : aeron_transport_stream_find tr2 sid with
        | none => rw [hs] at hex; simp at hex
        | some s0 =>
          simp only
          rw [chain_setup_offset wa pinfo tr2 info sid tid off s0 sid' tid' off' hterm, hchain]
          by_cases hk : sid' = sid ∧ tid' = tid ∧ off' = off
          · obtain ⟨e1, e2, e3⟩ := hk
            subst e1; subst e2; subst e3
            simp
          · have hk2 : ¬ (sid = sid' ∧ tid = tid' ∧ off = off') :=
              fun h => hk ⟨h.1.symm, h.2.1.symm, h.2.2.symm⟩
            simp [hk, hk2]

theorem chain_next_offset_report (transport : aeron_transport_t)
    (stream_id term_id term_offset length sid' tid' off' : Nat) :
    fragment_chain (aeron_next_offset_report transport stream_id term_id term_offset length)
        sid' tid' off' = fragment_chain transport sid' tid' off' := by
  unfold aeron_next_offset_report
  apply chain_of_find
  apply find_fragment_stream_write
  intro s
  split_ifs <;> rfl

theorem chain_set_stream_mtu_term_length (pinfo : packet_info) (transport : aeron_transport_t)
    (stream_id mtu term_length sid' tid' off' : Nat) :
    fragment_chain (aeron_set_stream_mtu_term_length pinfo transport stream_id mtu term_length)
        sid' tid' off' = fragment_chain transport sid' tid' off' := by
  unfold aeron_set_stream_mtu_term_length
  split_ifs
  · apply chain_of_find
    apply find_fragment_stream_write
    intro s
    rfl
  · rfl

/-- One frame, seen from one fragment: a hit adds an occurrence, any other frame
leaves the fragment's chain alone. -/
theorem chain_frame_apply (sa wa : Bool) (pinfo : packet_info) (transport : aeron_transport_t)
    (fields : aeron_frame_fields) (sid tid off : Nat) (hen : (sa || wa) = true) :
    fragment_chain (aeron_frame_apply sa wa pinfo transport fields) sid tid off =
      if is_fragment_hit sid tid off (pinfo, fields) = true then
        fragment_chain_add (fragment_chain transport sid tid off) pinfo.num
      else fragment_chain transport sid tid off := by
  cases fields with
  | pad frame_len term_offset stream_id term_id =>
    simp only [aeron_frame_apply, chain_next_offset_report, chain_setup_any, is_fragment_hit]
    simp [aeron_pad_sinfo, HDR_TYPE_PAD, HDR_TYPE_DATA]
  | data flags frame_len term_offset stream_id term_id =>
    simp only [aeron_frame_apply, chain_next_offset_report, chain_setup_any, is_fragment_hit]
    simp only [aeron_data_sinfo, hen, true_and, Option.some.injEq, Bool.and_eq_true, beq_iff_eq]
    by_cases h : pinfo.visited = false ∧ stream_id = sid ∧ term_id = tid ∧ term_offset = off
    · obtain ⟨h1, h2, h3, h4⟩ := h
      simp [h1, h2, h3, h4]
    · have h' : ¬ (((pinfo.visited = false ∧ stream_id = sid) ∧ term_id = tid) ∧
          term_offset = off) := fun x => h ⟨x.1.1.1, x.1.1.2, x.1.2, x.2⟩
      simp only [h', if_false]
      have h'' : ¬ (pinfo.visited = false ∧ stream_id = sid ∧ term_id = tid ∧
          term_offset = off) := h
      simp [h'']
  | nak frame_len stream_id term_id =>
    simp only [aeron_frame_apply, chain_setup_any, is_fragment_hit]
    simp [aeron_nak_sinfo]
  | sm frame_len stream_id term_id comp_offset rcv_window =>
    simp only [aeron_frame_apply, chain_setup_any, is_fragment_hit]
    simp [aeron_sm_sinfo, HDR_TYPE_SM, HDR_TYPE_DATA]
  | err len =>
    simp [aeron_frame_apply, is_fragment_hit]
  | setup frame_len stream_id active_term_id term_length mtu =>
    simp only [aeron_frame_apply, chain_set_stream_mtu_term_length, chain_setup_any,
      is_fragment_hit]
    simp [aeron_setup_sinfo]

theorem frames_apply_append (sa wa : Bool) (l1 l2 : List (packet_info × aeron_frame_fields)) :
    ∀ transport : aeron_transport_t,
      aeron_frames_apply sa wa transport (l1 ++ l2) =
        aeron_frames_apply sa wa (aeron_frames_apply sa wa transport l1) l2 := by
  induction l1 with
  | nil => intro transport; rfl
  | cons p rest ih =>
    intro transport
    obtain ⟨pinfo, fields⟩ := p
    simp only [List.cons_append, aeron_frames_apply]
    exact ih _

theorem chain_add_lookup_other (c : wmem_tree_t aeron_frame_t × Option Nat) (n m : Nat)
    (hne : m ≠ n) :
    wmem_tree_lookup32 (fragment_chain_add c n).1 m = wmem_tree_lookup32 c.1 m := by
  unfold fragment_chain_add
  cases h : wmem_tree_lookup32 c.1 n with
  | some e => rfl
  | none =>
    simp only
    cases c.2 with
    | none => simp [lookup_insert, hne]
    | some last => simp [lookup_insert, hne]

theorem chain_add_lookup_new (c : wmem_tree_t aeron_frame_t × Option Nat) (n : Nat)
    (hnew : wmem_tree_lookup32 c.1 n = none) :
    ∃ prev, wmem_tree_lookup32 (fragment_chain_add c n).1 n =
      some { frame := n, previous_frame := prev, next_frame := 0,
             retransmission := c.2.isSome } := by
  unfold fragment_chain_add
  simp only [hnew]
  cases c.2 with
  | none => exact ⟨0, by simp [lookup_insert]⟩
  | some last => exact ⟨last, by simp [lookup_insert]⟩

theorem chain_add_last (c : wmem_tree_t aeron_frame_t × Option Nat) (n : Nat)
    (hinv : ∀ m, wmem_tree_lookup32 c.1 m ≠ none → c.2 ≠ none) :
    (fragment_chain_add c n).2 ≠ none := by
  unfold fragment_chain_add
  cases h : wmem_tree_lookup32 c.1 n with
  | some e =>
    simp only
    exact hinv n (by rw [h]; simp)
  | none =>
    simp only
    cases c.2 with
    | none => simp
    | some last => simp

/-- After a run from a new transport, the chain of a fragment holds records only for
the hits processed, and has a last record exactly when there was a hit. -/
theorem chain_after_run (sa wa : Bool) (hen : (sa || wa) = true) (transport0 : aeron_transport_t)
    (sid tid off : Nat) (h0 : fragment_chain transport0 sid tid off = ([], none))
    (frames : List (packet_info × aeron_frame_fields)) :
    (∀ m, wmem_tree_lookup32
        (fragment_chain (aeron_frames_apply sa wa transport0 frames) sid tid off).1 m ≠ none →
      ∃ q ∈ frames, is_fragment_hit sid tid off q = true ∧ q.1.num = m) ∧
    ((fragment_chain (aeron_frames_apply sa wa transport0 frames) sid tid off).2 ≠ none ↔
      ∃ q ∈ frames, is_fragment_hit sid tid off q = true) := by
  induction frames using List.reverseRecOn with
  | nil =>
    simp only [aeron_frames_apply, h0]
    constructor
    · intro m hm
      exact absurd rfl hm
    · simp
  | append_singleton l x ih =>
    obtain ⟨pinfo, fields⟩ := x
    obtain ⟨iha, ihb⟩ := ih
    rw [frames_apply_append]
    simp only [aeron_frames_apply]
    rw [chain_frame_apply sa wa pinfo _ fields sid tid off hen]
    by_cases hh : is_fragment_hit sid tid off (pinfo, fields) = true
    · simp only [hh, if_true]
      constructor
      · intro m hm
        by_cases hmn : m = pinfo.num
        · exact ⟨(pinfo, fields), by simp, hh, hmn.symm⟩
        · rw [chain_add_lookup_other _ _ _ hmn] at hm
          obtain ⟨q, hq, hq2, hq3⟩ := iha m hm
          exact ⟨q, by simp [hq], hq2, hq3⟩
      · constructor
        · intro _
          exact ⟨(pinfo, fields), by simp, hh⟩
        · intro _
          apply chain_add_last
          intro m hm
          exact ihb.2 (by
            obtain ⟨q, hq, hq2, _⟩ := iha m hm
            exact ⟨q, hq, hq2⟩)
    · simp only [hh, if_false]
      constructor
      · intro m hm
        obtain ⟨q, hq, hq2, hq3⟩ := iha m hm
        exact ⟨q, by simp [hq], hq2, hq3⟩
      · constructor
        · intro h
          obtain ⟨q, hq, hq2⟩ := ihb.1 h
          exact ⟨q, by simp [hq], hq2⟩
        · intro h
          obtain ⟨q, hq, hq2⟩ := h
          simp only [List.mem_append, List.mem_singleton] at hq
          rcases hq with hq | hq
          · exact ihb.2 ⟨q, hq, hq2⟩
          · subst hq
            exact absurd hq2 hh

/-- A record of the chain survives every later frame that is not a hit with the same
frame number. -/
theorem chain_record_kept (sa wa : Bool) (hen : (sa || wa) = true) (sid tid off n : Nat)
    (e : aeron_frame_t) (frames : List (packet_info × aeron_frame_fields)) :
    ∀ transport : aeron_transport_t,
      (∀ q ∈ frames, is_fragment_hit sid tid off q = true → q.1.num ≠ n) →
      wmem_tree_lookup32 (fragment_chain transport sid tid off).1 n = some e →
      wmem_tree_lookup32
        (fragment_chain (aeron_frames_apply sa wa transport frames) sid tid off).1 n = some e := by
  induction frames with
  | nil => intro transport _ h; exact h
  | cons p rest ih =>
    intro transport hd h
    obtain ⟨pinfo, fields⟩ := p
    simp only [aeron_frames_apply]
    apply ih
    · intro q hq
      exact hd q (List.mem_cons_of_mem _ hq)
    · rw [chain_frame_apply sa wa pinfo _ fields sid tid off hen]
      by_cases hh : is_fragment_hit sid tid off (pinfo, fields) = true
      · simp only [hh, if_true]
        have hne : n ≠ pinfo.num := fun e => hd (pinfo, fields) (List.mem_cons_self _ _) hh e.symm
        rw [chain_add_lookup_other _ _ _ hne]
        exact h
      · simp only [hh, if_false]
        exact h

theorem chain_transport_new (channel : Nat) (addr1 addr2 : address)
    (session_id port1 port2 sid tid off : Nat) :
    fragment_chain (aeron_transport_new channel addr1 addr2 session_id port1 port2) sid tid off =
      ([], none) := rfl

/-- C1: frames of one transport are analysed in order from its creation, with sequence
or window analysis enabled.  For a first-visit Data frame reporting (term id, term
offset) of a stream whose frame number differs from that of every other first-visit
Data frame reporting the same fragment, the fragment holds an occurrence record for
the frame after the run, and that record has `retransmission = TRUE` exactly when the
frame is the N-th such frame with N > 1: the first occurrence is not flagged, every
later one is. -/
theorem retransmission_iff_not_first (sa wa : Bool) (hen : (sa || wa) = true)
    (channel : Nat) (addr1 addr2 : address) (session_id port1 port2 : Nat)
    (pre post : List (packet_info × aeron_frame_fields))
    (pinfo : packet_info) (flags frame_len off sid tid : Nat)
    (hv : pinfo.visited = false)
    (hdist : ∀ q ∈ pre ++ post, is_fragment_hit sid tid off q = true → q.1.num ≠ pinfo.num) :
    ∃ fragment entry,
      aeron_term_fragment_find
        (aeron_frames_apply sa wa
          (aeron_transport_new channel addr1 addr2 session_id port1 port2)
          (pre ++ (pinfo, .data flags frame_len off sid tid) :: post)) sid tid off =
        some fragment ∧
      aeron_fragment_frame_find fragment pinfo.num = some entry ∧
      entry.frame = pinfo.num ∧
      (entry.retransmission = true ↔
        (pre.filter (is_fragment_hit sid tid off)).length + 1 > 1) := by
  have hpre := chain_after_run sa wa hen
    (aeron_transport_new channel addr1 addr2 session_id port1 port2) sid tid off
    (chain_transport_new _ _ _ _ _ _ _ _ _) pre
  obtain ⟨hpa, hpb⟩ := hpre
  generalize htr : aeron_frames_apply sa wa
    (aeron_transport_new channel addr1 addr2 session_id port1 port2) pre = trp at hpa hpb
  have hnone : wmem_tree_lookup32 (fragment_chain trp sid tid off).1 pinfo.num = none := by
    by_contra hc
    obtain ⟨q, hq, hq2, hq3⟩ := hpa pinfo.num hc
    exact hdist q (List.mem_append_left _ hq) hq2 hq3
  have hhit : is_fragment_hit sid tid off (pinfo, .data flags frame_len off sid tid) = true := by
    simp [is_fragment_hit, hv]
  obtain ⟨prev, hrec⟩ := chain_add_lookup_new (fragment_chain trp sid tid off) pinfo.num hnone
  have hstep : wmem_tree_lookup32 (fragment_chain
      (aeron_frame_apply sa wa pinfo trp (.data flags frame_len off sid tid)) sid tid off).1
      pinfo.num =
        some { frame := pinfo.num, previous_frame := prev, next_frame := 0,
               retransmission := (fragment_chain trp sid tid off).2.isSome } := by
    rw [chain_frame_apply sa wa pinfo trp _ sid tid off hen]
    simp only [hhit, if_true]
    exact hrec
  have hfinal := chain_record_kept sa wa hen sid tid off pinfo.num _ post
    (aeron_frame_apply sa wa pinfo trp (.data flags frame_len off sid tid))
    (fun q hq => hdist q (List.mem_append_right _ hq)) hstep
  have hrun : aeron_frames_apply sa wa
      (aeron_transport_new channel addr1 addr2 session_id port1 port2)
      (pre ++ (pinfo, .data flags frame_len off sid tid) :: post) =
      aeron_frames_apply sa wa
        (aeron_frame_apply sa wa pinfo trp (.data flags frame_len off sid tid)) post := by
    rw [frames_apply_append, htr]
    rfl
  rw [hrun]
  generalize aeron_frames_apply sa wa
    (aeron_frame_apply sa wa pinfo trp (.data flags frame_len off sid tid)) post = trf at hfinal
  unfold fragment_chain at hfinal
  cases hf : aeron_term_fragment_find trf sid tid off with
  | none =>
    rw [hf] at hfinal
    simp [wmem_tree_lookup32] at hfinal
  | some fragment =>
    rw [hf] at hfinal
    simp only at hfinal
    refine ⟨fragment, _, rfl, hfinal, rfl, ?_⟩
    simp only [Option.isSome_iff_ne_none]
    have hcount : (pre.filter (is_fragment_hit sid tid off)).length + 1 > 1 ↔
        ∃ q ∈ pre, is_fragment_hit sid tid off q = true := by
      constructor
      · intro h
        have hpos : 0 < (pre.filter (is_fragment_hit sid tid off)).length := by omega
        obtain ⟨q, hq⟩ := List.exists_mem_of_length_pos hpos
        rw [List.mem_filter] at hq
        exact ⟨q, hq.1, hq.2⟩
      · intro ⟨q, hq, hq2⟩
        have : q ∈ pre.filter (is_fragment_hit sid tid off) := List.mem_filter.2 ⟨hq, hq2⟩
        have := List.length_pos_of_mem this
        omega
    rw [hcount]
    exact hpb

/-- A stream of a new transport that has been sent no Status frame has no snapshot. -/
theorem no_status_no_snapshot (sa wa : Bool) (channel : Nat) (addr1 addr2 : address)
    (session_id port1 port2 : Nat) (frames : List (packet_info × aeron_frame_fields))
    (sid : Nat)
    (hno : ∀ p ∈ frames, ∀ fl tid co rw, p.2 ≠ .sm fl sid tid co rw) :
    ∀ s, aeron_transport_stream_find (aeron_frames_apply sa wa
        (aeron_transport_new channel addr1 addr2 session_id port1 port2) frames) sid = some s →
      s.analysis = [] := by
  intro s hs
  obtain ⟨-, han⟩ := frames_apply_no_status sa wa frames sid
    (aeron_transport_new channel addr1 addr2 session_id port1 port2) hno (by
      rw [entry_transport_new]; exact Nat.zero_and _)
  rw [entry_transport_new, entry_of_find _ _ _ hs] at han
  exact han

/-- C9: in the snapshot created for a first-visit Status frame, WINDOW_RESIZE is set if
and only if the stream had a completed position before the frame (so that its cached
receiver window comes from an earlier Status frame) and the frame's receiver window
differs from that cached value.  And the first Status frame a stream is sent, after any
run of other frames on a new transport, never gets WINDOW_RESIZE. -/
theorem window_resize_iff (sa : Bool) (pinfo : packet_info)
    (transport : aeron_transport_t) (info : aeron_sequence_info_t) (sid tid off : Nat)
    (hv : pinfo.visited = false)
    (h1 : info.stream_id = some sid) (h2 : info.term_id = some tid)
    (h3 : info.offset = some off)
    (hty : info.type = HDR_TYPE_SM)
    (hnew : aeron_stream_frame_analysis_find (stream_on_entry transport sid) pinfo.num = none) :
    (∃ s', aeron_transport_stream_find (aeron_sequence_setup sa true pinfo transport info) sid =
        some s' ∧
      ((s'.flags &&& AERON_STREAM_FLAGS_HIGH_VALID ≠ 0 ∧
          s'.flags &&& AERON_STREAM_FLAGS_COMPLETED_VALID ≠ 0) →
        ∃ sfa, aeron_stream_frame_analysis_find s' pinfo.num = some sfa ∧
          (sfa.flags &&& AERON_STREAM_FRAME_ANALYSIS_FLAG_WINDOW_RESIZE ≠ 0 ↔
            ((stream_on_entry transport sid).flags &&& AERON_STREAM_FLAGS_COMPLETED_VALID ≠ 0 ∧
              info.receiver_window ≠ (stream_on_entry transport sid).receiver_window)))) ∧
    (∀ (channel : Nat) (addr1 addr2 : address) (session_id port1 port2 : Nat)
        (frames : List (packet_info × aeron_frame_fields))
        (pinfo' : packet_info) (fl sid' tid' co rw : Nat),
      (∀ p ∈ frames, ∀ fl' tid'' co' rw', p.2 ≠ .sm fl' sid' tid'' co' rw') →
      pinfo'.visited = false →
      ∀ s' sfa,
        aeron_transport_stream_find (aeron_frame_apply sa true pinfo'
          (aeron_frames_apply sa true
            (aeron_transport_new channel addr1 addr2 session_id port1 port2) frames)
          (.sm fl sid' tid' co rw)) sid' = some s' →
        aeron_stream_frame_analysis_find s' pinfo'.num = some sfa →
        sfa.flags &&& AERON_STREAM_FRAME_ANALYSIS_FLAG_WINDOW_RESIZE = 0) :=
  ⟨window_resize_step sa pinfo transport info sid tid off hv h1 h2 h3 hty hnew,
    fun channel addr1 addr2 session_id port1 port2 frames pinfo' fl sid' tid' co rw hno hv' =>
      first_status_no_resize sa channel addr1 addr2 session_id port1 port2 frames pinfo'
        fl sid' tid' co rw hno hv'⟩

/-! ### The theorems at work on the worked capture -/

theorem retransmission_iff_not_first_witness :
    (∀ q ∈ [((⟨false, 1⟩ : packet_info), aeron_frame_fields.data 0xC0 124 1000 10 5)] ++ [],
      is_fragment_hit 10 5 1000 q = true → q.1.num ≠ 2) ∧
    ∃ fragment entry,
      aeron_term_fragment_find
        (aeron_frames_apply true false
          (aeron_transport_new 0 ⟨2, [10, 0, 0, 1]⟩ ⟨2, [10, 0, 0, 2]⟩ 7 40123 40124)
          ([((⟨false, 1⟩ : packet_info), aeron_frame_fields.data 0xC0 124 1000 10 5)] ++
            ((⟨false, 2⟩ : packet_info), aeron_frame_fields.data 0xC0 124 1000 10 5) :: []))
          10 5 1000 = some fragment ∧
      aeron_fragment_frame_find fragment 2 = some entry ∧
      entry.frame = 2 ∧
      (entry.retransmission = true ↔
        ([((⟨false, 1⟩ : packet_info), aeron_frame_fields.data 0xC0 124 1000 10 5)].filter
          (is_fragment_hit 10 5 1000)).length + 1 > 1) :=
  ⟨by decide,
    retransmission_iff_not_first true false rfl 0 ⟨2, [10, 0, 0, 1]⟩ ⟨2, [10, 0, 0, 2]⟩ 7 40123
      40124 [((⟨false, 1⟩ : packet_info), aeron_frame_fields.data 0xC0 124 1000 10 5)] []
      ⟨false, 2⟩ 0xC0 124 1000 10 5 rfl (by decide)⟩

theorem snapshot_created_iff_both_valid_witness :
    aeron_stream_frame_analysis_find (stream_on_entry scenario_after_data 10) 2 = none ∧
    ∃ s', aeron_transport_stream_find (aeron_sequence_setup true true ⟨false, 2⟩
        scenario_after_data (aeron_sm_sinfo 10 2 2000 4096)) 10 = some s' ∧
      ((aeron_stream_frame_analysis_find s' 2).isSome = true ↔
        (s'.flags &&& AERON_STREAM_FLAGS_HIGH_VALID ≠ 0 ∧
          s'.flags &&& AERON_STREAM_FLAGS_COMPLETED_VALID ≠ 0)) ∧
      (¬ (s'.flags &&& AERON_STREAM_FLAGS_HIGH_VALID ≠ 0 ∧
          s'.flags &&& AERON_STREAM_FLAGS_COMPLETED_VALID ≠ 0) →
        s'.analysis = (stream_on_entry scenario_after_data 10).analysis) :=
  ⟨by decide,
    snapshot_created_iff_both_valid true ⟨false, 2⟩ scenario_after_data
      (aeron_sm_sinfo 10 2 2000 4096) 10 2 2000 rfl rfl rfl rfl (by decide)⟩

theorem snapshot_copies_stream_state_witness :
    (aeron_sm_sinfo 10 2 2000 4096).type = HDR_TYPE_SM ∧
    ∃ s', aeron_transport_stream_find (aeron_sequence_setup true true ⟨false, 2⟩
        scenario_after_data (aeron_sm_sinfo 10 2 2000 4096)) 10 = some s' ∧
      ((s'.flags &&& AERON_STREAM_FLAGS_HIGH_VALID ≠ 0 ∧
          s'.flags &&& AERON_STREAM_FLAGS_COMPLETED_VALID ≠ 0) →
        ∃ sfa, aeron_stream_frame_analysis_find s' 2 = some sfa ∧
          sfa.high = s'.high ∧ sfa.completed = s'.completed ∧
          sfa.receiver_window = s'.receiver_window ∧
          sfa.outstanding_bytes = aeron_pos_delta s'.high s'.completed s'.term_length) :=
  ⟨rfl,
    (snapshot_copies_stream_state true ⟨false, 2⟩ scenario_after_data
      (aeron_sm_sinfo 10 2 2000 4096) 10 2 2000 rfl rfl rfl rfl (Or.inr (Or.inr rfl))).1⟩

theorem keepalive_idle_pacing_witness :
    aeron_stream_frame_analysis_find (stream_on_entry scenario_after_sm 10) 3 = none ∧
    (stream_on_entry scenario_after_sm 10).flags &&& AERON_STREAM_FLAGS_HIGH_VALID ≠ 0 ∧
    (⟨2, aeron_pos_roundup ((1000 + (aeron_data_sinfo 0xC0 1000 1000 10 2).len) % 2 ^ 32)⟩ :
        aeron_pos_t) = (stream_on_entry scenario_after_sm 10).high ∧
    ∃ s', aeron_transport_stream_find (aeron_sequence_setup true true ⟨false, 3⟩
        scenario_after_sm (aeron_data_sinfo 0xC0 1000 1000 10 2)) 10 = some s' ∧
      ((s'.flags &&& AERON_STREAM_FLAGS_HIGH_VALID ≠ 0 ∧
          s'.flags &&& AERON_STREAM_FLAGS_COMPLETED_VALID ≠ 0) →
        ∃ sfa, aeron_stream_frame_analysis_find s' 3 = some sfa ∧
          (sfa.flags &&& AERON_STREAM_FRAME_ANALYSIS_FLAG_KEEPALIVE ≠ 0 ↔
            (aeron_data_sinfo 0xC0 1000 1000 10 2).len = 0) ∧
          ((aeron_data_sinfo 0xC0 1000 1000 10 2).len ≠ 0 →
            (sfa.flags &&& AERON_STREAM_FRAME_ANALYSIS_FLAG_IDLE_RX ≠ 0 ↔
              ((stream_on_entry scenario_after_sm 10).flags &&&
                  AERON_STREAM_FLAGS_COMPLETED_VALID ≠ 0 ∧
                (⟨2, aeron_pos_roundup
                    ((1000 + (aeron_data_sinfo 0xC0 1000 1000 10 2).len) % 2 ^ 32)⟩ :
                  aeron_pos_t) = (stream_on_entry scenario_after_sm 10).completed)) ∧
            (sfa.flags &&& AERON_STREAM_FRAME_ANALYSIS_FLAG_PACING_RX ≠ 0 ↔
              ¬ ((stream_on_entry scenario_after_sm 10).flags &&&
                  AERON_STREAM_FLAGS_COMPLETED_VALID ≠ 0 ∧
                (⟨2, aeron_pos_roundup
                    ((1000 + (aeron_data_sinfo 0xC0 1000 1000 10 2).len) % 2 ^ 32)⟩ :
                  aeron_pos_t) = (stream_on_entry scenario_after_sm 10).completed)))) :=
  ⟨by decide, by decide, by decide,
    keepalive_idle_pacing true ⟨false, 3⟩ scenario_after_sm
      (aeron_data_sinfo 0xC0 1000 1000 10 2) 10 2 1000 rfl rfl rfl rfl (Or.inl rfl)
      (by decide) (by decide) (by decide)⟩

theorem out_of_order_iff_witness :
    aeron_stream_frame_analysis_find (stream_on_entry scenario_after_sm 10) 3 = none ∧
    (stream_on_entry scenario_after_sm 10).flags &&& AERON_STREAM_FLAGS_HIGH_VALID ≠ 0 ∧
    (⟨2, aeron_pos_roundup ((2000 + (aeron_data_sinfo 0xC0 500 2000 10 2).len) % 2 ^ 32)⟩ :
        aeron_pos_t) ≠ (stream_on_entry scenario_after_sm 10).high ∧
    ∃ s', aeron_transport_stream_find (aeron_sequence_setup true true ⟨false, 3⟩
        scenario_after_sm (aeron_data_sinfo 0xC0 500 2000 10 2)) 10 = some s' ∧
      ((s'.flags &&& AERON_STREAM_FLAGS_HIGH_VALID ≠ 0 ∧
          s'.flags &&& AERON_STREAM_FLAGS_COMPLETED_VALID ≠ 0) →
        ∃ sfa, aeron_stream_frame_analysis_find s' 3 = some sfa ∧
          (sfa.flags &&& AERON_STREAM_FRAME_ANALYSIS_FLAG_OOO ≠ 0 ↔
            aeron_pos_compare
              (aeron_pos_add_length (stream_on_entry scenario_after_sm 10).high
                (aeron_data_sinfo 0xC0 500 2000 10 2).len s'.term_length)
              ⟨2, aeron_pos_roundup
                ((2000 + (aeron_data_sinfo 0xC0 500 2000 10 2).len) % 2 ^ 32)⟩ < 0) ∧
          (sfa.flags &&& AERON_STREAM_FRAME_ANALYSIS_FLAG_OOO_GAP ≠ 0 ↔
            aeron_pos_compare
              (aeron_pos_add_length (stream_on_entry scenario_after_sm 10).high
                (aeron_data_sinfo 0xC0 500 2000 10 2).len s'.term_length)
              ⟨2, aeron_pos_roundup
                ((2000 + (aeron_data_sinfo 0xC0 500 2000 10 2).len) % 2 ^ 32)⟩ > 0) ∧
          (aeron_pos_compare
              (aeron_pos_add_length (stream_on_entry scenario_after_sm 10).high
                (aeron_data_sinfo 0xC0 500 2000 10 2).len s'.term_length)
              ⟨2, aeron_pos_roundup
                ((2000 + (aeron_data_sinfo 0xC0 500 2000 10 2).len) % 2 ^ 32)⟩ = 0 →
            sfa.flags &&& AERON_STREAM_FRAME_ANALYSIS_FLAG_OOO = 0 ∧
              sfa.flags &&& AERON_STREAM_FRAME_ANALYSIS_FLAG_OOO_GAP = 0)) :=
  ⟨by decide, by decide, by decide,
    out_of_order_iff true ⟨false, 3⟩ scenario_after_sm
      (aeron_data_sinfo 0xC0 500 2000 10 2) 10 2 2000 rfl rfl rfl rfl (Or.inl rfl)
      (by decide) (by decide) (by decide)⟩

theorem status_keepalive_ooo_iff_witness :
    aeron_stream_frame_analysis_find (stream_on_entry scenario_after_sm 10) 3 = none ∧
    (stream_on_entry scenario_after_sm 10).flags &&& AERON_STREAM_FLAGS_COMPLETED_VALID ≠ 0 ∧
    ∃ s', aeron_transport_stream_find (aeron_sequence_setup true true ⟨false, 3⟩
        scenario_after_sm (aeron_sm_sinfo 10 2 2000 4096)) 10 = some s' ∧
      ((s'.flags &&& AERON_STREAM_FLAGS_HIGH_VALID ≠ 0 ∧
          s'.flags &&& AERON_STREAM_FLAGS_COMPLETED_VALID ≠ 0) →
        ∃ sfa, aeron_stream_frame_analysis_find s' 3 = some sfa ∧
          (sfa.flags &&& AERON_STREAM_FRAME_ANALYSIS_FLAG_KEEPALIVE_SM ≠ 0 ↔
            ((⟨2, 2000⟩ : aeron_pos_t) = (stream_on_entry scenario_after_sm 10).completed ∧
              (stream_on_entry scenario_after_sm 10).flags &&&
                AERON_STREAM_FLAGS_HIGH_VALID ≠ 0 ∧
              (stream_on_entry scenario_after_sm 10).high = ⟨2, 2000⟩)) ∧
          (sfa.flags &&& AERON_STREAM_FRAME_ANALYSIS_FLAG_OOO_SM ≠ 0 ↔
            aeron_pos_compare ⟨2, 2000⟩ (stream_on_entry scenario_after_sm 10).completed < 0)) :=
  ⟨by decide, by decide,
    status_keepalive_ooo_iff true ⟨false, 3⟩ scenario_after_sm
      (aeron_sm_sinfo 10 2 2000 4096) 10 2 2000 rfl rfl rfl rfl rfl (by decide) (by decide)⟩

theorem window_resize_iff_witness :
    aeron_stream_frame_analysis_find (stream_on_entry scenario_after_sm 10) 3 = none ∧
    ∃ s', aeron_transport_stream_find (aeron_sequence_setup true true ⟨false, 3⟩
        scenario_after_sm (aeron_sm_sinfo 10 2 2000 8192)) 10 = some s' ∧
      ((s'.flags &&& AERON_STREAM_FLAGS_HIGH_VALID ≠ 0 ∧
          s'.flags &&& AERON_STREAM_FLAGS_COMPLETED_VALID ≠ 0) →
        ∃ sfa, aeron_stream_frame_analysis_find s' 3 = some sfa ∧
          (sfa.flags &&& AERON_STREAM_FRAME_ANALYSIS_FLAG_WINDOW_RESIZE ≠ 0 ↔
            ((stream_on_entry scenario_after_sm 10).flags &&&
                AERON_STREAM_FLAGS_COMPLETED_VALID ≠ 0 ∧
              (aeron_sm_sinfo 10 2 2000 8192).receiver_window ≠
                (stream_on_entry scenario_after_sm 10).receiver_window))) :=
  ⟨by decide,
    (window_resize_iff true ⟨false, 3⟩ scenario_after_sm
      (aeron_sm_sinfo 10 2 2000 8192) 10 2 2000 rfl rfl rfl rfl rfl (by decide)).1⟩

theorem aeron_pos_delta_low32_witness :
    byte_axis (if aeron_pos_compare ⟨3, 128⟩ ⟨2, 65000⟩ ≥ 0 then ⟨2, 65000⟩ else ⟨3, 128⟩) 65536 ≤
      byte_axis (if aeron_pos_compare ⟨3, 128⟩ ⟨2, 65000⟩ ≥ 0 then ⟨3, 128⟩ else ⟨2, 65000⟩)
        65536 ∧
    aeron_pos_delta ⟨3, 128⟩ ⟨2, 65000⟩ 65536 =
      Int.natAbs ((byte_axis ⟨3, 128⟩ 65536 : Int) - (byte_axis ⟨2, 65000⟩ 65536 : Int)) % 2 ^ 32 :=
  ⟨by decide, (aeron_pos_delta_low32 ⟨3, 128⟩ ⟨2, 65000⟩ 65536).2.1 (by decide)⟩

/-- The snapshot flags a third frame gets in the worked capture: the Data frame sent
again is IDLE_RX, a Data frame beyond the term length the stream took from frame 1 is
OOO_GAP, the Status frame sent again is KEEPALIVE_SM, and with another window it is
KEEPALIVE_SM and WINDOW_RESIZE. -/
theorem scenario_third_frame_flags :
    ((aeron_transport_stream_find (aeron_frame_apply true true ⟨false, 3⟩ scenario_after_sm
        (.data 0xC0 1000 1000 10 2)) 10).bind
        (fun s => aeron_stream_frame_analysis_find s 3)).map (fun sfa => sfa.flags) =
      some AERON_STREAM_FRAME_ANALYSIS_FLAG_IDLE_RX ∧
    ((aeron_transport_stream_find (aeron_frame_apply true true ⟨false, 3⟩ scenario_after_sm
        (.data 0xC0 500 2000 10 2)) 10).bind
        (fun s => aeron_stream_frame_analysis_find s 3)).map (fun sfa => sfa.flags) =
      some AERON_STREAM_FRAME_ANALYSIS_FLAG_OOO_GAP ∧
    ((aeron_transport_stream_find (aeron_frame_apply true true ⟨false, 3⟩ scenario_after_sm
        (.sm 36 10 2 2000 4096)) 10).bind
        (fun s => aeron_stream_frame_analysis_find s 3)).map (fun sfa => sfa.flags) =
      some AERON_STREAM_FRAME_ANALYSIS_FLAG_KEEPALIVE_SM ∧
    ((aeron_transport_stream_find (aeron_frame_apply true true ⟨false, 3⟩ scenario_after_sm
        (.sm 36 10 2 2000 8192)) 10).bind
        (fun s => aeron_stream_frame_analysis_find s 3)).map (fun sfa => sfa.flags) =
      some (AERON_STREAM_FRAME_ANALYSIS_FLAG_KEEPALIVE_SM |||
        AERON_STREAM_FRAME_ANALYSIS_FLAG_WINDOW_RESIZE) := by
  decide

/-! ### Rounding to the frame alignment -/

theorem land_align_mask (y : Nat) (hy : y < 2 ^ 32) : y &&& 0xfffffff8 = y / 8 * 8 := by
  have hM : (0xfffffff8 : Nat) = (2 ^ 29 - 1) <<< 3 := by decide
  have hR : y / 8 * 8 = (y >>> 3) <<< 3 := by
    simp [Nat.shiftLeft_eq, Nat.shiftRight_eq_div_pow]
  rw [hM, hR]
  apply Nat.eq_of_testBit_eq
  intro i
  rw [Nat.testBit_and, Nat.testBit_shiftLeft, Nat.testBit_shiftLeft, Nat.testBit_shiftRight,
    Nat.testBit_two_pow_sub_one]
  by_cases h3 : i ≥ 3
  · have e : 3 + (i - 3) = i := by omega
    rw [e]
    by_cases h32 : i < 32
    · have : i - 3 < 29 := by omega
      simp [h3, this]
    · have hlt : y < 2 ^ i :=
        lt_of_lt_of_le hy (Nat.pow_le_pow_right (by decide) (by omega))
      simp [Nat.testBit_lt_two_pow hlt]
  · simp [h3]

/-- The rounding in arithmetic terms: add 7 in 32 bits, then drop the low three bits. -/
theorem aeron_pos_roundup_eq (x : Nat) :
    aeron_pos_roundup x = (x + 7) % 2 ^ 32 / 8 * 8 := by
  unfold aeron_pos_roundup
  exact land_align_mask _ (Nat.mod_lt _ (by decide))

/-! ### Order of positions -/

theorem aeron_pos_compare_values (a b : aeron_pos_t) :
    aeron_pos_compare a b = -1 ∨ aeron_pos_compare a b = 0 ∨ aeron_pos_compare a b = 1 := by
  unfold aeron_pos_compare
  split_ifs <;> simp

theorem aeron_pos_compare_neg_iff (a b : aeron_pos_t) :
    aeron_pos_compare a b < 0 ↔
      (a.term_id < b.term_id ∨ (a.term_id = b.term_id ∧ a.term_offset < b.term_offset)) := by
  unfold aeron_pos_compare
  split_ifs with h1 h2 h3 h4 <;> simp <;> omega

theorem aeron_pos_compare_pos_iff (a b : aeron_pos_t) :
    aeron_pos_compare a b > 0 ↔
      (b.term_id < a.term_id ∨ (a.term_id = b.term_id ∧ b.term_offset < a.term_offset)) := by
  unfold aeron_pos_compare
  split_ifs with h1 h2 h3 h4 <;> simp <;> omega

theorem aeron_pos_compare_swap (a b : aeron_pos_t) :
    aeron_pos_compare a b = - aeron_pos_compare b a := by
  unfold aeron_pos_compare
  split_ifs <;> first | rfl | omega

/-- With both term offsets below the term length, the position `aeron_pos_compare` ranks
larger or equal has the larger or equal byte-axis value. -/
theorem byte_axis_le_of_compare (a b : aeron_pos_t) (L : Nat)
    (ha : a.term_offset < L) (hb : b.term_offset < L) :
    byte_axis (if aeron_pos_compare a b ≥ 0 then b else a) L ≤
      byte_axis (if aeron_pos_compare a b ≥ 0 then a else b) L := by
  have hn := aeron_pos_compare_neg_iff a b
  have hp := aeron_pos_compare_pos_iff a b
  have hz := aeron_pos_compare_eq_zero a b
  unfold byte_axis
  by_cases hc : aeron_pos_compare a b ≥ 0
  · simp only [hc, if_true]
    by_cases h0 : aeron_pos_compare a b = 0
    · rw [hz.1 h0]
    · have hgt : aeron_pos_compare a b > 0 := by omega
      rcases hp.1 hgt with h | ⟨h1, h2⟩
      · have : (b.term_id + 1) * L ≤ a.term_id * L := Nat.mul_le_mul_right L h
        nlinarith
      · rw [h1]; omega
  · simp only [hc, if_false]
    have hlt : aeron_pos_compare a b < 0 := by omega
    rcases hn.1 hlt with h | ⟨h1, h2⟩
    · have : (a.term_id + 1) * L ≤ b.term_id * L := Nat.mul_le_mul_right L h
      nlinarith
    · rw [h1]; omega

/-- C11: for positions whose term offsets are below the term length, `aeron_pos_delta` is
the exact byte-axis value of the position `aeron_pos_compare` ranks larger minus that of
the other one, reduced modulo 2^32; the difference is a true one (the first value is not
below the second), and for 32-bit members both byte-axis values fit in 64 bits.  The
two positions may lie in different terms. -/
theorem aeron_pos_delta_across_terms (a b : aeron_pos_t) (L : Nat)
    (ha : a.term_offset < L) (hb : b.term_offset < L) :
    aeron_pos_delta a b L =
        (byte_axis (if aeron_pos_compare a b ≥ 0 then a else b) L -
          byte_axis (if aeron_pos_compare a b ≥ 0 then b else a) L) % 2 ^ 32 ∧
      byte_axis (if aeron_pos_compare a b ≥ 0 then b else a) L ≤
        byte_axis (if aeron_pos_compare a b ≥ 0 then a else b) L ∧
      (a.term_id < 2 ^ 32 → b.term_id < 2 ^ 32 → L < 2 ^ 32 →
        byte_axis a L < 2 ^ 64 ∧ byte_axis b L < 2 ^ 64) := by
  have hle := byte_axis_le_of_compare a b L ha hb
  have hm := aeron_pos_delta_mod a b L
  refine ⟨by omega, hle, ?_⟩
  intro h1 h2 h3
  unfold byte_axis
  have e1 : a.term_id * L ≤ (2 ^ 32 - 1) * (2 ^ 32 - 1) :=
    Nat.mul_le_mul (by omega) (by omega)
  have e2 : b.term_id * L ≤ (2 ^ 32 - 1) * (2 ^ 32 - 1) :=
    Nat.mul_le_mul (by omega) (by omega)
  constructor <;> omega

theorem aeron_pos_delta_across_terms_witness :
    (⟨3, 128⟩ : aeron_pos_t).term_offset < 65536 ∧
    (⟨2, 65000⟩ : aeron_pos_t).term_offset < 65536 ∧
    aeron_pos_delta ⟨3, 128⟩ ⟨2, 65000⟩ 65536 =
      (byte_axis (if aeron_pos_compare ⟨3, 128⟩ ⟨2, 65000⟩ ≥ 0 then ⟨3, 128⟩ else ⟨2, 65000⟩)
          65536 -
        byte_axis (if aeron_pos_compare ⟨3, 128⟩ ⟨2, 65000⟩ ≥ 0 then ⟨2, 65000⟩ else ⟨3, 128⟩)
          65536) % 2 ^ 32 :=
  ⟨by decide, by decide,
    (aeron_pos_delta_across_terms ⟨3, 128⟩ ⟨2, 65000⟩ 65536 (by decide) (by decide)).1⟩

/-- C12: `aeron_pos_delta` does not depend on the order of its two positions. -/
theorem aeron_pos_delta_symm (a b : aeron_pos_t) (L : Nat) :
    aeron_pos_delta a b L = aeron_pos_delta b a L := by
  have hs := aeron_pos_compare_swap a b
  have hz := aeron_pos_compare_eq_zero a b
  unfold aeron_pos_delta
  by_cases h0 : aeron_pos_compare a b = 0
  · rw [hz.1 h0]
  · by_cases hc : aeron_pos_compare a b ≥ 0
    · have hc2 : ¬ aeron_pos_compare b a ≥ 0 := by omega
      simp only [hc, hc2, if_true, if_false]
    · have hc2 : aeron_pos_compare b a ≥ 0 := by omega
      simp only [hc, hc2, if_true, if_false]

theorem aeron_pos_delta_of_vals (a b : aeron_pos_t) (L : Nat) :
    aeron_pos_delta a b L =
      ((((aeron_pos_delta_vals a b L).1 + 2 ^ 64 - (aeron_pos_delta_vals a b L).2) % 2 ^ 64) &&&
        0x00000000ffffffff) % 2 ^ 32 := rfl

/-- C13, as the claim states it, fails.  With term length 0 the position (term 3, offset
104) ranks above (term 2, offset 500), and the two values are 104 and 500.  With term
length 65536 the position (term 65536, offset 0) ranks above (term 65535, offset 65528),
eight bytes before it; the product 65536 * 65536 is formed in 32 bits and is 0, so the
two values are 0 and 4294967288.  In both cases the first value is below the second. -/
theorem aeron_pos_delta_vals_not_ordered :
    aeron_pos_delta_vals ⟨3, 104⟩ ⟨2, 500⟩ 0 = (104, 500) ∧
      aeron_pos_delta_vals ⟨65536, 0⟩ ⟨65535, 65528⟩ 65536 = (0, 4294967288) ∧
      aeron_pos_delta ⟨65536, 0⟩ ⟨65535, 65528⟩ 65536 = 8 := by
  decide

/-- C13, amended: for a 32-bit term length, term offsets below it and term ids whose
product with the term length fits in 32 bits, the value formed for the position ranked
larger is not below the value formed for the other one, both are the exact byte-axis
values, and the result is their difference. -/
theorem aeron_pos_delta_vals_ordered (a b : aeron_pos_t) (L : Nat) (hL : L < 2 ^ 32)
    (ha : a.term_offset < L) (hb : b.term_offset < L)
    (hpa : a.term_id * L < 2 ^ 32) (hpb : b.term_id * L < 2 ^ 32) :
    (aeron_pos_delta_vals a b L).2 ≤ (aeron_pos_delta_vals a b L).1 ∧
      (aeron_pos_delta_vals a b L).1 =
        byte_axis (if aeron_pos_compare a b ≥ 0 then a else b) L ∧
      (aeron_pos_delta_vals a b L).2 =
        byte_axis (if aeron_pos_compare a b ≥ 0 then b else a) L ∧
      aeron_pos_delta a b L =
        ((aeron_pos_delta_vals a b L).1 - (aeron_pos_delta_vals a b L).2) % 2 ^ 32 := by
  have hle := byte_axis_le_of_compare a b L ha hb
  have hd := aeron_pos_delta_mod a b L
  have h1 : (aeron_pos_delta_vals a b L).1 =
      byte_axis (if aeron_pos_compare a b ≥ 0 then a else b) L := by
    unfold aeron_pos_delta_vals byte_axis
    by_cases hc : aeron_pos_compare a b ≥ 0
    · simp only [hc, if_true]; omega
    · simp only [hc, if_false]; omega
  have h2 : (aeron_pos_delta_vals a b L).2 =
      byte_axis (if aeron_pos_compare a b ≥ 0 then b else a) L := by
    unfold aeron_pos_delta_vals byte_axis
    by_cases hc : aeron_pos_compare a b ≥ 0
    · simp only [hc, if_true]; omega
    · simp only [hc, if_false]; omega
  refine ⟨by rw [h1, h2]; exact hle, h1, h2, ?_⟩
  rw [h1, h2]
  omega

theorem aeron_pos_delta_vals_ordered_witness :
    (65536 : Nat) < 2 ^ 32 ∧ (⟨3, 128⟩ : aeron_pos_t).term_offset < 65536 ∧
    (⟨2, 65000⟩ : aeron_pos_t).term_offset < 65536 ∧
    (⟨3, 128⟩ : aeron_pos_t).term_id * 65536 < 2 ^ 32 ∧
    (⟨2, 65000⟩ : aeron_pos_t).term_id * 65536 < 2 ^ 32 ∧
    (aeron_pos_delta_vals ⟨3, 128⟩ ⟨2, 65000⟩ 65536).2 ≤
      (aeron_pos_delta_vals ⟨3, 128⟩ ⟨2, 65000⟩ 65536).1 :=
  ⟨by decide, by decide, by decide, by decide, by decide,
    (aeron_pos_delta_vals_ordered ⟨3, 128⟩ ⟨2, 65000⟩ 65536 (by decide) (by decide) (by decide)
      (by decide) (by decide)).1⟩

/-! ### Advancing a position -/

/-- C14, as the claim states it, fails: from (term 5, offset 4) a length of 4 leads to
(term 5, offset 8), the rounded sum, and not to offset 4 + round_up(4) = 12. -/
theorem aeron_pos_add_length_not_rounded_length :
    aeron_pos_add_length ⟨5, 4⟩ 4 65536 = ⟨5, 8⟩ ∧ 4 + aeron_pos_roundup 4 = 12 := by
  decide

/-- C14, amended: `aeron_pos_add_length` rounds the 32-bit sum of the term offset and the
length up to a multiple of 8.  For a term offset that is a multiple of 8, and as long as
the offset plus the rounded length stays below 2^32, that is the term offset advanced
by `round_up(length)`: the result keeps the term id with that offset when it is below
the term length, and is offset 0 of the next term id (in 32 bits) otherwise. -/
theorem aeron_pos_add_length_aligned (pos : aeron_pos_t) (length term_length : Nat)
    (halign : pos.term_offset % 8 = 0)
    (hfit : pos.term_offset + length + 7 < 2 ^ 32) :
    aeron_pos_roundup ((pos.term_offset + length) % 2 ^ 32) =
        pos.term_offset + aeron_pos_roundup length ∧
      aeron_pos_add_length pos length term_length =
        (if pos.term_offset + aeron_pos_roundup length < term_length then
          { term_id := pos.term_id, term_offset := pos.term_offset + aeron_pos_roundup length }
        else { term_id := (pos.term_id + 1) % 2 ^ 32, term_offset := 0 }) := by
  have hr : aeron_pos_roundup ((pos.term_offset + length) % 2 ^ 32) =
      pos.term_offset + aeron_pos_roundup length := by
    rw [aeron_pos_roundup_eq, aeron_pos_roundup_eq]
    omega
  refine ⟨hr, ?_⟩
  unfold aeron_pos_add_length
  simp only [hr]
  split_ifs with h1 h2 h2
  · omega
  · rfl
  · rfl
  · omega

theorem aeron_pos_add_length_aligned_witness :
    (⟨5, 0⟩ : aeron_pos_t).term_offset % 8 = 0 ∧
    (⟨5, 0⟩ : aeron_pos_t).term_offset + 124 + 7 < 2 ^ 32 ∧
    aeron_pos_add_length ⟨5, 0⟩ 124 65536 = ⟨5, 128⟩ := by
  have h := (aeron_pos_add_length_aligned ⟨5, 0⟩ 124 65536 (by decide) (by decide)).2
  exact ⟨by decide, by decide, h.trans (by decide)⟩

/-- C15: `aeron_pos_compare` is a strict total order on positions: swapping the arguments
negates the result, a position compares equal to itself, only equal positions compare
equal, and "below" is transitive. -/
theorem aeron_pos_compare_strict_total_order (a b c : aeron_pos_t) :
    aeron_pos_compare a b = - aeron_pos_compare b a ∧
      aeron_pos_compare a a = 0 ∧
      (aeron_pos_compare a b = 0 → a.term_id = b.term_id ∧ a.term_offset = b.term_offset) ∧
      (aeron_pos_compare a b < 0 → aeron_pos_compare b c < 0 → aeron_pos_compare a c < 0) := by
  refine ⟨aeron_pos_compare_swap a b, (aeron_pos_compare_eq_zero a a).2 rfl, ?_, ?_⟩
  · intro h
    have := (aeron_pos_compare_eq_zero a b).1 h
    rw [this]
    exact ⟨rfl, rfl⟩
  · intro h1 h2
    rw [aeron_pos_compare_neg_iff] at h1 h2 ⊢
    omega

theorem aeron_pos_compare_strict_total_order_witness :
    aeron_pos_compare ⟨1, 900⟩ ⟨2, 8⟩ < 0 ∧ aeron_pos_compare ⟨2, 8⟩ ⟨2, 16⟩ < 0 ∧
    aeron_pos_compare ⟨1, 900⟩ ⟨2, 16⟩ < 0 :=
  ⟨by decide, by decide,
    (aeron_pos_compare_strict_total_order ⟨1, 900⟩ ⟨2, 8⟩ ⟨2, 16⟩).2.2.2 (by decide) (by decide)⟩

/-- C16: `aeron_pos_compare` returns -1, 0 or 1, and the value is the lexicographic
comparison of the pairs (term id, term offset), term id first: -1 exactly when the
first pair is below the second in the lexicographic order of pairs of naturals, 0
exactly when the pairs are equal, 1 exactly when the first pair is above the second. -/
theorem aeron_pos_compare_lexicographic (a b : aeron_pos_t) :
    (aeron_pos_compare a b = -1 ∨ aeron_pos_compare a b = 0 ∨ aeron_pos_compare a b = 1) ∧
      (aeron_pos_compare a b = -1 ↔
        toLex (a.term_id, a.term_offset) < toLex (b.term_id, b.term_offset)) ∧
      (aeron_pos_compare a b = 0 ↔
        (a.term_id, a.term_offset) = (b.term_id, b.term_offset)) ∧
      (aeron_pos_compare a b = 1 ↔
        toLex (b.term_id, b.term_offset) < toLex (a.term_id, a.term_offset)) := by
  have hv := aeron_pos_compare_values a b
  have hn := aeron_pos_compare_neg_iff a b
  have hp := aeron_pos_compare_pos_iff a b
  have hz := aeron_pos_compare_eq_zero a b
  refine ⟨hv, ?_, ?_, ?_⟩
  · rw [Prod.Lex.lt_iff]
    simp only
    constructor
    · intro h; exact hn.1 (by omega)
    · intro h; have := hn.2 h; omega
  · rw [hz]
    obtain ⟨a1, a2⟩ := a
    obtain ⟨b1, b2⟩ := b
    simp
  · rw [Prod.Lex.lt_iff]
    simp only
    constructor
    · intro h
      rcases hp.1 (by omega) with h' | ⟨h1, h2⟩
      · exact Or.inl h'
      · exact Or.inr ⟨h1.symm, h2⟩
    · intro h
      have : aeron_pos_compare a b > 0 := by
        rcases h with h' | ⟨h1, h2⟩
        · exact hp.2 (Or.inl h')
        · exact hp.2 (Or.inr ⟨h1.symm, h2⟩)
      omega

/-! ### Rounding, settled -/

/-- C17, as the claim states it, fails: for the seven largest 32-bit values the sum with
7 wraps, and the result is 0, below the argument. -/
theorem aeron_pos_roundup_wraps :
    aeron_pos_roundup 4294967289 = 0 ∧ aeron_pos_roundup 4294967295 = 0 := by
  decide

/-- C17, amended: the result is a multiple of 8 for every argument, and for every x with
x + 7 below 2^32 (every 32-bit x but the seven largest) it is not below x and exceeds
x by less than 8. -/
theorem aeron_pos_roundup_bounds (x : Nat) :
    aeron_pos_roundup x % 8 = 0 ∧
      (x + 7 < 2 ^ 32 → aeron_pos_roundup x ≥ x ∧ aeron_pos_roundup x - x < 8) := by
  rw [aeron_pos_roundup_eq]
  constructor
  · omega
  · intro h
    omega

theorem aeron_pos_roundup_bounds_witness :
    (124 : Nat) + 7 < 2 ^ 32 ∧ aeron_pos_roundup 124 ≥ 124 ∧ aeron_pos_roundup 124 - 124 < 8 :=
  ⟨by decide, (aeron_pos_roundup_bounds 124).2 (by decide)⟩

/-- C18: rounding a rounded value changes nothing. -/
theorem aeron_pos_roundup_idempotent (x : Nat) :
    aeron_pos_roundup (aeron_pos_roundup x) = aeron_pos_roundup x := by
  rw [aeron_pos_roundup_eq (aeron_pos_roundup x), aeron_pos_roundup_eq x]
  omega

/-! ### Linking of occurrence records -/

/-- The body shared by the Transport, Stream and Term levels, with no prior record: the
new record has no previous and no next frame. -/
theorem frame_chain_add_first (frames : wmem_tree_t aeron_frame_t) (n : Nat) :
    wmem_tree_lookup32 (frame_chain_add frames none n).1 n =
        some { frame := n, previous_frame := 0, next_frame := 0, retransmission := false } ∧
      (frame_chain_add frames none n).2 = some n := by
  unfold frame_chain_add
  exact ⟨by simp [lookup_insert], rfl⟩

/-- The body shared by the Transport, Stream and Term levels, with a prior record for
another frame number: the new record points back to it and it points forward to the
new one. -/
theorem frame_chain_add_links (frames : wmem_tree_t aeron_frame_t) (p n : Nat)
    (e : aeron_frame_t) (hp : wmem_tree_lookup32 frames p = some e) (hne : p ≠ n) :
    wmem_tree_lookup32 (frame_chain_add frames (some p) n).1 n =
        some { frame := n, previous_frame := p, next_frame := 0, retransmission := false } ∧
      wmem_tree_lookup32 (frame_chain_add frames (some p) n).1 p =
        some { e with next_frame := n } ∧
      (frame_chain_add frames (some p) n).2 = some n := by
  unfold frame_chain_add
  refine ⟨by simp [lookup_insert], ?_, rfl⟩
  simp [lookup_insert, lookup_update, hp, hne]

/-- What `aeron_fragment_frame_add` does to a fragment's chain that has a prior record and
none for the new frame number: the new record points back to the prior one, and every
record stored before is left as it was, the prior one included. -/
theorem fragment_chain_add_no_next (frames : wmem_tree_t aeron_frame_t) (p n k : Nat)
    (hn : wmem_tree_lookup32 frames n = none) (hk : k ≠ n) :
    wmem_tree_lookup32 (fragment_chain_add (frames, some p) n).1 n =
        some { frame := n, previous_frame := p, next_frame := 0, retransmission := true } ∧
      wmem_tree_lookup32 (fragment_chain_add (frames, some p) n).1 k =
        wmem_tree_lookup32 frames k := by
  unfold fragment_chain_add
  simp only [hn]
  constructor
  · simp [lookup_insert]
  · simp [lookup_insert, hk]

/-- C19: the fragment sent twice (frames 1 and 2, both first-visit Data frames at stream
10, term 5, offset 1000).  After frame 1 each of the four levels has the record
(previous 0, next 0).  After frame 2 each level has the record of frame 2 with
previous_frame = 1; at the Transport, Stream and Term levels the record of frame 1 has
next_frame = 2, but at the Fragment level the record of frame 1 still has
next_frame = 0. -/
theorem fragment_level_next_frame_not_set :
    (aeron_transport_frame_find sent_twice_first 1 = some ⟨1, 0, 0, false⟩ ∧
      stream_frame_lookup sent_twice_first 10 1 = some ⟨1, 0, 0, false⟩ ∧
      term_frame_lookup sent_twice_first 10 5 1 = some ⟨1, 0, 0, false⟩ ∧
      fragment_frame_lookup sent_twice_first 10 5 1000 1 = some ⟨1, 0, 0, false⟩) ∧
    (aeron_transport_frame_find sent_twice_second 2 = some ⟨2, 1, 0, false⟩ ∧
      stream_frame_lookup sent_twice_second 10 2 = some ⟨2, 1, 0, false⟩ ∧
      term_frame_lookup sent_twice_second 10 5 2 = some ⟨2, 1, 0, false⟩ ∧
      fragment_frame_lookup sent_twice_second 10 5 1000 2 = some ⟨2, 1, 0, true⟩) ∧
    (aeron_transport_frame_find sent_twice_second 1 = some ⟨1, 0, 2, false⟩ ∧
      stream_frame_lookup sent_twice_second 10 1 = some ⟨1, 0, 2, false⟩ ∧
      term_frame_lookup sent_twice_second 10 5 1 = some ⟨1, 0, 2, false⟩ ∧
      fragment_frame_lookup sent_twice_second 10 5 1000 1 = some ⟨1, 0, 0, false⟩) := by
  decide

/-! ### Which frames get an occurrence record -/

/-- The block for a non-`NULL` offset leaves the Transport-level chain as it is for every
frame kind but Data. -/
theorem offset_keeps_transport_chain (wa : Bool) (pinfo : packet_info)
    (transport : aeron_transport_t) (info : aeron_sequence_info_t)
    (stream_id term_id offset : Nat) (stream0 : aeron_stream_t)
    (h : info.type ≠ HDR_TYPE_DATA) :
    (aeron_sequence_setup_offset wa pinfo transport info stream_id term_id offset stream0).frame =
        transport.frame ∧
      (aeron_sequence_setup_offset wa pinfo transport info stream_id term_id offset
        stream0).last_frame = transport.last_frame := by
  unfold aeron_sequence_setup_offset
  simp only [if_neg h]
  split <;> exact ⟨rfl, rfl⟩

/-- With a non-`NULL` offset and a frame kind other than Data, `aeron_sequence_setup`
leaves the Transport-level chain as it is, whatever the state and the preferences. -/
theorem setup_keeps_transport_chain (sa wa : Bool) (pinfo : packet_info)
    (transport : aeron_transport_t) (info : aeron_sequence_info_t)
    (stream_id term_id offset : Nat) (hs : info.stream_id = some stream_id)
    (ht : info.term_id = some term_id) (ho : info.offset = some offset)
    (h : info.type ≠ HDR_TYPE_DATA) :
    (aeron_sequence_setup sa wa pinfo transport info).frame = transport.frame ∧
      (aeron_sequence_setup sa wa pinfo transport info).last_frame = transport.last_frame := by
  unfold aeron_sequence_setup
  simp only [hs, ht, ho]
  split
  · split
    · split
      · rename_i stream0 _
        have h1 := offset_keeps_transport_chain wa pinfo
          (match aeron_stream_term_find
              (match aeron_transport_stream_find transport stream_id with
                | some _ => transport
                | none => aeron_transport_stream_add transport stream_id) stream_id term_id with
            | some _ =>
              (match aeron_transport_stream_find transport stream_id with
                | some _ => transport
                | none => aeron_transport_stream_add transport stream_id)
            | none => aeron_stream_term_add
              (match aeron_transport_stream_find transport stream_id with
                | some _ => transport
                | none => aeron_transport_stream_add transport stream_id) stream_id term_id)
          info stream_id term_id offset stream0 h
        rw [h1.1, h1.2]
        unfold aeron_stream_term_add aeron_transport_stream_add stream_write
        constructor <;> (repeat' split) <;> rfl
      · unfold aeron_stream_term_add aeron_transport_stream_add stream_write
        constructor <;> (repeat' split) <;> rfl
    · exact ⟨rfl, rfl⟩
  · exact ⟨rfl, rfl⟩

/-- A Pad or Status frame leaves the Transport-level chain as it is, whatever the state
and the preferences. -/
theorem pad_sm_keep_transport_chain (sa wa : Bool) (pinfo : packet_info)
    (transport : aeron_transport_t) (frame_len term_offset stream_id term_id rcv_window : Nat) :
    (aeron_frame_apply sa wa pinfo transport
        (.pad frame_len term_offset stream_id term_id)).frame = transport.frame ∧
      (aeron_frame_apply sa wa pinfo transport
        (.pad frame_len term_offset stream_id term_id)).last_frame = transport.last_frame ∧
      (aeron_frame_apply sa wa pinfo transport
        (.sm frame_len stream_id term_id term_offset rcv_window)).frame = transport.frame ∧
      (aeron_frame_apply sa wa pinfo transport
        (.sm frame_len stream_id term_id term_offset rcv_window)).last_frame =
        transport.last_frame := by
  have hp := setup_keeps_transport_chain sa wa pinfo transport
    (aeron_pad_sinfo frame_len term_offset stream_id term_id) stream_id term_id term_offset
    rfl rfl rfl (by simp [aeron_pad_sinfo, HDR_TYPE_PAD, HDR_TYPE_DATA])
  have hs := setup_keeps_transport_chain sa wa pinfo transport
    (aeron_sm_sinfo stream_id term_id term_offset rcv_window) stream_id term_id term_offset
    rfl rfl rfl (by simp [aeron_sm_sinfo, HDR_TYPE_SM, HDR_TYPE_DATA])
  refine ⟨?_, ?_, hs.1, hs.2⟩
  · exact hp.1
  · exact hp.2

/-- C20: a Pad frame and a Status frame leave the Transport-level record stored under
their frame number as it was, for every state and both preferences, so a frame number
without a record before has none afterwards.  In the worked capture with both analyses
enabled, the first-visit Data frame 1 is found at the Transport, Stream, Term and
Fragment levels, and a first-visit NAK or Setup frame 3 at the Transport, Stream and
Term levels; but the first-visit Status frame 2 and a first-visit Pad frame 3 are found
at none of the Transport, Stream and Term levels, although their stream and term
exist. -/
theorem pad_and_status_frames_not_recorded (sa wa : Bool) (pinfo : packet_info)
    (transport : aeron_transport_t) (frame_len term_offset stream_id term_id rcv_window : Nat) :
    aeron_transport_frame_find (aeron_frame_apply sa wa pinfo transport
        (.pad frame_len term_offset stream_id term_id)) pinfo.num =
      aeron_transport_frame_find transport pinfo.num ∧
    aeron_transport_frame_find (aeron_frame_apply sa wa pinfo transport
        (.sm frame_len stream_id term_id term_offset rcv_window)) pinfo.num =
      aeron_transport_frame_find transport pinfo.num ∧
    (aeron_transport_frame_find scenario_after_data 1 = some ⟨1, 0, 0, false⟩ ∧
      stream_frame_lookup scenario_after_data 10 1 = some ⟨1, 0, 0, false⟩ ∧
      term_frame_lookup scenario_after_data 10 2 1 = some ⟨1, 0, 0, false⟩ ∧
      fragment_frame_lookup scenario_after_data 10 2 1000 1 = some ⟨1, 0, 0, false⟩) ∧
    (aeron_transport_frame_find scenario_after_nak 3 = some ⟨3, 1, 0, false⟩ ∧
      stream_frame_lookup scenario_after_nak 10 3 = some ⟨3, 1, 0, false⟩ ∧
      term_frame_lookup scenario_after_nak 10 2 3 = some ⟨3, 1, 0, false⟩) ∧
    (aeron_transport_frame_find scenario_after_setup 3 = some ⟨3, 1, 0, false⟩ ∧
      stream_frame_lookup scenario_after_setup 10 3 = some ⟨3, 1, 0, false⟩ ∧
      term_frame_lookup scenario_after_setup 10 2 3 = some ⟨3, 1, 0, false⟩) ∧
    (aeron_transport_frame_find scenario_after_sm 2 = none ∧
      stream_frame_lookup scenario_after_sm 10 2 = none ∧
      term_frame_lookup scenario_after_sm 10 2 2 = none ∧
      (aeron_stream_term_find scenario_after_sm 10 2).isSome = true) ∧
    (aeron_transport_frame_find scenario_after_pad 3 = none ∧
      stream_frame_lookup scenario_after_pad 10 3 = none ∧
      term_frame_lookup scenario_after_pad 10 2 3 = none ∧
      (aeron_stream_term_find scenario_after_pad 10 2).isSome = true) := by
  have h := pad_sm_keep_transport_chain sa wa pinfo transport frame_len term_offset stream_id
    term_id rcv_window
  refine ⟨?_, ?_, ?_⟩
  · unfold aeron_transport_frame_find
    rw [h.1]
  · unfold aeron_transport_frame_find
    rw [h.2.2.1]
  · decide

/-! ### Reading a buffer -/

theorem to_gint_of_small (n : Nat) (h : n < 2 ^ 31) : to_gint (n : Int) = n := by
  unfold to_gint
  omega

theorem to_gint_length_ge (tvb : tvbuff_t) (k : Nat) (h : ¬ to_gint (tvb.length : Int) < (k : Int)) :
    k ≤ tvb.length := by
  unfold to_gint at h
  omega

theorem tvb_ensure_bytes_inside (tvb : tvbuff_t) (offset : Int) (n : Nat) (h0 : 0 ≤ offset)
    (h : offset.toNat + n ≤ tvb.length) :
    tvb_ensure_bytes tvb offset n = some offset.toNat := by
  unfold tvb_ensure_bytes
  simp [h0, h]

theorem tvb_get_guint8_inside (tvb : tvbuff_t) (offset : Int) (h0 : 0 ≤ offset)
    (h : offset.toNat + 1 ≤ tvb.length) :
    ∃ v, tvb_get_guint8 tvb offset = some v := by
  unfold tvb_get_guint8
  rw [tvb_ensure_bytes_inside tvb offset 1 h0 h]
  exact ⟨_, rfl⟩

theorem tvb_get_letohs_inside (tvb : tvbuff_t) (offset : Int) (h0 : 0 ≤ offset)
    (h : offset.toNat + 2 ≤ tvb.length) :
    ∃ v, tvb_get_letohs tvb offset = some v := by
  unfold tvb_get_letohs
  rw [tvb_ensure_bytes_inside tvb offset 2 h0 h]
  exact ⟨_, rfl⟩

theorem tvb_get_letohl_inside (tvb : tvbuff_t) (offset : Int) (h0 : 0 ≤ offset)
    (h : offset.toNat + 4 ≤ tvb.length) :
    ∃ v, tvb_get_letohl tvb offset = some v := by
  unfold tvb_get_letohl
  rw [tvb_ensure_bytes_inside tvb offset 4 h0 h]
  exact ⟨_, rfl⟩

/-- With the 12 bytes of a minimal header in the buffer, the four reads that
`test_aeron_packet` makes do not throw. -/
theorem test_reads_inside (tvb : tvbuff_t) (h : 12 ≤ tvb.length) :
    (∃ v, tvb_get_guint8 tvb 0 = some v) ∧ (∃ v, tvb_get_letohs tvb 2 = some v) ∧
      (∃ v, tvb_get_letohl tvb 4 = some v) ∧ (∃ v, tvb_get_letohl tvb 8 = some v) := by
  refine ⟨tvb_get_guint8_inside tvb 0 (by decide) ?_, tvb_get_letohs_inside tvb 2 (by decide) ?_,
    tvb_get_letohl_inside tvb 4 (by decide) ?_, tvb_get_letohl_inside tvb 8 (by decide) ?_⟩
  · show 0 + 1 ≤ tvb.length
    omega
  · show 2 + 2 ≤ tvb.length
    omega
  · show 4 + 4 ≤ tvb.length
    omega
  · show 8 + 4 ≤ tvb.length
    omega

theorem tvb_ensure_bytes_some (tvb : tvbuff_t) (offset : Int) (n i : Nat) (h0 : 0 ≤ offset)
    (h : tvb_ensure_bytes tvb offset n = some i) : offset.toNat + n ≤ tvb.length := by
  unfold tvb_ensure_bytes at h
  rw [if_pos h0] at h
  by_contra hc
  rw [if_neg hc] at h
  simp at h

theorem tvb_get_letohl_some (tvb : tvbuff_t) (offset : Int) (v : Nat) (h0 : 0 ≤ offset)
    (h : tvb_get_letohl tvb offset = some v) : offset.toNat + 4 ≤ tvb.length := by
  unfold tvb_get_letohl at h
  cases he : tvb_ensure_bytes tvb offset 4 with
  | none => rw [he] at h; simp at h
  | some i => exact tvb_ensure_bytes_some _ _ _ _ h0 he

theorem tvb_get_letohs_some (tvb : tvbuff_t) (offset : Int) (v : Nat) (h0 : 0 ≤ offset)
    (h : tvb_get_letohs tvb offset = some v) : offset.toNat + 2 ≤ tvb.length := by
  unfold tvb_get_letohs at h
  cases he : tvb_ensure_bytes tvb offset 2 with
  | none => rw [he] at h; simp at h
  | some i => exact tvb_ensure_bytes_some _ _ _ _ h0 he

/-! ### The recognition predicate -/

/-- C25, amended: `test_aeron_packet` returns FALSE, leaving the state as it is, for
every buffer with fewer than 12 bytes, for every buffer whose version byte is not 0,
for every buffer whose type is none of Pad, Data, NAK, Status, Error, Setup, Extension,
and for every buffer whose first frame declares a frame length (masked to 31 bits)
below 12, unless that frame is a Data frame whose masked length is 0 (declared length 0
or 2^31). -/
theorem test_aeron_packet_rejects_malformed (sa wa : Bool) (fuel : Nat) (tvb : tvbuff_t)
    (pinfo : packet_info) (endpoints : packet_endpoints) (state : dissector_state) :
    (tvb.length < 12 →
      test_aeron_packet sa wa fuel tvb pinfo endpoints state = some (state, .returned false)) ∧
    (∀ ver, tvb_get_guint8 tvb 0 = some ver → ver ≠ 0 →
      test_aeron_packet sa wa fuel tvb pinfo endpoints state = some (state, .returned false)) ∧
    (∀ packet_type, tvb_get_letohs tvb 2 = some packet_type →
      ¬ (packet_type = HDR_TYPE_PAD ∨ packet_type = HDR_TYPE_DATA ∨
        packet_type = HDR_TYPE_NAK ∨ packet_type = HDR_TYPE_SM ∨
        packet_type = HDR_TYPE_ERR ∨ packet_type = HDR_TYPE_SETUP ∨
        packet_type = HDR_TYPE_EXT) →
      test_aeron_packet sa wa fuel tvb pinfo endpoints state = some (state, .returned false)) ∧
    (∀ packet_type frame_length, tvb_get_letohs tvb 2 = some packet_type →
      tvb_get_letohl tvb 4 = some frame_length →
      frame_length &&& 0x7fffffff < HDR_LENGTH_MIN →
      ¬ (packet_type = HDR_TYPE_DATA ∧ frame_length &&& 0x7fffffff = 0) →
      test_aeron_packet sa wa fuel tvb pinfo endpoints state = some (state, .returned false)) := by
  have hsmall : tvb.length < 12 →
      test_aeron_packet sa wa fuel tvb pinfo endpoints state = some (state, .returned false) := by
    intro h
    have h1 : to_gint (tvb.length : Int) < (HDR_LENGTH_MIN : Int) := by
      unfold to_gint HDR_LENGTH_MIN
      omega
    unfold test_aeron_packet
    simp only [h1, if_true]
  refine ⟨hsmall, ?_, ?_, ?_⟩
  · intro ver hver hne
    by_cases h : to_gint (tvb.length : Int) < (HDR_LENGTH_MIN : Int)
    · unfold test_aeron_packet
      simp only [h, if_true]
    · unfold test_aeron_packet
      simp only [h, if_false, hver, hne, ne_eq, not_false_eq_true, if_true]
  · intro packet_type htype hnone
    by_cases h : to_gint (tvb.length : Int) < (HDR_LENGTH_MIN : Int)
    · unfold test_aeron_packet
      simp only [h, if_true]
    · have hlen : 12 ≤ tvb.length := to_gint_length_ge tvb 12 h
      obtain ⟨ver, hver⟩ := (test_reads_inside tvb hlen).1
      unfold test_aeron_packet
      simp only [h, if_false, hver, htype]
      by_cases hv : ver ≠ 0
      · rw [if_pos hv]
      · rw [if_neg hv, if_pos hnone]
  · intro packet_type frame_length htype hlenr hshort hnd
    by_cases h : to_gint (tvb.length : Int) < (HDR_LENGTH_MIN : Int)
    · unfold test_aeron_packet
      simp only [h, if_true]
    · have hlen : 12 ≤ tvb.length := to_gint_length_ge tvb 12 h
      obtain ⟨ver, hver⟩ := (test_reads_inside tvb hlen).1
      unfold test_aeron_packet
      simp only [h, if_false, hver, htype, hlenr]
      by_cases hv : ver ≠ 0
      · rw [if_pos hv]
      · rw [if_neg hv]
        by_cases hin : ¬ (packet_type = HDR_TYPE_PAD ∨ packet_type = HDR_TYPE_DATA ∨
            packet_type = HDR_TYPE_NAK ∨ packet_type = HDR_TYPE_SM ∨
            packet_type = HDR_TYPE_ERR ∨ packet_type = HDR_TYPE_SETUP ∨
            packet_type = HDR_TYPE_EXT)
        · rw [if_pos hin]
        · rw [if_neg hin]
          have hm : to_gint ((frame_length &&& 0x7fffffff : Nat) : Int) =
              ((frame_length &&& 0x7fffffff : Nat) : Int) := by
            apply to_gint_of_small
            unfold HDR_LENGTH_MIN at hshort
            omega
          have hc : ¬ (packet_type = HDR_TYPE_DATA ∧
                to_gint ((frame_length &&& 0x7fffffff : Nat) : Int) = 0) ∧
              to_gint ((frame_length &&& 0x7fffffff : Nat) : Int) < (HDR_LENGTH_MIN : Int) := by
            rw [hm]
            refine ⟨?_, ?_⟩
            · intro hx
              apply hnd
              refine ⟨hx.1, ?_⟩
              have := hx.2
              omega
            · omega
          rw [if_pos hc]

/-- The checks of `test_aeron_packet` up to the frame length, for a buffer that passes
none of the early exits: what is left is the Pad test or the length test, then the
call of `dissect_aeron`. -/
theorem test_aeron_packet_tail (sa wa : Bool) (fuel : Nat) (tvb : tvbuff_t)
    (pinfo : packet_info) (endpoints : packet_endpoints) (state : dissector_state)
    (packet_type frame_length : Nat) (htype : tvb_get_letohs tvb 2 = some packet_type)
    (hlenr : tvb_get_letohl tvb 4 = some frame_length) :
    test_aeron_packet sa wa fuel tvb pinfo endpoints state = some (state, .returned false) ∨
      test_aeron_packet sa wa fuel tvb pinfo endpoints state =
        (if packet_type = HDR_TYPE_PAD then
          match tvb_get_letohl tvb 8 with
          | none => some (state, .exception)
          | some term_offset =>
            if term_offset = 0 then some (state, .returned false)
            else test_aeron_packet_dissect sa wa fuel tvb pinfo endpoints state
        else if to_gint ((frame_length &&& 0x7fffffff : Nat) : Int) > to_gint (tvb.length : Int)
          then some (state, .returned false)
        else test_aeron_packet_dissect sa wa fuel tvb pinfo endpoints state) := by
  by_cases h : to_gint (tvb.length : Int) < (HDR_LENGTH_MIN : Int)
  · left
    unfold test_aeron_packet
    simp only [h, if_true]
  · have hlen : 12 ≤ tvb.length := to_gint_length_ge tvb 12 h
    obtain ⟨ver, hver⟩ := (test_reads_inside tvb hlen).1
    unfold test_aeron_packet
    simp only [h, if_false, hver, htype, hlenr]
    by_cases hv : ver ≠ 0
    · left
      rw [if_pos hv]
    · rw [if_neg hv]
      by_cases hin : ¬ (packet_type = HDR_TYPE_PAD ∨ packet_type = HDR_TYPE_DATA ∨
          packet_type = HDR_TYPE_NAK ∨ packet_type = HDR_TYPE_SM ∨
          packet_type = HDR_TYPE_ERR ∨ packet_type = HDR_TYPE_SETUP ∨
          packet_type = HDR_TYPE_EXT)
      · left
        rw [if_pos hin]
      · rw [if_neg hin]
        by_cases hc : ¬ (packet_type = HDR_TYPE_DATA ∧
              to_gint ((frame_length &&& 0x7fffffff : Nat) : Int) = 0) ∧
            to_gint ((frame_length &&& 0x7fffffff : Nat) : Int) < (HDR_LENGTH_MIN : Int)
        · left
          rw [if_pos hc]
        · right
          rw [if_neg hc]

/-- C27: `test_aeron_packet` returns FALSE for every buffer whose first frame is a Pad
frame with term offset 0; the state is left as it is and the result does not depend on
the iterations allowed to the decoder, which is not called. -/
theorem test_aeron_packet_rejects_pad_at_zero (sa wa : Bool) (fuel : Nat) (tvb : tvbuff_t)
    (pinfo : packet_info) (endpoints : packet_endpoints) (state : dissector_state)
    (htype : tvb_get_letohs tvb 2 = some HDR_TYPE_PAD)
    (hoff : tvb_get_letohl tvb 8 = some 0) :
    test_aeron_packet sa wa fuel tvb pinfo endpoints state = some (state, .returned false) := by
  have h8 : 12 ≤ tvb.length := by
    have := tvb_get_letohl_some tvb 8 0 (by decide) hoff
    have e : (8 : Int).toNat = 8 := rfl
    omega
  obtain ⟨frame_length, hlenr⟩ := (test_reads_inside tvb h8).2.2.1
  rcases test_aeron_packet_tail sa wa fuel tvb pinfo endpoints state HDR_TYPE_PAD frame_length
    htype hlenr with h | h
  · exact h
  · rw [h, if_pos rfl, hoff]
    simp

/-- The amended C26: for every frame kind but Pad, `test_aeron_packet` returns FALSE and
leaves the state as it is whenever the first frame's declared frame length, masked to
31 bits, exceeds the number of bytes in the buffer. -/
theorem test_aeron_packet_rejects_truncated (sa wa : Bool) (fuel : Nat) (tvb : tvbuff_t)
    (pinfo : packet_info) (endpoints : packet_endpoints) (state : dissector_state)
    (packet_type frame_length : Nat) (htype : tvb_get_letohs tvb 2 = some packet_type)
    (hlenr : tvb_get_letohl tvb 4 = some frame_length) (hkind : packet_type ≠ HDR_TYPE_PAD)
    (hlong : tvb.length < frame_length &&& 0x7fffffff) :
    test_aeron_packet sa wa fuel tvb pinfo endpoints state = some (state, .returned false) := by
  rcases test_aeron_packet_tail sa wa fuel tvb pinfo endpoints state packet_type frame_length
    htype hlenr with h | h
  · exact h
  · have hm : frame_length &&& 0x7fffffff < 2 ^ 31 := by
      have := @Nat.and_le_right frame_length 0x7fffffff
      omega
    have hgt : to_gint ((frame_length &&& 0x7fffffff : Nat) : Int) > to_gint (tvb.length : Int) := by
      rw [to_gint_of_small _ hm, to_gint_of_small _ (by omega)]
      omega
    rw [h, if_neg hkind, if_pos hgt]

/-! ### Conversation set-up -/

theorem setup_conversation_info_none (endpoints : packet_endpoints) (type : Nat)
    (h4 : endpoints.dst.type ≠ AT_IPv4) (h6 : endpoints.dst.type ≠ AT_IPv6) :
    aeron_setup_conversation_info endpoints type = none := by
  unfold aeron_setup_conversation_info
  rw [if_neg h4, if_neg h6]

/-- C30: for a destination address family that is neither IPv4 nor IPv6,
`aeron_setup_conversation_info` yields `NULL` for every frame type; `dissect_aeron`, once
it has read the type field, returns -1 and leaves the state as it is, so that no
transport, stream, term, fragment or occurrence is created; and `test_aeron_packet`
returns FALSE, also with the state as it is, whatever the buffer. -/
theorem unsupported_address_family (sa wa : Bool) (fuel : Nat) (tvb : tvbuff_t)
    (pinfo : packet_info) (endpoints : packet_endpoints) (state : dissector_state)
    (h4 : endpoints.dst.type ≠ AT_IPv4) (h6 : endpoints.dst.type ≠ AT_IPv6) :
    (∀ type, aeron_setup_conversation_info endpoints type = none) ∧
      (∀ frame_type, tvb_get_letohs tvb 2 = some frame_type →
        dissect_aeron sa wa fuel tvb pinfo endpoints state = some (state, .returned (-1))) ∧
      test_aeron_packet sa wa fuel tvb pinfo endpoints state = some (state, .returned false) := by
  have hnone := fun type => setup_conversation_info_none endpoints type h4 h6
  have hdis : ∀ frame_type, tvb_get_letohs tvb 2 = some frame_type →
      dissect_aeron sa wa fuel tvb pinfo endpoints state = some (state, .returned (-1)) := by
    intro frame_type hty
    unfold dissect_aeron
    simp only [hty, hnone]
  refine ⟨hnone, hdis, ?_⟩
  by_cases h : tvb.length < 12
  · have h1 : to_gint (tvb.length : Int) < (HDR_LENGTH_MIN : Int) := by
      unfold to_gint HDR_LENGTH_MIN
      omega
    unfold test_aeron_packet
    simp only [h1, if_true]
  · have hlen : 12 ≤ tvb.length := by omega
    obtain ⟨packet_type, htype⟩ := (test_reads_inside tvb hlen).2.1
    obtain ⟨frame_length, hlenr⟩ := (test_reads_inside tvb hlen).2.2.1
    obtain ⟨term_offset, hoff⟩ := (test_reads_inside tvb hlen).2.2.2
    have hcall : test_aeron_packet_dissect sa wa fuel tvb pinfo endpoints state =
        some (state, .returned false) := by
      unfold test_aeron_packet_dissect
      rw [hdis packet_type htype]
      rfl
    rcases test_aeron_packet_tail sa wa fuel tvb pinfo endpoints state packet_type frame_length
      htype hlenr with h' | h'
    · exact h'
    · rw [h', hoff, hcall]
      simp

/-- C28: for a destination of family IPv4 or IPv6 that is not multicast,
`aeron_setup_conversation_info` yields (source, source port, destination, destination
port) for Pad, Data and Setup frames and (destination, destination port, source, source
port) for NAK and Status frames.  Hence a Data frame sent from A:p to B:q and a Status
frame sent from B:q to A:p get the same conversation information. -/
theorem unicast_conversation_info (src dst : address) (srcport destport ptype type : Nat)
    (hfam : dst.type = AT_IPv4 ∨ dst.type = AT_IPv6)
    (huni : aeron_is_address_multicast dst = false) :
    ((type = HDR_TYPE_PAD ∨ type = HDR_TYPE_DATA ∨ type = HDR_TYPE_SETUP) →
      aeron_setup_conversation_info ⟨src, dst, srcport, destport, ptype⟩ type =
        some { addr1 := src, port1 := srcport, addr2 := dst, port2 := destport,
               ptype := ptype }) ∧
    ((type = HDR_TYPE_NAK ∨ type = HDR_TYPE_SM) →
      aeron_setup_conversation_info ⟨src, dst, srcport, destport, ptype⟩ type =
        some { addr1 := dst, port1 := destport, addr2 := src, port2 := srcport,
               ptype := ptype }) ∧
    ((src.type = AT_IPv4 ∨ src.type = AT_IPv6) → aeron_is_address_multicast src = false →
      aeron_setup_conversation_info ⟨src, dst, srcport, destport, ptype⟩ HDR_TYPE_DATA =
        aeron_setup_conversation_info ⟨dst, src, destport, srcport, ptype⟩ HDR_TYPE_SM) := by
  have hbody : ∀ (s d : address) (sp dp ty : Nat), (d.type = AT_IPv4 ∨ d.type = AT_IPv6) →
      aeron_is_address_multicast d = false →
      (((ty = HDR_TYPE_PAD ∨ ty = HDR_TYPE_DATA ∨ ty = HDR_TYPE_SETUP) →
        aeron_setup_conversation_info ⟨s, d, sp, dp, ptype⟩ ty =
          some { addr1 := s, port1 := sp, addr2 := d, port2 := dp, ptype := ptype }) ∧
      ((ty = HDR_TYPE_NAK ∨ ty = HDR_TYPE_SM) →
        aeron_setup_conversation_info ⟨s, d, sp, dp, ptype⟩ ty =
          some { addr1 := d, port1 := dp, addr2 := s, port2 := sp, ptype := ptype })) := by
    intro s d sp dp ty hf hu
    constructor
    · intro hty
      unfold aeron_setup_conversation_info aeron_setup_conversation_info_family
      simp only [hu, Bool.false_eq_true, if_false, hty, if_true]
      rcases hf with hf | hf
      · simp [hf]
      · simp [hf, AT_IPv4, AT_IPv6]
    · intro hty
      have hn : ¬ (ty = HDR_TYPE_PAD ∨ ty = HDR_TYPE_DATA ∨ ty = HDR_TYPE_SETUP) := by
        unfold HDR_TYPE_PAD HDR_TYPE_DATA HDR_TYPE_SETUP
        unfold HDR_TYPE_NAK HDR_TYPE_SM at hty
        omega
      unfold aeron_setup_conversation_info aeron_setup_conversation_info_family
      simp only [hu, Bool.false_eq_true, if_false, hty, hn, if_true]
      rcases hf with hf | hf
      · simp [hf]
      · simp [hf, AT_IPv4, AT_IPv6]
  refine ⟨(hbody src dst srcport destport type hfam huni).1,
    (hbody src dst srcport destport type hfam huni).2, ?_⟩
  intro hsf hsu
  rw [(hbody src dst srcport destport HDR_TYPE_DATA hfam huni).1 (Or.inr (Or.inl rfl)),
    (hbody dst src destport srcport HDR_TYPE_SM hsf hsu).2 (Or.inr rfl)]

/-! ### Multicast destinations -/

theorem list_set_getD_self (l : List Nat) (i d : Nat) : l.set i (l.getD i d) = l := by
  induction l generalizing i with
  | nil => simp
  | cons a l ih =>
    cases i with
    | zero => simp
    | succ i =>
      simp only [List.getD_cons_succ, List.set_cons_succ]
      rw [ih i]

theorem list_getD_set_same (l : List Nat) (i a d : Nat) (h : i < l.length) :
    (l.set i a).getD i d = a := by
  induction l generalizing i with
  | nil => simp at h
  | cons b l ih =>
    cases i with
    | zero => simp
    | succ i =>
      simp only [List.set_cons_succ, List.getD_cons_succ]
      exact ih i (by simpa using h)

theorem list_getD_set_other (l : List Nat) (i j a d : Nat) (h : i ≠ j) :
    (l.set i a).getD j d = l.getD j d := by
  induction l generalizing i j with
  | nil => simp
  | cons b l ih =>
    cases i with
    | zero =>
      cases j with
      | zero => exact absurd rfl h
      | succ j => simp
    | succ i =>
      cases j with
      | zero => simp
      | succ j =>
        simp only [List.set_cons_succ, List.getD_cons_succ]
        exact ih i j (by omega)

theorem and_one_ne_zero (x : Nat) : (x &&& 0x1) ≠ 0 ↔ x % 2 = 1 := by
  rw [Nat.and_one_is_mod]
  omega

set_option maxRecDepth 100000 in
theorem ipv4_multicast_byte : ∀ b, b < 256 → ((b &&& 0xf0) = 0xe0 ↔ 0xE0 ≤ b ∧ b ≤ 0xEF) := by
  decide

theorem multicast_family (addr : address) (h : aeron_is_address_multicast addr = true) :
    addr.type = AT_IPv4 ∨ addr.type = AT_IPv6 := by
  unfold aeron_is_address_multicast at h
  by_cases h4 : addr.type = AT_IPv4
  · exact Or.inl h4
  · by_cases h6 : addr.type = AT_IPv6
    · exact Or.inr h6
    · rw [if_neg h4, if_neg h6] at h
      exact absurd h (by decide)

/-- The conversation information for a multicast destination. -/
theorem multicast_info (src dst : address) (srcport destport ptype type : Nat)
    (hmc : aeron_is_address_multicast dst = true) :
    aeron_setup_conversation_info ⟨src, dst, srcport, destport, ptype⟩ type =
      some (if address_last_byte dst % 2 = 1 then
        { addr1 := address_with_last_byte dst ((address_last_byte dst + 1) % 256),
          addr2 := dst, ptype := ptype, port1 := destport, port2 := destport }
      else
        { addr1 := dst,
          addr2 := address_with_last_byte dst ((address_last_byte dst + 255) % 256),
          ptype := ptype, port1 := destport, port2 := destport }) := by
  have hfam := multicast_family dst hmc
  have hbody : ∀ family, dst.type = family →
      aeron_setup_conversation_info_family ⟨src, dst, srcport, destport, ptype⟩ type family =
        (if address_last_byte dst % 2 = 1 then
          { addr1 := address_with_last_byte dst ((address_last_byte dst + 1) % 256),
            addr2 := dst, ptype := ptype, port1 := destport, port2 := destport }
        else
          { addr1 := dst,
            addr2 := address_with_last_byte dst ((address_last_byte dst + 255) % 256),
            ptype := ptype, port1 := destport, port2 := destport }) := by
    intro family hf
    unfold aeron_setup_conversation_info_family address_last_byte address_with_last_byte
    simp only [hmc, if_true, and_one_ne_zero]
    subst hf
    split_ifs <;> rfl
  unfold aeron_setup_conversation_info
  rcases hfam with hf | hf
  · rw [if_pos hf, hbody AT_IPv4 hf]
  · have h4 : ¬ dst.type = AT_IPv4 := by
      rw [hf]
      decide
    rw [if_neg h4, if_pos hf, hbody AT_IPv6 hf]

/-- C29: an IPv4 address is multicast exactly when its first byte is 0xE0..0xEF, an IPv6
address exactly when its first byte is 0xFF.  For a multicast destination G,
`aeron_setup_conversation_info` yields addr2 = G and addr1 = G with its last byte
incremented (in 8 bits) when G's last byte is odd, and addr1 = G and addr2 = G with its
last byte decremented (in 8 bits) when it is even, with port1 = port2 = destination
port, whatever the frame kind and the source address and port.  Hence a packet sent to
a data group D (odd last byte) and a packet sent to its control group (D with the last
byte incremented) get the same conversation information. -/
theorem multicast_conversation_info (src src2 dst : address)
    (srcport srcport2 destport ptype type type2 : Nat) :
    (∀ b rest, b < 256 →
      (aeron_is_address_multicast ⟨AT_IPv4, b :: rest⟩ = true ↔ 0xE0 ≤ b ∧ b ≤ 0xEF)) ∧
    (∀ b rest, aeron_is_address_multicast ⟨AT_IPv6, b :: rest⟩ = true ↔ b = 0xFF) ∧
    (aeron_is_address_multicast dst = true →
      aeron_setup_conversation_info ⟨src, dst, srcport, destport, ptype⟩ type =
        some (if address_last_byte dst % 2 = 1 then
          { addr1 := address_with_last_byte dst ((address_last_byte dst + 1) % 256),
            addr2 := dst, ptype := ptype, port1 := destport, port2 := destport }
        else
          { addr1 := dst,
            addr2 := address_with_last_byte dst ((address_last_byte dst + 255) % 256),
            ptype := ptype, port1 := destport, port2 := destport })) ∧
    (aeron_is_address_multicast dst = true → 2 ≤ dst.data.length →
      address_last_byte dst % 2 = 1 → address_last_byte dst < 256 →
      aeron_setup_conversation_info
          ⟨src2, address_with_last_byte dst ((address_last_byte dst + 1) % 256), srcport2,
            destport, ptype⟩ type2 =
        aeron_setup_conversation_info ⟨src, dst, srcport, destport, ptype⟩ type) := by
  refine ⟨?_, ?_, multicast_info src dst srcport destport ptype type, ?_⟩
  · intro b rest hb
    have := ipv4_multicast_byte b hb
    simp only [aeron_is_address_multicast, if_true, List.getD_cons_zero, beq_iff_eq]
    exact this
  · intro b rest
    have h : ¬ AT_IPv6 = AT_IPv4 := by decide
    simp [aeron_is_address_multicast, h]
  · intro hmc hlen hodd hbyte
    have hfam := multicast_family dst hmc
    have hidx : dst.data.length - 1 < dst.data.length := by omega
    have hmc2 : aeron_is_address_multicast
        (address_with_last_byte dst ((address_last_byte dst + 1) % 256)) = true := by
      have h0 : (dst.data.set (dst.data.length - 1) ((address_last_byte dst + 1) % 256)).getD 0 0 =
          dst.data.getD 0 0 := list_getD_set_other _ _ _ _ _ (by omega)
      unfold aeron_is_address_multicast at hmc ⊢
      unfold address_with_last_byte
      simp only [h0]
      exact hmc
    have hlast2 : address_last_byte
        (address_with_last_byte dst ((address_last_byte dst + 1) % 256)) =
        (address_last_byte dst + 1) % 256 := by
      unfold address_with_last_byte
      unfold address_last_byte
      simp only [List.length_set]
      exact list_getD_set_same _ _ _ _ hidx
    have hback : address_with_last_byte
        (address_with_last_byte dst ((address_last_byte dst + 1) % 256))
        (((address_last_byte dst + 1) % 256 + 255) % 256) = dst := by
      have e : ((address_last_byte dst + 1) % 256 + 255) % 256 = address_last_byte dst := by
        omega
      rw [e]
      unfold address_with_last_byte
      simp only [List.length_set, List.set_set]
      unfold address_last_byte
      rw [list_set_getD_self]
    rw [multicast_info src2 _ srcport2 destport ptype type2 hmc2,
      multicast_info src dst srcport destport ptype type hmc, hlast2]
    have hev : ¬ (address_last_byte dst + 1) % 256 % 2 = 1 := by omega
    rw [if_neg hev, if_pos hodd, hback]

/-! ### Several frames in one packet -/

/-- The body shared by the Transport, Stream and Term levels, called again with the frame
number of the last record: the record stored under that number now names itself as its
previous frame. -/
theorem frame_chain_add_same_frame (frames : wmem_tree_t aeron_frame_t) (n : Nat) :
    wmem_tree_lookup32 (frame_chain_add frames (some n) n).1 n =
      some { frame := n, previous_frame := n, next_frame := 0, retransmission := false } := by
  unfold frame_chain_add
  simp [lookup_insert]


set_option maxRecDepth 100000 in
/-- C21: one first-visit packet (frame 1) that carries two Data frames of the same term,
at term offsets 0 and 32, with both analyses enabled.  `dissect_aeron` consumes 64
bytes.  Afterwards the record stored for frame 1 at the Transport level, at the Stream
level and at the Term level has previous_frame = 1, its own frame number: the frame
number was appended to each of the three chains twice. -/
theorem packet_with_two_frames_links_to_itself :
    (dissect_aeron true true 3 packet_two_data ⟨false, 1⟩ publisher_endpoints
        dissector_state_init).map Prod.snd = some (.returned 64) ∧
    (session_transport (dissect_aeron true true 3 packet_two_data ⟨false, 1⟩
        publisher_endpoints dissector_state_init)).bind
      (fun transport => aeron_transport_frame_find transport 1) = some ⟨1, 1, 0, false⟩ ∧
    (session_transport (dissect_aeron true true 3 packet_two_data ⟨false, 1⟩
        publisher_endpoints dissector_state_init)).bind
      (fun transport => stream_frame_lookup transport 10 1) = some ⟨1, 1, 0, false⟩ ∧
    (session_transport (dissect_aeron true true 3 packet_two_data ⟨false, 1⟩
        publisher_endpoints dissector_state_init)).bind
      (fun transport => term_frame_lookup transport 10 5 1) = some ⟨1, 1, 0, false⟩ ∧
    (session_transport (dissect_aeron true true 3 packet_two_data ⟨false, 1⟩
        publisher_endpoints dissector_state_init)).bind
      (fun transport => fragment_frame_lookup transport 10 5 0 1) = some ⟨1, 0, 0, false⟩ ∧
    (session_transport (dissect_aeron true true 3 packet_two_data ⟨false, 1⟩
        publisher_endpoints dissector_state_init)).bind
      (fun transport => fragment_frame_lookup transport 10 5 32 1) = some ⟨1, 0, 0, false⟩ := by
  decide

/-! ### The packet loop -/

theorem dissect_aeron_frame_none (sa wa : Bool) (tvb : tvbuff_t) (offset : Int)
    (pinfo : packet_info) (cinfo : aeron_conversation_info_t) (state : dissector_state)
    (frame_type : Nat)
    (hun : ¬ (frame_type = HDR_TYPE_PAD ∨ frame_type = HDR_TYPE_DATA ∨
      frame_type = HDR_TYPE_NAK ∨ frame_type = HDR_TYPE_SM ∨ frame_type = HDR_TYPE_ERR ∨
      frame_type = HDR_TYPE_SETUP)) :
    dissect_aeron_frame sa wa tvb offset pinfo cinfo state frame_type = none := by
  unfold dissect_aeron_frame
  have h0 : ¬ frame_type = HDR_TYPE_PAD := fun h => hun (Or.inl h)
  have h1 : ¬ frame_type = HDR_TYPE_DATA := fun h => hun (Or.inr (Or.inl h))
  have h2 : ¬ frame_type = HDR_TYPE_NAK := fun h => hun (Or.inr (Or.inr (Or.inl h)))
  have h3 : ¬ frame_type = HDR_TYPE_SM := fun h => hun (Or.inr (Or.inr (Or.inr (Or.inl h))))
  have h4 : ¬ frame_type = HDR_TYPE_ERR :=
    fun h => hun (Or.inr (Or.inr (Or.inr (Or.inr (Or.inl h)))))
  have h5 : ¬ frame_type = HDR_TYPE_SETUP :=
    fun h => hun (Or.inr (Or.inr (Or.inr (Or.inr (Or.inr h)))))
  rw [if_neg h0, if_neg h1, if_neg h2, if_neg h3, if_neg h4, if_neg h5]

theorem setup_conversation_info_some (endpoints : packet_endpoints) (type : Nat)
    (hfam : endpoints.dst.type = AT_IPv4 ∨ endpoints.dst.type = AT_IPv6) :
    ∃ cinfo, aeron_setup_conversation_info endpoints type = some cinfo := by
  unfold aeron_setup_conversation_info
  rcases hfam with h | h
  · rw [if_pos h]
    exact ⟨_, rfl⟩
  · by_cases h4 : endpoints.dst.type = AT_IPv4
    · rw [if_pos h4]
      exact ⟨_, rfl⟩
    · rw [if_neg h4, if_pos h]
      exact ⟨_, rfl⟩

set_option maxRecDepth 100000 in
/-- C24: in the loop of `dissect_aeron`, with bytes remaining and a type field that reads
as Extension (0xFFFF) or any value other than 0..5, the call returns the running total
at once and leaves the state as it is, whatever follows in the buffer; a frame of a
supported kind that consumes `dissected_len` bytes adds that to the total and moves
the offset on by it, so the total is the sum of the lengths consumed before; and when
the first frame is unsupported the result is 0.  In the example, a Data frame of 32
bytes followed by an Extension frame, or by a frame of type 6, and another Data frame
gives 32 and the state that the first Data frame alone gives. -/
theorem dissect_aeron_stops_at_unsupported (sa wa : Bool) (fuel : Nat) (tvb : tvbuff_t)
    (pinfo : packet_info) (endpoints : packet_endpoints) (state : dissector_state)
    (offset len_remaining total_dissected_len : Int) (frame_type : Nat) :
    (len_remaining > 0 → tvb_get_letohs tvb (offset + 2) = some frame_type →
      (endpoints.dst.type = AT_IPv4 ∨ endpoints.dst.type = AT_IPv6) →
      ¬ (frame_type = HDR_TYPE_PAD ∨ frame_type = HDR_TYPE_DATA ∨
        frame_type = HDR_TYPE_NAK ∨ frame_type = HDR_TYPE_SM ∨ frame_type = HDR_TYPE_ERR ∨
        frame_type = HDR_TYPE_SETUP) →
      dissect_aeron_loop sa wa tvb pinfo endpoints (fuel + 1) state offset len_remaining
          total_dissected_len = some (state, .returned total_dissected_len)) ∧
    (∀ cinfo state2 dissected_len, len_remaining > 0 →
      tvb_get_letohs tvb (offset + 2) = some frame_type →
      aeron_setup_conversation_info endpoints frame_type = some cinfo →
      dissect_aeron_frame sa wa tvb offset pinfo cinfo state frame_type =
        some (state2, .returned dissected_len) →
      dissect_aeron_loop sa wa tvb pinfo endpoints (fuel + 1) state offset len_remaining
          total_dissected_len =
        dissect_aeron_loop sa wa tvb pinfo endpoints fuel state2
          (to_gint (offset + dissected_len)) (to_gint (len_remaining - dissected_len))
          (to_gint (total_dissected_len + dissected_len))) ∧
    (tvb_get_letohs tvb 2 = some frame_type →
      (endpoints.dst.type = AT_IPv4 ∨ endpoints.dst.type = AT_IPv6) →
      ¬ (frame_type = HDR_TYPE_PAD ∨ frame_type = HDR_TYPE_DATA ∨
        frame_type = HDR_TYPE_NAK ∨ frame_type = HDR_TYPE_SM ∨ frame_type = HDR_TYPE_ERR ∨
        frame_type = HDR_TYPE_SETUP) →
      dissect_aeron sa wa (fuel + 1) tvb pinfo endpoints state = some (state, .returned 0)) ∧
    (dissect_aeron true true 3 (packet_data_then HDR_TYPE_EXT) ⟨false, 1⟩ publisher_endpoints
        dissector_state_init =
      dissect_aeron true true 3 (data_frame_32 0) ⟨false, 1⟩ publisher_endpoints
        dissector_state_init ∧
     dissect_aeron true true 3 (packet_data_then 6) ⟨false, 1⟩ publisher_endpoints
        dissector_state_init =
      dissect_aeron true true 3 (data_frame_32 0) ⟨false, 1⟩ publisher_endpoints
        dissector_state_init ∧
     (dissect_aeron true true 3 (data_frame_32 0) ⟨false, 1⟩ publisher_endpoints
        dissector_state_init).map Prod.snd = some (.returned 32) ∧
     dissect_aeron true true 3 (packet_first_then_data HDR_TYPE_EXT) ⟨false, 1⟩
        publisher_endpoints dissector_state_init =
      some (dissector_state_init, .returned 0)) := by
  have hstop : ∀ (off rem tot : Int), rem > 0 → tvb_get_letohs tvb (off + 2) = some frame_type →
      (endpoints.dst.type = AT_IPv4 ∨ endpoints.dst.type = AT_IPv6) →
      ¬ (frame_type = HDR_TYPE_PAD ∨ frame_type = HDR_TYPE_DATA ∨
        frame_type = HDR_TYPE_NAK ∨ frame_type = HDR_TYPE_SM ∨ frame_type = HDR_TYPE_ERR ∨
        frame_type = HDR_TYPE_SETUP) →
      dissect_aeron_loop sa wa tvb pinfo endpoints (fuel + 1) state off rem tot =
        some (state, .returned tot) := by
    intro off rem tot hrem hty hfam hun
    obtain ⟨cinfo, hc⟩ := setup_conversation_info_some endpoints frame_type hfam
    unfold dissect_aeron_loop
    rw [if_pos hrem]
    simp only [hty, hc, dissect_aeron_frame_none sa wa tvb off pinfo cinfo state frame_type hun]
  refine ⟨hstop offset len_remaining total_dissected_len, ?_, ?_, ?_⟩
  · intro cinfo state2 dissected_len hrem hty hc hfr
    conv => lhs; unfold dissect_aeron_loop
    rw [if_pos hrem]
    simp only [hty, hc, hfr]
  · intro hty hfam hun
    obtain ⟨cinfo, hc⟩ := setup_conversation_info_some endpoints frame_type hfam
    unfold dissect_aeron
    simp only [hty, hc]
    by_cases hrem : to_gint (tvb.length : Int) > 0
    · exact hstop 0 _ 0 hrem (by simpa using hty) hfam hun
    · unfold dissect_aeron_loop
      rw [if_neg hrem]
  · decide

/-! ### What the Data dissector consumes -/

theorem tvb_reads_header (tvb : tvbuff_t) (offset : Int) (h0 : 0 ≤ offset)
    (h : offset.toNat + 24 ≤ tvb.length) :
    (∃ v, tvb_get_guint8 tvb (offset + 1) = some v) ∧
      (∃ v, tvb_get_letohl tvb (offset + 4) = some v) ∧
      (∃ v, tvb_get_letohl tvb (offset + 8) = some v) ∧
      (∃ v, tvb_get_letohl tvb (offset + 12) = some v) ∧
      (∃ v, tvb_get_letohl tvb (offset + 16) = some v) ∧
      (∃ v, tvb_get_letohl tvb (offset + 20) = some v) := by
  have e : ∀ k : Nat, (offset + (k : Int)).toNat = offset.toNat + k := by
    intro k
    omega
  refine ⟨tvb_get_guint8_inside tvb _ (by omega) ?_, tvb_get_letohl_inside tvb _ (by omega) ?_,
    tvb_get_letohl_inside tvb _ (by omega) ?_, tvb_get_letohl_inside tvb _ (by omega) ?_,
    tvb_get_letohl_inside tvb _ (by omega) ?_, tvb_get_letohl_inside tvb _ (by omega) ?_⟩
  · have := e 1
    simp only [Nat.cast_ofNat, Nat.cast_one] at this
    omega
  · have := e 4
    simp only [Nat.cast_ofNat] at this
    omega
  · have := e 8
    simp only [Nat.cast_ofNat] at this
    omega
  · have := e 12
    simp only [Nat.cast_ofNat] at this
    omega
  · have := e 16
    simp only [Nat.cast_ofNat] at this
    omega
  · have := e 20
    simp only [Nat.cast_ofNat] at this
    omega

/-! ### Worked packets -/

theorem test_aeron_packet_rejects_malformed_witness :
    tvb_get_letohs packet_nak_short 2 = some HDR_TYPE_NAK ∧
    tvb_get_letohl packet_nak_short 4 = some 8 ∧
    test_aeron_packet true true 3 packet_nak_short ⟨false, 1⟩ publisher_endpoints
      dissector_state_init = some (dissector_state_init, .returned false) :=
  ⟨by decide, by decide,
    (test_aeron_packet_rejects_malformed true true 3 packet_nak_short ⟨false, 1⟩
      publisher_endpoints dissector_state_init).2.2.2 HDR_TYPE_NAK 8 (by decide) (by decide)
      (by decide) (by decide)⟩

set_option maxRecDepth 100000 in
/-- C26, as the claim states it, fails for Pad frames: the buffer holds the 24 header
bytes of a Pad frame that declares a frame length of 1000 at term offset 8.  With both
analyses enabled `test_aeron_packet` returns TRUE for this first-visit packet, and the
transport of session 7 with stream 10 and term 5 exists afterwards. -/
theorem pad_frame_longer_than_buffer_accepted :
    packet_pad_long.length = 24 ∧
    tvb_get_letohs packet_pad_long 2 = some HDR_TYPE_PAD ∧
    tvb_get_letohl packet_pad_long 4 = some 1000 ∧
    (test_aeron_packet true true 3 packet_pad_long ⟨false, 1⟩ publisher_endpoints
        dissector_state_init).map Prod.snd = some (.returned true) ∧
    ((session_transport (test_aeron_packet true true 3 packet_pad_long ⟨false, 1⟩
        publisher_endpoints dissector_state_init)).bind
      (fun transport => aeron_stream_term_find transport 10 5)).isSome = true ∧
    session_transport (some (dissector_state_init, dissect_result.returned true)) = none := by
  decide

theorem test_aeron_packet_rejects_truncated_witness :
    tvb_get_letohs packet_data_truncated 2 = some HDR_TYPE_DATA ∧
    tvb_get_letohl packet_data_truncated 4 = some 1000 ∧
    packet_data_truncated.length < 1000 &&& 0x7fffffff ∧
    test_aeron_packet true true 3 packet_data_truncated ⟨false, 1⟩ publisher_endpoints
      dissector_state_init = some (dissector_state_init, .returned false) :=
  ⟨by decide, by decide, by decide,
    test_aeron_packet_rejects_truncated true true 3 packet_data_truncated ⟨false, 1⟩
      publisher_endpoints dissector_state_init HDR_TYPE_DATA 1000 (by decide) (by decide)
      (by decide) (by decide)⟩

theorem test_aeron_packet_rejects_pad_at_zero_witness :
    tvb_get_letohs packet_pad_at_zero 2 = some HDR_TYPE_PAD ∧
    tvb_get_letohl packet_pad_at_zero 8 = some 0 ∧
    test_aeron_packet true true 3 packet_pad_at_zero ⟨false, 1⟩ publisher_endpoints
      dissector_state_init = some (dissector_state_init, .returned false) :=
  ⟨by decide, by decide,
    test_aeron_packet_rejects_pad_at_zero true true 3 packet_pad_at_zero ⟨false, 1⟩
      publisher_endpoints dissector_state_init (by decide) (by decide)⟩

theorem unsupported_address_family_witness :
    other_family_endpoints.dst.type ≠ AT_IPv4 ∧ other_family_endpoints.dst.type ≠ AT_IPv6 ∧
    tvb_get_letohs (data_frame_32 0) 2 = some HDR_TYPE_DATA ∧
    dissect_aeron true true 3 (data_frame_32 0) ⟨false, 1⟩ other_family_endpoints
      dissector_state_init = some (dissector_state_init, .returned (-1)) ∧
    test_aeron_packet true true 3 (data_frame_32 0) ⟨false, 1⟩ other_family_endpoints
      dissector_state_init = some (dissector_state_init, .returned false) :=
  ⟨by decide, by decide, by decide,
    (unsupported_address_family true true 3 (data_frame_32 0) ⟨false, 1⟩ other_family_endpoints
      dissector_state_init (by decide) (by decide)).2.1 HDR_TYPE_DATA (by decide),
    (unsupported_address_family true true 3 (data_frame_32 0) ⟨false, 1⟩ other_family_endpoints
      dissector_state_init (by decide) (by decide)).2.2⟩

theorem unicast_conversation_info_witness :
    ((⟨AT_IPv4, [10, 0, 0, 2]⟩ : address).type = AT_IPv4 ∨
      (⟨AT_IPv4, [10, 0, 0, 2]⟩ : address).type = AT_IPv6) ∧
    aeron_is_address_multicast ⟨AT_IPv4, [10, 0, 0, 2]⟩ = false ∧
    aeron_setup_conversation_info
        ⟨⟨AT_IPv4, [10, 0, 0, 1]⟩, ⟨AT_IPv4, [10, 0, 0, 2]⟩, 40123, 40124, PT_UDP⟩
        HDR_TYPE_DATA =
      aeron_setup_conversation_info
        ⟨⟨AT_IPv4, [10, 0, 0, 2]⟩, ⟨AT_IPv4, [10, 0, 0, 1]⟩, 40124, 40123, PT_UDP⟩
        HDR_TYPE_SM :=
  ⟨by decide, by decide,
    (unicast_conversation_info ⟨AT_IPv4, [10, 0, 0, 1]⟩ ⟨AT_IPv4, [10, 0, 0, 2]⟩ 40123 40124
      PT_UDP HDR_TYPE_DATA (by decide) (by decide)).2.2 (by decide) (by decide)⟩

theorem multicast_conversation_info_witness :
    aeron_is_address_multicast ⟨AT_IPv4, [224, 0, 1, 255]⟩ = true ∧
    address_with_last_byte ⟨AT_IPv4, [224, 0, 1, 255]⟩
      ((address_last_byte ⟨AT_IPv4, [224, 0, 1, 255]⟩ + 1) % 256) = ⟨AT_IPv4, [224, 0, 1, 0]⟩ ∧
    aeron_setup_conversation_info
        ⟨⟨AT_IPv4, [10, 0, 0, 2]⟩,
          address_with_last_byte ⟨AT_IPv4, [224, 0, 1, 255]⟩
            ((address_last_byte ⟨AT_IPv4, [224, 0, 1, 255]⟩ + 1) % 256),
          40124, 40456, PT_UDP⟩ HDR_TYPE_SM =
      aeron_setup_conversation_info
        ⟨⟨AT_IPv4, [10, 0, 0, 1]⟩, ⟨AT_IPv4, [224, 0, 1, 255]⟩, 40123, 40456, PT_UDP⟩
        HDR_TYPE_DATA :=
  ⟨by decide, by decide,
    (multicast_conversation_info ⟨AT_IPv4, [10, 0, 0, 1]⟩ ⟨AT_IPv4, [10, 0, 0, 2]⟩
      ⟨AT_IPv4, [224, 0, 1, 255]⟩ 40123 40124 40456 PT_UDP HDR_TYPE_DATA HDR_TYPE_SM).2.2.2
      (by decide) (by decide) (by decide) (by decide)⟩

theorem dissect_aeron_stops_at_unsupported_witness :
    ((40 : Int) > 0) ∧
    tvb_get_letohs (packet_first_then_data HDR_TYPE_EXT) (0 + 2) = some HDR_TYPE_EXT ∧
    dissect_aeron_loop true true (packet_first_then_data HDR_TYPE_EXT) ⟨false, 1⟩
      publisher_endpoints (0 + 1) dissector_state_init 0 40 0 =
        some (dissector_state_init, .returned 0) :=
  ⟨by decide, by decide,
    (dissect_aeron_stops_at_unsupported true true 0 (packet_first_then_data HDR_TYPE_EXT)
      ⟨false, 1⟩ publisher_endpoints dissector_state_init 0 40 0 HDR_TYPE_EXT).1 (by decide)
      (by decide) (by decide) (by decide)⟩

/-! ### The message flags of a fragment -/

theorem flags_of_find (a b : aeron_transport_t) (sid tid off : Nat)
    (h : aeron_term_fragment_find a sid tid off = aeron_term_fragment_find b sid tid off) :
    fragment_message_flags a sid tid off = fragment_message_flags b sid tid off := by
  unfold fragment_message_flags
  rw [h]

theorem flags_fragment_frame_add (transport : aeron_transport_t) (sid tid off frame : Nat) :
    fragment_message_flags (aeron_fragment_frame_add transport sid tid off frame) sid tid off =
      fragment_message_flags transport sid tid off := by
  unfold aeron_fragment_frame_add
  cases h : aeron_term_fragment_find transport sid tid off with
  | none => rfl
  | some x =>
    simp only
    cases hl : aeron_fragment_frame_find x frame with
    | some e => rfl
    | none =>
      simp only
      unfold fragment_message_flags
      rw [find_fragment_fragment_write, find_fragment_term_frame_add,
        find_fragment_fragment_write]
      simp only [and_self, if_true, h, Option.map_some']

theorem flags_setup_fragment (transport : aeron_transport_t) (info : aeron_sequence_info_t)
    (sid tid off frame : Nat) (hterm : aeron_stream_term_find transport sid tid ≠ none) :
    fragment_message_flags (aeron_sequence_setup_fragment transport info sid tid off frame)
        sid tid off =
      some (true, (info.flags &&& DATA_FLAGS_BEGIN) != 0, (info.flags &&& DATA_FLAGS_END) != 0) := by
  unfold aeron_sequence_setup_fragment
  simp only
  have hex := find_fragment_add_same transport sid tid off info.len info.data_len hterm
  rw [flags_fragment_frame_add]
  unfold fragment_message_flags
  rw [find_fragment_fragment_write]
  simp only [and_self, if_true]
  cases hx : aeron_term_fragment_find
      (match aeron_term_fragment_find transport sid tid off with
        | some _ => transport
        | none => aeron_term_fragment_add transport sid tid off info.len info.data_len)
      sid tid off with
  | none => exact absurd hx hex
  | some y => rfl

/-- The message flags through the block entered with a non-`NULL` offset, for a Data
frame. -/
theorem flags_setup_offset (wa : Bool) (pinfo : packet_info) (transport : aeron_transport_t)
    (info : aeron_sequence_info_t) (sid tid off : Nat) (s0 : aeron_stream_t)
    (hty : info.type = HDR_TYPE_DATA)
    (hterm : aeron_stream_term_find transport sid tid ≠ none) :
    fragment_message_flags (aeron_sequence_setup_offset wa pinfo transport info sid tid off s0)
        sid tid off =
      some (true, (info.flags &&& DATA_FLAGS_BEGIN) != 0, (info.flags &&& DATA_FLAGS_END) != 0) := by
  unfold aeron_sequence_setup_offset
  simp only
  have hpos : ∀ s, (aeron_sequence_setup_positions s info tid off
      ((s0.flags &&& AERON_STREAM_FLAGS_HIGH_VALID) != 0)
      ((s0.flags &&& AERON_STREAM_FLAGS_COMPLETED_VALID) != 0)).term = s.term :=
    fun s => positions_term _ _ _ _ _ _
  have hadd : ∀ s : aeron_stream_t, (if aeron_sequence_setup_has_sfa wa s = true then
      aeron_stream_frame_analysis_add s pinfo.num else s).term = s.term := by
    intro s
    split_ifs
    · exact analysis_add_term _ _
    · rfl
  have hsnap : ∀ s : aeron_stream_t, (aeron_sequence_setup_snapshot s pinfo info tid off
      s0.high ((s0.flags &&& AERON_STREAM_FLAGS_HIGH_VALID) != 0) s0.completed
      ((s0.flags &&& AERON_STREAM_FLAGS_COMPLETED_VALID) != 0) s0.receiver_window).term =
      s.term := fun s => rfl
  have hterm2 : aeron_stream_term_find (stream_write (stream_write transport sid fun stream =>
      aeron_sequence_setup_positions stream info tid off
        ((s0.flags &&& AERON_STREAM_FLAGS_HIGH_VALID) != 0)
        ((s0.flags &&& AERON_STREAM_FLAGS_COMPLETED_VALID) != 0)) sid
      (fun stream => if aeron_sequence_setup_has_sfa wa stream = true then
        aeron_stream_frame_analysis_add stream pinfo.num else stream)) sid tid ≠ none := by
    rw [find_term_stream_write _ _ _ _ _ hadd, find_term_stream_write _ _ _ _ _ hpos]
    exact hterm
  have hlast : ∀ (b : Bool) (t : aeron_transport_t),
      fragment_message_flags (if b = true then stream_write t sid (fun stream =>
        aeron_sequence_setup_snapshot stream pinfo info tid off
          s0.high ((s0.flags &&& AERON_STREAM_FLAGS_HIGH_VALID) != 0) s0.completed
          ((s0.flags &&& AERON_STREAM_FLAGS_COMPLETED_VALID) != 0) s0.receiver_window)
        else t) sid tid off = fragment_message_flags t sid tid off := by
    intro b t
    cases b
    · rfl
    · simp only [if_true]
      exact flags_of_find _ _ _ _ _ (find_fragment_stream_write t sid sid tid off _ hsnap)
  rw [hlast]
  simp only [hty, if_true]
  exact flags_setup_fragment _ _ _ _ _ _ hterm2

/-- The message flags of the fragment a first-visit Data frame names, after
`aeron_sequence_setup`. -/
theorem flags_setup_data (sa wa : Bool) (pinfo : packet_info) (transport : aeron_transport_t)
    (flags frame_len term_offset stream_id term_id : Nat)
    (hen : (sa || wa) = true) (hv : pinfo.visited = false) :
    fragment_message_flags
        (aeron_sequence_setup sa wa pinfo transport
          (aeron_data_sinfo flags frame_len term_offset stream_id term_id))
        stream_id term_id term_offset =
      some (true, (flags &&& DATA_FLAGS_BEGIN) != 0, (flags &&& DATA_FLAGS_END) != 0) := by
  have hterm := term_after_lookup transport stream_id term_id
  have hex := window_after_lookup transport stream_id term_id
  simp only at hex
  unfold aeron_sequence_setup
  simp only [hen, hv, aeron_data_sinfo, if_true]
  generalize (match aeron_stream_term_find
      (match aeron_transport_stream_find transport stream_id with
        | some _ => transport
        | none => aeron_transport_stream_add transport stream_id) stream_id term_id with
      | some _ => (match aeron_transport_stream_find transport stream_id with
        | some _ => transport
        | none => aeron_transport_stream_add transport stream_id)
      | none => aeron_stream_term_add (match aeron_transport_stream_find transport stream_id with
        | some _ => transport
        | none => aeron_transport_stream_add transport stream_id) stream_id term_id) = tr2
      at hterm hex ⊢
  cases hs : aeron_transport_stream_find tr2 stream_id with
  | none => rw [hs] at hex; simp at hex
  | some s0 =>
    simp only
    exact flags_setup_offset wa pinfo tr2 _ stream_id term_id term_offset s0 rfl hterm

/-- C22: after `aeron_sequence_setup` has processed a first-visit Data frame with sequence
or window analysis enabled, the fragment for its (term id, term offset) exists and has
is_data_frame = TRUE, is_begin_msg = TRUE iff bit 0x80 of the flags byte is set, and
is_end_msg = TRUE iff bit 0x40 is set; this holds for every state before the frame and
either setting of window analysis, hence with or without a snapshot, and it still holds
when the Data dissector has finished with the frame. -/
theorem data_frame_sets_fragment_flags (sa wa : Bool) (pinfo : packet_info)
    (transport : aeron_transport_t) (flags frame_len term_offset stream_id term_id : Nat)
    (hen : (sa || wa) = true) (hv : pinfo.visited = false) :
    (∃ fragment,
      aeron_term_fragment_find
          (aeron_sequence_setup sa wa pinfo transport
            (aeron_data_sinfo flags frame_len term_offset stream_id term_id))
          stream_id term_id term_offset = some fragment ∧
        fragment.is_data_frame = true ∧
        (fragment.is_begin_msg = true ↔ flags / 128 % 2 = 1) ∧
        (fragment.is_end_msg = true ↔ flags / 64 % 2 = 1)) ∧
    (∃ fragment,
      aeron_term_fragment_find
          (aeron_frame_apply sa wa pinfo transport
            (.data flags frame_len term_offset stream_id term_id))
          stream_id term_id term_offset = some fragment ∧
        fragment.is_data_frame = true ∧
        (fragment.is_begin_msg = true ↔ flags / 128 % 2 = 1) ∧
        (fragment.is_end_msg = true ↔ flags / 64 % 2 = 1)) := by
  have hb : ((flags &&& DATA_FLAGS_BEGIN) != 0) = true ↔ flags / 128 % 2 = 1 := by
    have := and_flag_128 flags
    unfold DATA_FLAGS_BEGIN
    simp only [bne_iff_ne, ne_eq]
    omega
  have he : ((flags &&& DATA_FLAGS_END) != 0) = true ↔ flags / 64 % 2 = 1 := by
    have := and_flag_64 flags
    unfold DATA_FLAGS_END
    simp only [bne_iff_ne, ne_eq]
    omega
  have key : ∀ t : aeron_transport_t,
      fragment_message_flags t stream_id term_id term_offset =
        some (true, (flags &&& DATA_FLAGS_BEGIN) != 0, (flags &&& DATA_FLAGS_END) != 0) →
      ∃ fragment, aeron_term_fragment_find t stream_id term_id term_offset = some fragment ∧
        fragment.is_data_frame = true ∧
        (fragment.is_begin_msg = true ↔ flags / 128 % 2 = 1) ∧
        (fragment.is_end_msg = true ↔ flags / 64 % 2 = 1) := by
    intro t ht
    unfold fragment_message_flags at ht
    cases hf : aeron_term_fragment_find t stream_id term_id term_offset with
    | none => rw [hf] at ht; simp at ht
    | some f =>
      rw [hf] at ht
      simp only [Option.some.injEq, Prod.mk.injEq] at ht
      refine ⟨f, rfl, ht.1, ?_, ?_⟩
      · rw [ht.2.1]; exact hb
      · rw [ht.2.2]; exact he
  have h1 := flags_setup_data sa wa pinfo transport flags frame_len term_offset stream_id
    term_id hen hv
  refine ⟨key _ h1, key _ ?_⟩
  simp only [aeron_frame_apply]
  unfold aeron_next_offset_report
  rw [flags_of_find _ _ _ _ _ (find_fragment_stream_write _ _ _ _ _ _ ?_)]
  · exact h1
  · intro s
    split_ifs <;> rfl

set_option maxRecDepth 100000 in
theorem data_frame_sets_fragment_flags_witness :
    ((true || false) = true) ∧ (⟨false, 1⟩ : packet_info).visited = false ∧
    (∃ fragment,
      aeron_term_fragment_find
          (aeron_sequence_setup true false ⟨false, 1⟩ scenario_transport
            (aeron_data_sinfo 0x80 1000 1000 10 2)) 10 2 1000 = some fragment ∧
        fragment.is_data_frame = true ∧
        (fragment.is_begin_msg = true ↔ 0x80 / 128 % 2 = 1) ∧
        (fragment.is_end_msg = true ↔ 0x80 / 64 % 2 = 1)) :=
  ⟨by decide, by decide,
    (data_frame_sets_fragment_flags true false ⟨false, 1⟩ scenario_transport 0x80 1000 1000 10 2
      (by decide) (by decide)).1⟩

/-! ### One frame, seen from one stream -/

theorem entry_write_keeps {β : Type} (g : aeron_stream_t → β) (transport : aeron_transport_t)
    (sid sid' : Nat) (f : aeron_stream_t → aeron_stream_t) (hf : ∀ s, g (f s) = g s) :
    g (stream_on_entry (stream_write transport sid f) sid') =
      g (stream_on_entry transport sid') := by
  rw [entry_stream_write]
  by_cases hk : sid' = sid
  · subst hk
    simp only [if_true]
    unfold stream_on_entry
    cases h : aeron_transport_stream_find transport sid' with
    | none => rfl
    | some s => exact hf s
  · simp only [hk, if_false]

theorem entry_keeps_next_offset_report {β : Type} (g : aeron_stream_t → β)
    (hg : ∀ (s : aeron_stream_t) (L : Nat), g { s with term_length := L } = g s)
    (transport : aeron_transport_t) (stream_id term_id term_offset length sid' : Nat) :
    g (stream_on_entry (aeron_next_offset_report transport stream_id term_id term_offset length)
        sid') = g (stream_on_entry transport sid') := by
  unfold aeron_next_offset_report
  apply entry_write_keeps
  intro s
  split_ifs
  · exact hg s length
  · rfl

theorem entry_keeps_set_stream_mtu_term_length {β : Type} (g : aeron_stream_t → β)
    (hg : ∀ (s : aeron_stream_t) (L m fs : Nat),
      g { s with term_length := L, mtu := m, fragment_stride := fs } = g s)
    (pinfo : packet_info) (transport : aeron_transport_t) (stream_id mtu term_length sid' : Nat) :
    g (stream_on_entry (aeron_set_stream_mtu_term_length pinfo transport stream_id mtu
        term_length) sid') = g (stream_on_entry transport sid') := by
  unfold aeron_set_stream_mtu_term_length
  split_ifs
  · apply entry_write_keeps
    intro s
    exact hg s _ _ _
  · rfl

/-- The window members of stream `sid'` after `aeron_sequence_setup`, for the
information the dissectors pass. -/
theorem window_setup_cases (sa wa : Bool) (pinfo : packet_info) (transport : aeron_transport_t)
    (info : aeron_sequence_info_t) (sid' : Nat) :
    window_state (stream_on_entry (aeron_sequence_setup sa wa pinfo transport info) sid') =
      window_state (stream_on_entry transport sid') ∨
    (∃ tid off, (sa || wa) = true ∧ pinfo.visited = false ∧ info.stream_id = some sid' ∧
      info.term_id = some tid ∧ info.offset = some off ∧
      window_state (stream_on_entry (aeron_sequence_setup sa wa pinfo transport info) sid') =
        window_state (aeron_sequence_setup_window wa pinfo info tid off
          (stream_on_entry transport sid'))) := by
  have hw := window_setup_any sa wa pinfo transport info sid'
  cases htid : info.term_id with
  | none =>
    rw [htid] at hw
    exact Or.inl hw
  | some tid =>
    cases hoff : info.offset with
    | none =>
      rw [htid, hoff] at hw
      exact Or.inl hw
    | some off =>
      rw [htid, hoff] at hw
      simp only at hw
      by_cases hc : (sa || wa) = true ∧ pinfo.visited = false ∧ info.stream_id = some sid'
      · rw [if_pos hc] at hw
        exact Or.inr ⟨tid, off, hc.1, hc.2.1, hc.2.2, rfl, rfl, hw⟩
      · rw [if_neg hc] at hw
        exact Or.inl hw

/-- The window members of stream `sid'` after one frame: flags, positions, receiver
window and snapshots are those of the window step; the term length is not covered. -/
theorem window_frame_apply (sa wa : Bool) (pinfo : packet_info) (transport : aeron_transport_t)
    (fields : aeron_frame_fields) (sid' : Nat) :
    (stream_on_entry (aeron_frame_apply sa wa pinfo transport fields) sid').flags =
        (frame_window_step sa wa pinfo fields sid' (stream_on_entry transport sid')).flags ∧
      (stream_on_entry (aeron_frame_apply sa wa pinfo transport fields) sid').high =
        (frame_window_step sa wa pinfo fields sid' (stream_on_entry transport sid')).high ∧
      (stream_on_entry (aeron_frame_apply sa wa pinfo transport fields) sid').completed =
        (frame_window_step sa wa pinfo fields sid' (stream_on_entry transport sid')).completed ∧
      (stream_on_entry (aeron_frame_apply sa wa pinfo transport fields) sid').receiver_window =
        (frame_window_step sa wa pinfo fields sid'
          (stream_on_entry transport sid')).receiver_window ∧
      (stream_on_entry (aeron_frame_apply sa wa pinfo transport fields) sid').analysis =
        (frame_window_step sa wa pinfo fields sid' (stream_on_entry transport sid')).analysis := by
  have hproj : ∀ a b : aeron_stream_t, window_state a = window_state b →
      a.flags = b.flags ∧ a.high = b.high ∧ a.completed = b.completed ∧
        a.receiver_window = b.receiver_window ∧ a.analysis = b.analysis := by
    intro a b h
    unfold window_state at h
    simp only [Prod.mk.injEq] at h
    exact ⟨h.1, h.2.1, h.2.2.1, h.2.2.2.1, h.2.2.2.2.2⟩
  have hset : ∀ (info : aeron_sequence_info_t) (sid tid off : Nat),
      info.stream_id = some sid → info.term_id = some tid → info.offset = some off →
      window_state (stream_on_entry (aeron_sequence_setup sa wa pinfo transport info) sid') =
        window_state (if (sa || wa) = true ∧ pinfo.visited = false then
          (if sid = sid' then aeron_sequence_setup_window wa pinfo info tid off
            (stream_on_entry transport sid') else stream_on_entry transport sid')
          else stream_on_entry transport sid') := by
    intro info sid tid off h1 h2 h3
    have hw := window_setup_any sa wa pinfo transport info sid'
    rw [h2, h3] at hw
    simp only at hw
    rw [hw, h1]
    by_cases hen : (sa || wa) = true ∧ pinfo.visited = false
    · by_cases hk : sid = sid'
      · subst hk
        simp [hen.1, hen.2]
      · have : ¬ (some sid = some sid') := fun h => hk (Option.some.inj h)
        simp [hen.1, hen.2, hk]
    · have : ¬ ((sa || wa) = true ∧ pinfo.visited = false ∧ some sid = some sid') :=
        fun h => hen ⟨h.1, h.2.1⟩
      rw [if_neg this, if_neg hen]
  have hnone : ∀ (info : aeron_sequence_info_t), info.offset = none →
      window_state (stream_on_entry (aeron_sequence_setup sa wa pinfo transport info) sid') =
        window_state (stream_on_entry transport sid') := by
    intro info h3
    have hw := window_setup_any sa wa pinfo transport info sid'
    rw [h3] at hw
    cases h2 : info.term_id with
    | none => rw [h2] at hw; exact hw
    | some tid => rw [h2] at hw; exact hw
  have hcore : ∀ (t : aeron_transport_t) (r : aeron_stream_t),
      window_state (stream_on_entry t sid') = window_state r →
      (stream_on_entry t sid').flags = r.flags ∧ (stream_on_entry t sid').high = r.high ∧
        (stream_on_entry t sid').completed = r.completed ∧
        (stream_on_entry t sid').receiver_window = r.receiver_window ∧
        (stream_on_entry t sid').analysis = r.analysis := fun t r h => hproj _ _ h
  cases fields with
  | pad frame_len term_offset stream_id term_id =>
    simp only [aeron_frame_apply]
    have h := hcore _ _ (hset (aeron_pad_sinfo frame_len term_offset stream_id term_id)
      stream_id term_id term_offset rfl rfl rfl)
    rw [entry_keeps_next_offset_report (fun s => s.flags) (fun _ _ => rfl),
      entry_keeps_next_offset_report (fun s => s.high) (fun _ _ => rfl),
      entry_keeps_next_offset_report (fun s => s.completed) (fun _ _ => rfl),
      entry_keeps_next_offset_report (fun s => s.receiver_window) (fun _ _ => rfl),
      entry_keeps_next_offset_report (fun s => s.analysis) (fun _ _ => rfl)]
    unfold frame_window_step
    exact h
  | data flags frame_len term_offset stream_id term_id =>
    simp only [aeron_frame_apply]
    have h := hcore _ _ (hset (aeron_data_sinfo flags frame_len term_offset stream_id term_id)
      stream_id term_id term_offset rfl rfl rfl)
    rw [entry_keeps_next_offset_report (fun s => s.flags) (fun _ _ => rfl),
      entry_keeps_next_offset_report (fun s => s.high) (fun _ _ => rfl),
      entry_keeps_next_offset_report (fun s => s.completed) (fun _ _ => rfl),
      entry_keeps_next_offset_report (fun s => s.receiver_window) (fun _ _ => rfl),
      entry_keeps_next_offset_report (fun s => s.analysis) (fun _ _ => rfl)]
    unfold frame_window_step
    exact h
  | nak frame_len stream_id term_id =>
    simp only [aeron_frame_apply]
    have h := hcore _ _ (hnone (aeron_nak_sinfo stream_id term_id) rfl)
    unfold frame_window_step
    simp only [ite_self]
    exact h
  | sm frame_len stream_id term_id comp_offset rcv_window =>
    simp only [aeron_frame_apply]
    have h := hcore _ _ (hset (aeron_sm_sinfo stream_id term_id comp_offset rcv_window)
      stream_id term_id comp_offset rfl rfl rfl)
    unfold frame_window_step
    exact h
  | err len =>
    simp only [aeron_frame_apply]
    unfold frame_window_step
    simp only [ite_self, and_self]
  | setup frame_len stream_id active_term_id term_length mtu =>
    simp only [aeron_frame_apply]
    have h := hcore _ _ (hnone (aeron_setup_sinfo stream_id active_term_id) rfl)
    rw [entry_keeps_set_stream_mtu_term_length (fun s => s.flags) (fun _ _ _ _ => rfl),
      entry_keeps_set_stream_mtu_term_length (fun s => s.high) (fun _ _ _ _ => rfl),
      entry_keeps_set_stream_mtu_term_length (fun s => s.completed) (fun _ _ _ _ => rfl),
      entry_keeps_set_stream_mtu_term_length (fun s => s.receiver_window) (fun _ _ _ _ => rfl),
      entry_keeps_set_stream_mtu_term_length (fun s => s.analysis) (fun _ _ _ _ => rfl)]
    unfold frame_window_step
    simp only [ite_self]
    exact h

/-! ### Cached positions only move forward -/

theorem and_two_pow_eq_zero_iff (n i : Nat) : n &&& 2 ^ i = 0 ↔ n.testBit i = false := by
  have h := and_two_pow_ne_zero n i
  constructor
  · intro h0
    cases hb : n.testBit i with
    | false => rfl
    | true => exact absurd h0 (h.2 hb)
  · intro hb
    by_contra hne
    rw [h.1 hne] at hb
    exact absurd hb (by decide)

theorem aeron_pos_compare_self (a : aeron_pos_t) : aeron_pos_compare a a = 0 :=
  (aeron_pos_compare_eq_zero a a).2 rfl

theorem aeron_pos_compare_zero_le (a : aeron_pos_t) :
    aeron_pos_compare a { term_id := 0, term_offset := 0 } ≥ 0 := by
  have h := aeron_pos_compare_neg_iff a { term_id := 0, term_offset := 0 }
  by_contra hc
  have : aeron_pos_compare a { term_id := 0, term_offset := 0 } < 0 := by omega
  have := h.1 this
  simp at this

/-- The position update of one frame on a consistent stream: neither cached position
moves back, no validity flag is cleared, and the stream stays consistent. -/
theorem positions_monotone (s : aeron_stream_t) (info : aeron_sequence_info_t) (tid off : Nat)
    (hs : stream_positions_consistent s) :
    aeron_pos_compare (aeron_sequence_setup_positions s info tid off
        ((s.flags &&& AERON_STREAM_FLAGS_HIGH_VALID) != 0)
        ((s.flags &&& AERON_STREAM_FLAGS_COMPLETED_VALID) != 0)).high s.high ≥ 0 ∧
    aeron_pos_compare (aeron_sequence_setup_positions s info tid off
        ((s.flags &&& AERON_STREAM_FLAGS_HIGH_VALID) != 0)
        ((s.flags &&& AERON_STREAM_FLAGS_COMPLETED_VALID) != 0)).completed s.completed ≥ 0 ∧
    (∀ i, s.flags.testBit i = true →
      (aeron_sequence_setup_positions s info tid off
        ((s.flags &&& AERON_STREAM_FLAGS_HIGH_VALID) != 0)
        ((s.flags &&& AERON_STREAM_FLAGS_COMPLETED_VALID) != 0)).flags.testBit i = true) ∧
    stream_positions_consistent (aeron_sequence_setup_positions s info tid off
        ((s.flags &&& AERON_STREAM_FLAGS_HIGH_VALID) != 0)
        ((s.flags &&& AERON_STREAM_FLAGS_COMPLETED_VALID) != 0)) := by
  have e1 : AERON_STREAM_FLAGS_HIGH_VALID = 2 ^ 0 := rfl
  have e2 : AERON_STREAM_FLAGS_COMPLETED_VALID = 2 ^ 1 := rfl
  have e4 : AERON_STREAM_FLAGS_RECEIVER_WINDOW_VALID = 2 ^ 2 := rfl
  obtain ⟨hh, hc, hrw⟩ := hs
  rw [e1] at hh
  rw [e2] at hc
  rw [e2, e4] at hrw
  rw [and_two_pow_eq_zero_iff] at hh hc
  rw [and_two_pow_ne_zero, and_two_pow_ne_zero] at hrw
  have hgt : ∀ a b : aeron_pos_t, (b.term_id < a.term_id ∨
      (a.term_id = b.term_id ∧ b.term_offset < a.term_offset)) → aeron_pos_compare a b ≥ 0 := by
    intro a b h
    have := (aeron_pos_compare_pos_iff a b).2 h
    omega
  have hpv : ∀ i, ((s.flags &&& 2 ^ i) != 0) = s.flags.testBit i := by
    intro i
    cases hb : s.flags.testBit i with
    | false =>
      have := (and_two_pow_eq_zero_iff s.flags i).2 hb
      simp [this]
    | true =>
      have := (and_two_pow_ne_zero s.flags i).2 hb
      simp [this]
  unfold stream_positions_consistent
  rw [e1, e2, e4]
  simp only [hpv, and_two_pow_eq_zero_iff, and_two_pow_ne_zero]
  unfold aeron_sequence_setup_positions
  rw [e1, e2, e4]
  by_cases hdp : info.type = HDR_TYPE_DATA ∨ info.type = HDR_TYPE_PAD
  · simp only [hdp, if_true]
    cases hb0 : s.flags.testBit 0 with
    | true =>
      simp only [if_true]
      split_ifs with hA hB
      · refine ⟨hgt _ _ (Or.inl hA), ?_, fun i hi => hi,
          fun h => absurd (hb0.symm.trans h) (by decide), hc, hrw⟩
        rw [aeron_pos_compare_self]
      · refine ⟨hgt _ _ (Or.inr ⟨rfl, hB⟩), ?_, fun i hi => hi,
          fun h => absurd (hb0.symm.trans h) (by decide), hc, hrw⟩
        rw [aeron_pos_compare_self]
      · refine ⟨?_, ?_, fun i hi => hi, hh, hc, hrw⟩
        · rw [aeron_pos_compare_self]
        · rw [aeron_pos_compare_self]
    | false =>
      simp only [Bool.false_eq_true, if_false]
      rw [hh hb0]
      refine ⟨aeron_pos_compare_zero_le _, ?_, ?_, ?_, ?_, ?_⟩
      · rw [aeron_pos_compare_self]
      · intro i hi
        rw [Nat.testBit_lor, hi]
        rfl
      · intro h
        rw [Nat.testBit_lor, Nat.testBit_two_pow] at h
        simp at h
      · intro h
        rw [Nat.testBit_lor, Nat.testBit_two_pow] at h
        simp only [show ¬ (0 = 1) by decide, decide_False, Bool.or_false] at h
        exact hc h
      · intro h
        rw [Nat.testBit_lor, Nat.testBit_two_pow] at h ⊢
        simp only [show ¬ (0 = 1) by decide, show ¬ (0 = 2) by decide, decide_False,
          Bool.or_false] at h ⊢
        exact hrw h
  · simp only [hdp, if_false]
    by_cases hsm : info.type = HDR_TYPE_SM
    · simp only [hsm, if_true]
      cases hb1 : s.flags.testBit 1 with
      | true =>
        simp only [if_true]
        have hfl : ∀ i, s.flags.testBit i = true → (s.flags ||| 2 ^ 2).testBit i = true := by
          intro i hi
          rw [Nat.testBit_lor, hi]
          rfl
        have hb2 : (s.flags ||| 2 ^ 2).testBit 2 = true := by
          rw [Nat.testBit_lor, Nat.testBit_two_pow]
          simp
        have hk0 : (s.flags ||| 2 ^ 2).testBit 0 = s.flags.testBit 0 := by
          rw [Nat.testBit_lor, Nat.testBit_two_pow]
          simp
        have hk1 : (s.flags ||| 2 ^ 2).testBit 1 = s.flags.testBit 1 := by
          rw [Nat.testBit_lor, Nat.testBit_two_pow]
          simp
        split_ifs with hA hB
        · refine ⟨?_, hgt _ _ (Or.inl hA), hfl, ?_, ?_, fun _ => hb2⟩
          · rw [aeron_pos_compare_self]
          · rw [hk0]; exact hh
          · rw [hk1, hb1]; intro h; exact absurd h (by decide)
        · refine ⟨?_, hgt _ _ (Or.inr ⟨rfl, hB⟩), hfl, ?_, ?_, fun _ => hb2⟩
          · rw [aeron_pos_compare_self]
          · rw [hk0]; exact hh
          · rw [hk1, hb1]; intro h; exact absurd h (by decide)
        · refine ⟨?_, ?_, hfl, ?_, ?_, fun _ => hb2⟩
          · rw [aeron_pos_compare_self]
          · rw [aeron_pos_compare_self]
          · rw [hk0]; exact hh
          · rw [hk1, hb1]; intro h; exact absurd h (by decide)
      | false =>
        simp only [Bool.false_eq_true, if_false]
        rw [hc hb1]
        have hb2 : (s.flags ||| 2 ^ 1 ||| 2 ^ 2).testBit 2 = true := by
          rw [Nat.testBit_lor, Nat.testBit_two_pow]
          simp
        have hk0 : (s.flags ||| 2 ^ 1 ||| 2 ^ 2).testBit 0 = s.flags.testBit 0 := by
          rw [Nat.testBit_lor, Nat.testBit_lor, Nat.testBit_two_pow, Nat.testBit_two_pow]
          simp
        have hk1 : (s.flags ||| 2 ^ 1 ||| 2 ^ 2).testBit 1 = true := by
          rw [Nat.testBit_lor, Nat.testBit_lor, Nat.testBit_two_pow]
          simp
        refine ⟨?_, aeron_pos_compare_zero_le _, ?_, ?_, ?_, fun _ => hb2⟩
        · rw [aeron_pos_compare_self]
        · intro i hi
          rw [Nat.testBit_lor, Nat.testBit_lor, hi]
          rfl
        · rw [hk0]; exact hh
        · rw [hk1]; intro h; exact absurd h (by decide)
    · simp only [hsm, if_false]
      refine ⟨?_, ?_, fun i hi => hi, hh, hc, hrw⟩
      · rw [aeron_pos_compare_self]
      · rw [aeron_pos_compare_self]

theorem consistent_congr (a b : aeron_stream_t) (hf : a.flags = b.flags) (hh : a.high = b.high)
    (hc : a.completed = b.completed) :
    stream_positions_consistent a ↔ stream_positions_consistent b := by
  unfold stream_positions_consistent
  rw [hf, hh, hc]

/-- The window step of `aeron_sequence_setup` on a consistent stream. -/
theorem window_step_monotone (wa : Bool) (pinfo : packet_info) (info : aeron_sequence_info_t)
    (tid off : Nat) (s : aeron_stream_t) (hs : stream_positions_consistent s) :
    aeron_pos_compare (aeron_sequence_setup_window wa pinfo info tid off s).high s.high ≥ 0 ∧
    aeron_pos_compare (aeron_sequence_setup_window wa pinfo info tid off s).completed
      s.completed ≥ 0 ∧
    (∀ i, s.flags.testBit i = true →
      (aeron_sequence_setup_window wa pinfo info tid off s).flags.testBit i = true) ∧
    stream_positions_consistent (aeron_sequence_setup_window wa pinfo info tid off s) := by
  obtain ⟨h1, h2, h3, -, -⟩ := setup_window_scalars wa pinfo info tid off s
  obtain ⟨m1, m2, m3, m4⟩ := positions_monotone s info tid off hs
  rw [h1, h2, h3]
  exact ⟨m1, m2, m3, (consistent_congr _ _ h1 h2 h3).2 m4⟩

/-- Any frame information, seen from any stream: `aeron_sequence_setup` moves neither
cached position back, clears no flag and keeps the stream consistent. -/
theorem setup_monotone (sa wa : Bool) (pinfo : packet_info) (transport : aeron_transport_t)
    (info : aeron_sequence_info_t) (sid' : Nat)
    (hs : stream_positions_consistent (stream_on_entry transport sid')) :
    aeron_pos_compare (stream_on_entry (aeron_sequence_setup sa wa pinfo transport info) sid').high
      (stream_on_entry transport sid').high ≥ 0 ∧
    aeron_pos_compare
      (stream_on_entry (aeron_sequence_setup sa wa pinfo transport info) sid').completed
      (stream_on_entry transport sid').completed ≥ 0 ∧
    (∀ i, (stream_on_entry transport sid').flags.testBit i = true →
      (stream_on_entry (aeron_sequence_setup sa wa pinfo transport info) sid').flags.testBit i =
        true) ∧
    stream_positions_consistent
      (stream_on_entry (aeron_sequence_setup sa wa pinfo transport info) sid') := by
  have hproj : ∀ a b : aeron_stream_t, window_state a = window_state b →
      a.flags = b.flags ∧ a.high = b.high ∧ a.completed = b.completed := by
    intro a b h
    unfold window_state at h
    simp only [Prod.mk.injEq] at h
    exact ⟨h.1, h.2.1, h.2.2.1⟩
  rcases window_setup_cases sa wa pinfo transport info sid' with h | ⟨tid, off, -, -, -, -, -, h⟩
  · obtain ⟨h1, h2, h3⟩ := hproj _ _ h
    rw [h1, h2, h3]
    refine ⟨?_, ?_, fun i hi => hi, (consistent_congr _ _ h1 h2 h3).2 hs⟩
    · rw [aeron_pos_compare_self]
    · rw [aeron_pos_compare_self]
  · obtain ⟨h1, h2, h3⟩ := hproj _ _ h
    obtain ⟨m1, m2, m3, m4⟩ := window_step_monotone wa pinfo info tid off _ hs
    rw [h1, h2, h3]
    exact ⟨m1, m2, m3, (consistent_congr _ _ h1 h2 h3).2 m4⟩

theorem frame_step_consistent (sa wa : Bool) (pinfo : packet_info) (fields : aeron_frame_fields)
    (sid' : Nat) (s : aeron_stream_t) (hs : stream_positions_consistent s) :
    stream_positions_consistent (frame_window_step sa wa pinfo fields sid' s) := by
  unfold frame_window_step
  split_ifs with h
  · cases fields with
    | pad frame_len term_offset stream_id term_id =>
      simp only
      split_ifs
      · exact (window_step_monotone wa pinfo _ _ _ s hs).2.2.2
      · exact hs
    | data flags frame_len term_offset stream_id term_id =>
      simp only
      split_ifs
      · exact (window_step_monotone wa pinfo _ _ _ s hs).2.2.2
      · exact hs
    | nak frame_len stream_id term_id => exact hs
    | sm frame_len stream_id term_id comp_offset rcv_window =>
      simp only
      split_ifs
      · exact (window_step_monotone wa pinfo _ _ _ s hs).2.2.2
      · exact hs
    | err len => exact hs
    | setup frame_len stream_id active_term_id term_length mtu => exact hs
  · exact hs

theorem frame_apply_consistent (sa wa : Bool) (pinfo : packet_info)
    (transport : aeron_transport_t) (fields : aeron_frame_fields) (sid' : Nat)
    (hs : stream_positions_consistent (stream_on_entry transport sid')) :
    stream_positions_consistent
      (stream_on_entry (aeron_frame_apply sa wa pinfo transport fields) sid') := by
  obtain ⟨h1, h2, h3, -, -⟩ := window_frame_apply sa wa pinfo transport fields sid'
  exact (consistent_congr _ _ h1 h2 h3).2 (frame_step_consistent sa wa pinfo fields sid' _ hs)

theorem frames_apply_consistent (sa wa : Bool) (frames : List (packet_info × aeron_frame_fields))
    (sid' : Nat) :
    ∀ transport : aeron_transport_t,
      stream_positions_consistent (stream_on_entry transport sid') →
      stream_positions_consistent
        (stream_on_entry (aeron_frames_apply sa wa transport frames) sid') := by
  induction frames with
  | nil => intro transport h; exact h
  | cons p rest ih =>
    intro transport h
    obtain ⟨pinfo, fields⟩ := p
    simp only [aeron_frames_apply]
    exact ih _ (frame_apply_consistent sa wa pinfo transport fields sid' h)

theorem transport_new_consistent (channel : Nat) (addr1 addr2 : address)
    (session_id port1 port2 sid' : Nat) :
    stream_positions_consistent
      (stream_on_entry (aeron_transport_new channel addr1 addr2 session_id port1 port2) sid') := by
  have : stream_on_entry (aeron_transport_new channel addr1 addr2 session_id port1 port2) sid' =
      aeron_stream_new sid' := rfl
  rw [this]
  unfold stream_positions_consistent aeron_stream_new
  simp

/-- C38: take any run of frames on a new transport, then one more frame information
processed by `aeron_sequence_setup`, and any stream.  The stream's cached high position
after the frame is greater than or equal, in `aeron_pos_compare` order, to the one
before, and likewise the cached completed position; each of HIGH_VALID, COMPLETED_VALID
and RECEIVER_WINDOW_VALID that was set before is set after; and after the frame, as
after the run, COMPLETED_VALID implies RECEIVER_WINDOW_VALID. -/
theorem cached_positions_never_move_back (sa wa : Bool) (channel : Nat) (addr1 addr2 : address)
    (session_id port1 port2 : Nat) (frames : List (packet_info × aeron_frame_fields))
    (pinfo : packet_info) (info : aeron_sequence_info_t) (sid' : Nat) :
    aeron_pos_compare
      (stream_on_entry (aeron_sequence_setup sa wa pinfo
        (aeron_frames_apply sa wa
          (aeron_transport_new channel addr1 addr2 session_id port1 port2) frames) info) sid').high
      (stream_on_entry (aeron_frames_apply sa wa
        (aeron_transport_new channel addr1 addr2 session_id port1 port2) frames) sid').high ≥ 0 ∧
    aeron_pos_compare
      (stream_on_entry (aeron_sequence_setup sa wa pinfo
        (aeron_frames_apply sa wa
          (aeron_transport_new channel addr1 addr2 session_id port1 port2) frames) info)
        sid').completed
      (stream_on_entry (aeron_frames_apply sa wa
        (aeron_transport_new channel addr1 addr2 session_id port1 port2) frames)
        sid').completed ≥ 0 ∧
    (∀ flag, flag = AERON_STREAM_FLAGS_HIGH_VALID ∨ flag = AERON_STREAM_FLAGS_COMPLETED_VALID ∨
        flag = AERON_STREAM_FLAGS_RECEIVER_WINDOW_VALID →
      (stream_on_entry (aeron_frames_apply sa wa
        (aeron_transport_new channel addr1 addr2 session_id port1 port2) frames)
        sid').flags &&& flag ≠ 0 →
      (stream_on_entry (aeron_sequence_setup sa wa pinfo
        (aeron_frames_apply sa wa
          (aeron_transport_new channel addr1 addr2 session_id port1 port2) frames) info)
        sid').flags &&& flag ≠ 0) ∧
    ((stream_on_entry (aeron_frames_apply sa wa
        (aeron_transport_new channel addr1 addr2 session_id port1 port2) frames)
        sid').flags &&& AERON_STREAM_FLAGS_COMPLETED_VALID ≠ 0 →
      (stream_on_entry (aeron_frames_apply sa wa
        (aeron_transport_new channel addr1 addr2 session_id port1 port2) frames)
        sid').flags &&& AERON_STREAM_FLAGS_RECEIVER_WINDOW_VALID ≠ 0) ∧
    ((stream_on_entry (aeron_sequence_setup sa wa pinfo
        (aeron_frames_apply sa wa
          (aeron_transport_new channel addr1 addr2 session_id port1 port2) frames) info)
        sid').flags &&& AERON_STREAM_FLAGS_COMPLETED_VALID ≠ 0 →
      (stream_on_entry (aeron_sequence_setup sa wa pinfo
        (aeron_frames_apply sa wa
          (aeron_transport_new channel addr1 addr2 session_id port1 port2) frames) info)
        sid').flags &&& AERON_STREAM_FLAGS_RECEIVER_WINDOW_VALID ≠ 0) := by
  have hrun := frames_apply_consistent sa wa frames sid' _
    (transport_new_consistent channel addr1 addr2 session_id port1 port2 sid')
  obtain ⟨m1, m2, m3, m4⟩ := setup_monotone sa wa pinfo _ info sid' hrun
  refine ⟨m1, m2, ?_, hrun.2.2, m4.2.2⟩
  intro flag hflag hset
  have e1 : AERON_STREAM_FLAGS_HIGH_VALID = 2 ^ 0 := rfl
  have e2 : AERON_STREAM_FLAGS_COMPLETED_VALID = 2 ^ 1 := rfl
  have e4 : AERON_STREAM_FLAGS_RECEIVER_WINDOW_VALID = 2 ^ 2 := rfl
  rcases hflag with h | h | h
  · rw [h, e1, and_two_pow_ne_zero] at hset ⊢
    exact m3 0 hset
  · rw [h, e2, and_two_pow_ne_zero] at hset ⊢
    exact m3 1 hset
  · rw [h, e4, and_two_pow_ne_zero] at hset ⊢
    exact m3 2 hset

/-! ### The term length of a stream -/

theorem setup_visited (sa wa : Bool) (num : Nat) (transport : aeron_transport_t)
    (info : aeron_sequence_info_t) :
    aeron_sequence_setup sa wa ⟨true, num⟩ transport info = transport := by
  unfold aeron_sequence_setup
  simp

set_option maxRecDepth 100000 in
/-- C32: with the visited flag set, the NAK, Status, Error and Setup dissectors leave the
transport as it is, and the Pad and Data dissectors do to it what
`aeron_next_offset_report` does, which is not nothing: after the first-visit Data frame
1 (frame length 1000) and the first-visit Setup frame 2 announcing term length 0, the
stream has term length 0, and decoding frame 1 again with the visited flag set gives
the stream term length 1000. -/
theorem revisit_changes_term_length (sa wa : Bool) (num : Nat) (transport : aeron_transport_t)
    (flags frame_len term_offset stream_id term_id comp_offset rcv_window term_length mtu : Nat) :
    aeron_frame_apply sa wa ⟨true, num⟩ transport (.nak frame_len stream_id term_id) =
      transport ∧
    aeron_frame_apply sa wa ⟨true, num⟩ transport
      (.sm frame_len stream_id term_id comp_offset rcv_window) = transport ∧
    aeron_frame_apply sa wa ⟨true, num⟩ transport (.err frame_len) = transport ∧
    aeron_frame_apply sa wa ⟨true, num⟩ transport
      (.setup frame_len stream_id term_id term_length mtu) = transport ∧
    aeron_frame_apply sa wa ⟨true, num⟩ transport
        (.pad frame_len term_offset stream_id term_id) =
      aeron_next_offset_report transport stream_id term_id term_offset
        (aeron_pos_roundup frame_len) ∧
    aeron_frame_apply sa wa ⟨true, num⟩ transport
        (.data flags frame_len term_offset stream_id term_id) =
      aeron_next_offset_report transport stream_id term_id term_offset
        (if frame_len = 0 then 0 else aeron_pos_roundup frame_len) ∧
    (stream_on_entry revisit_before 10).term_length = 0 ∧
    (stream_on_entry revisit_after 10).term_length = 1000 ∧
    revisit_after ≠ revisit_before := by
  refine ⟨?_, ?_, rfl, ?_, ?_, ?_, ?_, ?_, ?_⟩
  · simp only [aeron_frame_apply, setup_visited]
  · simp only [aeron_frame_apply, setup_visited]
  · simp only [aeron_frame_apply, setup_visited, aeron_set_stream_mtu_term_length]
    simp
  · simp only [aeron_frame_apply, setup_visited]
  · simp only [aeron_frame_apply, setup_visited]
  · decide
  · decide
  · decide

/-! ### Snapshots -/

theorem lookup_update_other {α : Type} (t : wmem_tree_t α) (k k' : Nat) (f : α → α)
    (hne : k' ≠ k) :
    wmem_tree_lookup32 (wmem_tree_update t k f) k' = wmem_tree_lookup32 t k' := by
  rw [lookup_update]
  simp [hne]

/-- The window step touches only the snapshot stored under the frame number of the
packet. -/
theorem window_step_snapshot_other (wa : Bool) (pinfo : packet_info)
    (info : aeron_sequence_info_t) (tid off : Nat) (s : aeron_stream_t) (n : Nat)
    (hne : n ≠ pinfo.num) :
    wmem_tree_lookup32 (aeron_sequence_setup_window wa pinfo info tid off s).analysis n =
      wmem_tree_lookup32 s.analysis n := by
  have hadd : ∀ s1 : aeron_stream_t,
      wmem_tree_lookup32 (aeron_stream_frame_analysis_add s1 pinfo.num).analysis n =
        wmem_tree_lookup32 s1.analysis n := by
    intro s1
    unfold aeron_stream_frame_analysis_add
    split
    · rfl
    · simp [lookup_insert, hne]
  obtain ⟨_, hpos⟩ := positions_term_length s info tid off
    ((s.flags &&& AERON_STREAM_FLAGS_HIGH_VALID) != 0)
    ((s.flags &&& AERON_STREAM_FLAGS_COMPLETED_VALID) != 0)
  cases hc : aeron_sequence_setup_has_sfa wa (aeron_sequence_setup_positions s info tid off
      ((s.flags &&& AERON_STREAM_FLAGS_HIGH_VALID) != 0)
      ((s.flags &&& AERON_STREAM_FLAGS_COMPLETED_VALID) != 0)) with
  | false => rw [setup_window_analysis_skip wa pinfo info tid off s hc]
  | true =>
    unfold aeron_sequence_setup_window
    simp only [hc, if_true, has_sfa_analysis_add, aeron_sequence_setup_snapshot]
    rw [lookup_update_other _ _ _ _ hne, hadd, hpos]

/-- The window step never removes a snapshot. -/
theorem window_step_snapshot_kept (wa : Bool) (pinfo : packet_info)
    (info : aeron_sequence_info_t) (tid off : Nat) (s : aeron_stream_t) (n : Nat)
    (hex : (wmem_tree_lookup32 s.analysis n).isSome = true) :
    (wmem_tree_lookup32 (aeron_sequence_setup_window wa pinfo info tid off s).analysis
      n).isSome = true := by
  by_cases hne : n = pinfo.num
  · subst hne
    cases hc : aeron_sequence_setup_has_sfa wa (aeron_sequence_setup_positions s info tid off
        ((s.flags &&& AERON_STREAM_FLAGS_HIGH_VALID) != 0)
        ((s.flags &&& AERON_STREAM_FLAGS_COMPLETED_VALID) != 0)) with
    | false =>
      rw [setup_window_analysis_skip wa pinfo info tid off s hc]
      exact hex
    | true =>
      rw [setup_window_analysis_made wa pinfo info tid off s hc]
      rfl
  · rw [window_step_snapshot_other wa pinfo info tid off s n hne]
    exact hex

theorem frame_step_snapshot_other (sa wa : Bool) (pinfo : packet_info)
    (fields : aeron_frame_fields) (sid' : Nat) (s : aeron_stream_t) (n : Nat)
    (hne : n ≠ pinfo.num ∨ pinfo.visited = true) :
    wmem_tree_lookup32 (frame_window_step sa wa pinfo fields sid' s).analysis n =
      wmem_tree_lookup32 s.analysis n := by
  unfold frame_window_step
  split_ifs with h
  · have hn : n ≠ pinfo.num := by
      rcases hne with h1 | h1
      · exact h1
      · rw [h.2] at h1
        exact absurd h1 (by decide)
    cases fields with
    | pad frame_len term_offset stream_id term_id =>
      simp only
      split_ifs
      · exact window_step_snapshot_other wa pinfo _ _ _ s n hn
      · rfl
    | data flags frame_len term_offset stream_id term_id =>
      simp only
      split_ifs
      · exact window_step_snapshot_other wa pinfo _ _ _ s n hn
      · rfl
    | nak frame_len stream_id term_id => rfl
    | sm frame_len stream_id term_id comp_offset rcv_window =>
      simp only
      split_ifs
      · exact window_step_snapshot_other wa pinfo _ _ _ s n hn
      · rfl
    | err len => rfl
    | setup frame_len stream_id active_term_id term_length mtu => rfl
  · rfl

theorem frame_step_snapshot_kept (sa wa : Bool) (pinfo : packet_info)
    (fields : aeron_frame_fields) (sid' : Nat) (s : aeron_stream_t) (n : Nat)
    (hex : (wmem_tree_lookup32 s.analysis n).isSome = true) :
    (wmem_tree_lookup32 (frame_window_step sa wa pinfo fields sid' s).analysis n).isSome =
      true := by
  unfold frame_window_step
  split_ifs with h
  · cases fields with
    | pad frame_len term_offset stream_id term_id =>
      simp only
      split_ifs
      · exact window_step_snapshot_kept wa pinfo _ _ _ s n hex
      · exact hex
    | data flags frame_len term_offset stream_id term_id =>
      simp only
      split_ifs
      · exact window_step_snapshot_kept wa pinfo _ _ _ s n hex
      · exact hex
    | nak frame_len stream_id term_id => exact hex
    | sm frame_len stream_id term_id comp_offset rcv_window =>
      simp only
      split_ifs
      · exact window_step_snapshot_kept wa pinfo _ _ _ s n hex
      · exact hex
    | err len => exact hex
    | setup frame_len stream_id active_term_id term_length mtu => exact hex
  · exact hex

theorem snapshot_frame_apply_other (sa wa : Bool) (pinfo : packet_info)
    (transport : aeron_transport_t) (fields : aeron_frame_fields) (sid' n : Nat)
    (hne : n ≠ pinfo.num ∨ pinfo.visited = true) :
    stream_snapshot (aeron_frame_apply sa wa pinfo transport fields) sid' n =
      stream_snapshot transport sid' n := by
  unfold stream_snapshot aeron_stream_frame_analysis_find
  rw [(window_frame_apply sa wa pinfo transport fields sid').2.2.2.2]
  exact frame_step_snapshot_other sa wa pinfo fields sid' _ n hne

theorem snapshot_frame_apply_kept (sa wa : Bool) (pinfo : packet_info)
    (transport : aeron_transport_t) (fields : aeron_frame_fields) (sid' n : Nat)
    (hex : (stream_snapshot transport sid' n).isSome = true) :
    (stream_snapshot (aeron_frame_apply sa wa pinfo transport fields) sid' n).isSome = true := by
  unfold stream_snapshot aeron_stream_frame_analysis_find at hex ⊢
  rw [(window_frame_apply sa wa pinfo transport fields sid').2.2.2.2]
  exact frame_step_snapshot_kept sa wa pinfo fields sid' _ n hex

set_option maxRecDepth 100000 in
/-- C37, as the claim states it, fails: packet 4 carries two Data frames of the same
stream.  The first one creates and fills the snapshot of frame 4 (high offset 1024,
512 bytes outstanding); the second one finds it and fills it again (high offset 1536,
1024 bytes outstanding). -/
theorem second_frame_of_packet_rewrites_snapshot :
    stream_snapshot two_data_before 10 4 = none ∧
    stream_snapshot two_data_first 10 4 = some ⟨0, 4, ⟨5, 1024⟩, ⟨5, 512⟩, 4096, 512⟩ ∧
    stream_snapshot two_data_second 10 4 = some ⟨0, 4, ⟨5, 1536⟩, ⟨5, 512⟩, 4096, 1024⟩ := by
  decide

set_option maxRecDepth 100000 in
/-- C39: stream 10 has term length 65536 and previous high position (term 5, offset
65280), both validity flags set.  The first-visit Data frame 4 (term 5, offset 65280,
frame length 256) continues that position and ends at offset 65536, the end of the
term, so that term_offset + round_up(frame_length) <= term_length; a snapshot is
created for it, and the snapshot has the OOO_GAP flag.  The Data frame that follows at
offset 0 of term 6 gets the OOO flag. -/
theorem frame_at_term_end_flagged :
    (stream_on_entry term_end_before 10).term_length = 65536 ∧
    (stream_on_entry term_end_before 10).high = ⟨5, 65280⟩ ∧
    (stream_on_entry term_end_before 10).flags = 7 ∧
    65280 % 8 = 0 ∧ 65280 + aeron_pos_roundup 256 ≤ 65536 ∧
    stream_snapshot term_end_before 10 4 = none ∧
    stream_snapshot term_end_frame 10 4 =
      some ⟨AERON_STREAM_FRAME_ANALYSIS_FLAG_OOO_GAP, 4, ⟨5, 65536⟩, ⟨5, 65280⟩, 4096, 256⟩ ∧
    stream_snapshot term_end_next 10 5 =
      some ⟨AERON_STREAM_FRAME_ANALYSIS_FLAG_OOO, 5, ⟨6, 256⟩, ⟨5, 65280⟩, 4096, 512⟩ := by
  decide
/-- A first-visit Data frame without a snapshot yet, on a stream with both validity
flags, that continues the previous high position and ends strictly inside the term
gets a snapshot with neither OOO nor OOO_GAP. -/
theorem contiguous_inside_term_not_flagged (sa : Bool) (pinfo : packet_info)
    (transport : aeron_transport_t) (flags frame_len term_offset sid tid : Nat)
    (hv : pinfo.visited = false)
    (hnew : stream_snapshot transport sid pinfo.num = none)
    (hhv : (stream_on_entry transport sid).flags &&& AERON_STREAM_FLAGS_HIGH_VALID ≠ 0)
    (hcv : (stream_on_entry transport sid).flags &&& AERON_STREAM_FLAGS_COMPLETED_VALID ≠ 0)
    (htid : tid = (stream_on_entry transport sid).high.term_id)
    (hoff : term_offset = (stream_on_entry transport sid).high.term_offset)
    (h8 : term_offset % 8 = 0) (hlen : frame_len ≠ 0)
    (hfit : term_offset + frame_len + 7 < 2 ^ 32)
    (hin : term_offset + aeron_pos_roundup frame_len <
      (stream_on_entry transport sid).term_length) :
    ∃ sfa, stream_snapshot
        (aeron_sequence_setup sa true pinfo transport
          (aeron_data_sinfo flags frame_len term_offset sid tid)) sid pinfo.num = some sfa ∧
      sfa.flags &&& AERON_STREAM_FRAME_ANALYSIS_FLAG_OOO = 0 ∧
      sfa.flags &&& AERON_STREAM_FRAME_ANALYSIS_FLAG_OOO_GAP = 0 := by
  obtain ⟨s', hs', hf, hsfa⟩ := snapshot_fresh_lookup sa pinfo transport
    (aeron_data_sinfo flags frame_len term_offset sid tid) sid tid term_offset hv rfl rfl rfl hnew
  have hT : (((stream_on_entry transport sid).flags &&& AERON_STREAM_FLAGS_HIGH_VALID) != 0)
      = true := by simpa using hhv
  rw [hT] at hf hsfa
  rw [positions_data_flags _ _ _ _ _ (Or.inl rfl)] at hf
  have hsn := hsfa ⟨by rw [hf]; exact hhv, by rw [hf]; exact hcv⟩
  have hr1 : aeron_pos_roundup ((term_offset + frame_len) % 2 ^ 32) =
      (term_offset + frame_len + 7) / 8 * 8 := by
    rw [aeron_pos_roundup_eq]
    have e1 : (term_offset + frame_len) % 2 ^ 32 = term_offset + frame_len := by omega
    rw [e1]
    have e2 : (term_offset + frame_len + 7) % 2 ^ 32 = term_offset + frame_len + 7 := by omega
    rw [e2]
  have hr2 : aeron_pos_roundup frame_len = (frame_len + 7) / 8 * 8 := by
    rw [aeron_pos_roundup_eq]
    have e2 : (frame_len + 7) % 2 ^ 32 = frame_len + 7 := by omega
    rw [e2]
  have hnext : aeron_pos_roundup ((term_offset + frame_len) % 2 ^ 32) <
      (stream_on_entry transport sid).term_length := by
    rw [hr1]
    rw [hr2] at hin
    omega
  have hgt : term_offset < aeron_pos_roundup ((term_offset + frame_len) % 2 ^ 32) := by
    rw [hr1]
    omega
  have hexp : aeron_pos_add_length (stream_on_entry transport sid).high
      (aeron_data_sinfo flags frame_len term_offset sid tid).len
      (stream_on_entry transport sid).term_length =
      ⟨tid, aeron_pos_roundup ((term_offset +
        (aeron_data_sinfo flags frame_len term_offset sid tid).len) % 2 ^ 32)⟩ := by
    unfold aeron_pos_add_length
    simp only [aeron_data_sinfo]
    rw [← hoff, ← htid, if_neg (by omega)]
  have hrc : aeron_pos_compare ⟨tid, aeron_pos_roundup ((term_offset +
      (aeron_data_sinfo flags frame_len term_offset sid tid).len) % 2 ^ 32)⟩
      (stream_on_entry transport sid).high ≠ 0 := by
    intro h
    rw [aeron_pos_compare_eq_zero] at h
    have h2 := congrArg aeron_pos_t.term_offset h
    simp only [aeron_data_sinfo] at h2
    omega
  obtain ⟨hooo, hgap⟩ := classify_data_diff (stream_on_entry transport sid).term_length
    (aeron_data_sinfo flags frame_len term_offset sid tid) tid term_offset
    (stream_on_entry transport sid).high (stream_on_entry transport sid).completed
    (((stream_on_entry transport sid).flags &&& AERON_STREAM_FLAGS_COMPLETED_VALID) != 0)
    (stream_on_entry transport sid).receiver_window
    (aeron_sequence_setup_fill (aeron_sequence_setup_positions
        (stream_on_entry transport sid) (aeron_data_sinfo flags frame_len term_offset sid tid)
        tid term_offset true
        (((stream_on_entry transport sid).flags &&& AERON_STREAM_FLAGS_COMPLETED_VALID) != 0))
      (aeron_data_sinfo flags frame_len term_offset sid tid)
      (aeron_stream_frame_analysis_new pinfo.num))
    (Or.inl rfl) (fill_new_flags _ _ _) hrc
  rw [hexp, aeron_pos_compare_self] at hooo hgap
  have hfound : stream_snapshot
      (aeron_sequence_setup sa true pinfo transport
        (aeron_data_sinfo flags frame_len term_offset sid tid)) sid pinfo.num =
      aeron_stream_frame_analysis_find s' pinfo.num := by
    unfold stream_snapshot stream_on_entry
    rw [hs']
  rw [hsn] at hfound
  refine ⟨_, hfound, ?_, ?_⟩
  · by_contra h
    exact absurd (hooo.1 h) (by decide)
  · by_contra h
    exact absurd (hgap.1 h) (by decide)

set_option maxRecDepth 100000 in
theorem contiguous_inside_term_not_flagged_witness :
    ∃ sfa, stream_snapshot
        (aeron_sequence_setup true true ⟨false, 4⟩ term_end_before
          (aeron_data_sinfo 0xC0 128 65280 10 5)) 10 4 = some sfa ∧
      sfa.flags &&& AERON_STREAM_FRAME_ANALYSIS_FLAG_OOO = 0 ∧
      sfa.flags &&& AERON_STREAM_FRAME_ANALYSIS_FLAG_OOO_GAP = 0 :=
  contiguous_inside_term_not_flagged true ⟨false, 4⟩ term_end_before 0xC0 128 65280 10 5
    rfl (by decide) (by decide) (by decide) (by decide) (by decide) (by decide) (by decide)
    (by decide) (by decide)

/-! ### Get-or-create -/

theorem insert_found_self {α : Type} (t : wmem_tree_t α) (k : Nat) (v : α)
    (h : wmem_tree_lookup32 t k = some v) : wmem_tree_insert32 t k v = t := by
  induction t with
  | nil => simp [wmem_tree_lookup32] at h
  | cons p rest ih =>
    obtain ⟨k', v'⟩ := p
    unfold wmem_tree_lookup32 at h
    unfold wmem_tree_insert32
    split_ifs at h ⊢ with hk
    · cases h
      rw [hk]
    · rw [ih h]

theorem stream_write_absent (transport : aeron_transport_t) (sid : Nat)
    (f : aeron_stream_t → aeron_stream_t)
    (h : aeron_transport_stream_find transport sid = none) :
    stream_write transport sid f = transport := by
  unfold aeron_transport_stream_find at h
  unfold stream_write wmem_tree_update
  rw [h]

theorem find_stream_of_write (transport : aeron_transport_t) (sid : Nat)
    (f : aeron_stream_t → aeron_stream_t) :
    aeron_transport_stream_find (stream_write transport sid f) sid =
      (aeron_transport_stream_find transport sid).map f := by
  unfold aeron_transport_stream_find stream_write
  simp only [lookup_update, if_true]

theorem find_term_of_write (transport : aeron_transport_t) (sid tid : Nat)
    (f : aeron_term_t → aeron_term_t) :
    aeron_stream_term_find (term_write transport sid tid f) sid tid =
      (aeron_stream_term_find transport sid tid).map f := by
  unfold aeron_stream_term_find term_write
  rw [find_stream_of_write]
  cases aeron_transport_stream_find transport sid with
  | none => rfl
  | some s => simp only [Option.map_some', lookup_update, if_true]

/-- C34: the three get-or-create operations.  With the key present the store is
returned as it is (so the entity found under the key is the existing one, with the
length and data length the fragment had).  With the key absent (and the parent the
operation is called on present) the entity then found under the key has empty trees,
no first or last occurrence, its key arguments, and zero or false in every other
member.  A second call with the same key, for a fragment with any length and data
length, changes nothing. -/
theorem get_or_create_idempotent (transport : aeron_transport_t)
    (stream_id term_id offset length data_length length2 data_length2 : Nat) :
    ((∀ stream, aeron_transport_stream_find transport stream_id = some stream →
        aeron_transport_stream_add transport stream_id = transport) ∧
      (aeron_transport_stream_find transport stream_id = none →
        aeron_transport_stream_find (aeron_transport_stream_add transport stream_id) stream_id =
          some { term := [], frame := [], analysis := [], last_frame := none,
                 stream_id := stream_id, term_length := 0, mtu := 0, fragment_stride := 0,
                 flags := 0, high := ⟨0, 0⟩, completed := ⟨0, 0⟩, receiver_window := 0 }) ∧
      aeron_transport_stream_add (aeron_transport_stream_add transport stream_id) stream_id =
        aeron_transport_stream_add transport stream_id) ∧
    ((∀ term, aeron_stream_term_find transport stream_id term_id = some term →
        aeron_stream_term_add transport stream_id term_id = transport) ∧
      (∀ stream, aeron_transport_stream_find transport stream_id = some stream →
        aeron_stream_term_find transport stream_id term_id = none →
        aeron_stream_term_find (aeron_stream_term_add transport stream_id term_id)
            stream_id term_id =
          some { fragment := [], frame := [], last_frame := none, term_id := term_id }) ∧
      aeron_stream_term_add (aeron_stream_term_add transport stream_id term_id)
          stream_id term_id =
        aeron_stream_term_add transport stream_id term_id) ∧
    ((∀ fragment, aeron_term_fragment_find transport stream_id term_id offset = some fragment →
        aeron_term_fragment_add transport stream_id term_id offset length2 data_length2 =
          transport) ∧
      (∀ term, aeron_stream_term_find transport stream_id term_id = some term →
        aeron_term_fragment_find transport stream_id term_id offset = none →
        aeron_term_fragment_find
            (aeron_term_fragment_add transport stream_id term_id offset length data_length)
            stream_id term_id offset =
          some { frame := [], first_frame := none, last_frame := none, offset := offset,
                 length := length, data_length := data_length, frame_count := 0,
                 is_data_frame := false, is_begin_msg := false, is_end_msg := false }) ∧
      aeron_term_fragment_add
          (aeron_term_fragment_add transport stream_id term_id offset length data_length)
          stream_id term_id offset length2 data_length2 =
        aeron_term_fragment_add transport stream_id term_id offset length data_length) := by
  have hs1 : ∀ stream, aeron_transport_stream_find transport stream_id = some stream →
      aeron_transport_stream_add transport stream_id = transport := by
    intro stream h
    unfold aeron_transport_stream_add
    rw [h]
  have hs2 : aeron_transport_stream_find transport stream_id = none →
      aeron_transport_stream_find (aeron_transport_stream_add transport stream_id) stream_id =
        some (aeron_stream_new stream_id) := by
    intro h
    unfold aeron_transport_stream_add
    rw [h]
    simp only [aeron_transport_stream_find, lookup_insert, if_true]
  have ht1 : ∀ term, aeron_stream_term_find transport stream_id term_id = some term →
      aeron_stream_term_add transport stream_id term_id = transport := by
    intro term h
    unfold aeron_stream_term_add
    rw [h]
  have ht2 : ∀ stream, aeron_transport_stream_find transport stream_id = some stream →
      aeron_stream_term_find transport stream_id term_id = none →
      aeron_stream_term_find (aeron_stream_term_add transport stream_id term_id)
          stream_id term_id =
        some { fragment := [], frame := [], last_frame := none, term_id := term_id } := by
    intro stream hs h
    unfold aeron_stream_term_add
    rw [h]
    simp only
    unfold aeron_stream_term_find
    rw [find_stream_of_write, hs]
    simp only [Option.map_some', lookup_insert, if_true]
  have hf1 : ∀ fragment l d,
      aeron_term_fragment_find transport stream_id term_id offset = some fragment →
      aeron_term_fragment_add transport stream_id term_id offset l d = transport := by
    intro fragment l d h
    unfold aeron_term_fragment_add
    rw [h]
  have hf2 : ∀ term, aeron_stream_term_find transport stream_id term_id = some term →
      aeron_term_fragment_find transport stream_id term_id offset = none →
      aeron_term_fragment_find
          (aeron_term_fragment_add transport stream_id term_id offset length data_length)
          stream_id term_id offset =
        some { frame := [], first_frame := none, last_frame := none, offset := offset,
               length := length, data_length := data_length, frame_count := 0,
               is_data_frame := false, is_begin_msg := false, is_end_msg := false } := by
    intro term ht h
    unfold aeron_term_fragment_add
    rw [h]
    simp only
    unfold aeron_term_fragment_find
    rw [find_term_of_write, ht]
    simp only [Option.map_some', lookup_insert, if_true]
  refine ⟨⟨hs1, hs2, ?_⟩, ⟨ht1, ht2, ?_⟩, ⟨fun fragment h => hf1 fragment _ _ h, hf2, ?_⟩⟩
  · cases h : aeron_transport_stream_find transport stream_id with
    | some stream => rw [hs1 stream h, hs1 stream h]
    | none =>
      have h2 := hs2 h
      generalize aeron_transport_stream_add transport stream_id = t2 at h2 ⊢
      unfold aeron_transport_stream_add
      rw [h2]
  · cases h : aeron_stream_term_find transport stream_id term_id with
    | some term => rw [ht1 term h, ht1 term h]
    | none =>
      cases hs : aeron_transport_stream_find transport stream_id with
      | none =>
        have e : aeron_stream_term_add transport stream_id term_id = transport := by
          unfold aeron_stream_term_add
          rw [h]
          exact stream_write_absent transport stream_id _ hs
        rw [e, e]
      | some stream =>
        have h2 := ht2 stream hs h
        generalize aeron_stream_term_add transport stream_id term_id = t2 at h2 ⊢
        unfold aeron_stream_term_add
        rw [h2]
  · cases h : aeron_term_fragment_find transport stream_id term_id offset with
    | some fragment => rw [hf1 fragment _ _ h, hf1 fragment _ _ h]
    | none =>
      cases ht : aeron_stream_term_find transport stream_id term_id with
      | none =>
        have e : ∀ l d,
            aeron_term_fragment_add transport stream_id term_id offset l d = transport := by
          intro l d
          unfold aeron_term_fragment_add
          rw [h]
          simp only
          unfold aeron_stream_term_find at ht
          unfold term_write
          cases hs : aeron_transport_stream_find transport stream_id with
          | none => exact stream_write_absent transport stream_id _ hs
          | some stream =>
            rw [hs] at ht
            simp only at ht
            unfold stream_write wmem_tree_update
            unfold aeron_transport_stream_find at hs
            rw [hs]
            simp only [wmem_tree_update, ht]
            rw [insert_found_self _ _ _ hs]
        rw [e, e]
      | some term =>
        have h2 := hf2 term ht h
        generalize
          aeron_term_fragment_add transport stream_id term_id offset length data_length =
            t2 at h2 ⊢
        unfold aeron_term_fragment_add
        rw [h2]
set_option maxRecDepth 100000 in
theorem get_or_create_idempotent_witness :
    aeron_transport_stream_add scenario_after_data 10 = scenario_after_data ∧
    aeron_transport_stream_find (aeron_transport_stream_add scenario_transport 10) 10 =
      some { term := [], frame := [], analysis := [], last_frame := none,
             stream_id := 10, term_length := 0, mtu := 0, fragment_stride := 0,
             flags := 0, high := ⟨0, 0⟩, completed := ⟨0, 0⟩, receiver_window := 0 } :=
  ⟨(get_or_create_idempotent scenario_after_data 10 0 0 0 0 0 0).1.1
      ((aeron_transport_stream_find scenario_after_data 10).getD (aeron_stream_new 10))
      (by decide),
    (get_or_create_idempotent scenario_transport 10 0 0 0 0 0 0).1.2.1 (by decide)⟩

/-! ### Channel ids -/

theorem insert_absent {α : Type} (t : wmem_tree_t α) (k : Nat) (v : α)
    (h : wmem_tree_lookup32 t k = none) : wmem_tree_insert32 t k v = t ++ [(k, v)] := by
  induction t with
  | nil => rfl
  | cons p rest ih =>
    obtain ⟨k', v'⟩ := p
    unfold wmem_tree_lookup32 at h
    unfold wmem_tree_insert32
    split_ifs at h ⊢ with hk
    rw [ih h]
    rfl

theorem find_conversation_write (cinfo : aeron_conversation_info_t)
    (f : conversation_t → conversation_t) (l : List conversation_t)
    (hf : ∀ conv, conversation_matches cinfo (f conv) = conversation_matches cinfo conv) :
    (conversation_write cinfo f l).find? (conversation_matches cinfo) =
      (l.find? (conversation_matches cinfo)).map f := by
  induction l with
  | nil => rfl
  | cons conv rest ih =>
    unfold conversation_write
    cases hm : conversation_matches cinfo conv with
    | true =>
      simp only [if_true]
      rw [List.find?_cons_of_pos _ (by rw [hf, hm]), List.find?_cons_of_pos _ hm]
      rfl
    | false =>
      simp only [Bool.false_eq_true, if_false]
      rw [List.find?_cons_of_neg _ (by rw [hm]; decide), List.find?_cons_of_neg _ (by rw [hm]; decide)]
      exact ih

theorem channels_write_same (cinfo : aeron_conversation_info_t)
    (f : conversation_t → conversation_t) (l : List conversation_t)
    (hf : ∀ conv, session_channels (f conv) = session_channels conv) :
    transport_channels (conversation_write cinfo f l) = transport_channels l := by
  induction l with
  | nil => rfl
  | cons conv rest ih =>
    unfold conversation_write
    split_ifs
    · simp only [transport_channels, hf]
    · simp only [transport_channels, ih]

theorem channels_write_append (cinfo : aeron_conversation_info_t)
    (f : conversation_t → conversation_t) (l : List conversation_t) (extra : List Nat)
    (conv0 : conversation_t)
    (hfound : l.find? (conversation_matches cinfo) = some conv0)
    (hf : session_channels (f conv0) = session_channels conv0 ++ extra) :
    (transport_channels (conversation_write cinfo f l)).Perm (transport_channels l ++ extra) := by
  induction l with
  | nil => simp at hfound
  | cons conv rest ih =>
    unfold conversation_write
    cases hm : conversation_matches cinfo conv with
    | true =>
      rw [List.find?_cons_of_pos _ hm] at hfound
      cases hfound
      simp only [if_true, transport_channels, hf, List.append_assoc]
      exact List.Perm.append_left _ List.perm_append_comm
    | false =>
      rw [List.find?_cons_of_neg _ (by rw [hm]; decide)] at hfound
      simp only [Bool.false_eq_true, if_false, transport_channels, List.append_assoc]
      exact List.Perm.append_left _ (ih hfound)

theorem channels_append_conversation (l : List conversation_t) (conv : conversation_t) :
    transport_channels (l ++ [conv]) = transport_channels l ++ session_channels conv := by
  induction l with
  | nil => simp [transport_channels]
  | cons c rest ih =>
    show session_channels c ++ transport_channels (rest ++ [conv]) =
      session_channels c ++ transport_channels rest ++ session_channels conv
    rw [ih, List.append_assoc]

theorem conversation_matches_new (cinfo : aeron_conversation_info_t) (frame : Nat)
    (tree : wmem_tree_t aeron_transport_t) :
    conversation_matches cinfo
      { addr1 := cinfo.addr1, addr2 := cinfo.addr2, ptype := cinfo.ptype,
        port1 := cinfo.port1, port2 := cinfo.port2, last_frame := frame,
        session_tree := tree } = true := by
  simp [conversation_matches]

/-- The state `aeron_transport_add` has reached when it looks the session id up: the
conversation exists, and nothing about the transports has changed yet. -/
theorem transport_add_prepared (state : dissector_state) (cinfo : aeron_conversation_info_t)
    (session_id frame : Nat) :
    ∃ st conv, find_conversation st cinfo = some conv ∧
      wmem_tree_lookup32 conv.session_tree session_id =
        aeron_transport_find state cinfo session_id ∧
      st.aeron_channel = state.aeron_channel ∧
      transport_channels st.conversations = transport_channels state.conversations ∧
      aeron_transport_add state cinfo session_id frame =
        (match aeron_transport_find st cinfo session_id with
        | some _ => st
        | none =>
          { conversations := conversation_write cinfo
              (fun conv =>
                { conv with
                  session_tree := wmem_tree_insert32 conv.session_tree session_id
                    (aeron_transport_new st.aeron_channel cinfo.addr1 cinfo.addr2 session_id
                      cinfo.port1 cinfo.port2) })
              st.conversations,
            aeron_channel := (st.aeron_channel + 1) % 2 ^ 64 }) := by
  have hkeep : ∀ conv : conversation_t,
      conversation_matches cinfo
        (if frame > conv.last_frame then { conv with last_frame := frame } else conv) =
        conversation_matches cinfo conv := by
    intro conv
    split_ifs <;> rfl
  have hch : ∀ conv : conversation_t,
      session_channels
        (if frame > conv.last_frame then { conv with last_frame := frame } else conv) =
        session_channels conv := by
    intro conv
    split_ifs <;> rfl
  have htree : ∀ conv : conversation_t,
      (if frame > conv.last_frame then { conv with last_frame := frame } else conv).session_tree =
        conv.session_tree := by
    intro conv
    split_ifs <;> rfl
  cases hc : find_conversation state cinfo with
  | some conv0 =>
    refine ⟨{ state with
        conversations := conversation_write cinfo
          (fun conv => if frame > conv.last_frame then { conv with last_frame := frame } else conv)
          state.conversations },
      (if frame > conv0.last_frame then { conv0 with last_frame := frame } else conv0),
      ?_, ?_, rfl, ?_, ?_⟩
    · unfold find_conversation at hc ⊢
      simp only
      rw [find_conversation_write cinfo _ _ hkeep, hc]
      rfl
    · rw [htree]
      unfold aeron_transport_find
      rw [hc]
    · exact channels_write_same cinfo _ _ hch
    · unfold aeron_transport_add
      rw [hc]
  | none =>
    refine ⟨{ state with
        conversations := conversation_write cinfo
          (fun conv => if frame > conv.last_frame then { conv with last_frame := frame } else conv)
          (state.conversations ++
            [{ addr1 := cinfo.addr1, addr2 := cinfo.addr2, ptype := cinfo.ptype,
               port1 := cinfo.port1, port2 := cinfo.port2, last_frame := frame,
               session_tree := [] }]) },
      { addr1 := cinfo.addr1, addr2 := cinfo.addr2, ptype := cinfo.ptype,
        port1 := cinfo.port1, port2 := cinfo.port2, last_frame := frame,
        session_tree := [] },
      ?_, ?_, rfl, ?_, ?_⟩
    · unfold find_conversation at hc ⊢
      simp only
      rw [find_conversation_write cinfo _ _ hkeep, List.find?_append, hc]
      simp only [Option.none_or, List.find?_cons_of_pos _ (conversation_matches_new cinfo frame []),
        Option.map_some', lt_self_iff_false, gt_iff_lt, if_false]
    · unfold aeron_transport_find
      rw [hc]
      rfl
    · simp only
      rw [channels_write_same cinfo _ _ hch, channels_append_conversation]
      simp [session_channels]
    · unfold aeron_transport_add
      rw [hc]

theorem transport_add_existing (state : dissector_state) (cinfo : aeron_conversation_info_t)
    (session_id frame : Nat) (transport : aeron_transport_t)
    (h : aeron_transport_find state cinfo session_id = some transport) :
    (aeron_transport_add state cinfo session_id frame).aeron_channel = state.aeron_channel ∧
    aeron_transport_find (aeron_transport_add state cinfo session_id frame) cinfo session_id =
      some transport ∧
    transport_channels (aeron_transport_add state cinfo session_id frame).conversations =
      transport_channels state.conversations := by
  obtain ⟨st, conv, hfc, hl, hcount, hchan, hadd⟩ :=
    transport_add_prepared state cinfo session_id frame
  have hfind : aeron_transport_find st cinfo session_id = some transport := by
    unfold aeron_transport_find
    rw [hfc]
    simp only
    rw [hl, h]
  rw [hfind] at hadd
  simp only at hadd
  rw [hadd]
  exact ⟨hcount, hfind, hchan⟩

theorem transport_add_new (state : dissector_state) (cinfo : aeron_conversation_info_t)
    (session_id frame : Nat)
    (h : aeron_transport_find state cinfo session_id = none) :
    aeron_transport_find (aeron_transport_add state cinfo session_id frame) cinfo session_id =
      some (aeron_transport_new state.aeron_channel cinfo.addr1 cinfo.addr2 session_id
        cinfo.port1 cinfo.port2) ∧
    (aeron_transport_add state cinfo session_id frame).aeron_channel =
      (state.aeron_channel + 1) % 2 ^ 64 ∧
    (transport_channels (aeron_transport_add state cinfo session_id frame).conversations).Perm
      (transport_channels state.conversations ++ [state.aeron_channel]) := by
  obtain ⟨st, conv, hfc, hl, hcount, hchan, hadd⟩ :=
    transport_add_prepared state cinfo session_id frame
  have hnone : wmem_tree_lookup32 conv.session_tree session_id = none := by rw [hl, h]
  have hfind : aeron_transport_find st cinfo session_id = none := by
    unfold aeron_transport_find
    rw [hfc]
    exact hnone
  rw [hfind] at hadd
  simp only at hadd
  rw [hadd, hcount]
  refine ⟨?_, rfl, ?_⟩
  · unfold aeron_transport_find find_conversation
    simp only
    rw [find_conversation_write]
    · unfold find_conversation at hfc
      rw [hfc]
      simp only [Option.map_some', lookup_insert, if_true]
    · intro c
      rfl
  · rw [← hchan]
    unfold find_conversation at hfc
    apply channels_write_append cinfo _ _ _ conv hfc
    simp only [session_channels]
    rw [insert_absent _ _ _ hnone]
    simp [aeron_transport_new]

theorem channels_after_adds (calls : List (aeron_conversation_info_t × Nat × Nat))
    (state : dissector_state)
    (hlen : state.aeron_channel = (transport_channels state.conversations).length)
    (hperm : (transport_channels state.conversations).Perm (List.range state.aeron_channel))
    (hfit : state.aeron_channel + calls.length < 2 ^ 64) :
    (aeron_transport_adds state calls).aeron_channel =
      (transport_channels (aeron_transport_adds state calls).conversations).length ∧
    (transport_channels (aeron_transport_adds state calls).conversations).Perm
      (List.range (aeron_transport_adds state calls).aeron_channel) ∧
    (aeron_transport_adds state calls).aeron_channel ≤ state.aeron_channel + calls.length := by
  induction calls generalizing state with
  | nil => exact ⟨hlen, hperm, Nat.le_refl _⟩
  | cons call rest ih =>
    obtain ⟨cinfo, session_id, frame⟩ := call
    simp only [aeron_transport_adds, List.length_cons] at hfit ⊢
    cases h : aeron_transport_find state cinfo session_id with
    | some transport =>
      obtain ⟨h1, _, h3⟩ := transport_add_existing state cinfo session_id frame transport h
      obtain ⟨r1, r2, r3⟩ := ih (aeron_transport_add state cinfo session_id frame)
        (by rw [h1, h3]; exact hlen) (by rw [h1, h3]; exact hperm) (by rw [h1]; omega)
      refine ⟨r1, r2, ?_⟩
      rw [h1] at r3
      omega
    | none =>
      obtain ⟨_, h2, h3⟩ := transport_add_new state cinfo session_id frame h
      have e : (state.aeron_channel + 1) % 2 ^ 64 = state.aeron_channel + 1 := by omega
      rw [e] at h2
      obtain ⟨r1, r2, r3⟩ := ih (aeron_transport_add state cinfo session_id frame)
        (by rw [h2, h3.length_eq, List.length_append, ← hlen]; rfl)
        (by
          rw [h2, List.range_succ]
          exact h3.trans (List.Perm.append_right _ hperm))
        (by rw [h2]; omega)
      refine ⟨r1, r2, ?_⟩
      rw [h2] at r3
      omega
/-- C33: `aeron_init` leaves the counter at 0 and no transport.  A call of
`aeron_transport_add` for a conversation and session id that have a transport leaves
the counter and the channel ids of all transports as they are, and the transport then
found is the same one.  A call for a conversation and session id without a transport
stores a transport whose channel id is the value of the counter, and increments the
counter.  After any run of fewer than 2^64 calls that starts after `aeron_init` the
counter equals the number of transports created, so the k-th transport created has
received k-1, and the channel ids of the transports are the numbers below the counter,
each once. -/
theorem channel_ids_assigned_in_order (state : dissector_state)
    (cinfo : aeron_conversation_info_t) (session_id frame : Nat)
    (calls : List (aeron_conversation_info_t × Nat × Nat)) :
    (∀ transport, aeron_transport_find state cinfo session_id = some transport →
      aeron_transport_find (aeron_transport_add state cinfo session_id frame) cinfo session_id =
        some transport ∧
      (aeron_transport_add state cinfo session_id frame).aeron_channel = state.aeron_channel ∧
      transport_channels (aeron_transport_add state cinfo session_id frame).conversations =
        transport_channels state.conversations) ∧
    (aeron_transport_find state cinfo session_id = none →
      (∃ transport,
        aeron_transport_find (aeron_transport_add state cinfo session_id frame) cinfo
          session_id = some transport ∧
        transport.channel = state.aeron_channel) ∧
      (aeron_transport_add state cinfo session_id frame).aeron_channel =
        (state.aeron_channel + 1) % 2 ^ 64 ∧
      (transport_channels (aeron_transport_add state cinfo session_id frame).conversations).Perm
        (transport_channels state.conversations ++ [state.aeron_channel])) ∧
    dissector_state_init.aeron_channel = 0 ∧
    transport_channels dissector_state_init.conversations = [] ∧
    (calls.length < 2 ^ 64 →
      (aeron_transport_adds dissector_state_init calls).aeron_channel =
        (transport_channels (aeron_transport_adds dissector_state_init calls).conversations).length ∧
      (transport_channels (aeron_transport_adds dissector_state_init calls).conversations).Perm
        (List.range (aeron_transport_adds dissector_state_init calls).aeron_channel) ∧
      (transport_channels (aeron_transport_adds dissector_state_init calls).conversations).Nodup) := by
  refine ⟨?_, ?_, rfl, rfl, ?_⟩
  · intro transport h
    obtain ⟨h1, h2, h3⟩ := transport_add_existing state cinfo session_id frame transport h
    exact ⟨h2, h1, h3⟩
  · intro h
    obtain ⟨h1, h2, h3⟩ := transport_add_new state cinfo session_id frame h
    exact ⟨⟨_, h1, rfl⟩, h2, h3⟩
  · intro hlen
    obtain ⟨r1, r2, _⟩ := channels_after_adds calls dissector_state_init rfl
      (List.Perm.refl _) (by simpa [dissector_state_init] using hlen)
    exact ⟨r1, r2, r2.nodup_iff.2 (List.nodup_range _)⟩

set_option maxRecDepth 100000 in
theorem channel_ids_assigned_in_order_witness :
    [(publisher_cinfo, 7, 1), (publisher_cinfo, 7, 2), (publisher_cinfo, 9, 3)].length < 2 ^ 64 ∧
    aeron_transport_find (aeron_transport_adds dissector_state_init [(publisher_cinfo, 7, 1)])
      publisher_cinfo 9 = none ∧
    (aeron_transport_adds dissector_state_init
      [(publisher_cinfo, 7, 1), (publisher_cinfo, 7, 2), (publisher_cinfo, 9, 3)]).aeron_channel =
      (transport_channels (aeron_transport_adds dissector_state_init
        [(publisher_cinfo, 7, 1), (publisher_cinfo, 7, 2),
          (publisher_cinfo, 9, 3)]).conversations).length ∧
    transport_channels (aeron_transport_adds dissector_state_init
      [(publisher_cinfo, 7, 1), (publisher_cinfo, 7, 2), (publisher_cinfo, 9, 3)]).conversations =
      [0, 1] :=
  ⟨by decide, by decide,
    ((channel_ids_assigned_in_order dissector_state_init publisher_cinfo 7 1
      [(publisher_cinfo, 7, 1), (publisher_cinfo, 7, 2), (publisher_cinfo, 9, 3)]).2.2.2.2
      (by decide)).1,
    by decide⟩

/-! ### The items of an Error frame -/

/-- C36: for an Error frame at a non-negative offset of the buffer, with frame length
`len` and offending frame length `n` (all below 2^29), `dissect_aeron_err` gives the
offending-header item the `n` bytes that begin at buffer offset `2 * offset + 12`, which
is `offset + 12` bytes after the frame start; the error string is present only when
`len - offset - 12 - n` is positive, has that length, and begins right after the item,
at buffer offset `2 * offset + 12 + n`.  These are the claimed values exactly when the
frame starts at offset 0. -/
theorem err_items_count_offset_twice (tvb : tvbuff_t) (offset : Int) (len n : Nat)
    (h0 : 0 ≤ offset) (hoff : offset < 2 ^ 29) (hlen : len < 2 ^ 29) (hn : n < 2 ^ 29)
    (hread4 : tvb_get_letohl tvb (offset + 4) = some len)
    (hread8 : tvb_get_letohl tvb (offset + 8) = some n) :
    dissect_aeron_err_items tvb offset =
      some { off_hdr_start := offset + (offset + 12), off_hdr_length := n,
             err_string :=
               if (len : Int) - offset - 12 - n > 0 then
                 some (offset + (offset + 12) + n, (len : Int) - offset - 12 - n)
               else none } ∧
    (offset = 0 →
      dissect_aeron_err_items tvb offset =
        some { off_hdr_start := offset + 12, off_hdr_length := n,
               err_string :=
                 if (len : Int) - 12 - n > 0 then some (offset + 12 + n, (len : Int) - 12 - n)
                 else none }) ∧
    (0 < offset → offset + (offset + 12) ≠ offset + 12) := by
  have e1 : to_gint (offset + 12) = offset + 12 := by unfold to_gint; omega
  have e2 : to_gint (offset + (offset + 12)) = offset + (offset + 12) := by unfold to_gint; omega
  have e3 : to_gint (offset + 12 + (n : Int)) = offset + 12 + n := by unfold to_gint; omega
  have e4 : to_gint ((len : Int) - (offset + 12 + n)) = (len : Int) - offset - 12 - n := by
    unfold to_gint; omega
  have e5 : to_gint (n : Int) = n := by unfold to_gint; omega
  have e6 : to_gint (offset + (offset + 12 + (n : Int))) = offset + (offset + 12) + n := by
    unfold to_gint; omega
  have main : dissect_aeron_err_items tvb offset =
      some { off_hdr_start := offset + (offset + 12), off_hdr_length := n,
             err_string :=
               if (len : Int) - offset - 12 - n > 0 then
                 some (offset + (offset + 12) + n, (len : Int) - offset - 12 - n)
               else none } := by
    unfold dissect_aeron_err_items
    rw [hread4, hread8]
    simp only [e1, e2, e3, e4, e5, e6]
  refine ⟨main, ?_, fun h => by omega⟩
  intro hz
  rw [main]
  subst hz
  simp only [zero_add, sub_zero]

set_option maxRecDepth 100000 in
theorem err_items_count_offset_twice_witness :
    tvb_get_letohs packet_data_then_err (32 + 2) = some HDR_TYPE_ERR ∧
    tvb_get_letohl packet_data_then_err (32 + 4) = some 32 ∧
    tvb_get_letohl packet_data_then_err (32 + 8) = some 8 ∧
    dissect_aeron_err_items packet_data_then_err 32 = some ⟨76, 8, none⟩ ∧
    dissect_aeron_err_items err_frame_32 0 = some ⟨12, 8, some (20, 12)⟩ :=
  ⟨by decide, by decide, by decide,
    (err_items_count_offset_twice packet_data_then_err 32 32 8 (by decide) (by decide)
      (by decide) (by decide) (by decide) (by decide)).1.trans (by decide),
    by decide⟩

/-! ### The loop of `dissect_aeron` -/

/-- One iteration of the loop that decodes a frame. -/
theorem dissect_aeron_loop_step (sa wa : Bool) (tvb : tvbuff_t) (pinfo : packet_info)
    (endpoints : packet_endpoints) (fuel : Nat) (state state' : dissector_state)
    (offset len_remaining total dissected_len : Int) (frame_type : Nat)
    (cinfo : aeron_conversation_info_t)
    (hlr : len_remaining > 0)
    (hty : tvb_get_letohs tvb (offset + 2) = some frame_type)
    (hc : aeron_setup_conversation_info endpoints frame_type = some cinfo)
    (hf : dissect_aeron_frame sa wa tvb offset pinfo cinfo state frame_type =
      some (state', .returned dissected_len)) :
    dissect_aeron_loop sa wa tvb pinfo endpoints (fuel + 1) state offset len_remaining total =
      dissect_aeron_loop sa wa tvb pinfo endpoints fuel state' (to_gint (offset + dissected_len))
        (to_gint (len_remaining - dissected_len)) (to_gint (total + dissected_len)) := by
  rw [dissect_aeron_loop, if_pos hlr, hty]
  simp only [hc, hf]

set_option maxRecDepth 100000 in
theorem nak_zero_frames (sa wa : Bool) :
    dissect_aeron_frame sa wa packet_data_then_nak_zero 0 ⟨false, 1⟩ publisher_cinfo
        dissector_state_init HDR_TYPE_DATA =
      some (nak_zero_after_data sa wa, .returned 32) ∧
    dissect_aeron_frame sa wa packet_data_then_nak_zero 32 ⟨false, 1⟩
        (aeron_setup_conversation_info_family publisher_endpoints HDR_TYPE_NAK AT_IPv4)
        (nak_zero_after_data sa wa) HDR_TYPE_NAK =
      some (nak_zero_after_nak sa wa, .returned 0) ∧
    dissect_aeron_frame sa wa packet_data_then_nak_zero 32 ⟨false, 1⟩
        (aeron_setup_conversation_info_family publisher_endpoints HDR_TYPE_NAK AT_IPv4)
        (nak_zero_after_nak sa wa) HDR_TYPE_NAK =
      some (nak_zero_after_nak sa wa, .returned 0) := by
  have hpair : ∀ (r : dissector_state × dissect_result Int) (v : Int),
      r.2 = .returned v → some r = some (r.1, dissect_result.returned v) := by
    intro r v h
    rw [← h]
  have h1 : (dissect_aeron_data sa wa packet_data_then_nak_zero 0 ⟨false, 1⟩ publisher_cinfo
      dissector_state_init).2 = .returned 32 := by
    cases sa <;> cases wa <;> decide!
  have h2 : ∀ state, (dissect_aeron_nak sa wa packet_data_then_nak_zero 32 ⟨false, 1⟩
      (aeron_setup_conversation_info_family publisher_endpoints HDR_TYPE_NAK AT_IPv4)
      state).2 = .returned 0 := by
    intro state
    unfold dissect_aeron_nak
    rw [(by decide : tvb_get_letohl packet_data_then_nak_zero (32 + 4) = some 0),
      (by decide : tvb_get_letohl packet_data_then_nak_zero (32 + 8) = some 7),
      (by decide : tvb_get_letohl packet_data_then_nak_zero (32 + 12) = some 10),
      (by decide : tvb_get_letohl packet_data_then_nak_zero (32 + 16) = some 5),
      (by decide : tvb_get_letohl packet_data_then_nak_zero (32 + 20) = some 0),
      (by decide : tvb_get_letohl packet_data_then_nak_zero (32 + 24) = some 0)]
    rfl
  have h3 : (dissect_aeron_nak sa wa packet_data_then_nak_zero 32 ⟨false, 1⟩
      (aeron_setup_conversation_info_family publisher_endpoints HDR_TYPE_NAK AT_IPv4)
      (nak_zero_after_nak sa wa)).1 = nak_zero_after_nak sa wa := by
    cases sa <;> cases wa <;> decide!
  refine ⟨hpair _ _ h1, hpair _ _ (h2 _), ?_⟩
  have h4 := hpair _ _ (h2 (nak_zero_after_nak sa wa))
  rw [h3] at h4
  exact h4

set_option maxRecDepth 100000 in
theorem nak_zero_loop_stuck (sa wa : Bool) (fuel : Nat) :
    dissect_aeron_loop sa wa packet_data_then_nak_zero ⟨false, 1⟩ publisher_endpoints fuel
      (nak_zero_after_nak sa wa) 32 28 32 = none := by
  induction fuel with
  | zero => rfl
  | succ n ih =>
    rw [dissect_aeron_loop_step sa wa packet_data_then_nak_zero ⟨false, 1⟩ publisher_endpoints n
      (nak_zero_after_nak sa wa) (nak_zero_after_nak sa wa) 32 28 32 0 HDR_TYPE_NAK
      (aeron_setup_conversation_info_family publisher_endpoints HDR_TYPE_NAK AT_IPv4)
      (by decide) (by decide) (by decide) (nak_zero_frames sa wa).2.2,
      (by decide : to_gint (32 + 0) = 32), (by decide : to_gint (28 - 0) = 28)]
    exact ih

set_option maxRecDepth 100000 in
theorem nak_zero_dissect (sa wa : Bool) (fuel : Nat) :
    dissect_aeron sa wa fuel packet_data_then_nak_zero ⟨false, 1⟩ publisher_endpoints
      dissector_state_init = none := by
  have hty : tvb_get_letohs packet_data_then_nak_zero 2 = some HDR_TYPE_DATA := by decide
  have hc : aeron_setup_conversation_info publisher_endpoints HDR_TYPE_DATA =
      some publisher_cinfo := by decide
  unfold dissect_aeron
  rw [hty]
  simp only [hc]
  have hlen : to_gint ((packet_data_then_nak_zero.length : Nat) : Int) = 60 := by decide
  rw [hlen]
  cases fuel with
  | zero => rfl
  | succ n =>
    rw [dissect_aeron_loop_step sa wa packet_data_then_nak_zero ⟨false, 1⟩ publisher_endpoints n
      dissector_state_init (nak_zero_after_data sa wa) 0 60 0 32 HDR_TYPE_DATA publisher_cinfo
      (by decide) (by decide) (by decide) (nak_zero_frames sa wa).1,
      (by decide : to_gint (0 + 32) = 32), (by decide : to_gint (60 - 32) = 28)]
    cases n with
    | zero => rfl
    | succ m =>
      rw [dissect_aeron_loop_step sa wa packet_data_then_nak_zero ⟨false, 1⟩ publisher_endpoints m
        (nak_zero_after_data sa wa) (nak_zero_after_nak sa wa) 32 28 32 0 HDR_TYPE_NAK
        (aeron_setup_conversation_info_family publisher_endpoints HDR_TYPE_NAK AT_IPv4)
        (by decide) (by decide) (by decide) (nak_zero_frames sa wa).2.1,
        (by decide : to_gint (32 + 0) = 32), (by decide : to_gint (28 - 0) = 28)]
      exact nak_zero_loop_stuck sa wa m
set_option maxRecDepth 100000 in
theorem nak_zero_accepted (sa wa : Bool) (fuel : Nat) (state : dissector_state) :
    test_aeron_packet sa wa fuel packet_data_then_nak_zero ⟨false, 1⟩ publisher_endpoints state =
      test_aeron_packet_dissect sa wa fuel packet_data_then_nak_zero ⟨false, 1⟩
        publisher_endpoints state := by
  unfold test_aeron_packet
  simp only [(by decide : to_gint ((packet_data_then_nak_zero.length : Nat) : Int) = 60),
    (by decide : tvb_get_guint8 packet_data_then_nak_zero 0 = some 0),
    (by decide : tvb_get_letohs packet_data_then_nak_zero 2 = some HDR_TYPE_DATA),
    (by decide : tvb_get_letohl packet_data_then_nak_zero 4 = some 32),
    (by decide : to_gint ((32 &&& 0x7fffffff : Nat) : Int) = 32)]
  rw [if_neg (by decide), if_neg (by decide), if_neg (by decide), if_neg (by decide),
    if_neg (by decide), if_neg (by decide)]

/-- C40: the packet is a Data frame of 32 bytes followed by the 28 bytes of a NAK frame
whose frame length field is 0.  `test_aeron_packet` accepts the buffer and calls
`dissect_aeron`; the iteration that decodes the NAK frame consumes
`aeron_pos_roundup 0 = 0` bytes in every state, and neither `dissect_aeron` nor
`test_aeron_packet` returns, whatever the number of iterations allowed and whichever
analyses are enabled. -/
theorem zero_length_nak_never_consumed (sa wa : Bool) (fuel : Nat) :
    (∀ state, test_aeron_packet sa wa fuel packet_data_then_nak_zero ⟨false, 1⟩
        publisher_endpoints state =
      test_aeron_packet_dissect sa wa fuel packet_data_then_nak_zero ⟨false, 1⟩
        publisher_endpoints state) ∧
    tvb_get_letohs packet_data_then_nak_zero (32 + 2) = some HDR_TYPE_NAK ∧
    (∀ cinfo state, (dissect_aeron_nak sa wa packet_data_then_nak_zero 32 ⟨false, 1⟩ cinfo
      state).2 = .returned 0) ∧
    dissect_aeron sa wa fuel packet_data_then_nak_zero ⟨false, 1⟩ publisher_endpoints
      dissector_state_init = none ∧
    test_aeron_packet sa wa fuel packet_data_then_nak_zero ⟨false, 1⟩ publisher_endpoints
      dissector_state_init = none := by
  refine ⟨nak_zero_accepted sa wa fuel, by decide, ?_, nak_zero_dissect sa wa fuel, ?_⟩
  · intro cinfo state
    unfold dissect_aeron_nak
    rw [(by decide : tvb_get_letohl packet_data_then_nak_zero (32 + 4) = some 0),
      (by decide : tvb_get_letohl packet_data_then_nak_zero (32 + 8) = some 7),
      (by decide : tvb_get_letohl packet_data_then_nak_zero (32 + 12) = some 10),
      (by decide : tvb_get_letohl packet_data_then_nak_zero (32 + 16) = some 5),
      (by decide : tvb_get_letohl packet_data_then_nak_zero (32 + 20) = some 0),
      (by decide : tvb_get_letohl packet_data_then_nak_zero (32 + 24) = some 0)]
    rfl
  · rw [nak_zero_accepted sa wa fuel]
    unfold test_aeron_packet_dissect
    rw [nak_zero_dissect sa wa fuel]

/-! ### Field offsets -/

theorem letohl_field (tvb : tvbuff_t) (offset k : Nat) (h : offset + k + 4 ≤ tvb.length) :
    tvb_get_letohl tvb ((offset : Int) + (k : Int)) =
      some (little_endian_field tvb (offset + k) 4) := by
  unfold tvb_get_letohl
  rw [tvb_ensure_bytes_inside tvb _ 4 (by omega) (by omega)]
  have e : ((offset : Int) + (k : Int)).toNat = offset + k := by omega
  simp only [e, little_endian_field, List.range_succ, List.range_zero, List.nil_append,
    List.map_append, List.map_cons, List.map_nil, List.sum_append, List.sum_cons, List.sum_nil,
    List.singleton_append, List.cons_append]
  norm_num
  omega

theorem letohs_field (tvb : tvbuff_t) (offset k : Nat) (h : offset + k + 2 ≤ tvb.length) :
    tvb_get_letohs tvb ((offset : Int) + (k : Int)) =
      some (little_endian_field tvb (offset + k) 2) := by
  unfold tvb_get_letohs
  rw [tvb_ensure_bytes_inside tvb _ 2 (by omega) (by omega)]
  have e : ((offset : Int) + (k : Int)).toNat = offset + k := by omega
  simp only [e, little_endian_field, List.range_succ, List.range_zero, List.nil_append,
    List.map_append, List.map_cons, List.map_nil, List.sum_append, List.sum_cons, List.sum_nil,
    List.singleton_append, List.cons_append]
  norm_num

theorem guint8_field (tvb : tvbuff_t) (offset k : Nat) (h : offset + k + 1 ≤ tvb.length) :
    tvb_get_guint8 tvb ((offset : Int) + (k : Int)) = some (tvb_byte tvb (offset + k)) := by
  unfold tvb_get_guint8
  rw [tvb_ensure_bytes_inside tvb _ 1 (by omega) (by omega)]
  have e : ((offset : Int) + (k : Int)).toNat = offset + k := by omega
  simp only [e]

/-! ### Items whose extent comes from the wire -/

theorem tvb_ensure_bytes_outside (tvb : tvbuff_t) (offset : Int) (n : Nat) (h0 : 0 ≤ offset)
    (h : tvb.length < offset.toNat + n) : tvb_ensure_bytes tvb offset n = none := by
  unfold tvb_ensure_bytes
  rw [if_pos h0, if_neg (by omega)]

theorem item_inside (tvb : tvbuff_t) (start length : Int) (h0 : 0 ≤ start) (hl : 0 ≤ length)
    (h : start.toNat + length.toNat ≤ tvb.length) :
    proto_tree_add_item tvb start length = true := by
  unfold proto_tree_add_item
  rw [if_neg (by omega), if_neg (by omega), tvb_ensure_bytes_inside tvb start _ h0 h]
  rfl

theorem item_outside (tvb : tvbuff_t) (start length : Int) (h0 : 0 ≤ start) (hl : 0 ≤ length)
    (h : tvb.length < start.toNat + length.toNat) :
    proto_tree_add_item tvb start length = false := by
  unfold proto_tree_add_item
  rw [if_neg (by omega), if_neg (by omega), tvb_ensure_bytes_outside tvb start _ h0 h]
  rfl

theorem item_negative (tvb : tvbuff_t) (start length : Int) (hl : length < -1) :
    proto_tree_add_item tvb start length = false := by
  unfold proto_tree_add_item
  rw [if_neg (by omega), if_pos (by omega)]

theorem tvb_byte_lt (tvb : tvbuff_t) (i : Nat) : tvb_byte tvb i < 256 := by
  unfold tvb_byte
  omega

theorem tvb_get_letohl_lt (tvb : tvbuff_t) (offset : Int) (v : Nat)
    (h : tvb_get_letohl tvb offset = some v) : v < 2 ^ 32 := by
  unfold tvb_get_letohl at h
  cases he : tvb_ensure_bytes tvb offset 4 with
  | none => rw [he] at h; simp at h
  | some i =>
    rw [he] at h
    simp only [Option.some.injEq] at h
    have b0 := tvb_byte_lt tvb i
    have b1 := tvb_byte_lt tvb (i + 1)
    have b2 := tvb_byte_lt tvb (i + 2)
    have b3 := tvb_byte_lt tvb (i + 3)
    omega

/-- The result of `dissect_aeron_data` once the header has been read: an exception when
the payload item is refused, the consumed length otherwise. -/
theorem dissect_aeron_data_result (sa wa : Bool) (tvb : tvbuff_t) (offset : Int)
    (pinfo : packet_info) (cinfo : aeron_conversation_info_t) (state : dissector_state)
    (frame_len : Nat) (h0 : 0 ≤ offset) (hhdr : offset.toNat + 24 ≤ tvb.length)
    (hlen : tvb_get_letohl tvb (offset + 4) = some frame_len) :
    (dissect_aeron_data sa wa tvb offset pinfo cinfo state).2 =
      if (if frame_len = 0 then 0 else (frame_len + 2 ^ 32 - 24) % 2 ^ 32) > 0 ∧
          proto_tree_add_item tvb (offset + 24)
            (to_gint ((if frame_len = 0 then 0 else (frame_len + 2 ^ 32 - 24) % 2 ^ 32 : Nat) :
              Int)) = false then
        .exception
      else .returned (if frame_len = 0 then 24 else to_gint (aeron_pos_roundup frame_len)) := by
  obtain ⟨⟨flags, h1⟩, _, ⟨term_offset, h8⟩, ⟨session_id, h12⟩, ⟨stream_id, h16⟩,
    ⟨term_id, h20⟩⟩ := tvb_reads_header tvb offset h0 hhdr
  unfold dissect_aeron_data
  simp only [hlen, h8, h12, h16, h20, h1, O_AERON_DATA_DATA, apply_ite Prod.snd]
  rfl

set_option maxRecDepth 100000 in
/-- C23, as the claim states it, fails: the buffer holds the 24 header bytes of a Data
frame that declares frame length 1000 and ends there.  `dissect_aeron_data` does not
return the rounded length 1000: the payload item of 976 bytes behind the header is
refused and the call ends with an exception. -/
theorem truncated_data_frame_not_consumed :
    packet_data_truncated.length = 24 ∧
    tvb_get_letohl packet_data_truncated (0 + 4) = some 1000 ∧
    aeron_pos_roundup 1000 = 1000 ∧
    (dissect_aeron_data true true packet_data_truncated 0 ⟨false, 1⟩ publisher_cinfo
      dissector_state_init).2 = .exception := by
  decide

set_option maxRecDepth 100000 in
/-- C23, amended: for a Data frame at a non-negative offset whose 24 header bytes are in
the buffer, `dissect_aeron_data` returns 24 when the frame length field is 0, and
returns the frame length rounded up to a multiple of 8 when the frame length is at
least 24 and below 2^31 - 7 and the bytes of the frame lie inside the buffer.  It ends
with an exception when the frame length exceeds 24 and the buffer ends before the
frame does, and when the frame length is from 1 to 22; and for a frame length of
2^31 - 7 or more whatever it returns is not positive.  For the Data frame with 100
bytes of payload (frame length 124, in a buffer of 128 bytes) the consumed length is
128; adding that frame to position (term 5, offset 0) with term length 65536 gives
(term 5, offset 128), and on a stream whose Setup frame announced term length 65536
the next-offset report shows offset 128 in term 5. -/
theorem dissect_aeron_data_consumed (sa wa : Bool) (tvb : tvbuff_t) (offset : Int)
    (pinfo : packet_info) (cinfo : aeron_conversation_info_t) (state : dissector_state)
    (frame_len : Nat) (h0 : 0 ≤ offset) (hhdr : offset.toNat + 24 ≤ tvb.length)
    (hlen : tvb_get_letohl tvb (offset + 4) = some frame_len) :
    (frame_len = 0 →
      (dissect_aeron_data sa wa tvb offset pinfo cinfo state).2 = .returned 24) ∧
    (24 ≤ frame_len → frame_len + 7 < 2 ^ 31 → offset.toNat + frame_len ≤ tvb.length →
      (dissect_aeron_data sa wa tvb offset pinfo cinfo state).2 =
        .returned (((frame_len + 7) / 8 * 8 : Nat) : Int)) ∧
    (24 < frame_len → tvb.length < offset.toNat + frame_len →
      (dissect_aeron_data sa wa tvb offset pinfo cinfo state).2 = .exception) ∧
    (0 < frame_len → frame_len < 23 →
      (dissect_aeron_data sa wa tvb offset pinfo cinfo state).2 = .exception) ∧
    (2 ^ 31 ≤ frame_len + 7 → ∀ v,
      (dissect_aeron_data sa wa tvb offset pinfo cinfo state).2 = .returned v → v ≤ 0) ∧
    (dissect_aeron_data true true packet_data_124 0 ⟨false, 2⟩ publisher_cinfo
        dissector_state_init).2 = .returned 128 ∧
    aeron_pos_add_length ⟨5, 0⟩ 124 65536 = ⟨5, 128⟩ ∧
    aeron_next_offset_report_next scenario_a_data 10 5 0 (aeron_pos_roundup 124) =
      some (128, 5) := by
  have hres := dissect_aeron_data_result sa wa tvb offset pinfo cinfo state frame_len h0 hhdr hlen
  have hlt := tvb_get_letohl_lt tvb _ _ hlen
  have hstart : (0 : Int) ≤ offset + 24 := by omega
  have hstartn : (offset + 24).toNat = offset.toNat + 24 := by omega
  refine ⟨?_, ?_, ?_, ?_, ?_, by decide, by decide, by decide⟩
  · intro hz
    rw [hres, if_pos hz, if_neg (by omega), if_pos hz]
  · intro h24 hsmall hin
    have hne : frame_len ≠ 0 := by omega
    have hd : (frame_len + 2 ^ 32 - 24) % 2 ^ 32 = frame_len - 24 := by omega
    have hg : to_gint ((frame_len - 24 : Nat) : Int) = ((frame_len - 24 : Nat) : Int) := by
      unfold to_gint
      omega
    have hitem : proto_tree_add_item tvb (offset + 24) ((frame_len - 24 : Nat) : Int) = true :=
      item_inside tvb _ _ hstart (by omega) (by omega)
    have hr : to_gint (aeron_pos_roundup frame_len : Int) =
        (((frame_len + 7) / 8 * 8 : Nat) : Int) := by
      rw [aeron_pos_roundup_eq]
      have e : (frame_len + 7) % 2 ^ 32 = frame_len + 7 := by omega
      rw [e]
      unfold to_gint
      omega
    rw [hres, if_neg hne, hd, hg, hitem, if_neg (by simp), if_neg hne, hr]
  · intro h24 hout
    have hne : frame_len ≠ 0 := by omega
    have hd : (frame_len + 2 ^ 32 - 24) % 2 ^ 32 = frame_len - 24 := by omega
    have hitem : proto_tree_add_item tvb (offset + 24)
        (to_gint ((frame_len - 24 : Nat) : Int)) = false := by
      by_cases hbig : frame_len - 24 < 2 ^ 31
      · have hg : to_gint ((frame_len - 24 : Nat) : Int) = ((frame_len - 24 : Nat) : Int) := by
          unfold to_gint
          omega
        rw [hg]
        exact item_outside tvb _ _ hstart (by omega) (by omega)
      · apply item_negative
        unfold to_gint
        omega
    rw [hres, if_neg hne, hd, hitem, if_pos ⟨by omega, rfl⟩]
  · intro hpos hshort
    have hne : frame_len ≠ 0 := by omega
    have hitem : proto_tree_add_item tvb (offset + 24)
        (to_gint (((frame_len + 2 ^ 32 - 24) % 2 ^ 32 : Nat) : Int)) = false := by
      apply item_negative
      unfold to_gint
      omega
    rw [hres, if_neg hne, hitem, if_pos ⟨by omega, rfl⟩]
  · intro hbig v hv
    have hne : frame_len ≠ 0 := by omega
    rw [hres, if_neg hne] at hv
    split_ifs at hv
    simp only [dissect_result.returned.injEq] at hv
    rw [← hv, aeron_pos_roundup_eq]
    unfold to_gint
    omega

set_option maxRecDepth 100000 in
theorem dissect_aeron_data_consumed_witness :
    (0 : Int) ≤ 0 ∧ (0 : Int).toNat + 24 ≤ packet_data_124.length ∧
    tvb_get_letohl packet_data_124 (0 + 4) = some 124 ∧
    24 ≤ 124 ∧ 124 + 7 < 2 ^ 31 ∧ (0 : Int).toNat + 124 ≤ packet_data_124.length ∧
    (dissect_aeron_data true true packet_data_124 0 ⟨false, 2⟩ publisher_cinfo
        dissector_state_init).2 = .returned (((124 + 7) / 8 * 8 : Nat) : Int) :=
  ⟨by decide, by decide, by decide, by decide, by decide, by decide,
    (dissect_aeron_data_consumed true true packet_data_124 0 ⟨false, 2⟩ publisher_cinfo
      dissector_state_init 124 (by decide) (by decide) (by decide)).2.1 (by decide)
      (by decide) (by decide)⟩

theorem pair_ite {α β : Type} (c : Prop) [Decidable c] (s : α) (a b : β) :
    (if c then (s, a) else (s, b)) = (s, if c then a else b) := by
  split_ifs <;> rfl

/-- C35: for a frame that starts at byte `offset` of the buffer and lies inside it,
each decoder hands to the state store the little-endian 32-bit values at these
distances from the frame start: Pad and Data the frame length at 4, the term offset at
8, the session id at 12, the stream id at 16 and the term id at 20 (and Data the flags
byte at 1); NAK the frame length at 4, the session id at 8, the stream id at 12 and the
term id at 16; Status the same and the completed term offset at 20 and the receiver
window at 24; Setup the frame length at 4, the session id at 12, the stream id at 16,
the active term id at 24, the term length at 28 and the MTU at 32; Error the frame
length at 4.  The consumed length is computed from the frame length field; Data,
Status and Error end with an exception instead, the state already updated, when the
bounds check of the payload, feedback, offending-header or error-string item fails.
The loop of `dissect_aeron` selects the decoder by the little-endian 16-bit value
at 2. -/
theorem decoders_read_little_endian_fields (sa wa : Bool) (tvb : tvbuff_t) (offset : Nat)
    (pinfo : packet_info) (cinfo : aeron_conversation_info_t) (state : dissector_state)
    (endpoints : packet_endpoints) (fuel : Nat) (len_remaining total : Int) :
    (offset + 24 ≤ tvb.length →
      dissect_aeron_pad sa wa tvb offset pinfo cinfo state =
        (transport_write
          (aeron_transport_add state cinfo (little_endian_field tvb (offset + 12) 4) pinfo.num)
          cinfo (little_endian_field tvb (offset + 12) 4)
          (fun transport => aeron_frame_apply sa wa pinfo transport
            (.pad (little_endian_field tvb (offset + 4) 4)
              (little_endian_field tvb (offset + 8) 4)
              (little_endian_field tvb (offset + 16) 4)
              (little_endian_field tvb (offset + 20) 4))),
          .returned 24) ∧
      dissect_aeron_data sa wa tvb offset pinfo cinfo state =
        (transport_write
          (aeron_transport_add state cinfo (little_endian_field tvb (offset + 12) 4) pinfo.num)
          cinfo (little_endian_field tvb (offset + 12) 4)
          (fun transport => aeron_frame_apply sa wa pinfo transport
            (.data (tvb_byte tvb (offset + 1)) (little_endian_field tvb (offset + 4) 4)
              (little_endian_field tvb (offset + 8) 4)
              (little_endian_field tvb (offset + 16) 4)
              (little_endian_field tvb (offset + 20) 4))),
          if (if little_endian_field tvb (offset + 4) 4 = 0 then 0
                else (little_endian_field tvb (offset + 4) 4 + 2 ^ 32 - 24) % 2 ^ 32) > 0 ∧
              proto_tree_add_item tvb (offset + 24)
                (to_gint ((if little_endian_field tvb (offset + 4) 4 = 0 then 0
                  else (little_endian_field tvb (offset + 4) 4 + 2 ^ 32 - 24) % 2 ^ 32 : Nat) :
                  Int)) = false then
            .exception
          else
            .returned (if little_endian_field tvb (offset + 4) 4 = 0 then 24
              else to_gint (aeron_pos_roundup (little_endian_field tvb (offset + 4) 4))))) ∧
    (offset + 28 ≤ tvb.length →
      dissect_aeron_nak sa wa tvb offset pinfo cinfo state =
        (transport_write
          (aeron_transport_add state cinfo (little_endian_field tvb (offset + 8) 4) pinfo.num)
          cinfo (little_endian_field tvb (offset + 8) 4)
          (fun transport => aeron_frame_apply sa wa pinfo transport
            (.nak (little_endian_field tvb (offset + 4) 4)
              (little_endian_field tvb (offset + 12) 4)
              (little_endian_field tvb (offset + 16) 4))),
          .returned (to_gint (aeron_pos_roundup (little_endian_field tvb (offset + 4) 4)))) ∧
      dissect_aeron_sm sa wa tvb offset pinfo cinfo state =
        (transport_write
          (aeron_transport_add state cinfo (little_endian_field tvb (offset + 8) 4) pinfo.num)
          cinfo (little_endian_field tvb (offset + 8) 4)
          (fun transport => aeron_frame_apply sa wa pinfo transport
            (.sm (little_endian_field tvb (offset + 4) 4)
              (little_endian_field tvb (offset + 12) 4)
              (little_endian_field tvb (offset + 16) 4)
              (little_endian_field tvb (offset + 20) 4)
              (little_endian_field tvb (offset + 24) 4))),
          if (little_endian_field tvb (offset + 4) 4 + 2 ^ 32 - 28) % 2 ^ 32 > 0 ∧
              proto_tree_add_item tvb (offset + 28)
                (to_gint (((little_endian_field tvb (offset + 4) 4 + 2 ^ 32 - 28) % 2 ^ 32 : Nat) :
                  Int)) = false then
            .exception
          else
            .returned (to_gint (aeron_pos_roundup (little_endian_field tvb (offset + 4) 4))))) ∧
    (offset + 36 ≤ tvb.length →
      dissect_aeron_setup sa wa tvb offset pinfo cinfo state =
        (transport_write
          (transport_write
            (aeron_transport_add state cinfo (little_endian_field tvb (offset + 12) 4) pinfo.num)
            cinfo (little_endian_field tvb (offset + 12) 4)
            (fun transport => aeron_sequence_setup sa wa pinfo transport
              (aeron_setup_sinfo (little_endian_field tvb (offset + 16) 4)
                (little_endian_field tvb (offset + 24) 4))))
          cinfo (little_endian_field tvb (offset + 12) 4)
          (fun transport => aeron_set_stream_mtu_term_length pinfo transport
            (little_endian_field tvb (offset + 16) 4) (little_endian_field tvb (offset + 32) 4)
            (little_endian_field tvb (offset + 28) 4)),
          .returned (to_gint (aeron_pos_roundup (little_endian_field tvb (offset + 4) 4))))) ∧
    (offset + 12 ≤ tvb.length →
      ∃ items, dissect_aeron_err_items tvb offset = some items ∧
        dissect_aeron_err tvb offset state =
          (state,
            if (proto_tree_add_item tvb items.off_hdr_start items.off_hdr_length &&
                items.err_string.all (fun p => proto_tree_add_item tvb p.1 p.2)) = true then
              .returned (to_gint (aeron_pos_roundup (little_endian_field tvb (offset + 4) 4)))
            else .exception)) ∧
    (offset + 4 ≤ tvb.length → len_remaining > 0 →
      dissect_aeron_loop sa wa tvb pinfo endpoints (fuel + 1) state offset len_remaining total =
        match aeron_setup_conversation_info endpoints (little_endian_field tvb (offset + 2) 2) with
        | none => some (state, .exception)
        | some cinfo =>
          match dissect_aeron_frame sa wa tvb offset pinfo cinfo state
              (little_endian_field tvb (offset + 2) 2) with
          | none => some (state, .returned total)
          | some (state, .exception) => some (state, .exception)
          | some (state, .returned dissected_len) =>
            dissect_aeron_loop sa wa tvb pinfo endpoints fuel state
              (to_gint (offset + dissected_len)) (to_gint (len_remaining - dissected_len))
              (to_gint (total + dissected_len))) := by
  have r32 : ∀ k, offset + k + 4 ≤ tvb.length →
      tvb_get_letohl tvb ((offset : Int) + (k : Int)) =
        some (little_endian_field tvb (offset + k) 4) := fun k h => letohl_field tvb offset k h
  refine ⟨?_, ?_, ?_, ?_, ?_⟩
  · intro h
    have h1 := guint8_field tvb offset 1 (by omega)
    have h4 := r32 4 (by omega)
    have h8 := r32 8 (by omega)
    have h12 := r32 12 (by omega)
    have h16 := r32 16 (by omega)
    have h20 := r32 20 (by omega)
    simp only [Nat.cast_ofNat, Nat.cast_one] at h1 h4 h8 h12 h16 h20
    constructor
    · unfold dissect_aeron_pad
      simp only [h4, h8, h12, h16, h20]
      rfl
    · unfold dissect_aeron_data
      simp only [h1, h4, h8, h12, h16, h20, O_AERON_DATA_DATA, pair_ite]
      rfl
  · intro h
    have h4 := r32 4 (by omega)
    have h8 := r32 8 (by omega)
    have h12 := r32 12 (by omega)
    have h16 := r32 16 (by omega)
    have h20 := r32 20 (by omega)
    have h24 := r32 24 (by omega)
    simp only [Nat.cast_ofNat] at h4 h8 h12 h16 h20 h24
    constructor
    · unfold dissect_aeron_nak
      simp only [h4, h8, h12, h16, h20, h24]
    · unfold dissect_aeron_sm
      simp only [h4, h8, h12, h16, h20, h24, O_AERON_SM_FEEDBACK, pair_ite]
      rfl
  · intro h
    have h4 := r32 4 (by omega)
    have h8 := r32 8 (by omega)
    have h12 := r32 12 (by omega)
    have h16 := r32 16 (by omega)
    have h20 := r32 20 (by omega)
    have h24 := r32 24 (by omega)
    have h28 := r32 28 (by omega)
    have h32 := r32 32 (by omega)
    simp only [Nat.cast_ofNat] at h4 h8 h12 h16 h20 h24 h28 h32
    unfold dissect_aeron_setup
    simp only [h4, h8, h12, h16, h20, h24, h28, h32]
  · intro h
    have h4 := r32 4 (by omega)
    have h8 := r32 8 (by omega)
    simp only [Nat.cast_ofNat] at h4 h8
    have hitems : ∃ items, dissect_aeron_err_items tvb offset = some items := by
      unfold dissect_aeron_err_items
      rw [h4, h8]
      exact ⟨_, rfl⟩
    obtain ⟨items, hitems⟩ := hitems
    refine ⟨items, hitems, ?_⟩
    unfold dissect_aeron_err
    rw [h4, hitems]
    simp only
    cases hb : proto_tree_add_item tvb items.off_hdr_start items.off_hdr_length with
    | false => simp
    | true =>
      cases hs : items.err_string with
      | none => simp
      | some p =>
        obtain ⟨start, length⟩ := p
        cases hp : proto_tree_add_item tvb start length <;> simp [hp]
  · intro h hlr
    have h2 := letohs_field tvb offset 2 (by omega)
    simp only [Nat.cast_ofNat] at h2
    rw [dissect_aeron_loop, if_pos hlr, h2]

set_option maxRecDepth 100000 in
theorem decoders_read_little_endian_fields_witness :
    32 + 24 ≤ packet_two_data.length ∧
    little_endian_field packet_two_data (32 + 2) 2 = HDR_TYPE_DATA ∧
    little_endian_field packet_two_data (32 + 4) 4 = 32 ∧
    little_endian_field packet_two_data (32 + 8) 4 = 32 ∧
    little_endian_field packet_two_data (32 + 12) 4 = 7 ∧
    little_endian_field packet_two_data (32 + 16) 4 = 10 ∧
    little_endian_field packet_two_data (32 + 20) 4 = 5 ∧
    (dissect_aeron_data true true packet_two_data ((32 : Nat) : Int) ⟨false, 1⟩ publisher_cinfo
        dissector_state_init).1 =
      transport_write
        (aeron_transport_add dissector_state_init publisher_cinfo
          (little_endian_field packet_two_data (32 + 12) 4) 1)
        publisher_cinfo (little_endian_field packet_two_data (32 + 12) 4)
        (fun transport => aeron_frame_apply true true ⟨false, 1⟩ transport
          (.data (tvb_byte packet_two_data (32 + 1))
            (little_endian_field packet_two_data (32 + 4) 4)
            (little_endian_field packet_two_data (32 + 8) 4)
            (little_endian_field packet_two_data (32 + 16) 4)
            (little_endian_field packet_two_data (32 + 20) 4))) :=
  ⟨by decide, by decide, by decide, by decide, by decide, by decide, by decide,
    congrArg Prod.fst
      ((decoders_read_little_endian_fields true true packet_two_data 32 ⟨false, 1⟩
        publisher_cinfo dissector_state_init publisher_endpoints 0 0 0).1 (by decide)).2⟩

set_option maxRecDepth 100000 in
/-- C25, as the claim states it, fails: the buffer is the header of a Data frame that
declares frame length 2^31, which is not 0 and whose value masked to 31 bits is 0, below
12.  `test_aeron_packet` does not return FALSE: it takes the frame for a Data frame of
length 0 and calls `dissect_aeron`, which creates the transport of session 7 and ends
with an exception at the payload item. -/
theorem data_frame_declaring_two_pow_31_accepted :
    tvb_get_letohs packet_data_huge 2 = some HDR_TYPE_DATA ∧
    tvb_get_letohl packet_data_huge 4 = some 2147483648 ∧
    2147483648 &&& 0x7fffffff < HDR_LENGTH_MIN ∧
    aeron_transport_find dissector_state_init publisher_cinfo 7 = none ∧
    ∀ sa wa : Bool,
      (test_aeron_packet sa wa 1 packet_data_huge ⟨false, 1⟩ publisher_endpoints
        dissector_state_init).map Prod.snd = some .exception ∧
      (test_aeron_packet sa wa 1 packet_data_huge ⟨false, 1⟩ publisher_endpoints
        dissector_state_init).map
          (fun r => (aeron_transport_find r.1 publisher_cinfo 7).isSome) = some true := by
  refine ⟨by decide, by decide, by decide, by decide, ?_⟩
  intro sa wa
  cases sa <;> cases wa <;> decide

/-! ### The window-full bit of a snapshot that is filled again -/

theorem fill_window_full_or (s : aeron_stream_t) (info : aeron_sequence_info_t)
    (sfa : aeron_stream_frame_analysis_t)
    (hty : info.type = HDR_TYPE_DATA ∨ info.type = HDR_TYPE_PAD ∨ info.type = HDR_TYPE_SM) :
    (aeron_sequence_setup_fill s info sfa).flags &&&
        AERON_STREAM_FRAME_ANALYSIS_FLAG_WINDOW_FULL ≠ 0 ↔
      (sfa.flags &&& AERON_STREAM_FRAME_ANALYSIS_FLAG_WINDOW_FULL ≠ 0 ∨
        ((aeron_sequence_setup_fill s info sfa).outstanding_bytes ≥
            (aeron_sequence_setup_fill s info sfa).receiver_window ∧
          s.flags &&& AERON_STREAM_FLAGS_RECEIVER_WINDOW_VALID ≠ 0)) := by
  have hty2 : info.type = HDR_TYPE_DATA ∨ info.type = HDR_TYPE_SM ∨ info.type = HDR_TYPE_PAD := by
    rcases hty with h | h | h
    · exact Or.inl h
    · exact Or.inr (Or.inr h)
    · exact Or.inr (Or.inl h)
  have e : AERON_STREAM_FRAME_ANALYSIS_FLAG_WINDOW_FULL = 2 ^ 0 := rfl
  unfold aeron_sequence_setup_fill
  simp only [hty2, if_true]
  split_ifs with hc
  · exact ⟨fun _ => Or.inr hc, fun _ => by rw [e]; exact flag_or_self _ 0⟩
  · exact ⟨fun h => Or.inl h, fun h => h.elim id (fun h => absurd h hc)⟩

/-- The snapshot a first-visit frame with a stream id, a term id and an offset leaves
under its frame number, when both validity flags are set after the frame: the
classified, filled snapshot, started from the one stored there before or from a zeroed
one. -/
theorem snapshot_after_setup (sa : Bool) (pinfo : packet_info)
    (transport : aeron_transport_t) (info : aeron_sequence_info_t) (sid tid off : Nat)
    (hv : pinfo.visited = false)
    (h1 : info.stream_id = some sid) (h2 : info.term_id = some tid)
    (h3 : info.offset = some off) :
    ∃ s', aeron_transport_stream_find (aeron_sequence_setup sa true pinfo transport info) sid =
        some s' ∧
      s'.flags = (aeron_sequence_setup_positions (stream_on_entry transport sid) info tid off
        (((stream_on_entry transport sid).flags &&& AERON_STREAM_FLAGS_HIGH_VALID) != 0)
        (((stream_on_entry transport sid).flags &&& AERON_STREAM_FLAGS_COMPLETED_VALID) != 0)).flags ∧
      ((s'.flags &&& AERON_STREAM_FLAGS_HIGH_VALID ≠ 0 ∧
          s'.flags &&& AERON_STREAM_FLAGS_COMPLETED_VALID ≠ 0) →
        aeron_stream_frame_analysis_find s' pinfo.num =
          some (aeron_sequence_setup_classify (stream_on_entry transport sid).term_length
            info tid off (stream_on_entry transport sid).high
            (((stream_on_entry transport sid).flags &&& AERON_STREAM_FLAGS_HIGH_VALID) != 0)
            (stream_on_entry transport sid).completed
            (((stream_on_entry transport sid).flags &&& AERON_STREAM_FLAGS_COMPLETED_VALID) != 0)
            (stream_on_entry transport sid).receiver_window
            (aeron_sequence_setup_fill (aeron_sequence_setup_positions
                (stream_on_entry transport sid) info tid off
                (((stream_on_entry transport sid).flags &&& AERON_STREAM_FLAGS_HIGH_VALID) != 0)
                (((stream_on_entry transport sid).flags &&&
                  AERON_STREAM_FLAGS_COMPLETED_VALID) != 0))
              info ((aeron_stream_frame_analysis_find (stream_on_entry transport sid)
                pinfo.num).getD (aeron_stream_frame_analysis_new pinfo.num))))) := by
  obtain ⟨s', hs', hw⟩ := setup_stream_stored sa true pinfo transport info sid tid off
    (by simp) hv h1 h2 h3
  refine ⟨s', hs', ?_⟩
  rw [window_state_eq_iff] at hw
  obtain ⟨hf, -, -, -, -, ha⟩ := hw
  obtain ⟨hf2, -, -, -, -⟩ :=
    setup_window_scalars true pinfo info tid off (stream_on_entry transport sid)
  rw [hf2] at hf
  refine ⟨hf, ?_⟩
  intro hvalid
  rw [hf, ← has_sfa_true_iff] at hvalid
  unfold aeron_stream_frame_analysis_find
  rw [ha, setup_window_analysis_made true pinfo info tid off _ hvalid]

/-- C5, amended: for a first-visit Data, Pad or Status frame after which both validity
flags of the stream are set, the snapshot stored under the frame number has WINDOW_FULL
set if and only if the snapshot stored there before the frame (left by an earlier frame
of the same packet) had it set, or the snapshot's outstanding bytes reach its receiver
window and the stream's RECEIVER_WINDOW_VALID flag is set; for a snapshot the frame
creates that is: if and only if the outstanding bytes reach the receiver window and
RECEIVER_WINDOW_VALID is set.  And after any run of frames on a new transport, a stream
that was sent no Status frame has an empty analysis tree: no snapshot at all, so none
with WINDOW_FULL. -/
theorem window_full_iff (sa : Bool) (pinfo : packet_info)
    (transport : aeron_transport_t) (info : aeron_sequence_info_t) (sid tid off : Nat)
    (hv : pinfo.visited = false)
    (h1 : info.stream_id = some sid) (h2 : info.term_id = some tid)
    (h3 : info.offset = some off)
    (hty : info.type = HDR_TYPE_DATA ∨ info.type = HDR_TYPE_PAD ∨ info.type = HDR_TYPE_SM) :
    (∃ s', aeron_transport_stream_find (aeron_sequence_setup sa true pinfo transport info) sid =
        some s' ∧
      ((s'.flags &&& AERON_STREAM_FLAGS_HIGH_VALID ≠ 0 ∧
          s'.flags &&& AERON_STREAM_FLAGS_COMPLETED_VALID ≠ 0) →
        ∃ sfa, aeron_stream_frame_analysis_find s' pinfo.num = some sfa ∧
          (sfa.flags &&& AERON_STREAM_FRAME_ANALYSIS_FLAG_WINDOW_FULL ≠ 0 ↔
            ((∃ old, aeron_stream_frame_analysis_find (stream_on_entry transport sid)
                  pinfo.num = some old ∧
                old.flags &&& AERON_STREAM_FRAME_ANALYSIS_FLAG_WINDOW_FULL ≠ 0) ∨
              (sfa.outstanding_bytes ≥ sfa.receiver_window ∧
                s'.flags &&& AERON_STREAM_FLAGS_RECEIVER_WINDOW_VALID ≠ 0))) ∧
          (aeron_stream_frame_analysis_find (stream_on_entry transport sid) pinfo.num = none →
            (sfa.flags &&& AERON_STREAM_FRAME_ANALYSIS_FLAG_WINDOW_FULL ≠ 0 ↔
              (sfa.outstanding_bytes ≥ sfa.receiver_window ∧
                s'.flags &&& AERON_STREAM_FLAGS_RECEIVER_WINDOW_VALID ≠ 0))))) ∧
    (∀ (wa : Bool) (channel : Nat) (addr1 addr2 : address) (session_id port1 port2 : Nat)
        (frames : List (packet_info × aeron_frame_fields)) (sid' : Nat),
      (∀ p ∈ frames, ∀ fl tid' co rw, p.2 ≠ .sm fl sid' tid' co rw) →
      ∀ s, aeron_transport_stream_find (aeron_frames_apply sa wa
          (aeron_transport_new channel addr1 addr2 session_id port1 port2) frames) sid' =
          some s →
        s.analysis = []) := by
  refine ⟨?_, fun wa channel addr1 addr2 session_id port1 port2 frames sid' hno =>
    no_status_no_snapshot sa wa channel addr1 addr2 session_id port1 port2 frames sid' hno⟩
  obtain ⟨s', hs', hf, hsn⟩ := snapshot_after_setup sa pinfo transport info sid tid off hv h1 h2 h3
  refine ⟨s', hs', ?_⟩
  intro hvalid
  refine ⟨_, hsn hvalid, ?_⟩
  obtain ⟨-, -, -, c3, c4⟩ := classify_keeps_fields (stream_on_entry transport sid).term_length
    info tid off (stream_on_entry transport sid).high
    (((stream_on_entry transport sid).flags &&& AERON_STREAM_FLAGS_HIGH_VALID) != 0)
    (stream_on_entry transport sid).completed
    (((stream_on_entry transport sid).flags &&& AERON_STREAM_FLAGS_COMPLETED_VALID) != 0)
    (stream_on_entry transport sid).receiver_window
    (aeron_sequence_setup_fill (aeron_sequence_setup_positions
        (stream_on_entry transport sid) info tid off
        (((stream_on_entry transport sid).flags &&& AERON_STREAM_FLAGS_HIGH_VALID) != 0)
        (((stream_on_entry transport sid).flags &&& AERON_STREAM_FLAGS_COMPLETED_VALID) != 0))
      info ((aeron_stream_frame_analysis_find (stream_on_entry transport sid)
        pinfo.num).getD (aeron_stream_frame_analysis_new pinfo.num)))
  rw [classify_keeps_window_full, c3, c4, hf, fill_window_full_or _ info _ hty]
  constructor
  · cases hold : aeron_stream_frame_analysis_find (stream_on_entry transport sid) pinfo.num with
    | none =>
      have hz : ((none : Option aeron_stream_frame_analysis_t).getD
          (aeron_stream_frame_analysis_new pinfo.num)).flags &&&
          AERON_STREAM_FRAME_ANALYSIS_FLAG_WINDOW_FULL = 0 := Nat.zero_and _
      constructor
      · rintro (h | h)
        · exact absurd hz h
        · exact Or.inr h
      · rintro (⟨old, ho, -⟩ | h)
        · exact absurd ho (by simp)
        · exact Or.inr h
    | some old =>
      constructor
      · rintro (h | h)
        · exact Or.inl ⟨old, rfl, h⟩
        · exact Or.inr h
      · rintro (⟨old', ho, h⟩ | h)
        · simp only [Option.some.injEq] at ho
          subst ho
          exact Or.inl h
        · exact Or.inr h
  · intro hnew
    rw [hnew]
    have hz : ((none : Option aeron_stream_frame_analysis_t).getD
        (aeron_stream_frame_analysis_new pinfo.num)).flags &&&
        AERON_STREAM_FRAME_ANALYSIS_FLAG_WINDOW_FULL = 0 := Nat.zero_and _
    constructor
    · rintro (h | h)
      · exact absurd hz h
      · exact h
    · exact fun h => Or.inr h

set_option maxRecDepth 100000 in
/-- C5, as the claim states it, fails: packet 2 carries two Status frames of the stream.
The first (receiver window 500) creates the snapshot of frame 2 with 1000 outstanding
bytes and WINDOW_FULL; the second (receiver window 4096) fills the same snapshot again:
it then holds 1000 outstanding bytes and receiver window 4096, and WINDOW_FULL is still
set, with the stream's RECEIVER_WINDOW_VALID flag set. -/
theorem window_full_kept_after_refill :
    stream_snapshot scenario_after_data 10 2 = none ∧
    stream_snapshot two_status_first 10 2 =
      some ⟨AERON_STREAM_FRAME_ANALYSIS_FLAG_WINDOW_FULL, 2, ⟨2, 2000⟩, ⟨2, 1000⟩, 500, 1000⟩ ∧
    stream_snapshot two_status_second 10 2 =
      some ⟨AERON_STREAM_FRAME_ANALYSIS_FLAG_WINDOW_FULL |||
        AERON_STREAM_FRAME_ANALYSIS_FLAG_WINDOW_RESIZE, 2, ⟨2, 2000⟩, ⟨2, 1000⟩, 4096, 1000⟩ ∧
    (stream_on_entry two_status_second 10).flags &&&
      AERON_STREAM_FLAGS_RECEIVER_WINDOW_VALID ≠ 0 := by
  decide

set_option maxRecDepth 100000 in
theorem window_full_iff_witness :
    (∃ old, aeron_stream_frame_analysis_find (stream_on_entry two_status_first 10) 2 = some old ∧
      old.flags &&& AERON_STREAM_FRAME_ANALYSIS_FLAG_WINDOW_FULL ≠ 0) ∧
    ∃ s', aeron_transport_stream_find (aeron_sequence_setup true true ⟨false, 2⟩
        two_status_first (aeron_sm_sinfo 10 2 1000 4096)) 10 = some s' ∧
      ((s'.flags &&& AERON_STREAM_FLAGS_HIGH_VALID ≠ 0 ∧
          s'.flags &&& AERON_STREAM_FLAGS_COMPLETED_VALID ≠ 0) →
        ∃ sfa, aeron_stream_frame_analysis_find s' 2 = some sfa ∧
          (sfa.flags &&& AERON_STREAM_FRAME_ANALYSIS_FLAG_WINDOW_FULL ≠ 0 ↔
            ((∃ old, aeron_stream_frame_analysis_find (stream_on_entry two_status_first 10)
                  2 = some old ∧
                old.flags &&& AERON_STREAM_FRAME_ANALYSIS_FLAG_WINDOW_FULL ≠ 0) ∨
              (sfa.outstanding_bytes ≥ sfa.receiver_window ∧
                s'.flags &&& AERON_STREAM_FLAGS_RECEIVER_WINDOW_VALID ≠ 0))) ∧
          (aeron_stream_frame_analysis_find (stream_on_entry two_status_first 10) 2 = none →
            (sfa.flags &&& AERON_STREAM_FRAME_ANALYSIS_FLAG_WINDOW_FULL ≠ 0 ↔
              (sfa.outstanding_bytes ≥ sfa.receiver_window ∧
                s'.flags &&& AERON_STREAM_FLAGS_RECEIVER_WINDOW_VALID ≠ 0)))) :=
  ⟨⟨⟨AERON_STREAM_FRAME_ANALYSIS_FLAG_WINDOW_FULL, 2, ⟨2, 2000⟩, ⟨2, 1000⟩, 500, 1000⟩,
      by decide⟩,
    (window_full_iff true ⟨false, 2⟩ two_status_first
      (aeron_sm_sinfo 10 2 1000 4096) 10 2 1000 rfl rfl rfl rfl (Or.inr (Or.inr rfl))).1⟩

/-! ### When a Pad or Data frame sets the term length -/

theorem classify_flags_or (L : Nat) (info : aeron_sequence_info_t) (tid off : Nat)
    (pdp : aeron_pos_t) (pdpv : Bool) (prp : aeron_pos_t) (prpv : Bool) (crw : Nat)
    (sfa : aeron_stream_frame_analysis_t) :
    ∃ m, (aeron_sequence_setup_classify L info tid off pdp pdpv prp prpv crw sfa).flags =
      sfa.flags ||| m := by
  unfold aeron_sequence_setup_classify
  dsimp only
  split_ifs <;>
    first
    | exact ⟨0, (Nat.or_zero _).symm⟩
    | exact ⟨_, rfl⟩
    | exact ⟨_, Nat.lor_assoc _ _ _⟩

theorem fill_flags_or (s : aeron_stream_t) (info : aeron_sequence_info_t)
    (sfa : aeron_stream_frame_analysis_t) :
    ∃ m, (aeron_sequence_setup_fill s info sfa).flags = sfa.flags ||| m := by
  unfold aeron_sequence_setup_fill
  dsimp only
  split_ifs <;>
    first
    | exact ⟨0, (Nat.or_zero _).symm⟩
    | exact ⟨_, rfl⟩

theorem fill_frame (s : aeron_stream_t) (info : aeron_sequence_info_t)
    (sfa : aeron_stream_frame_analysis_t) :
    (aeron_sequence_setup_fill s info sfa).frame = sfa.frame := by
  unfold aeron_sequence_setup_fill
  dsimp only
  split_ifs <;> rfl

/-- What filling and classifying does to a snapshot that exists: the frame number is
kept, flags are only added, and for a Data, Pad or Status frame the four other members
are those of the stream. -/
theorem refill_keeps (L : Nat) (info : aeron_sequence_info_t) (tid off : Nat)
    (pdp : aeron_pos_t) (pdpv : Bool) (prp : aeron_pos_t) (prpv : Bool) (crw : Nat)
    (s : aeron_stream_t) (old : aeron_stream_frame_analysis_t) :
    (aeron_sequence_setup_classify L info tid off pdp pdpv prp prpv crw
        (aeron_sequence_setup_fill s info old)).frame = old.frame ∧
    (∃ m, (aeron_sequence_setup_classify L info tid off pdp pdpv prp prpv crw
        (aeron_sequence_setup_fill s info old)).flags = old.flags ||| m) ∧
    ((info.type = HDR_TYPE_DATA ∨ info.type = HDR_TYPE_PAD ∨ info.type = HDR_TYPE_SM) →
      (aeron_sequence_setup_classify L info tid off pdp pdpv prp prpv crw
          (aeron_sequence_setup_fill s info old)).high = s.high ∧
      (aeron_sequence_setup_classify L info tid off pdp pdpv prp prpv crw
          (aeron_sequence_setup_fill s info old)).completed = s.completed ∧
      (aeron_sequence_setup_classify L info tid off pdp pdpv prp prpv crw
          (aeron_sequence_setup_fill s info old)).receiver_window = s.receiver_window ∧
      (aeron_sequence_setup_classify L info tid off pdp pdpv prp prpv crw
          (aeron_sequence_setup_fill s info old)).outstanding_bytes =
        aeron_pos_delta s.high s.completed s.term_length) := by
  obtain ⟨c0, c1, c2, c3, c4⟩ := classify_keeps_fields L info tid off pdp pdpv prp prpv crw
    (aeron_sequence_setup_fill s info old)
  refine ⟨?_, ?_, ?_⟩
  · rw [c0, fill_frame]
  · obtain ⟨m1, h1⟩ := classify_flags_or L info tid off pdp pdpv prp prpv crw
      (aeron_sequence_setup_fill s info old)
    obtain ⟨m2, h2⟩ := fill_flags_or s info old
    exact ⟨m2 ||| m1, by rw [h1, h2, Nat.lor_assoc]⟩
  · intro hty
    obtain ⟨-, f1, f2, f3, f4⟩ := fill_sets_fields s info old hty
    exact ⟨c1.trans f1, c2.trans f2, c3.trans f3, c4.trans f4⟩

theorem frame_window_step_of_info (sa wa : Bool) (pinfo : packet_info)
    (fields : aeron_frame_fields) (sid' : Nat) (s : aeron_stream_t)
    (info : aeron_sequence_info_t) (tid off : Nat)
    (hinfo : frame_window_info fields = some (sid', info, tid, off))
    (hen : (sa || wa) = true) (hv : pinfo.visited = false) :
    frame_window_step sa wa pinfo fields sid' s =
      aeron_sequence_setup_window wa pinfo info tid off s := by
  unfold frame_window_step
  rw [if_pos ⟨hen, hv⟩]
  cases fields with
  | pad frame_len term_offset stream_id term_id =>
    simp only [frame_window_info, Option.some.injEq, Prod.mk.injEq] at hinfo
    obtain ⟨e1, e2, e3, e4⟩ := hinfo
    subst e1 e2 e3 e4
    simp
  | data flags frame_len term_offset stream_id term_id =>
    simp only [frame_window_info, Option.some.injEq, Prod.mk.injEq] at hinfo
    obtain ⟨e1, e2, e3, e4⟩ := hinfo
    subst e1 e2 e3 e4
    simp
  | nak frame_len stream_id term_id => simp [frame_window_info] at hinfo
  | sm frame_len stream_id term_id comp_offset rcv_window =>
    simp only [frame_window_info, Option.some.injEq, Prod.mk.injEq] at hinfo
    obtain ⟨e1, e2, e3, e4⟩ := hinfo
    subst e1 e2 e3 e4
    simp
  | err len => simp [frame_window_info] at hinfo
  | setup frame_len stream_id active_term_id term_length mtu =>
    simp [frame_window_info] at hinfo

theorem frame_window_step_no_info (sa wa : Bool) (pinfo : packet_info)
    (fields : aeron_frame_fields) (sid' : Nat) (s : aeron_stream_t)
    (h : (sa || wa) = false ∨ ∀ info tid off,
      frame_window_info fields ≠ some (sid', info, tid, off)) :
    frame_window_step sa wa pinfo fields sid' s = s := by
  unfold frame_window_step
  rcases h with h | h
  · rw [if_neg (by rw [h]; simp)]
  · split_ifs with hc
    · cases fields with
      | pad frame_len term_offset stream_id term_id =>
        have hne : stream_id ≠ sid' := fun e => h _ _ _ (by rw [frame_window_info, e])
        simp [hne]
      | data flags frame_len term_offset stream_id term_id =>
        have hne : stream_id ≠ sid' := fun e => h _ _ _ (by rw [frame_window_info, e])
        simp [hne]
      | nak frame_len stream_id term_id => rfl
      | sm frame_len stream_id term_id comp_offset rcv_window =>
        have hne : stream_id ≠ sid' := fun e => h _ _ _ (by rw [frame_window_info, e])
        simp [hne]
      | err len => rfl
      | setup frame_len stream_id active_term_id term_length mtu => rfl
    · rfl

/-- The snapshot under the frame number of the packet after a first-visit Pad, Data or
Status frame of the stream, when one was stored there before. -/
theorem snapshot_refilled (sa wa : Bool) (pinfo : packet_info) (transport : aeron_transport_t)
    (fields : aeron_frame_fields) (sid' : Nat) (info : aeron_sequence_info_t) (tid off : Nat)
    (old : aeron_stream_frame_analysis_t)
    (hinfo : frame_window_info fields = some (sid', info, tid, off))
    (hen : (sa || wa) = true) (hv : pinfo.visited = false)
    (hold : stream_snapshot transport sid' pinfo.num = some old) :
    stream_snapshot (aeron_frame_apply sa wa pinfo transport fields) sid' pinfo.num =
      some (if aeron_sequence_setup_has_sfa wa
          (aeron_sequence_setup_positions (stream_on_entry transport sid') info tid off
            (((stream_on_entry transport sid').flags &&& AERON_STREAM_FLAGS_HIGH_VALID) != 0)
            (((stream_on_entry transport sid').flags &&& AERON_STREAM_FLAGS_COMPLETED_VALID)
              != 0)) = true then
        aeron_sequence_setup_classify (stream_on_entry transport sid').term_length info tid off
          (stream_on_entry transport sid').high
          (((stream_on_entry transport sid').flags &&& AERON_STREAM_FLAGS_HIGH_VALID) != 0)
          (stream_on_entry transport sid').completed
          (((stream_on_entry transport sid').flags &&& AERON_STREAM_FLAGS_COMPLETED_VALID) != 0)
          (stream_on_entry transport sid').receiver_window
          (aeron_sequence_setup_fill
            (aeron_sequence_setup_positions (stream_on_entry transport sid') info tid off
              (((stream_on_entry transport sid').flags &&& AERON_STREAM_FLAGS_HIGH_VALID) != 0)
              (((stream_on_entry transport sid').flags &&& AERON_STREAM_FLAGS_COMPLETED_VALID)
                != 0))
            info old)
      else old) := by
  unfold stream_snapshot aeron_stream_frame_analysis_find at hold ⊢
  rw [(window_frame_apply sa wa pinfo transport fields sid').2.2.2.2,
    frame_window_step_of_info sa wa pinfo fields sid' _ info tid off hinfo hen hv]
  cases hc : aeron_sequence_setup_has_sfa wa
      (aeron_sequence_setup_positions (stream_on_entry transport sid') info tid off
        (((stream_on_entry transport sid').flags &&& AERON_STREAM_FLAGS_HIGH_VALID) != 0)
        (((stream_on_entry transport sid').flags &&& AERON_STREAM_FLAGS_COMPLETED_VALID)
          != 0)) with
  | false =>
    rw [setup_window_analysis_skip wa pinfo info tid off _ hc, hold]
    simp
  | true =>
    rw [setup_window_analysis_made wa pinfo info tid off _ hc, hold]
    simp

theorem snapshot_not_window_frame (sa wa : Bool) (pinfo : packet_info)
    (transport : aeron_transport_t) (fields : aeron_frame_fields) (sid' n : Nat)
    (h : (sa || wa) = false ∨ ∀ info tid off,
      frame_window_info fields ≠ some (sid', info, tid, off)) :
    stream_snapshot (aeron_frame_apply sa wa pinfo transport fields) sid' n =
      stream_snapshot transport sid' n := by
  unfold stream_snapshot aeron_stream_frame_analysis_find
  rw [(window_frame_apply sa wa pinfo transport fields sid').2.2.2.2,
    frame_window_step_no_info sa wa pinfo fields sid' _ h]

theorem frame_window_info_type (fields : aeron_frame_fields) (sid : Nat)
    (info : aeron_sequence_info_t) (tid off : Nat)
    (h : frame_window_info fields = some (sid, info, tid, off)) :
    info.type = HDR_TYPE_DATA ∨ info.type = HDR_TYPE_PAD ∨ info.type = HDR_TYPE_SM := by
  cases fields with
  | pad frame_len term_offset stream_id term_id =>
    simp only [frame_window_info, Option.some.injEq, Prod.mk.injEq] at h
    rw [← h.2.1]
    exact Or.inr (Or.inl rfl)
  | data flags frame_len term_offset stream_id term_id =>
    simp only [frame_window_info, Option.some.injEq, Prod.mk.injEq] at h
    rw [← h.2.1]
    exact Or.inl rfl
  | nak frame_len stream_id term_id => simp [frame_window_info] at h
  | sm frame_len stream_id term_id comp_offset rcv_window =>
    simp only [frame_window_info, Option.some.injEq, Prod.mk.injEq] at h
    rw [← h.2.1]
    exact Or.inr (Or.inr rfl)
  | err len => simp [frame_window_info] at h
  | setup frame_len stream_id active_term_id term_length mtu => simp [frame_window_info] at h

/-- C37, amended: a snapshot is never removed, whatever frame is processed.  The
snapshot of frame `n` is left as it is by every run of frames each of which belongs to
a packet with another frame number or has its visited flag set; by every frame that is
not a Pad, Data or Status frame of the stream; and by every frame when both analyses
are disabled.  A first-visit Pad, Data or Status frame of the stream in packet `n`
itself that finds the snapshot leaves it as it is when window analysis is disabled or
HIGH_VALID and COMPLETED_VALID are not both set after the position update; otherwise
the snapshot stored afterwards is the one found, filled and classified again: the
frame number is kept, flags are only added to those it had, and high, completed,
receiver_window and outstanding_bytes are overwritten with the stream's values. -/
theorem snapshot_changed_only_by_own_packet (sa wa : Bool) (sid' n : Nat)
    (frames : List (packet_info × aeron_frame_fields)) (transport : aeron_transport_t) :
    (∀ pinfo fields, (stream_snapshot transport sid' n).isSome = true →
      (stream_snapshot (aeron_frame_apply sa wa pinfo transport fields) sid' n).isSome = true) ∧
    ((∀ p ∈ frames, p.1.num ≠ n ∨ p.1.visited = true) →
      stream_snapshot (aeron_frames_apply sa wa transport frames) sid' n =
        stream_snapshot transport sid' n) ∧
    (∀ pinfo fields,
      ((sa || wa) = false ∨
        ∀ info tid off, frame_window_info fields ≠ some (sid', info, tid, off)) →
      stream_snapshot (aeron_frame_apply sa wa pinfo transport fields) sid' n =
        stream_snapshot transport sid' n) ∧
    (∀ pinfo fields info tid off old,
      frame_window_info fields = some (sid', info, tid, off) →
      (sa || wa) = true → pinfo.visited = false → pinfo.num = n →
      stream_snapshot transport sid' n = some old →
      (info.type = HDR_TYPE_DATA ∨ info.type = HDR_TYPE_PAD ∨ info.type = HDR_TYPE_SM) ∧
      stream_snapshot (aeron_frame_apply sa wa pinfo transport fields) sid' n =
        some (if aeron_sequence_setup_has_sfa wa
            (aeron_sequence_setup_positions (stream_on_entry transport sid') info tid off
              (((stream_on_entry transport sid').flags &&& AERON_STREAM_FLAGS_HIGH_VALID) != 0)
              (((stream_on_entry transport sid').flags &&& AERON_STREAM_FLAGS_COMPLETED_VALID)
                != 0)) = true then
          aeron_sequence_setup_classify (stream_on_entry transport sid').term_length info tid
            off (stream_on_entry transport sid').high
            (((stream_on_entry transport sid').flags &&& AERON_STREAM_FLAGS_HIGH_VALID) != 0)
            (stream_on_entry transport sid').completed
            (((stream_on_entry transport sid').flags &&& AERON_STREAM_FLAGS_COMPLETED_VALID)
              != 0)
            (stream_on_entry transport sid').receiver_window
            (aeron_sequence_setup_fill
              (aeron_sequence_setup_positions (stream_on_entry transport sid') info tid off
                (((stream_on_entry transport sid').flags &&& AERON_STREAM_FLAGS_HIGH_VALID) != 0)
                (((stream_on_entry transport sid').flags &&&
                  AERON_STREAM_FLAGS_COMPLETED_VALID) != 0))
              info old)
        else old)) ∧
    (∀ (L : Nat) (info : aeron_sequence_info_t) (tid off : Nat) (pdp : aeron_pos_t)
        (pdpv : Bool) (prp : aeron_pos_t) (prpv : Bool) (crw : Nat) (s : aeron_stream_t)
        (old : aeron_stream_frame_analysis_t),
      (aeron_sequence_setup_classify L info tid off pdp pdpv prp prpv crw
          (aeron_sequence_setup_fill s info old)).frame = old.frame ∧
      (∃ m, (aeron_sequence_setup_classify L info tid off pdp pdpv prp prpv crw
          (aeron_sequence_setup_fill s info old)).flags = old.flags ||| m) ∧
      ((info.type = HDR_TYPE_DATA ∨ info.type = HDR_TYPE_PAD ∨ info.type = HDR_TYPE_SM) →
        (aeron_sequence_setup_classify L info tid off pdp pdpv prp prpv crw
            (aeron_sequence_setup_fill s info old)).high = s.high ∧
        (aeron_sequence_setup_classify L info tid off pdp pdpv prp prpv crw
            (aeron_sequence_setup_fill s info old)).completed = s.completed ∧
        (aeron_sequence_setup_classify L info tid off pdp pdpv prp prpv crw
            (aeron_sequence_setup_fill s info old)).receiver_window = s.receiver_window ∧
        (aeron_sequence_setup_classify L info tid off pdp pdpv prp prpv crw
            (aeron_sequence_setup_fill s info old)).outstanding_bytes =
          aeron_pos_delta s.high s.completed s.term_length)) := by
  refine ⟨fun pinfo fields h => snapshot_frame_apply_kept sa wa pinfo transport fields sid' n h,
    ?_, fun pinfo fields h => snapshot_not_window_frame sa wa pinfo transport fields sid' n h,
    ?_, fun L info tid off pdp pdpv prp prpv crw s old =>
      refill_keeps L info tid off pdp pdpv prp prpv crw s old⟩
  · induction frames generalizing transport with
    | nil => intro _; rfl
    | cons p rest ih =>
      intro hall
      obtain ⟨pinfo, fields⟩ := p
      have hp := hall (pinfo, fields) (List.mem_cons_self _ _)
      simp only [aeron_frames_apply]
      rw [ih _ (fun q hq => hall q (List.mem_cons_of_mem _ hq))]
      apply snapshot_frame_apply_other
      rcases hp with h | h
      · exact Or.inl (fun e => h e.symm)
      · exact Or.inr h
  · intro pinfo fields info tid off old hinfo hen hv hn hold
    subst hn
    exact ⟨frame_window_info_type fields sid' info tid off hinfo,
      snapshot_refilled sa wa pinfo transport fields sid' info tid off old hinfo hen hv hold⟩

set_option maxRecDepth 100000 in
theorem snapshot_changed_only_by_own_packet_witness :
    frame_window_info (.data 0xC0 512 1024 10 5) =
      some (10, aeron_data_sinfo 0xC0 512 1024 10 5, 5, 1024) ∧
    (true || true) = true ∧ (⟨false, 4⟩ : packet_info).visited = false ∧
    stream_snapshot two_data_first 10 4 = some ⟨0, 4, ⟨5, 1024⟩, ⟨5, 512⟩, 4096, 512⟩ ∧
    stream_snapshot (aeron_frame_apply true true ⟨false, 4⟩ two_data_first
        (.data 0xC0 512 1024 10 5)) 10 4 =
      some ⟨0, 4, ⟨5, 1536⟩, ⟨5, 512⟩, 4096, 1024⟩ :=
  ⟨rfl, rfl, rfl, by decide,
    ((snapshot_changed_only_by_own_packet true true 10 4 [] two_data_first).2.2.2.1
      ⟨false, 4⟩ (.data 0xC0 512 1024 10 5) (aeron_data_sinfo 0xC0 512 1024 10 5) 5 1024
      ⟨0, 4, ⟨5, 1024⟩, ⟨5, 512⟩, 4096, 512⟩ rfl rfl rfl rfl (by decide)).2.trans
      (by decide)⟩

end Aeron
